import Mathlib

/-!
# Helmholtz energy terms of CoolProp (`src/Helmholtz.cpp`)

A shallow embedding of the term differentiation engine.  `long double` values are
taken in exact arithmetic: every definition is written over an arbitrary linearly
ordered field `K`, and the functions of `<cmath>` the source calls are collected in
a record `MathFns K`.  Instantiating `K` with `ℚ` gives executable definitions,
instantiating it with `ℝ` and the real `exp`, `log` and power gives the analytic
reading used by the derivative theorems.
-/

namespace CoolProp

/-- Library functions called by `Helmholtz.cpp` but declared outside it: `exp`, `log`,
`pow`, `sqrt`, `sinh` and `cosh` of `<cmath>`, and the predicate `ValidNumber` of the CoolProp tools header
(true on the numbers that count as configured, false on NaN and infinities). -/
structure MathFns (K : Type) where
  exp : K → K
  log : K → K
  pow : K → K → K
  sqrt : K → K
  sinh : K → K
  cosh : K → K
  ValidNumber : K → Bool

/-- Modelled from the spec: the helper `POW2` is declared outside `Helmholtz.cpp`;
it squares its argument. -/
def POW2 {K : Type} [LinearOrderedField K] (x : K) : K := x * x

/-- Modelled from the spec: the helper `POW3` is declared outside `Helmholtz.cpp`;
it cubes its argument. -/
def POW3 {K : Type} [LinearOrderedField K] (x : K) : K := x * x * x

/-- The derivative aggregate `HelmholtzDerivatives`: the value and its nine partial
derivatives up to third order. -/
@[ext]

structure HelmholtzDerivatives (K : Type) where
  alphar : K
  dalphar_ddelta : K
  dalphar_dtau : K
  d2alphar_ddelta2 : K
  d2alphar_ddelta_dtau : K
  d2alphar_dtau2 : K
  d3alphar_ddelta3 : K
  d3alphar_ddelta2_dtau : K
  d3alphar_ddelta_dtau2 : K
  d3alphar_dtau3 : K
deriving Repr, DecidableEq

/-- The aggregate after `reset`: every field is zero. -/
def HelmholtzDerivatives.zero {K : Type} [LinearOrderedField K] : HelmholtzDerivatives K :=
  ⟨0, 0, 0, 0, 0, 0, 0, 0, 0, 0⟩

/-- Fieldwise sum of two aggregates. -/
def HelmholtzDerivatives.add {K : Type} [LinearOrderedField K]
    (a b : HelmholtzDerivatives K) : HelmholtzDerivatives K where
  alphar := a.alphar + b.alphar
  dalphar_ddelta := a.dalphar_ddelta + b.dalphar_ddelta
  dalphar_dtau := a.dalphar_dtau + b.dalphar_dtau
  d2alphar_ddelta2 := a.d2alphar_ddelta2 + b.d2alphar_ddelta2
  d2alphar_ddelta_dtau := a.d2alphar_ddelta_dtau + b.d2alphar_ddelta_dtau
  d2alphar_dtau2 := a.d2alphar_dtau2 + b.d2alphar_dtau2
  d3alphar_ddelta3 := a.d3alphar_ddelta3 + b.d3alphar_ddelta3
  d3alphar_ddelta2_dtau := a.d3alphar_ddelta2_dtau + b.d3alphar_ddelta2_dtau
  d3alphar_ddelta_dtau2 := a.d3alphar_ddelta_dtau2 + b.d3alphar_ddelta_dtau2
  d3alphar_dtau3 := a.d3alphar_dtau3 + b.d3alphar_dtau3

/-- One row of coefficients, `ResidualHelmholtzGeneralizedExponentialElement`. -/
structure ResidualHelmholtzGeneralizedExponentialElement (K : Type) where
  n : K
  d : K
  t : K
  c : K
  l_double : K
  l_int : ℤ
  omega : K
  m_double : K
  eta1 : K
  epsilon1 : K
  eta2 : K
  epsilon2 : K
  beta1 : K
  gamma1 : K
  beta2 : K
  gamma2 : K

/-- The term `ResidualHelmholtzGeneralizedExponential`: six presence flags, resolved
once per term, and the ordered sequence of elements. -/
structure ResidualHelmholtzGeneralizedExponential (K : Type) where
  delta_li_in_u : Bool
  tau_mi_in_u : Bool
  eta1_in_u : Bool
  eta2_in_u : Bool
  beta1_in_u : Bool
  beta2_in_u : Bool
  elements : List (ResidualHelmholtzGeneralizedExponentialElement K)

/-- The running totals of the exponent `u` and of its derivatives (lines 46-53). -/
@[ext]

structure UParts (K : Type) where
  u : K
  du_ddelta : K
  du_dtau : K
  d2u_ddelta2 : K
  d2u_dtau2 : K
  d3u_ddelta3 : K
  d3u_dtau3 : K
deriving Repr, DecidableEq

/-- The totals as set at the top of the loop body: all zero. -/
def UParts.zero {K : Type} [LinearOrderedField K] : UParts K := ⟨0, 0, 0, 0, 0, 0, 0⟩

section GeneralizedExponential

variable {K : Type} [LinearOrderedField K]

/-- Line 59: `u_increment = -ci*pow(delta, l_int)`. -/
def delta_li_u_increment (el : ResidualHelmholtzGeneralizedExponentialElement K)
    (delta : K) : K :=
  -el.c * delta ^ el.l_int

/-- Line 60: `du_ddelta_increment = l_double*u_increment*one_over_delta`. -/
def delta_li_du_ddelta_increment (el : ResidualHelmholtzGeneralizedExponentialElement K)
    (delta : K) : K :=
  el.l_double * delta_li_u_increment el delta * (1 / delta)

/-- Line 61: `d2u_ddelta2_increment = (l_double-1)*du_ddelta_increment*one_over_delta`. -/
def delta_li_d2u_ddelta2_increment (el : ResidualHelmholtzGeneralizedExponentialElement K)
    (delta : K) : K :=
  (el.l_double - 1) * delta_li_du_ddelta_increment el delta * (1 / delta)

/-- Line 62: `d3u_ddelta3_increment = (l_double-2)*d2u_ddelta2_increment*one_over_delta`. -/
def delta_li_d3u_ddelta3_increment (el : ResidualHelmholtzGeneralizedExponentialElement K)
    (delta : K) : K :=
  (el.l_double - 2) * delta_li_d2u_ddelta2_increment el delta * (1 / delta)

/-- Lines 55-68: the density cutoff. -/
def delta_li_block (F : MathFns K) (delta_li_in_u : Bool)
    (el : ResidualHelmholtzGeneralizedExponentialElement K) (delta : K)
    (s : UParts K) : UParts K :=
  if delta_li_in_u then
    if F.ValidNumber el.l_double && decide (el.l_int > 0) then
      { s with
        u := s.u + delta_li_u_increment el delta
        du_ddelta := s.du_ddelta + delta_li_du_ddelta_increment el delta
        d2u_ddelta2 := s.d2u_ddelta2 + delta_li_d2u_ddelta2_increment el delta
        d3u_ddelta3 := s.d3u_ddelta3 + delta_li_d3u_ddelta3_increment el delta }
    else s
  else s

/-- Line 72: `u_increment = -omegai*pow(tau, m_double)`. -/
def tau_mi_u_increment (F : MathFns K)
    (el : ResidualHelmholtzGeneralizedExponentialElement K) (tau : K) : K :=
  -el.omega * F.pow tau el.m_double

/-- Line 73: `du_dtau_increment = m_double*u_increment*one_over_tau`. -/
def tau_mi_du_dtau_increment (F : MathFns K)
    (el : ResidualHelmholtzGeneralizedExponentialElement K) (tau : K) : K :=
  el.m_double * tau_mi_u_increment F el tau * (1 / tau)

/-- Line 74: `d2u_dtau2_increment = (m_double-1)*du_dtau_increment*one_over_tau`. -/
def tau_mi_d2u_dtau2_increment (F : MathFns K)
    (el : ResidualHelmholtzGeneralizedExponentialElement K) (tau : K) : K :=
  (el.m_double - 1) * tau_mi_du_dtau_increment F el tau * (1 / tau)

/-- Line 75: `d3u_dtau3_increment = (m_double-2)*d2u_dtau2_increment*one_over_tau`. -/
def tau_mi_d3u_dtau3_increment (F : MathFns K)
    (el : ResidualHelmholtzGeneralizedExponentialElement K) (tau : K) : K :=
  (el.m_double - 2) * tau_mi_d2u_dtau2_increment F el tau * (1 / tau)

/-- Lines 69-81: the temperature cutoff. -/
def tau_mi_block (F : MathFns K) (tau_mi_in_u : Bool)
    (el : ResidualHelmholtzGeneralizedExponentialElement K) (tau : K)
    (s : UParts K) : UParts K :=
  if tau_mi_in_u then
    if |el.m_double| > 0 then
      { s with
        u := s.u + tau_mi_u_increment F el tau
        du_dtau := s.du_dtau + tau_mi_du_dtau_increment F el tau
        d2u_dtau2 := s.d2u_dtau2 + tau_mi_d2u_dtau2_increment F el tau
        d3u_dtau3 := s.d3u_dtau3 + tau_mi_d3u_dtau3_increment F el tau }
    else s
  else s

/-- Lines 82-88: the first density well. -/
def eta1_block (F : MathFns K) (eta1_in_u : Bool)
    (el : ResidualHelmholtzGeneralizedExponentialElement K) (delta : K)
    (s : UParts K) : UParts K :=
  if eta1_in_u then
    if F.ValidNumber el.eta1 then
      { s with
        u := s.u + -el.eta1 * (delta - el.epsilon1)
        du_ddelta := s.du_ddelta + -el.eta1 }
    else s
  else s

/-- Lines 89-96: the second density well. -/
def eta2_block (F : MathFns K) (eta2_in_u : Bool)
    (el : ResidualHelmholtzGeneralizedExponentialElement K) (delta : K)
    (s : UParts K) : UParts K :=
  if eta2_in_u then
    if F.ValidNumber el.eta2 then
      { s with
        u := s.u + -el.eta2 * POW2 (delta - el.epsilon2)
        du_ddelta := s.du_ddelta + -2 * el.eta2 * (delta - el.epsilon2)
        d2u_ddelta2 := s.d2u_ddelta2 + -2 * el.eta2 }
    else s
  else s

/-- Lines 97-103: the first temperature well. -/
def beta1_block (F : MathFns K) (beta1_in_u : Bool)
    (el : ResidualHelmholtzGeneralizedExponentialElement K) (tau : K)
    (s : UParts K) : UParts K :=
  if beta1_in_u then
    if F.ValidNumber el.beta1 then
      { s with
        u := s.u + -el.beta1 * (tau - el.gamma1)
        du_dtau := s.du_dtau + -el.beta1 }
    else s
  else s

/-- Lines 104-111: the second temperature well. -/
def beta2_block (F : MathFns K) (beta2_in_u : Bool)
    (el : ResidualHelmholtzGeneralizedExponentialElement K) (tau : K)
    (s : UParts K) : UParts K :=
  if beta2_in_u then
    if F.ValidNumber el.beta2 then
      { s with
        u := s.u + -el.beta2 * POW2 (tau - el.gamma2)
        du_dtau := s.du_dtau + -2 * el.beta2 * (tau - el.gamma2)
        d2u_dtau2 := s.d2u_dtau2 + -2 * el.beta2 }
    else s
  else s

/-- Lines 46-111: the exponent `u` of one element and its derivatives, built from zero
by the six modifier blocks in the order of the source. -/
def uParts (F : MathFns K) (self : ResidualHelmholtzGeneralizedExponential K)
    (el : ResidualHelmholtzGeneralizedExponentialElement K) (tau delta : K) : UParts K :=
  beta2_block F self.beta2_in_u el tau
    (beta1_block F self.beta1_in_u el tau
      (eta2_block F self.eta2_in_u el delta
        (eta1_block F self.eta1_in_u el delta
          (tau_mi_block F self.tau_mi_in_u el tau
            (delta_li_block F self.delta_li_in_u el delta UParts.zero)))))

/-- Line 113: `ndteu = ni*exp(ti*log_tau+di*log_delta+u)`. -/
def ndteu (F : MathFns K) (self : ResidualHelmholtzGeneralizedExponential K)
    (el : ResidualHelmholtzGeneralizedExponentialElement K) (tau delta : K) : K :=
  el.n * F.exp (el.t * F.log tau + el.d * F.log delta + (uParts F self el tau delta).u)

/-- Line 115. -/
def B_delta (delta di du_ddelta : K) : K :=
  delta * du_ddelta + di

/-- Line 116. -/
def B_tau (tau ti du_dtau : K) : K :=
  tau * du_dtau + ti

/-- Line 117. -/
def B_delta2 (delta di du_ddelta d2u_ddelta2 : K) : K :=
  POW2 delta * (d2u_ddelta2 + POW2 du_ddelta) + 2 * di * delta * du_ddelta + di * (di - 1)

/-- Line 118. -/
def B_tau2 (tau ti du_dtau d2u_dtau2 : K) : K :=
  POW2 tau * (d2u_dtau2 + POW2 du_dtau) + 2 * ti * tau * du_dtau + ti * (ti - 1)

/-- Line 119. -/
def B_delta3 (delta di du_ddelta d2u_ddelta2 d3u_ddelta3 : K) : K :=
  POW3 delta * d3u_ddelta3 + 3 * di * POW2 delta * d2u_ddelta2
    + 3 * POW3 delta * d2u_ddelta2 * du_ddelta + 3 * di * POW2 (delta * du_ddelta)
    + 3 * di * (di - 1) * delta * du_ddelta + di * (di - 1) * (di - 2)
    + POW3 (delta * du_ddelta)

/-- Line 120. -/
def B_tau3 (tau ti du_dtau d2u_dtau2 d3u_dtau3 : K) : K :=
  POW3 tau * d3u_dtau3 + 3 * ti * POW2 tau * d2u_dtau2
    + 3 * POW3 tau * d2u_dtau2 * du_dtau + 3 * ti * POW2 (tau * du_dtau)
    + 3 * ti * (ti - 1) * tau * du_dtau + ti * (ti - 1) * (ti - 2)
    + POW3 (tau * du_dtau)

/-- Lines 41-135: one pass of the loop body, adding the element's ten unscaled
contributions to `derivs`. -/
def ResidualHelmholtzGeneralizedExponential.loopBody (F : MathFns K)
    (self : ResidualHelmholtzGeneralizedExponential K) (tau delta : K)
    (derivs : HelmholtzDerivatives K)
    (el : ResidualHelmholtzGeneralizedExponentialElement K) : HelmholtzDerivatives K :=
  let di := el.d
  let ti := el.t
  let s := uParts F self el tau delta
  let ndteu := ndteu F self el tau delta
  let B_delta := B_delta delta di s.du_ddelta
  let B_tau := B_tau tau ti s.du_dtau
  let B_delta2 := B_delta2 delta di s.du_ddelta s.d2u_ddelta2
  let B_tau2 := B_tau2 tau ti s.du_dtau s.d2u_dtau2
  let B_delta3 := B_delta3 delta di s.du_ddelta s.d2u_ddelta2 s.d3u_ddelta3
  let B_tau3 := B_tau3 tau ti s.du_dtau s.d2u_dtau2 s.d3u_dtau3
  { alphar := derivs.alphar + ndteu
    dalphar_ddelta := derivs.dalphar_ddelta + ndteu * B_delta
    dalphar_dtau := derivs.dalphar_dtau + ndteu * B_tau
    d2alphar_ddelta2 := derivs.d2alphar_ddelta2 + ndteu * B_delta2
    d2alphar_ddelta_dtau := derivs.d2alphar_ddelta_dtau + ndteu * B_delta * B_tau
    d2alphar_dtau2 := derivs.d2alphar_dtau2 + ndteu * B_tau2
    d3alphar_ddelta3 := derivs.d3alphar_ddelta3 + ndteu * B_delta3
    d3alphar_ddelta2_dtau := derivs.d3alphar_ddelta2_dtau + ndteu * B_delta2 * B_tau
    d3alphar_ddelta_dtau2 := derivs.d3alphar_ddelta_dtau2 + ndteu * B_delta * B_tau2
    d3alphar_dtau3 := derivs.d3alphar_dtau3 + ndteu * B_tau3 }

/-- Lines 21-148: `ResidualHelmholtzGeneralizedExponential::all`.  The loop runs over
the elements in order, then the nine derivative fields of the aggregate are
multiplied by the powers of `1/delta` and `1/tau`. -/
def ResidualHelmholtzGeneralizedExponential.all (F : MathFns K)
    (self : ResidualHelmholtzGeneralizedExponential K) (tau delta : K)
    (derivs : HelmholtzDerivatives K) : HelmholtzDerivatives K :=
  let one_over_delta := 1 / delta
  let one_over_tau := 1 / tau
  let derivs := self.elements.foldl (self.loopBody F tau delta) derivs
  { alphar := derivs.alphar
    dalphar_ddelta := derivs.dalphar_ddelta * one_over_delta
    dalphar_dtau := derivs.dalphar_dtau * one_over_tau
    d2alphar_ddelta2 := derivs.d2alphar_ddelta2 * POW2 one_over_delta
    d2alphar_dtau2 := derivs.d2alphar_dtau2 * POW2 one_over_tau
    d2alphar_ddelta_dtau := derivs.d2alphar_ddelta_dtau * (one_over_delta * one_over_tau)
    d3alphar_ddelta3 := derivs.d3alphar_ddelta3 * POW3 one_over_delta
    d3alphar_dtau3 := derivs.d3alphar_dtau3 * POW3 one_over_tau
    d3alphar_ddelta2_dtau := derivs.d3alphar_ddelta2_dtau * (POW2 one_over_delta * one_over_tau)
    d3alphar_ddelta_dtau2 := derivs.d3alphar_ddelta_dtau2 * (one_over_delta * POW2 one_over_tau) }

/-- The ten unscaled contributions of one element (lines 122-134). -/
def elementTerms (F : MathFns K) (self : ResidualHelmholtzGeneralizedExponential K)
    (tau delta : K) (el : ResidualHelmholtzGeneralizedExponentialElement K) :
    HelmholtzDerivatives K :=
  self.loopBody F tau delta HelmholtzDerivatives.zero el

/-- Fieldwise sum of the unscaled contributions of a list of elements. -/
def sumTerms (F : MathFns K) (self : ResidualHelmholtzGeneralizedExponential K)
    (tau delta : K) (els : List (ResidualHelmholtzGeneralizedExponentialElement K)) :
    HelmholtzDerivatives K :=
  els.foldl (self.loopBody F tau delta) HelmholtzDerivatives.zero

/-- An element with the given `n`, `d`, `t` and every modifier coefficient zero. -/
def plainElement (n d t : K) : ResidualHelmholtzGeneralizedExponentialElement K :=
  { n := n, d := d, t := t, c := 0, l_double := 0, l_int := 0, omega := 0, m_double := 0,
    eta1 := 0, epsilon1 := 0, eta2 := 0, epsilon2 := 0, beta1 := 0, gamma1 := 0,
    beta2 := 0, gamma2 := 0 }

/-- A term with no modifier flag set. -/
def plainTerm (els : List (ResidualHelmholtzGeneralizedExponentialElement K)) :
    ResidualHelmholtzGeneralizedExponential K :=
  { delta_li_in_u := false, tau_mi_in_u := false, eta1_in_u := false, eta2_in_u := false,
    beta1_in_u := false, beta2_in_u := false, elements := els }

/-- An aggregate already holding the value one in every field. -/
def onesAggregate : HelmholtzDerivatives K :=
  ⟨1, 1, 1, 1, 1, 1, 1, 1, 1, 1⟩

/-- An element whose integer and floating copies of the density-cutoff exponent
disagree: `c = 1`, `l_double = 3/2`, `l_int = 1` (the integer part of `l_double`). -/
def mismatchedElement : ResidualHelmholtzGeneralizedExponentialElement K :=
  { plainElement 1 1 1 with c := 1, l_double := 3 / 2, l_int := 1 }

/-- An element with a density cutoff of exponent two: `c = 1`, `l_double = 2`,
`l_int = 2`. -/
def cutoffElement : ResidualHelmholtzGeneralizedExponentialElement K :=
  { plainElement 1 1 1 with c := 1, l_double := 2, l_int := 2 }

/-- Fieldwise sum of two records of exponent totals. -/
def UParts.add (a b : UParts K) : UParts K where
  u := a.u + b.u
  du_ddelta := a.du_ddelta + b.du_ddelta
  du_dtau := a.du_dtau + b.du_dtau
  d2u_ddelta2 := a.d2u_ddelta2 + b.d2u_ddelta2
  d2u_dtau2 := a.d2u_dtau2 + b.d2u_dtau2
  d3u_ddelta3 := a.d3u_ddelta3 + b.d3u_ddelta3
  d3u_dtau3 := a.d3u_dtau3 + b.d3u_dtau3

/-- The part of the exponent totals that depends on `delta`: the density cutoff and the
two density wells applied to zero. -/
def deltaParts (F : MathFns K) (self : ResidualHelmholtzGeneralizedExponential K)
    (el : ResidualHelmholtzGeneralizedExponentialElement K) (delta : K) : UParts K :=
  eta2_block F self.eta2_in_u el delta
    (eta1_block F self.eta1_in_u el delta
      (delta_li_block F self.delta_li_in_u el delta UParts.zero))

/-- The part of the exponent totals that depends on `tau`: the temperature cutoff and the
two temperature wells applied to zero. -/
def tauParts (F : MathFns K) (self : ResidualHelmholtzGeneralizedExponential K)
    (el : ResidualHelmholtzGeneralizedExponentialElement K) (tau : K) : UParts K :=
  beta2_block F self.beta2_in_u el tau
    (beta1_block F self.beta1_in_u el tau
      (tau_mi_block F self.tau_mi_in_u el tau UParts.zero))

/-- The ways in which a floating-point operation of
`ResidualHelmholtzGeneralizedExponential::all` can leave its domain. -/
inductive ArithError where
  | divByZero
  | logDomain
  | powDomain
deriving DecidableEq, Repr

/-- Checked `log`: the argument has to be positive. -/
def checkedLog (F : MathFns K) (x : K) : Except ArithError K :=
  if 0 < x then Except.ok (F.log x) else Except.error ArithError.logDomain

/-- Checked division: the divisor has to be non-zero. -/
def checkedDiv (a b : K) : Except ArithError K :=
  if b = 0 then Except.error ArithError.divByZero else Except.ok (a / b)

/-- Checked `pow` with a floating exponent: a negative base (a domain error unless the
exponent is an integer) and a zero base with a negative exponent are reported. -/
def checkedPow (F : MathFns K) (a b : K) : Except ArithError K :=
  if a < 0 ∨ (a = 0 ∧ b < 0) then Except.error ArithError.powDomain
  else Except.ok (F.pow a b)

/-- Lines 55-68 with `one_over_delta` as computed in line 25: the density cutoff.  The
power `pow(delta, l_int)` has a positive integer exponent and cannot fail. -/
def delta_li_block_checked (F : MathFns K) (delta_li_in_u : Bool)
    (el : ResidualHelmholtzGeneralizedExponentialElement K) (delta one_over_delta : K)
    (s : UParts K) : UParts K :=
  if delta_li_in_u then
    if F.ValidNumber el.l_double && decide (el.l_int > 0) then
      let u_increment := -el.c * delta ^ el.l_int
      let du_ddelta_increment := el.l_double * u_increment * one_over_delta
      let d2u_ddelta2_increment := (el.l_double - 1) * du_ddelta_increment * one_over_delta
      let d3u_ddelta3_increment := (el.l_double - 2) * d2u_ddelta2_increment * one_over_delta
      { s with
        u := s.u + u_increment
        du_ddelta := s.du_ddelta + du_ddelta_increment
        d2u_ddelta2 := s.d2u_ddelta2 + d2u_ddelta2_increment
        d3u_ddelta3 := s.d3u_ddelta3 + d3u_ddelta3_increment }
    else s
  else s

/-- Lines 69-81 with `one_over_tau` as computed in line 25: the temperature cutoff, with
`pow(tau, m_double)` checked. -/
def tau_mi_block_checked (F : MathFns K) (tau_mi_in_u : Bool)
    (el : ResidualHelmholtzGeneralizedExponentialElement K) (tau one_over_tau : K)
    (s : UParts K) : Except ArithError (UParts K) :=
  if tau_mi_in_u then
    if |el.m_double| > 0 then do
      let p ← checkedPow F tau el.m_double
      let u_increment := -el.omega * p
      let du_dtau_increment := el.m_double * u_increment * one_over_tau
      let d2u_dtau2_increment := (el.m_double - 1) * du_dtau_increment * one_over_tau
      let d3u_dtau3_increment := (el.m_double - 2) * d2u_dtau2_increment * one_over_tau
      pure { s with
        u := s.u + u_increment
        du_dtau := s.du_dtau + du_dtau_increment
        d2u_dtau2 := s.d2u_dtau2 + d2u_dtau2_increment
        d3u_dtau3 := s.d3u_dtau3 + d3u_dtau3_increment }
    else pure s
  else pure s

/-- Lines 41-135: one pass of the loop body with the values `log_tau`, `log_delta`,
`one_over_delta`, `one_over_tau` of lines 23-25.  The four wells, `exp` and the `B`
combinators involve no division, logarithm or power. -/
def ResidualHelmholtzGeneralizedExponential.loopBody_checked (F : MathFns K)
    (self : ResidualHelmholtzGeneralizedExponential K)
    (tau delta log_tau log_delta one_over_delta one_over_tau : K)
    (derivs : HelmholtzDerivatives K)
    (el : ResidualHelmholtzGeneralizedExponentialElement K) :
    Except ArithError (HelmholtzDerivatives K) := do
  let di := el.d
  let ti := el.t
  let s0 := delta_li_block_checked F self.delta_li_in_u el delta one_over_delta UParts.zero
  let s1 ← tau_mi_block_checked F self.tau_mi_in_u el tau one_over_tau s0
  let s := beta2_block F self.beta2_in_u el tau
    (beta1_block F self.beta1_in_u el tau
      (eta2_block F self.eta2_in_u el delta
        (eta1_block F self.eta1_in_u el delta s1)))
  let ndteu := el.n * F.exp (ti * log_tau + di * log_delta + s.u)
  let B_delta := B_delta delta di s.du_ddelta
  let B_tau := B_tau tau ti s.du_dtau
  let B_delta2 := B_delta2 delta di s.du_ddelta s.d2u_ddelta2
  let B_tau2 := B_tau2 tau ti s.du_dtau s.d2u_dtau2
  let B_delta3 := B_delta3 delta di s.du_ddelta s.d2u_ddelta2 s.d3u_ddelta3
  let B_tau3 := B_tau3 tau ti s.du_dtau s.d2u_dtau2 s.d3u_dtau3
  pure
    { alphar := derivs.alphar + ndteu
      dalphar_ddelta := derivs.dalphar_ddelta + ndteu * B_delta
      dalphar_dtau := derivs.dalphar_dtau + ndteu * B_tau
      d2alphar_ddelta2 := derivs.d2alphar_ddelta2 + ndteu * B_delta2
      d2alphar_ddelta_dtau := derivs.d2alphar_ddelta_dtau + ndteu * B_delta * B_tau
      d2alphar_dtau2 := derivs.d2alphar_dtau2 + ndteu * B_tau2
      d3alphar_ddelta3 := derivs.d3alphar_ddelta3 + ndteu * B_delta3
      d3alphar_ddelta2_dtau := derivs.d3alphar_ddelta2_dtau + ndteu * B_delta2 * B_tau
      d3alphar_ddelta_dtau2 := derivs.d3alphar_ddelta_dtau2 + ndteu * B_delta * B_tau2
      d3alphar_dtau3 := derivs.d3alphar_dtau3 + ndteu * B_tau3 }

/-- Lines 21-148: `ResidualHelmholtzGeneralizedExponential::all` with every logarithm,
division and floating power checked, statement by statement in the order of the source. -/
def ResidualHelmholtzGeneralizedExponential.all_checked (F : MathFns K)
    (self : ResidualHelmholtzGeneralizedExponential K) (tau delta : K)
    (derivs : HelmholtzDerivatives K) : Except ArithError (HelmholtzDerivatives K) := do
  let log_tau ← checkedLog F tau
  let log_delta ← checkedLog F delta
  let one_over_delta ← checkedDiv 1 delta
  let one_over_tau ← checkedDiv 1 tau
  let derivs ← self.elements.foldlM
    (self.loopBody_checked F tau delta log_tau log_delta one_over_delta one_over_tau) derivs
  pure
    { alphar := derivs.alphar
      dalphar_ddelta := derivs.dalphar_ddelta * one_over_delta
      dalphar_dtau := derivs.dalphar_dtau * one_over_tau
      d2alphar_ddelta2 := derivs.d2alphar_ddelta2 * POW2 one_over_delta
      d2alphar_dtau2 := derivs.d2alphar_dtau2 * POW2 one_over_tau
      d2alphar_ddelta_dtau := derivs.d2alphar_ddelta_dtau * (one_over_delta * one_over_tau)
      d3alphar_ddelta3 := derivs.d3alphar_ddelta3 * POW3 one_over_delta
      d3alphar_dtau3 := derivs.d3alphar_dtau3 * POW3 one_over_tau
      d3alphar_ddelta2_dtau :=
        derivs.d3alphar_ddelta2_dtau * (POW2 one_over_delta * one_over_tau)
      d3alphar_ddelta_dtau2 :=
        derivs.d3alphar_ddelta_dtau2 * (one_over_delta * POW2 one_over_tau) }

/-- A term with all six modifier flags set and one element that takes every modifier
block: `n = d = t = 1`, `c = 1`, `l_double = l_int = 2`, `omega = 1`, `m_double = 3/2`, and
wells with unit coefficients centred at `1`. -/
def allModifiersTerm : ResidualHelmholtzGeneralizedExponential K :=
  { delta_li_in_u := true, tau_mi_in_u := true, eta1_in_u := true, eta2_in_u := true,
    beta1_in_u := true, beta2_in_u := true,
    elements := [{ plainElement 1 1 1 with
      c := 1, l_double := 2, l_int := 2, omega := 1, m_double := 3 / 2, eta1 := 1,
      epsilon1 := 1, eta2 := 1, epsilon2 := 1, beta1 := 1, gamma1 := 1, beta2 := 1,
      gamma2 := 1 }] }

/-- The element of `allModifiersTerm`, which takes every modifier block. -/
def allModifiersElement : ResidualHelmholtzGeneralizedExponentialElement K :=
  { plainElement 1 1 1 with
    c := 1, l_double := 2, l_int := 2, omega := 1, m_double := 3 / 2, eta1 := 1,
    epsilon1 := 1, eta2 := 1, epsilon2 := 1, beta1 := 1, gamma1 := 1, beta2 := 1,
    gamma2 := 1 }

end GeneralizedExponential

section NonAnalytic

variable {K : Type} [LinearOrderedField K]

/-- Modelled from the spec: `DBL_EPSILON` of `<cfloat>`, the machine epsilon of double
precision, `2^-52`. -/
def DBL_EPSILON : K := 1 / 2 ^ 52

/-- One row of coefficients, `ResidualHelmholtzNonAnalyticElement`. -/
structure ResidualHelmholtzNonAnalyticElement (K : Type) where
  n : K
  a : K
  b : K
  beta : K
  A : K
  B : K
  C : K
  D : K

/-- The term `ResidualHelmholtzNonAnalytic`: the element count `N`, the scratch sequence
`s` reused by the accessors, and the elements. -/
structure ResidualHelmholtzNonAnalytic (K : Type) where
  N : Nat
  s : List K
  elements : List (ResidualHelmholtzNonAnalyticElement K)

/-- The state in which the constructor leaves a term: `N` counts the elements and the
scratch sequence has one slot per element. -/
def ResidualHelmholtzNonAnalytic.WellFormed (self : ResidualHelmholtzNonAnalytic K) : Prop :=
  self.N = self.elements.length ∧ self.s.length = self.N

/-- Lines 183-250: the loop body of `ResidualHelmholtzNonAnalytic::all` for one element,
adding its ten contributions to `derivs`.  The `if`/`else` of lines 208-224 is written
per assigned variable. -/
def ResidualHelmholtzNonAnalytic.all_element (F : MathFns K)
    (el : ResidualHelmholtzNonAnalyticElement K) (tau delta : K)
    (derivs : HelmholtzDerivatives K) : HelmholtzDerivatives K :=
  let ni := el.n
  let ai := el.a
  let bi := el.b
  let betai := el.beta
  let Ai := el.A
  let Bi := el.B
  let Ci := el.C
  let Di := el.D
  let theta := (1 - tau) + Ai * F.pow (F.pow (delta - 1) 2) (1 / (2 * betai))
  let dtheta_dDelta := Ai / (2 * betai) * F.pow (F.pow (delta - 1) 2) (1 / (2 * betai) - 1) * 2
      * (delta - 1)
  let PSI := F.exp ((-Ci) * F.pow (delta - 1) 2 - Di * F.pow (tau - 1) 2)
  let dPSI_dDelta := (-2) * Ci * (delta - 1) * PSI
  let dPSI_dTau := (-2) * Di * (tau - 1) * PSI
  let dPSI2_dDelta2 := (2 * Ci * F.pow (delta - 1) 2 - 1) * 2 * Ci * PSI
  let dPSI2_dDelta_dTau := 4 * Ci * Di * (delta - 1) * (tau - 1) * PSI
  let dPSI2_dTau2 := (2 * Di * F.pow (tau - 1) 2 - 1) * 2 * Di * PSI
  let dPSI3_dDelta3 := 2 * Ci * PSI * ((-4) * Ci * Ci * F.pow (delta - 1) 3 + 6 * Ci * (delta -
      1))
  let dPSI3_dDelta2_dTau := (2 * Ci * F.pow (delta - 1) 2 - 1) * 2 * Ci * dPSI_dTau
  let dPSI3_dDelta_dTau2 := 2 * Di * (2 * Di * F.pow (tau - 1) 2 - 1) * dPSI_dDelta
  let dPSI3_dTau3 := 2 * Di * PSI * ((-4) * Di * Di * F.pow (tau - 1) 3 + 6 * Di * (tau - 1))
  let DELTA := F.pow theta 2 + Bi * F.pow (F.pow (delta - 1) 2) ai
  let dDELTA_dTau := (-2) * theta
  let dDELTA2_dDelta_dTau := 2 * Ai / (betai) * F.pow (F.pow (delta - 1) 2) (1 / (2 * betai) -
      0.5)
  let dDELTA_dDelta := (delta - 1) * (Ai * theta * 2 / betai * F.pow (F.pow (delta - 1) 2) (1 /
      (2 * betai) - 1) + 2 * Bi * ai * F.pow (F.pow (delta - 1) 2) (ai - 1))
  let dDELTA3_dDelta2_dTau := 2 * Ai * (betai - 1) / (betai * betai) * F.pow (F.pow (delta - 1)
      2) (1 / (2 * betai) - 1)
  let dDELTAbi_dDelta := if |delta - 1| < 10 * DBL_EPSILON then 0 else bi * F.pow DELTA (bi - 1)
      * dDELTA_dDelta
  let dDELTA_dDelta_over_delta_minus_1 := (Ai * theta * 2 / betai * F.pow (F.pow (delta - 1) 2)
      (1 / (2 * betai) - 1) + 2 * Bi * ai * F.pow (F.pow (delta - 1) 2) (ai - 1))
  let dDELTA2_dDelta2 := if |delta - 1| < 10 * DBL_EPSILON then 0 else
      dDELTA_dDelta_over_delta_minus_1 + F.pow (delta - 1) 2 * (4 * Bi * ai * (ai - 1) * F.pow
      (F.pow (delta - 1) 2) (ai - 2) + 2 * F.pow (Ai / betai) 2 * F.pow (F.pow (F.pow (delta - 1) 2)
      (1 / (2 * betai) - 1)) 2 + Ai * theta * 4 / betai * (1 / (2 * betai) - 1) * F.pow (F.pow
      (delta - 1) 2) (1 / (2 * betai) - 2))
  let PI := 4 * Bi * ai * (ai - 1) * F.pow (F.pow (delta - 1) 2) (ai - 2) + 2 * F.pow (Ai /
      betai) 2 * F.pow (F.pow (delta - 1) 2) (1 / betai - 2) + 4 * Ai * theta / betai * (1 / (2 *
      betai) - 1) * F.pow (F.pow (delta - 1) 2) (1 / (2 * betai) - 2)
  let dPI_dDelta := (-8) * Bi * ai * (ai - 1) * (ai - 2) * F.pow (F.pow (delta - 1) 2) (ai - 5 /
      2) - 8 * F.pow (Ai / betai) 2 * (1 / (2 * betai) - 1) * F.pow (F.pow (delta - 1) 2) (1 / betai
      - 5 / 2) - (8 * Ai * theta) / betai * (1 / (2 * betai) - 1) * (1 / (2 * betai) - 2) * F.pow
      (F.pow (delta - 1) 2) (1 / (2 * betai) - 5 / 2) + 4 * Ai / betai * (1 / (2 * betai) - 1) *
      F.pow (F.pow (delta - 1) 2) (1 / (2 * betai) - 2) * dtheta_dDelta
  let dDELTA3_dDelta3 := if |delta - 1| < 10 * DBL_EPSILON then 0 else 1 / (delta - 1) *
      dDELTA2_dDelta2 - 1 / F.pow (delta - 1) 2 * dDELTA_dDelta + F.pow (delta - 1) 2 * dPI_dDelta +
      2 * (delta - 1) * PI
  let dDELTAbi2_dDelta2 := if |delta - 1| < 10 * DBL_EPSILON then 0 else bi * (F.pow DELTA (bi -
      1) * dDELTA2_dDelta2 + (bi - 1) * F.pow DELTA (bi - 2) * F.pow dDELTA_dDelta 2)
  let dDELTAbi3_dDelta3 := if |delta - 1| < 10 * DBL_EPSILON then 0 else bi * (F.pow DELTA (bi -
      1) * dDELTA3_dDelta3 + dDELTA2_dDelta2 * (bi - 1) * F.pow DELTA (bi - 2) * dDELTA_dDelta + (bi
      - 1) * (F.pow DELTA (bi - 2) * 2 * dDELTA_dDelta * dDELTA2_dDelta2 + F.pow dDELTA_dDelta 2 *
      (bi - 2) * F.pow DELTA (bi - 3) * dDELTA_dDelta))
  let dDELTAbi_dTau := (-2) * theta * bi * F.pow DELTA (bi - 1)
  let dDELTAbi2_dDelta_dTau := (-Ai) * bi * 2 / betai * F.pow DELTA (bi - 1) * (delta - 1) *
      F.pow (F.pow (delta - 1) 2) (1 / (2 * betai) - 1) - 2 * theta * bi * (bi - 1) * F.pow DELTA
      (bi - 2) * dDELTA_dDelta
  let dDELTAbi2_dTau2 := 2 * bi * F.pow DELTA (bi - 1) + 4 * F.pow theta 2 * bi * (bi - 1) *
      F.pow DELTA (bi - 2)
  let dDELTAbi3_dTau3 := (-12) * theta * bi * (bi - 1) * F.pow DELTA (bi - 2) - 8 * F.pow theta
      3 * bi * (bi - 1) * (bi - 2) * F.pow DELTA (bi - 3)
  let dDELTAbi3_dDelta_dTau2 := 2 * bi * (bi - 1) * F.pow DELTA (bi - 2) * dDELTA_dDelta + 4 *
      F.pow theta 2 * bi * (bi - 1) * (bi - 2) * F.pow DELTA (bi - 3) * dDELTA_dDelta + 8 * theta *
      bi * (bi - 1) * F.pow DELTA (bi - 2) * dtheta_dDelta
  let dDELTAbi3_dDelta2_dTau := bi * ((bi - 1) * F.pow DELTA (bi - 2) * dDELTA_dTau *
      dDELTA2_dDelta2 + F.pow DELTA (bi - 1) * dDELTA3_dDelta2_dTau + (bi - 1) * ((bi - 2) * F.pow
      DELTA (bi - 3) * dDELTA_dTau * F.pow dDELTA_dDelta 2 + F.pow DELTA (bi - 2) * 2 *
      dDELTA_dDelta * dDELTA2_dDelta_dTau))
  let Line1 := F.pow DELTA bi * (2 * dPSI2_dDelta_dTau + delta * dPSI3_dDelta2_dTau) +
      dDELTAbi_dTau * (2 * dPSI_dDelta + delta * dPSI2_dDelta2)
  let Line2 := 2 * dDELTAbi_dDelta * (dPSI_dTau + delta * dPSI2_dDelta_dTau) + 2 *
      dDELTAbi2_dDelta_dTau * (PSI + delta * dPSI_dDelta)
  let Line3 := dDELTAbi2_dDelta2 * delta * dPSI_dTau + dDELTAbi3_dDelta2_dTau * delta * PSI
  { alphar := derivs.alphar + (ni * F.pow DELTA bi * delta * PSI),
    dalphar_ddelta := derivs.dalphar_ddelta + (ni * (F.pow DELTA bi * (PSI + delta *
        dPSI_dDelta) + dDELTAbi_dDelta * delta * PSI)),
    dalphar_dtau := derivs.dalphar_dtau + (ni * delta * (dDELTAbi_dTau * PSI + F.pow DELTA bi *
        dPSI_dTau)),
    d2alphar_ddelta2 := derivs.d2alphar_ddelta2 + (ni * (F.pow DELTA bi * (2 * dPSI_dDelta +
        delta * dPSI2_dDelta2) + 2 * dDELTAbi_dDelta * (PSI + delta * dPSI_dDelta) +
        dDELTAbi2_dDelta2 * delta * PSI)),
    d2alphar_ddelta_dtau := derivs.d2alphar_ddelta_dtau + (ni * (F.pow DELTA bi * (dPSI_dTau +
        delta * dPSI2_dDelta_dTau) + delta * dDELTAbi_dDelta * dPSI_dTau + dDELTAbi_dTau * (PSI +
        delta * dPSI_dDelta) + dDELTAbi2_dDelta_dTau * delta * PSI)),
    d2alphar_dtau2 := derivs.d2alphar_dtau2 + (ni * delta * (dDELTAbi2_dTau2 * PSI + 2 *
        dDELTAbi_dTau * dPSI_dTau + F.pow DELTA bi * dPSI2_dTau2)),
    d3alphar_ddelta3 := derivs.d3alphar_ddelta3 + (ni * (F.pow DELTA bi * (3 * dPSI2_dDelta2 +
        delta * dPSI3_dDelta3) + 3 * dDELTAbi_dDelta * (2 * dPSI_dDelta + delta * dPSI2_dDelta2) + 3
        * dDELTAbi2_dDelta2 * (PSI + delta * dPSI_dDelta) + dDELTAbi3_dDelta3 * PSI * delta)),
    d3alphar_ddelta2_dtau := derivs.d3alphar_ddelta2_dtau + (ni * (Line1 + Line2 + Line3)),
    d3alphar_ddelta_dtau2 := derivs.d3alphar_ddelta_dtau2 + (ni * delta * (dDELTAbi2_dTau2 *
        dPSI_dDelta + dDELTAbi3_dDelta_dTau2 * PSI + 2 * dDELTAbi_dTau * dPSI2_dDelta_dTau + 2 *
        dDELTAbi2_dDelta_dTau * dPSI_dTau + F.pow DELTA bi * dPSI3_dDelta_dTau2 + dDELTAbi_dDelta *
        dPSI2_dTau2) + ni * (dDELTAbi2_dTau2 * PSI + 2 * dDELTAbi_dTau * dPSI_dTau + F.pow DELTA bi
        * dPSI2_dTau2)),
    d3alphar_dtau3 := derivs.d3alphar_dtau3 + (ni * delta * (dDELTAbi3_dTau3 * PSI + (3 *
        dDELTAbi2_dTau2) * dPSI_dTau + (3 * dDELTAbi_dTau) * dPSI2_dTau2 + F.pow DELTA bi *
        dPSI3_dTau3)) }

/-- Lines 253-268: the value stored in `s[i]` by the loop body of
`ResidualHelmholtzNonAnalytic::base`. -/
def ResidualHelmholtzNonAnalytic.base_element (F : MathFns K)
    (el : ResidualHelmholtzNonAnalyticElement K) (tau delta : K) : K :=
  let ni := el.n
  let ai := el.a
  let bi := el.b
  let betai := el.beta
  let Ai := el.A
  let Bi := el.B
  let Ci := el.C
  let Di := el.D
  let theta := (1 - tau) + Ai * F.pow (F.pow (delta - 1) 2) (1 / (2 * betai))
  let DELTA := F.pow theta 2 + Bi * F.pow (F.pow (delta - 1) 2) ai
  let PSI := F.exp ((-Ci) * F.pow (delta - 1) 2 - Di * F.pow (tau - 1) 2)
  ni * F.pow DELTA bi * delta * PSI

/-- Lines 269-295: the value stored in `s[i]` by the loop body of
`ResidualHelmholtzNonAnalytic::dDelta`. -/
def ResidualHelmholtzNonAnalytic.dDelta_element (F : MathFns K)
    (el : ResidualHelmholtzNonAnalyticElement K) (tau delta : K) : K :=
  let ni := el.n
  let ai := el.a
  let bi := el.b
  let betai := el.beta
  let Ai := el.A
  let Bi := el.B
  let Ci := el.C
  let Di := el.D
  let theta := (1 - tau) + Ai * F.pow (F.pow (delta - 1) 2) (1 / (2 * betai))
  let DELTA := F.pow theta 2 + Bi * F.pow (F.pow (delta - 1) 2) ai
  let PSI := F.exp ((-Ci) * F.pow (delta - 1) 2 - Di * F.pow (tau - 1) 2)
  let dPSI_dDelta := (-2) * Ci * (delta - 1) * PSI
  let dDELTA_dDelta := (delta - 1) * (Ai * theta * 2 / betai * F.pow (F.pow (delta - 1) 2) (1 /
      (2 * betai) - 1) + 2 * Bi * ai * F.pow (F.pow (delta - 1) 2) (ai - 1))
  let dDELTAbi_dDelta := if |DELTA| < 10 * DBL_EPSILON then 0 else bi * F.pow DELTA (bi - 1) *
      dDELTA_dDelta
  ni * (F.pow DELTA bi * (PSI + delta * dPSI_dDelta) + dDELTAbi_dDelta * delta * PSI)

/-- Lines 296-313: the value stored in `s[i]` by the loop body of
`ResidualHelmholtzNonAnalytic::dTau`. -/
def ResidualHelmholtzNonAnalytic.dTau_element (F : MathFns K)
    (el : ResidualHelmholtzNonAnalyticElement K) (tau delta : K) : K :=
  let ni := el.n
  let ai := el.a
  let bi := el.b
  let betai := el.beta
  let Ai := el.A
  let Bi := el.B
  let Ci := el.C
  let Di := el.D
  let theta := (1 - tau) + Ai * F.pow (F.pow (delta - 1) 2) (1 / (2 * betai))
  let DELTA := F.pow theta 2 + Bi * F.pow (F.pow (delta - 1) 2) ai
  let PSI := F.exp ((-Ci) * F.pow (delta - 1) 2 - Di * F.pow (tau - 1) 2)
  let dPSI_dTau := (-2) * Di * (tau - 1) * PSI
  let dDELTAbi_dTau := (-2) * theta * bi * F.pow DELTA (bi - 1)
  ni * delta * (dDELTAbi_dTau * PSI + F.pow DELTA bi * dPSI_dTau)

/-- Lines 315-356: the value stored in `s[i]` by the loop body of
`ResidualHelmholtzNonAnalytic::dDelta2`. -/
def ResidualHelmholtzNonAnalytic.dDelta2_element (F : MathFns K)
    (el : ResidualHelmholtzNonAnalyticElement K) (tau delta : K) : K :=
  let ni := el.n
  let ai := el.a
  let bi := el.b
  let betai := el.beta
  let Ai := el.A
  let Bi := el.B
  let Ci := el.C
  let Di := el.D
  let theta := (1 - tau) + Ai * F.pow (F.pow (delta - 1) 2) (1 / (2 * betai))
  let DELTA := F.pow theta 2 + Bi * F.pow (F.pow (delta - 1) 2) ai
  let PSI := F.exp ((-Ci) * F.pow (delta - 1) 2 - Di * F.pow (tau - 1) 2)
  let dPSI_dDelta := (-2) * Ci * (delta - 1) * PSI
  let dDELTA_dDelta := (delta - 1) * (Ai * theta * 2 / betai * F.pow (F.pow (delta - 1) 2) (1 /
      (2 * betai) - 1) + 2 * Bi * ai * F.pow (F.pow (delta - 1) 2) (ai - 1))
  let dDELTA_dDelta_over_delta_minus_1 := (Ai * theta * 2 / betai * F.pow (F.pow (delta - 1) 2)
      (1 / (2 * betai) - 1) + 2 * Bi * ai * F.pow (F.pow (delta - 1) 2) (ai - 1))
  let dPSI2_dDelta2 := (2 * Ci * F.pow (delta - 1) 2 - 1) * 2 * Ci * PSI
  let dDELTA2_dDelta2 := if |delta - 1| < 10 * DBL_EPSILON then 0 else
      dDELTA_dDelta_over_delta_minus_1 + F.pow (delta - 1) 2 * (4 * Bi * ai * (ai - 1) * F.pow
      (F.pow (delta - 1) 2) (ai - 2) + 2 * F.pow (Ai / betai) 2 * F.pow (F.pow (F.pow (delta - 1) 2)
      (1 / (2 * betai) - 1)) 2 + Ai * theta * 4 / betai * (1 / (2 * betai) - 1) * F.pow (F.pow
      (delta - 1) 2) (1 / (2 * betai) - 2))
  let dDELTAbi2_dDelta2 := if |delta - 1| < 10 * DBL_EPSILON then 0 else bi * (F.pow DELTA (bi -
      1) * dDELTA2_dDelta2 + (bi - 1) * F.pow DELTA (bi - 2) * F.pow dDELTA_dDelta 2)
  let dDELTAbi_dDelta := if |DELTA| < 10 * DBL_EPSILON then 0 else bi * F.pow DELTA (bi - 1) *
      dDELTA_dDelta
  ni * (F.pow DELTA bi * (2 * dPSI_dDelta + delta * dPSI2_dDelta2) + 2 * dDELTAbi_dDelta * (PSI
      + delta * dPSI_dDelta) + dDELTAbi2_dDelta2 * delta * PSI)

/-- Lines 357-390: the value stored in `s[i]` by the loop body of
`ResidualHelmholtzNonAnalytic::dDelta_dTau`. -/
def ResidualHelmholtzNonAnalytic.dDelta_dTau_element (F : MathFns K)
    (el : ResidualHelmholtzNonAnalyticElement K) (tau delta : K) : K :=
  let ni := el.n
  let ai := el.a
  let bi := el.b
  let betai := el.beta
  let Ai := el.A
  let Bi := el.B
  let Ci := el.C
  let Di := el.D
  let theta := (1 - tau) + Ai * F.pow (F.pow (delta - 1) 2) (1 / (2 * betai))
  let DELTA := F.pow theta 2 + Bi * F.pow (F.pow (delta - 1) 2) ai
  let PSI := F.exp ((-Ci) * F.pow (delta - 1) 2 - Di * F.pow (tau - 1) 2)
  let dPSI_dDelta := (-2) * Ci * (delta - 1) * PSI
  let dDELTA_dDelta := (delta - 1) * (Ai * theta * 2 / betai * F.pow (F.pow (delta - 1) 2) (1 /
      (2 * betai) - 1) + 2 * Bi * ai * F.pow (F.pow (delta - 1) 2) (ai - 1))
  let dPSI2_dDelta_dTau := 4 * Ci * Di * (delta - 1) * (tau - 1) * PSI
  let dDELTAbi2_dDelta_dTau := (-Ai) * bi * 2 / betai * F.pow DELTA (bi - 1) * (delta - 1) *
      F.pow (F.pow (delta - 1) 2) (1 / (2 * betai) - 1) - 2 * theta * bi * (bi - 1) * F.pow DELTA
      (bi - 2) * dDELTA_dDelta
  let dPSI_dTau := (-2) * Di * (tau - 1) * PSI
  let dDELTAbi_dTau := (-2) * theta * bi * F.pow DELTA (bi - 1)
  let dDELTAbi_dDelta := if |DELTA| < 10 * DBL_EPSILON then 0 else bi * F.pow DELTA (bi - 1) *
      dDELTA_dDelta
  ni * (F.pow DELTA bi * (dPSI_dTau + delta * dPSI2_dDelta_dTau) + delta * dDELTAbi_dDelta *
      dPSI_dTau + dDELTAbi_dTau * (PSI + delta * dPSI_dDelta) + dDELTAbi2_dDelta_dTau * delta * PSI)

/-- Lines 391-411: the value stored in `s[i]` by the loop body of
`ResidualHelmholtzNonAnalytic::dTau2`. -/
def ResidualHelmholtzNonAnalytic.dTau2_element (F : MathFns K)
    (el : ResidualHelmholtzNonAnalyticElement K) (tau delta : K) : K :=
  let ni := el.n
  let ai := el.a
  let bi := el.b
  let betai := el.beta
  let Ai := el.A
  let Bi := el.B
  let Ci := el.C
  let Di := el.D
  let theta := (1 - tau) + Ai * F.pow (F.pow (delta - 1) 2) (1 / (2 * betai))
  let DELTA := F.pow theta 2 + Bi * F.pow (F.pow (delta - 1) 2) ai
  let PSI := F.exp ((-Ci) * F.pow (delta - 1) 2 - Di * F.pow (tau - 1) 2)
  let dPSI_dTau := (-2) * Di * (tau - 1) * PSI
  let dDELTAbi_dTau := (-2) * theta * bi * F.pow DELTA (bi - 1)
  let dPSI2_dTau2 := (2 * Di * F.pow (tau - 1) 2 - 1) * 2 * Di * PSI
  let dDELTAbi2_dTau2 := 2 * bi * F.pow DELTA (bi - 1) + 4 * F.pow theta 2 * bi * (bi - 1) *
      F.pow DELTA (bi - 2)
  ni * delta * (dDELTAbi2_dTau2 * PSI + 2 * dDELTAbi_dTau * dPSI_dTau + F.pow DELTA bi *
      dPSI2_dTau2)

/-- Lines 413-451: the value stored in `s[i]` by the loop body of
`ResidualHelmholtzNonAnalytic::dDelta3`. -/
def ResidualHelmholtzNonAnalytic.dDelta3_element (F : MathFns K)
    (el : ResidualHelmholtzNonAnalyticElement K) (tau delta : K) : K :=
  let ni := el.n
  let ai := el.a
  let bi := el.b
  let betai := el.beta
  let Ai := el.A
  let Bi := el.B
  let Ci := el.C
  let Di := el.D
  let theta := (1 - tau) + Ai * F.pow (F.pow (delta - 1) 2) (1 / (2 * betai))
  let DELTA := F.pow theta 2 + Bi * F.pow (F.pow (delta - 1) 2) ai
  let PSI := F.exp ((-Ci) * F.pow (delta - 1) 2 - Di * F.pow (tau - 1) 2)
  let dPSI_dDelta := (-2) * Ci * (delta - 1) * PSI
  let dDELTA_dDelta := (delta - 1) * (Ai * theta * 2 / betai * F.pow (F.pow (delta - 1) 2) (1 /
      (2 * betai) - 1) + 2 * Bi * ai * F.pow (F.pow (delta - 1) 2) (ai - 1))
  let dPSI2_dDelta2 := (2 * Ci * F.pow (delta - 1) 2 - 1) * 2 * Ci * PSI
  let dDELTA2_dDelta2 := 1 / (delta - 1) * dDELTA_dDelta + F.pow (delta - 1) 2 * (4 * Bi * ai *
      (ai - 1) * F.pow (F.pow (delta - 1) 2) (ai - 2) + 2 * F.pow (Ai / betai) 2 * F.pow (F.pow
      (F.pow (delta - 1) 2) (1 / (2 * betai) - 1)) 2 + Ai * theta * 4 / betai * (1 / (2 * betai) -
      1) * F.pow (F.pow (delta - 1) 2) (1 / (2 * betai) - 2))
  let dDELTAbi2_dDelta2 := bi * (F.pow DELTA (bi - 1) * dDELTA2_dDelta2 + (bi - 1) * F.pow DELTA
      (bi - 2) * F.pow dDELTA_dDelta 2)
  let dtheta_dDelta := Ai / (2 * betai) * F.pow (F.pow (delta - 1) 2) (1 / (2 * betai) - 1) * 2
      * (delta - 1)
  let dPSI3_dDelta3 := 2 * Ci * PSI * ((-4) * Ci * Ci * F.pow (delta - 1) 3 + 6 * Ci * (delta -
      1))
  let PI := 4 * Bi * ai * (ai - 1) * F.pow (F.pow (delta - 1) 2) (ai - 2) + 2 * F.pow (Ai /
      betai) 2 * F.pow (F.pow (delta - 1) 2) (1 / betai - 2) + 4 * Ai * theta / betai * (1 / (2 *
      betai) - 1) * F.pow (F.pow (delta - 1) 2) (1 / (2 * betai) - 2)
  let dPI_dDelta := (-8) * Bi * ai * (ai - 1) * (ai - 2) * F.pow (F.pow (delta - 1) 2) (ai - 5 /
      2) - 8 * F.pow (Ai / betai) 2 * (1 / (2 * betai) - 1) * F.pow (F.pow (delta - 1) 2) (1 / betai
      - 5 / 2) - (8 * Ai * theta) / betai * (1 / (2 * betai) - 1) * (1 / (2 * betai) - 2) * F.pow
      (F.pow (delta - 1) 2) (1 / (2 * betai) - 5 / 2) + 4 * Ai / betai * (1 / (2 * betai) - 1) *
      F.pow (F.pow (delta - 1) 2) (1 / (2 * betai) - 2) * dtheta_dDelta
  let dDELTA3_dDelta3 := 1 / (delta - 1) * dDELTA2_dDelta2 - 1 / F.pow (delta - 1) 2 *
      dDELTA_dDelta + F.pow (delta - 1) 2 * dPI_dDelta + 2 * (delta - 1) * PI
  let dDELTAbi3_dDelta3 := bi * (F.pow DELTA (bi - 1) * dDELTA3_dDelta3 + dDELTA2_dDelta2 * (bi
      - 1) * F.pow DELTA (bi - 2) * dDELTA_dDelta + (bi - 1) * (F.pow DELTA (bi - 2) * 2 *
      dDELTA_dDelta * dDELTA2_dDelta2 + F.pow dDELTA_dDelta 2 * (bi - 2) * F.pow DELTA (bi - 3) *
      dDELTA_dDelta))
  let dDELTAbi_dDelta := if |DELTA| < 10 * DBL_EPSILON then 0 else bi * F.pow DELTA (bi - 1) *
      dDELTA_dDelta
  ni * (F.pow DELTA bi * (3 * dPSI2_dDelta2 + delta * dPSI3_dDelta3) + 3 * dDELTAbi_dDelta * (2
      * dPSI_dDelta + delta * dPSI2_dDelta2) + 3 * dDELTAbi2_dDelta2 * (PSI + delta * dPSI_dDelta) +
      dDELTAbi3_dDelta3 * PSI * delta)

/-- Lines 452-494: the value stored in `s[i]` by the loop body of
`ResidualHelmholtzNonAnalytic::dDelta_dTau2`. -/
def ResidualHelmholtzNonAnalytic.dDelta_dTau2_element (F : MathFns K)
    (el : ResidualHelmholtzNonAnalyticElement K) (tau delta : K) : K :=
  let ni := el.n
  let ai := el.a
  let bi := el.b
  let betai := el.beta
  let Ai := el.A
  let Bi := el.B
  let Ci := el.C
  let Di := el.D
  let theta := (1 - tau) + Ai * F.pow (F.pow (delta - 1) 2) (1 / (2 * betai))
  let DELTA := F.pow theta 2 + Bi * F.pow (F.pow (delta - 1) 2) ai
  let PSI := F.exp ((-Ci) * F.pow (delta - 1) 2 - Di * F.pow (tau - 1) 2)
  let dPSI_dDelta := (-2) * Ci * (delta - 1) * PSI
  let dDELTA_dDelta := (delta - 1) * (Ai * theta * 2 / betai * F.pow (F.pow (delta - 1) 2) (1 /
      (2 * betai) - 1) + 2 * Bi * ai * F.pow (F.pow (delta - 1) 2) (ai - 1))
  let dDELTAbi_dTau := (-2) * theta * bi * F.pow DELTA (bi - 1)
  let dPSI_dTau := (-2) * Di * (tau - 1) * PSI
  let dtheta_dDelta := Ai / (2 * betai) * F.pow (F.pow (delta - 1) 2) (1 / (2 * betai) - 1) * 2
      * (delta - 1)
  let dPSI2_dDelta_dTau := 4 * Ci * Di * (delta - 1) * (tau - 1) * PSI
  let dDELTAbi2_dDelta_dTau := (-Ai) * bi * 2 / betai * F.pow DELTA (bi - 1) * (delta - 1) *
      F.pow (F.pow (delta - 1) 2) (1 / (2 * betai) - 1) - 2 * theta * bi * (bi - 1) * F.pow DELTA
      (bi - 2) * dDELTA_dDelta
  let dPSI2_dTau2 := (2 * Di * F.pow (tau - 1) 2 - 1) * 2 * Di * PSI
  let dDELTAbi2_dTau2 := 2 * bi * F.pow DELTA (bi - 1) + 4 * F.pow theta 2 * bi * (bi - 1) *
      F.pow DELTA (bi - 2)
  let dPSI3_dDelta_dTau2 := 2 * Di * (2 * Di * F.pow (tau - 1) 2 - 1) * dPSI_dDelta
  let dDELTAbi3_dDelta_dTau2 := 2 * bi * (bi - 1) * F.pow DELTA (bi - 2) * dDELTA_dDelta + 4 *
      F.pow theta 2 * bi * (bi - 1) * (bi - 2) * F.pow DELTA (bi - 3) * dDELTA_dDelta + 8 * theta *
      bi * (bi - 1) * F.pow DELTA (bi - 2) * dtheta_dDelta
  let dDELTAbi_dDelta := if |DELTA| < 10 * DBL_EPSILON then 0 else bi * F.pow DELTA (bi - 1) *
      dDELTA_dDelta
  ni * delta * (dDELTAbi2_dTau2 * dPSI_dDelta + dDELTAbi3_dDelta_dTau2 * PSI + 2 * dDELTAbi_dTau
      * dPSI2_dDelta_dTau + 2 * dDELTAbi2_dDelta_dTau * dPSI_dTau + F.pow DELTA bi *
      dPSI3_dDelta_dTau2 + dDELTAbi_dDelta * dPSI2_dTau2) + ni * (dDELTAbi2_dTau2 * PSI + 2 *
      dDELTAbi_dTau * dPSI_dTau + F.pow DELTA bi * dPSI2_dTau2)

/-- Lines 496-548: the value stored in `s[i]` by the loop body of
`ResidualHelmholtzNonAnalytic::dDelta2_dTau`. -/
def ResidualHelmholtzNonAnalytic.dDelta2_dTau_element (F : MathFns K)
    (el : ResidualHelmholtzNonAnalyticElement K) (tau delta : K) : K :=
  let ni := el.n
  let ai := el.a
  let bi := el.b
  let betai := el.beta
  let Ai := el.A
  let Bi := el.B
  let Ci := el.C
  let Di := el.D
  let theta := (1 - tau) + Ai * F.pow (F.pow (delta - 1) 2) (1 / (2 * betai))
  let DELTA := F.pow theta 2 + Bi * F.pow (F.pow (delta - 1) 2) ai
  let PSI := F.exp ((-Ci) * F.pow (delta - 1) 2 - Di * F.pow (tau - 1) 2)
  let dPSI_dDelta := (-2) * Ci * (delta - 1) * PSI
  let dDELTA_dDelta := (delta - 1) * (Ai * theta * 2 / betai * F.pow (F.pow (delta - 1) 2) (1 /
      (2 * betai) - 1) + 2 * Bi * ai * F.pow (F.pow (delta - 1) 2) (ai - 1))
  let dDELTAbi_dTau := (-2) * theta * bi * F.pow DELTA (bi - 1)
  let dPSI_dTau := (-2) * Di * (tau - 1) * PSI
  let dPSI2_dDelta2 := (2 * Ci * F.pow (delta - 1) 2 - 1) * 2 * Ci * PSI
  let dDELTA2_dDelta2 := 1 / (delta - 1) * dDELTA_dDelta + F.pow (delta - 1) 2 * (4 * Bi * ai *
      (ai - 1) * F.pow (F.pow (delta - 1) 2) (ai - 2) + 2 * F.pow (Ai / betai) 2 * F.pow (F.pow
      (F.pow (delta - 1) 2) (1 / (2 * betai) - 1)) 2 + Ai * theta * 4 / betai * (1 / (2 * betai) -
      1) * F.pow (F.pow (delta - 1) 2) (1 / (2 * betai) - 2))
  let dDELTAbi2_dDelta2 := bi * (F.pow DELTA (bi - 1) * dDELTA2_dDelta2 + (bi - 1) * F.pow DELTA
      (bi - 2) * F.pow dDELTA_dDelta 2)
  let dPSI2_dDelta_dTau := 4 * Ci * Di * (delta - 1) * (tau - 1) * PSI
  let dDELTAbi2_dDelta_dTau := (-Ai) * bi * 2 / betai * F.pow DELTA (bi - 1) * (delta - 1) *
      F.pow (F.pow (delta - 1) 2) (1 / (2 * betai) - 1) - 2 * theta * bi * (bi - 1) * F.pow DELTA
      (bi - 2) * dDELTA_dDelta
  let dDELTAbi_dDelta := if |DELTA| < 10 * DBL_EPSILON then 0 else bi * F.pow DELTA (bi - 1) *
      dDELTA_dDelta
  let dPSI3_dDelta2_dTau := (2 * Ci * F.pow (delta - 1) 2 - 1) * 2 * Ci * dPSI_dTau
  let dDELTA_dTau := (-2) * theta
  let dDELTA2_dDelta_dTau := 2 * Ai / (betai) * F.pow (F.pow (delta - 1) 2) (1 / (2 * betai) -
      0.5)
  let dDELTA3_dDelta2_dTau := 2 * Ai * (betai - 1) / (betai * betai) * F.pow (F.pow (delta - 1)
      2) (1 / (2 * betai) - 1)
  let dDELTAbim1_dTau := (bi - 1) * F.pow DELTA (bi - 2) * dDELTA_dTau
  let dDELTAbim2_dTau := (bi - 2) * F.pow DELTA (bi - 3) * dDELTA_dTau
  let Line11 := dDELTAbim1_dTau * dDELTA2_dDelta2 + F.pow DELTA (bi - 1) * dDELTA3_dDelta2_dTau
  let Line21 := (bi - 1) * (dDELTAbim2_dTau * F.pow dDELTA_dDelta 2 + F.pow DELTA (bi - 2) * 2 *
      dDELTA_dDelta * dDELTA2_dDelta_dTau)
  let dDELTAbi3_dDelta2_dTau := bi * (Line11 + Line21)
  let Line1 := F.pow DELTA bi * (2 * dPSI2_dDelta_dTau + delta * dPSI3_dDelta2_dTau) +
      dDELTAbi_dTau * (2 * dPSI_dDelta + delta * dPSI2_dDelta2)
  let Line2 := 2 * dDELTAbi_dDelta * (dPSI_dTau + delta * dPSI2_dDelta_dTau) + 2 *
      dDELTAbi2_dDelta_dTau * (PSI + delta * dPSI_dDelta)
  let Line3 := dDELTAbi2_dDelta2 * delta * dPSI_dTau + dDELTAbi3_dDelta2_dTau * delta * PSI
  ni * (Line1 + Line2 + Line3)

/-- Lines 549-570: the value stored in `s[i]` by the loop body of
`ResidualHelmholtzNonAnalytic::dTau3`. -/
def ResidualHelmholtzNonAnalytic.dTau3_element (F : MathFns K)
    (el : ResidualHelmholtzNonAnalyticElement K) (tau delta : K) : K :=
  let ni := el.n
  let ai := el.a
  let bi := el.b
  let betai := el.beta
  let Ai := el.A
  let Bi := el.B
  let Ci := el.C
  let Di := el.D
  let theta := (1 - tau) + Ai * F.pow (F.pow (delta - 1) 2) (1 / (2 * betai))
  let DELTA := F.pow theta 2 + Bi * F.pow (F.pow (delta - 1) 2) ai
  let PSI := F.exp ((-Ci) * F.pow (delta - 1) 2 - Di * F.pow (tau - 1) 2)
  let dPSI_dTau := (-2) * Di * (tau - 1) * PSI
  let dDELTAbi_dTau := (-2) * theta * bi * F.pow DELTA (bi - 1)
  let dPSI2_dTau2 := (2 * Di * F.pow (tau - 1) 2 - 1) * 2 * Di * PSI
  let dDELTAbi2_dTau2 := 2 * bi * F.pow DELTA (bi - 1) + 4 * F.pow theta 2 * bi * (bi - 1) *
      F.pow DELTA (bi - 2)
  let dPSI3_dTau3 := 2 * Di * PSI * ((-4) * Di * Di * F.pow (tau - 1) 3 + 6 * Di * (tau - 1))
  let dDELTAbi3_dTau3 := (-12) * theta * bi * (bi - 1) * F.pow DELTA (bi - 2) - 8 * F.pow theta
      3 * bi * (bi - 1) * (bi - 2) * F.pow DELTA (bi - 3)
  ni * delta * (dDELTAbi3_dTau3 * PSI + (3 * dDELTAbi2_dTau2) * dPSI_dTau + (3 * dDELTAbi_dTau)
      * dPSI2_dTau2 + F.pow DELTA bi * dPSI3_dTau3)

/-- The scratch sequence after the loop `for (i = 0; i < N; ++i) s[i] = f(elements[i])`
of an accessor.  Indices outside `elements` or `s`, which a well-formed term never
reaches, leave the scratch as it is. -/
def ResidualHelmholtzNonAnalytic.fillScratch (self : ResidualHelmholtzNonAnalytic K)
    (f : ResidualHelmholtzNonAnalyticElement K → K) : List K :=
  (List.range self.N).foldl
    (fun s i => match self.elements[i]? with
      | some el => s.set i (f el)
      | none => s)
    self.s

/-- The shape shared by the ten accessors: `0` when `N == 0`, otherwise the loop fills
the scratch and `std::accumulate` sums it. -/
def ResidualHelmholtzNonAnalytic.accumulate (self : ResidualHelmholtzNonAnalytic K)
    (f : ResidualHelmholtzNonAnalyticElement K → K) : K :=
  if self.N = 0 then 0 else (self.fillScratch f).sum

/-- Lines 179-251: `ResidualHelmholtzNonAnalytic::all`. -/
def ResidualHelmholtzNonAnalytic.all (F : MathFns K)
    (self : ResidualHelmholtzNonAnalytic K) (tau delta : K)
    (derivs : HelmholtzDerivatives K) : HelmholtzDerivatives K :=
  if self.N = 0 then derivs else
    (List.range self.N).foldl
      (fun d i => match self.elements[i]? with
        | some el => ResidualHelmholtzNonAnalytic.all_element F el tau delta d
        | none => d)
      derivs

/-- Lines 253-268: `ResidualHelmholtzNonAnalytic::base`. -/
def ResidualHelmholtzNonAnalytic.base (F : MathFns K)
    (self : ResidualHelmholtzNonAnalytic K) (tau delta : K) : K :=
  self.accumulate fun el => ResidualHelmholtzNonAnalytic.base_element F el tau delta

/-- Lines 269-295: `ResidualHelmholtzNonAnalytic::dDelta`. -/
def ResidualHelmholtzNonAnalytic.dDelta (F : MathFns K)
    (self : ResidualHelmholtzNonAnalytic K) (tau delta : K) : K :=
  self.accumulate fun el => ResidualHelmholtzNonAnalytic.dDelta_element F el tau delta

/-- Lines 296-313: `ResidualHelmholtzNonAnalytic::dTau`. -/
def ResidualHelmholtzNonAnalytic.dTau (F : MathFns K)
    (self : ResidualHelmholtzNonAnalytic K) (tau delta : K) : K :=
  self.accumulate fun el => ResidualHelmholtzNonAnalytic.dTau_element F el tau delta

/-- Lines 315-356: `ResidualHelmholtzNonAnalytic::dDelta2`. -/
def ResidualHelmholtzNonAnalytic.dDelta2 (F : MathFns K)
    (self : ResidualHelmholtzNonAnalytic K) (tau delta : K) : K :=
  self.accumulate fun el => ResidualHelmholtzNonAnalytic.dDelta2_element F el tau delta

/-- Lines 357-390: `ResidualHelmholtzNonAnalytic::dDelta_dTau`. -/
def ResidualHelmholtzNonAnalytic.dDelta_dTau (F : MathFns K)
    (self : ResidualHelmholtzNonAnalytic K) (tau delta : K) : K :=
  self.accumulate fun el => ResidualHelmholtzNonAnalytic.dDelta_dTau_element F el tau delta

/-- Lines 391-411: `ResidualHelmholtzNonAnalytic::dTau2`. -/
def ResidualHelmholtzNonAnalytic.dTau2 (F : MathFns K)
    (self : ResidualHelmholtzNonAnalytic K) (tau delta : K) : K :=
  self.accumulate fun el => ResidualHelmholtzNonAnalytic.dTau2_element F el tau delta

/-- Lines 413-451: `ResidualHelmholtzNonAnalytic::dDelta3`. -/
def ResidualHelmholtzNonAnalytic.dDelta3 (F : MathFns K)
    (self : ResidualHelmholtzNonAnalytic K) (tau delta : K) : K :=
  self.accumulate fun el => ResidualHelmholtzNonAnalytic.dDelta3_element F el tau delta

/-- Lines 452-494: `ResidualHelmholtzNonAnalytic::dDelta_dTau2`. -/
def ResidualHelmholtzNonAnalytic.dDelta_dTau2 (F : MathFns K)
    (self : ResidualHelmholtzNonAnalytic K) (tau delta : K) : K :=
  self.accumulate fun el => ResidualHelmholtzNonAnalytic.dDelta_dTau2_element F el tau delta

/-- Lines 496-548: `ResidualHelmholtzNonAnalytic::dDelta2_dTau`. -/
def ResidualHelmholtzNonAnalytic.dDelta2_dTau (F : MathFns K)
    (self : ResidualHelmholtzNonAnalytic K) (tau delta : K) : K :=
  self.accumulate fun el => ResidualHelmholtzNonAnalytic.dDelta2_dTau_element F el tau delta

/-- Lines 549-570: `ResidualHelmholtzNonAnalytic::dTau3`. -/
def ResidualHelmholtzNonAnalytic.dTau3 (F : MathFns K)
    (self : ResidualHelmholtzNonAnalytic K) (tau delta : K) : K :=
  self.accumulate fun el => ResidualHelmholtzNonAnalytic.dTau3_element F el tau delta

/-! ### Named sub-expressions of the non-analytic term

The local variables of the loop bodies above, as functions of the element and of
`(tau, delta)`.  Where several functions of the source compute a variable by the same
text, one definition stands for all of them. -/

/-- Line 187: `theta`. -/
def NonAnalytic.theta (F : MathFns K) (el : ResidualHelmholtzNonAnalyticElement K)
    (tau delta : K) : K :=
  (1 - tau) + el.A * F.pow (F.pow (delta - 1) 2) (1 / (2 * el.beta))

/-- Line 188: `dtheta_dDelta`. -/
def NonAnalytic.dtheta_dDelta (F : MathFns K) (el : ResidualHelmholtzNonAnalyticElement K)
    (_tau delta : K) : K :=
  el.A / (2 * el.beta) * F.pow (F.pow (delta - 1) 2) (1 / (2 * el.beta) - 1) * 2 * (delta - 1)

/-- Line 190: `PSI`. -/
def NonAnalytic.PSI (F : MathFns K) (el : ResidualHelmholtzNonAnalyticElement K)
    (tau delta : K) : K :=
  F.exp ((-el.C) * F.pow (delta - 1) 2 - el.D * F.pow (tau - 1) 2)

/-- Line 191: `dPSI_dDelta`. -/
def NonAnalytic.dPSI_dDelta (F : MathFns K) (el : ResidualHelmholtzNonAnalyticElement K)
    (tau delta : K) : K :=
  (-2) * el.C * (delta - 1) * (NonAnalytic.PSI F el tau delta)

/-- Line 192: `dPSI_dTau`. -/
def NonAnalytic.dPSI_dTau (F : MathFns K) (el : ResidualHelmholtzNonAnalyticElement K)
    (tau delta : K) : K :=
  (-2) * el.D * (tau - 1) * (NonAnalytic.PSI F el tau delta)

/-- Line 193: `dPSI2_dDelta2`. -/
def NonAnalytic.dPSI2_dDelta2 (F : MathFns K) (el : ResidualHelmholtzNonAnalyticElement K)
    (tau delta : K) : K :=
  (2 * el.C * F.pow (delta - 1) 2 - 1) * 2 * el.C * (NonAnalytic.PSI F el tau delta)

/-- Line 194: `dPSI2_dDelta_dTau`. -/
def NonAnalytic.dPSI2_dDelta_dTau (F : MathFns K) (el : ResidualHelmholtzNonAnalyticElement K)
    (tau delta : K) : K :=
  4 * el.C * el.D * (delta - 1) * (tau - 1) * (NonAnalytic.PSI F el tau delta)

/-- Line 195: `dPSI2_dTau2`. -/
def NonAnalytic.dPSI2_dTau2 (F : MathFns K) (el : ResidualHelmholtzNonAnalyticElement K)
    (tau delta : K) : K :=
  (2 * el.D * F.pow (tau - 1) 2 - 1) * 2 * el.D * (NonAnalytic.PSI F el tau delta)

/-- Line 196: `dPSI3_dDelta3`. -/
def NonAnalytic.dPSI3_dDelta3 (F : MathFns K) (el : ResidualHelmholtzNonAnalyticElement K)
    (tau delta : K) : K :=
  2 * el.C * (NonAnalytic.PSI F el tau delta) * ((-4) * el.C * el.C * F.pow (delta - 1) 3 + 6 *
      el.C * (delta - 1))

/-- Line 197: `dPSI3_dDelta2_dTau`. -/
def NonAnalytic.dPSI3_dDelta2_dTau (F : MathFns K) (el : ResidualHelmholtzNonAnalyticElement K)
    (tau delta : K) : K :=
  (2 * el.C * F.pow (delta - 1) 2 - 1) * 2 * el.C * (NonAnalytic.dPSI_dTau F el tau delta)

/-- Line 198: `dPSI3_dDelta_dTau2`. -/
def NonAnalytic.dPSI3_dDelta_dTau2 (F : MathFns K) (el : ResidualHelmholtzNonAnalyticElement K)
    (tau delta : K) : K :=
  2 * el.D * (2 * el.D * F.pow (tau - 1) 2 - 1) * (NonAnalytic.dPSI_dDelta F el tau delta)

/-- Line 199: `dPSI3_dTau3`. -/
def NonAnalytic.dPSI3_dTau3 (F : MathFns K) (el : ResidualHelmholtzNonAnalyticElement K)
    (tau delta : K) : K :=
  2 * el.D * (NonAnalytic.PSI F el tau delta) * ((-4) * el.D * el.D * F.pow (tau - 1) 3 + 6 *
      el.D * (tau - 1))

/-- Line 201: `DELTA`. -/
def NonAnalytic.DELTA (F : MathFns K) (el : ResidualHelmholtzNonAnalyticElement K)
    (tau delta : K) : K :=
  F.pow (NonAnalytic.theta F el tau delta) 2 + el.B * F.pow (F.pow (delta - 1) 2) el.a

/-- Line 202: `dDELTA_dTau`. -/
def NonAnalytic.dDELTA_dTau (F : MathFns K) (el : ResidualHelmholtzNonAnalyticElement K)
    (tau delta : K) : K :=
  (-2) * (NonAnalytic.theta F el tau delta)

/-- Line 203: `dDELTA2_dDelta_dTau`. -/
def NonAnalytic.dDELTA2_dDelta_dTau (F : MathFns K) (el : ResidualHelmholtzNonAnalyticElement K)
    (_tau delta : K) : K :=
  2 * el.A / (el.beta) * F.pow (F.pow (delta - 1) 2) (1 / (2 * el.beta) - 0.5)

/-- Line 204: `dDELTA_dDelta`. -/
def NonAnalytic.dDELTA_dDelta (F : MathFns K) (el : ResidualHelmholtzNonAnalyticElement K)
    (tau delta : K) : K :=
  (delta - 1) * (el.A * (NonAnalytic.theta F el tau delta) * 2 / el.beta * F.pow (F.pow (delta -
      1) 2) (1 / (2 * el.beta) - 1) + 2 * el.B * el.a * F.pow (F.pow (delta - 1) 2) (el.a - 1))

/-- Line 205: `dDELTA3_dDelta2_dTau`. -/
def NonAnalytic.dDELTA3_dDelta2_dTau (F : MathFns K) (el : ResidualHelmholtzNonAnalyticElement K)
    (_tau delta : K) : K :=
  2 * el.A * (el.beta - 1) / (el.beta * el.beta) * F.pow (F.pow (delta - 1) 2) (1 / (2 *
      el.beta) - 1)

/-- Line 217: `dDELTA_dDelta_over_delta_minus_1`. -/
def NonAnalytic.dDELTA_dDelta_over_delta_minus_1 (F : MathFns K) (el : ResidualHelmholtzNonAnalyticElement K)
    (tau delta : K) : K :=
  (el.A * (NonAnalytic.theta F el tau delta) * 2 / el.beta * F.pow (F.pow (delta - 1) 2) (1 / (2
      * el.beta) - 1) + 2 * el.B * el.a * F.pow (F.pow (delta - 1) 2) (el.a - 1))

/-- Line 219: `PI`. -/
def NonAnalytic.PI (F : MathFns K) (el : ResidualHelmholtzNonAnalyticElement K)
    (tau delta : K) : K :=
  4 * el.B * el.a * (el.a - 1) * F.pow (F.pow (delta - 1) 2) (el.a - 2) + 2 * F.pow (el.A /
      el.beta) 2 * F.pow (F.pow (delta - 1) 2) (1 / el.beta - 2) + 4 * el.A * (NonAnalytic.theta F
      el tau delta) / el.beta * (1 / (2 * el.beta) - 1) * F.pow (F.pow (delta - 1) 2) (1 / (2 *
      el.beta) - 2)

/-- Line 220: `dPI_dDelta`. -/
def NonAnalytic.dPI_dDelta (F : MathFns K) (el : ResidualHelmholtzNonAnalyticElement K)
    (tau delta : K) : K :=
  (-8) * el.B * el.a * (el.a - 1) * (el.a - 2) * F.pow (F.pow (delta - 1) 2) (el.a - 5 / 2) - 8
      * F.pow (el.A / el.beta) 2 * (1 / (2 * el.beta) - 1) * F.pow (F.pow (delta - 1) 2) (1 /
      el.beta - 5 / 2) - (8 * el.A * (NonAnalytic.theta F el tau delta)) / el.beta * (1 / (2 *
      el.beta) - 1) * (1 / (2 * el.beta) - 2) * F.pow (F.pow (delta - 1) 2) (1 / (2 * el.beta) - 5 /
      2) + 4 * el.A / el.beta * (1 / (2 * el.beta) - 1) * F.pow (F.pow (delta - 1) 2) (1 / (2 *
      el.beta) - 2) * (NonAnalytic.dtheta_dDelta F el tau delta)

/-- Line 226: `dDELTAbi_dTau`. -/
def NonAnalytic.dDELTAbi_dTau (F : MathFns K) (el : ResidualHelmholtzNonAnalyticElement K)
    (tau delta : K) : K :=
  (-2) * (NonAnalytic.theta F el tau delta) * el.b * F.pow (NonAnalytic.DELTA F el tau delta)
      (el.b - 1)

/-- Line 228: `dDELTAbi2_dDelta_dTau`. -/
def NonAnalytic.dDELTAbi2_dDelta_dTau (F : MathFns K) (el : ResidualHelmholtzNonAnalyticElement K)
    (tau delta : K) : K :=
  (-el.A) * el.b * 2 / el.beta * F.pow (NonAnalytic.DELTA F el tau delta) (el.b - 1) * (delta -
      1) * F.pow (F.pow (delta - 1) 2) (1 / (2 * el.beta) - 1) - 2 * (NonAnalytic.theta F el tau
      delta) * el.b * (el.b - 1) * F.pow (NonAnalytic.DELTA F el tau delta) (el.b - 2) *
      (NonAnalytic.dDELTA_dDelta F el tau delta)

/-- Line 229: `dDELTAbi2_dTau2`. -/
def NonAnalytic.dDELTAbi2_dTau2 (F : MathFns K) (el : ResidualHelmholtzNonAnalyticElement K)
    (tau delta : K) : K :=
  2 * el.b * F.pow (NonAnalytic.DELTA F el tau delta) (el.b - 1) + 4 * F.pow (NonAnalytic.theta
      F el tau delta) 2 * el.b * (el.b - 1) * F.pow (NonAnalytic.DELTA F el tau delta) (el.b - 2)

/-- Line 230: `dDELTAbi3_dTau3`. -/
def NonAnalytic.dDELTAbi3_dTau3 (F : MathFns K) (el : ResidualHelmholtzNonAnalyticElement K)
    (tau delta : K) : K :=
  (-12) * (NonAnalytic.theta F el tau delta) * el.b * (el.b - 1) * F.pow (NonAnalytic.DELTA F el
      tau delta) (el.b - 2) - 8 * F.pow (NonAnalytic.theta F el tau delta) 3 * el.b * (el.b - 1) *
      (el.b - 2) * F.pow (NonAnalytic.DELTA F el tau delta) (el.b - 3)

/-- Line 231: `dDELTAbi3_dDelta_dTau2`. -/
def NonAnalytic.dDELTAbi3_dDelta_dTau2 (F : MathFns K) (el : ResidualHelmholtzNonAnalyticElement K)
    (tau delta : K) : K :=
  2 * el.b * (el.b - 1) * F.pow (NonAnalytic.DELTA F el tau delta) (el.b - 2) *
      (NonAnalytic.dDELTA_dDelta F el tau delta) + 4 * F.pow (NonAnalytic.theta F el tau delta) 2 *
      el.b * (el.b - 1) * (el.b - 2) * F.pow (NonAnalytic.DELTA F el tau delta) (el.b - 3) *
      (NonAnalytic.dDELTA_dDelta F el tau delta) + 8 * (NonAnalytic.theta F el tau delta) * el.b *
      (el.b - 1) * F.pow (NonAnalytic.DELTA F el tau delta) (el.b - 2) * (NonAnalytic.dtheta_dDelta
      F el tau delta)

/-- Line 216: the closed form of `dDELTAbi_dDelta`. -/
def NonAnalytic.dDELTAbi_dDelta (F : MathFns K) (el : ResidualHelmholtzNonAnalyticElement K)
    (tau delta : K) : K :=
  el.b * F.pow (NonAnalytic.DELTA F el tau delta) (el.b - 1) * (NonAnalytic.dDELTA_dDelta F el
      tau delta)

/-- Lines 218 and 340: the closed form of `dDELTA2_dDelta2` in `all` and `dDelta2`. -/
def NonAnalytic.dDELTA2_dDelta2 (F : MathFns K) (el : ResidualHelmholtzNonAnalyticElement K)
    (tau delta : K) : K :=
  (NonAnalytic.dDELTA_dDelta_over_delta_minus_1 F el tau delta) + F.pow (delta - 1) 2 * (4 *
      el.B * el.a * (el.a - 1) * F.pow (F.pow (delta - 1) 2) (el.a - 2) + 2 * F.pow (el.A / el.beta)
      2 * F.pow (F.pow (F.pow (delta - 1) 2) (1 / (2 * el.beta) - 1)) 2 + el.A * (NonAnalytic.theta
      F el tau delta) * 4 / el.beta * (1 / (2 * el.beta) - 1) * F.pow (F.pow (delta - 1) 2) (1 / (2
      * el.beta) - 2))

/-- Lines 429 and 516: `dDELTA2_dDelta2` as computed, without a guard, in `dDelta3` and
`dDelta2_dTau`. -/
def NonAnalytic.dDELTA2_dDelta2_unguarded (F : MathFns K) (el : ResidualHelmholtzNonAnalyticElement K)
    (tau delta : K) : K :=
  1 / (delta - 1) * (NonAnalytic.dDELTA_dDelta F el tau delta) + F.pow (delta - 1) 2 * (4 * el.B
      * el.a * (el.a - 1) * F.pow (F.pow (delta - 1) 2) (el.a - 2) + 2 * F.pow (el.A / el.beta) 2 *
      F.pow (F.pow (F.pow (delta - 1) 2) (1 / (2 * el.beta) - 1)) 2 + el.A * (NonAnalytic.theta F el
      tau delta) * 4 / el.beta * (1 / (2 * el.beta) - 1) * F.pow (F.pow (delta - 1) 2) (1 / (2 *
      el.beta) - 2))

/-- Lines 221 and 436: the closed form of `dDELTA3_dDelta3`, from the value of
`dDELTA2_dDelta2` in scope. -/
def NonAnalytic.dDELTA3_dDelta3 (F : MathFns K) (el : ResidualHelmholtzNonAnalyticElement K)
    (tau delta : K) (dDELTA2_dDelta2 : K) : K :=
  1 / (delta - 1) * dDELTA2_dDelta2 - 1 / F.pow (delta - 1) 2 * (NonAnalytic.dDELTA_dDelta F el
      tau delta) + F.pow (delta - 1) 2 * (NonAnalytic.dPI_dDelta F el tau delta) + 2 * (delta - 1) *
      (NonAnalytic.PI F el tau delta)

/-- Lines 222, 341, 430 and 517: the closed form of `dDELTAbi2_dDelta2`, from the value of
`dDELTA2_dDelta2` in scope. -/
def NonAnalytic.dDELTAbi2_dDelta2 (F : MathFns K) (el : ResidualHelmholtzNonAnalyticElement K)
    (tau delta : K) (dDELTA2_dDelta2 : K) : K :=
  el.b * (F.pow (NonAnalytic.DELTA F el tau delta) (el.b - 1) * dDELTA2_dDelta2 + (el.b - 1) *
      F.pow (NonAnalytic.DELTA F el tau delta) (el.b - 2) * F.pow (NonAnalytic.dDELTA_dDelta F el
      tau delta) 2)

/-- Lines 223 and 437: the closed form of `dDELTAbi3_dDelta3`, from the values of
`dDELTA2_dDelta2` and `dDELTA3_dDelta3` in scope. -/
def NonAnalytic.dDELTAbi3_dDelta3 (F : MathFns K) (el : ResidualHelmholtzNonAnalyticElement K)
    (tau delta : K) (dDELTA2_dDelta2 dDELTA3_dDelta3 : K) : K :=
  el.b * (F.pow (NonAnalytic.DELTA F el tau delta) (el.b - 1) * dDELTA3_dDelta3 +
      dDELTA2_dDelta2 * (el.b - 1) * F.pow (NonAnalytic.DELTA F el tau delta) (el.b - 2) *
      (NonAnalytic.dDELTA_dDelta F el tau delta) + (el.b - 1) * (F.pow (NonAnalytic.DELTA F el tau
      delta) (el.b - 2) * 2 * (NonAnalytic.dDELTA_dDelta F el tau delta) * dDELTA2_dDelta2 + F.pow
      (NonAnalytic.dDELTA_dDelta F el tau delta) 2 * (el.b - 2) * F.pow (NonAnalytic.DELTA F el tau
      delta) (el.b - 3) * (NonAnalytic.dDELTA_dDelta F el tau delta)))

/-- Line 232: `dDELTAbi3_dDelta2_dTau` as written in `all`, from the value of
`dDELTA2_dDelta2` in scope. -/
def NonAnalytic.dDELTAbi3_dDelta2_dTau (F : MathFns K) (el : ResidualHelmholtzNonAnalyticElement K)
    (tau delta : K) (dDELTA2_dDelta2 : K) : K :=
  el.b * ((el.b - 1) * F.pow (NonAnalytic.DELTA F el tau delta) (el.b - 2) *
      (NonAnalytic.dDELTA_dTau F el tau delta) * dDELTA2_dDelta2 + F.pow (NonAnalytic.DELTA F el tau
      delta) (el.b - 1) * (NonAnalytic.dDELTA3_dDelta2_dTau F el tau delta) + (el.b - 1) * ((el.b -
      2) * F.pow (NonAnalytic.DELTA F el tau delta) (el.b - 3) * (NonAnalytic.dDELTA_dTau F el tau
      delta) * F.pow (NonAnalytic.dDELTA_dDelta F el tau delta) 2 + F.pow (NonAnalytic.DELTA F el
      tau delta) (el.b - 2) * 2 * (NonAnalytic.dDELTA_dDelta F el tau delta) *
      (NonAnalytic.dDELTA2_dDelta_dTau F el tau delta)))

/-- Lines 536-540: `dDELTAbi3_dDelta2_dTau` as written in `dDelta2_dTau`, from the value of
`dDELTA2_dDelta2` in scope. -/
def NonAnalytic.dDELTAbi3_dDelta2_dTau_lines (F : MathFns K) (el : ResidualHelmholtzNonAnalyticElement K)
    (tau delta : K) (dDELTA2_dDelta2 : K) : K :=
  let dDELTAbim1_dTau := (el.b - 1) * F.pow (NonAnalytic.DELTA F el tau delta) (el.b - 2) *
      (NonAnalytic.dDELTA_dTau F el tau delta)
  let dDELTAbim2_dTau := (el.b - 2) * F.pow (NonAnalytic.DELTA F el tau delta) (el.b - 3) *
      (NonAnalytic.dDELTA_dTau F el tau delta)
  let Line11 := dDELTAbim1_dTau * dDELTA2_dDelta2 + F.pow (NonAnalytic.DELTA F el tau delta)
      (el.b - 1) * (NonAnalytic.dDELTA3_dDelta2_dTau F el tau delta)
  let Line21 := (el.b - 1) * (dDELTAbim2_dTau * F.pow (NonAnalytic.dDELTA_dDelta F el tau delta)
      2 + F.pow (NonAnalytic.DELTA F el tau delta) (el.b - 2) * 2 * (NonAnalytic.dDELTA_dDelta F el
      tau delta) * (NonAnalytic.dDELTA2_dDelta_dTau F el tau delta))
  el.b * (Line11 + Line21)

/-- Lines 285-291 (and the same lines of the other accessors): `dDELTAbi_dDelta` under the
guard on `DELTA`. -/
def NonAnalytic.dDELTAbi_dDelta_guarded (F : MathFns K) (el : ResidualHelmholtzNonAnalyticElement K)
    (tau delta : K) : K :=
  if |NonAnalytic.DELTA F el tau delta| < 10 * DBL_EPSILON then 0
  else NonAnalytic.dDELTAbi_dDelta F el tau delta

/-- An element whose `DELTA` is the plain quadratic `(1 - tau)^2 + (delta - 1)^2`:
`n = 1`, `a = 1`, `beta = 1`, `A = 0`, `B = 1`, `C = D = 0`, with the given `b`. -/
def quadraticElement (b : K) : ResidualHelmholtzNonAnalyticElement K :=
  { n := 1, a := 1, b := b, beta := 1, A := 0, B := 1, C := 0, D := 0 }

/-- The first element of the `NonAnalytic` term of the consistency fixture
(lines 1043-1045). -/
def fixtureElement : ResidualHelmholtzNonAnalyticElement K :=
  { n := -0.666422765408, a := 3.5, b := 0.875, beta := 0.3, A := 0.7, B := 0.3, C := 10,
    D := 275 }

/-- The term the constructor builds from one element: `N = 1` and one scratch slot. -/
def singleTerm (el : ResidualHelmholtzNonAnalyticElement K) : ResidualHelmholtzNonAnalytic K :=
  { N := 1, s := [0], elements := [el] }

/-- An element with the quadratic `DELTA` and a Gaussian in `tau` only: `n = 1`,
`a = b = beta = 1`, `A = 0`, `B = 1`, `C = 0`, `D = 1`. -/
def gaussianElement : ResidualHelmholtzNonAnalyticElement K :=
  { n := 1, a := 1, b := 1, beta := 1, A := 0, B := 1, C := 0, D := 1 }

/-- An element whose `DELTA` is `theta^2` with `theta = (1 - tau) + (delta - 1)^2`:
`n = 1`, `a = b = 1`, `beta = 1/2`, `A = 1`, `B = 0`, `C = D = 0`. -/
def thetaElement : ResidualHelmholtzNonAnalyticElement K :=
  { n := 1, a := 1, b := 1, beta := 1 / 2, A := 1, B := 0, C := 0, D := 0 }

/-- An element whose `DELTA` is `(1 - tau)^2 + (delta - 1)^6`: `n = 1`, `a = 3`,
`b = beta = 1`, `A = 0`, `B = 1`, `C = D = 0`. -/
def cubicElement : ResidualHelmholtzNonAnalyticElement K :=
  { n := 1, a := 3, b := 1, beta := 1, A := 0, B := 1, C := 0, D := 0 }

/-- An element whose `DELTA` is `theta^2` with `theta = (1 - tau) + (delta - 1)^2`, taken to
the power `b = 2`: `n = 1`, `a = 1`, `b = 2`, `beta = 1/2`, `A = 1`, `B = 0`, `C = D = 0`. -/
def thetaSquareElement : ResidualHelmholtzNonAnalyticElement K :=
  { n := 1, a := 1, b := 2, beta := 1 / 2, A := 1, B := 0, C := 0, D := 0 }

/-- The record that `ResidualHelmholtzNonAnalytic::to_json` writes: the `type` tag and the
eight coefficient arrays. -/
structure NonAnalyticJson (K : Type) where
  type : String
  n : List K
  a : List K
  b : List K
  beta : List K
  A : List K
  B : List K
  C : List K
  D : List K

/-- Lines 152-156: the record before the loop, with the `type` tag and eight empty arrays. -/
def NonAnalyticJson.empty : NonAnalyticJson K :=
  { type := "ResidualHelmholtzNonAnalytic", n := [], a := [], b := [], beta := [], A := [],
    B := [], C := [], D := [] }

/-- Lines 159-167: one pass of the loop of `to_json` at index `i`.  It reads `elements[i]`
and pushes the eight coefficients of that element to the back of the arrays; a read past the
end of `elements` is the error `i`.  The casts to `double` are read as exact. -/
def ResidualHelmholtzNonAnalytic.to_json_step (self : ResidualHelmholtzNonAnalytic K)
    (acc : NonAnalyticJson K) (i : Nat) : Except Nat (NonAnalyticJson K) :=
  match self.elements[i]? with
  | none => Except.error i
  | some el =>
    Except.ok { acc with
      n := acc.n ++ [el.n], a := acc.a ++ [el.a], b := acc.b ++ [el.b],
      beta := acc.beta ++ [el.beta], A := acc.A ++ [el.A], B := acc.B ++ [el.B],
      C := acc.C ++ [el.C], D := acc.D ++ [el.D] }

/-- Lines 150-177: `ResidualHelmholtzNonAnalytic::to_json`.  The loop
`for (unsigned int i=0; i<=N; ++i)` visits the indices `0, ..., N`. -/
def ResidualHelmholtzNonAnalytic.to_json (self : ResidualHelmholtzNonAnalytic K) :
    Except Nat (NonAnalyticJson K) :=
  (List.range (self.N + 1)).foldlM self.to_json_step NonAnalyticJson.empty

/-- The record with the coefficient columns of a list of elements. -/
def NonAnalyticJson.ofElements (els : List (ResidualHelmholtzNonAnalyticElement K)) :
    NonAnalyticJson K :=
  { type := "ResidualHelmholtzNonAnalytic", n := els.map (fun el => el.n), a := els.map (fun el => el.a),
    b := els.map (fun el => el.b), beta := els.map (fun el => el.beta), A := els.map (fun el => el.A), B := els.map (fun el => el.B),
    C := els.map (fun el => el.C), D := els.map (fun el => el.D) }

/-- The values that the ten accessors store in `s[i]` for one element, arranged as an
aggregate: `base` in `alphar`, `dDelta` in `dalphar_ddelta`, and so on. -/
def ResidualHelmholtzNonAnalytic.accessor_elements (F : MathFns K)
    (el : ResidualHelmholtzNonAnalyticElement K) (tau delta : K) : HelmholtzDerivatives K where
  alphar := ResidualHelmholtzNonAnalytic.base_element F el tau delta
  dalphar_ddelta := ResidualHelmholtzNonAnalytic.dDelta_element F el tau delta
  dalphar_dtau := ResidualHelmholtzNonAnalytic.dTau_element F el tau delta
  d2alphar_ddelta2 := ResidualHelmholtzNonAnalytic.dDelta2_element F el tau delta
  d2alphar_ddelta_dtau := ResidualHelmholtzNonAnalytic.dDelta_dTau_element F el tau delta
  d2alphar_dtau2 := ResidualHelmholtzNonAnalytic.dTau2_element F el tau delta
  d3alphar_ddelta3 := ResidualHelmholtzNonAnalytic.dDelta3_element F el tau delta
  d3alphar_ddelta2_dtau := ResidualHelmholtzNonAnalytic.dDelta2_dTau_element F el tau delta
  d3alphar_ddelta_dtau2 := ResidualHelmholtzNonAnalytic.dDelta_dTau2_element F el tau delta
  d3alphar_dtau3 := ResidualHelmholtzNonAnalytic.dTau3_element F el tau delta

/-- The values of the ten accessors on a term, arranged as an aggregate. -/
def ResidualHelmholtzNonAnalytic.accessors (F : MathFns K)
    (self : ResidualHelmholtzNonAnalytic K) (tau delta : K) : HelmholtzDerivatives K where
  alphar := self.base F tau delta
  dalphar_ddelta := self.dDelta F tau delta
  dalphar_dtau := self.dTau F tau delta
  d2alphar_ddelta2 := self.dDelta2 F tau delta
  d2alphar_ddelta_dtau := self.dDelta_dTau F tau delta
  d2alphar_dtau2 := self.dTau2 F tau delta
  d3alphar_ddelta3 := self.dDelta3 F tau delta
  d3alphar_ddelta2_dtau := self.dDelta2_dTau F tau delta
  d3alphar_ddelta_dtau2 := self.dDelta_dTau2 F tau delta
  d3alphar_dtau3 := self.dTau3 F tau delta

end NonAnalytic

section GuardedDivision

/-- The result of a computation in which division is guarded: a value, or the record
that a division by zero was attempted. -/
inductive Guarded (K : Type) where
  | ok (x : K)
  | divByZero

/-- Sequencing of guarded computations: a failed statement fails the whole function. -/
def Guarded.bind {K L : Type} (m : Guarded K) (f : K → Guarded L) : Guarded L :=
  match m with
  | Guarded.ok x => f x
  | Guarded.divByZero => Guarded.divByZero

instance : Monad Guarded where
  pure := Guarded.ok
  bind := Guarded.bind

/-- An operation that cannot fail, applied to two guarded operands. -/
def Guarded.map₂ {K : Type} (f : K → K → K) (a b : Guarded K) : Guarded K :=
  a.bind fun x => b.bind fun y => Guarded.ok (f x y)

instance {K : Type} [Add K] : Add (Guarded K) := ⟨Guarded.map₂ (· + ·)⟩

instance {K : Type} [Sub K] : Sub (Guarded K) := ⟨Guarded.map₂ (· - ·)⟩

instance {K : Type} [Mul K] : Mul (Guarded K) := ⟨Guarded.map₂ (· * ·)⟩

instance {K : Type} [Neg K] : Neg (Guarded K) := ⟨fun a => a.bind fun x => Guarded.ok (-x)⟩

/-- Guarded division: a zero divisor is the error. -/
def Guarded.div {K : Type} [LinearOrderedField K] (a b : Guarded K) : Guarded K :=
  a.bind fun x => b.bind fun y => if y = 0 then Guarded.divByZero else Guarded.ok (x / y)

instance {K : Type} [LinearOrderedField K] : Div (Guarded K) := ⟨Guarded.div⟩

instance {K : Type} (n : ℕ) [OfNat K n] : OfNat (Guarded K) n := ⟨Guarded.ok (OfNat.ofNat n)⟩

/-- Guarded `pow`: a zero base with a negative exponent is a division by zero. -/
def gpow {K : Type} [LinearOrderedField K] (F : MathFns K) (a b : Guarded K) : Guarded K :=
  a.bind fun x => b.bind fun y =>
    if x = 0 ∧ y < 0 then Guarded.divByZero else Guarded.ok (F.pow x y)

/-- Guarded `exp`: it never fails by itself. -/
def gexp {K : Type} (F : MathFns K) (a : Guarded K) : Guarded K :=
  a.bind fun x => Guarded.ok (F.exp x)

variable {K : Type} [LinearOrderedField K]

open Guarded

/-- Lines 315-356: the loop body of `ResidualHelmholtzNonAnalytic::dDelta2` with guarded
division, statement by statement in the order of the source. -/
def ResidualHelmholtzNonAnalytic.dDelta2_element_guarded (F : MathFns K)
    (el : ResidualHelmholtzNonAnalyticElement K) (tau delta : K) : Guarded K := do
  let theta ← (1 - (ok tau)) + (ok el.A) * gpow F (gpow F ((ok delta) - 1) 2) (1 / (2 * (ok
      el.beta)))
  let DELTA ← gpow F (ok theta) 2 + (ok el.B) * gpow F (gpow F ((ok delta) - 1) 2) (ok el.a)
  let PSI ← gexp F ((-(ok el.C)) * gpow F ((ok delta) - 1) 2 - (ok el.D) * gpow F ((ok tau) - 1)
      2)
  let dPSI_dDelta ← (-2) * (ok el.C) * ((ok delta) - 1) * (ok PSI)
  let dDELTA_dDelta ← ((ok delta) - 1) * ((ok el.A) * (ok theta) * 2 / (ok el.beta) * gpow F
      (gpow F ((ok delta) - 1) 2) (1 / (2 * (ok el.beta)) - 1) + 2 * (ok el.B) * (ok el.a) * gpow F
      (gpow F ((ok delta) - 1) 2) ((ok el.a) - 1))
  let dDELTA_dDelta_over_delta_minus_1 ← ((ok el.A) * (ok theta) * 2 / (ok el.beta) * gpow F
      (gpow F ((ok delta) - 1) 2) (1 / (2 * (ok el.beta)) - 1) + 2 * (ok el.B) * (ok el.a) * gpow F
      (gpow F ((ok delta) - 1) 2) ((ok el.a) - 1))
  let dPSI2_dDelta2 ← (2 * (ok el.C) * gpow F ((ok delta) - 1) 2 - 1) * 2 * (ok el.C) * (ok PSI)
  let dDELTA2_dDelta2 ← (if |delta - 1| < 10 * DBL_EPSILON then 0 else (ok
      dDELTA_dDelta_over_delta_minus_1) + gpow F ((ok delta) - 1) 2 * (4 * (ok el.B) * (ok el.a) *
      ((ok el.a) - 1) * gpow F (gpow F ((ok delta) - 1) 2) ((ok el.a) - 2) + 2 * gpow F ((ok el.A) /
      (ok el.beta)) 2 * gpow F (gpow F (gpow F ((ok delta) - 1) 2) (1 / (2 * (ok el.beta)) - 1)) 2 +
      (ok el.A) * (ok theta) * 4 / (ok el.beta) * (1 / (2 * (ok el.beta)) - 1) * gpow F (gpow F ((ok
      delta) - 1) 2) (1 / (2 * (ok el.beta)) - 2)))
  let dDELTAbi2_dDelta2 ← (if |delta - 1| < 10 * DBL_EPSILON then 0 else (ok el.b) * (gpow F (ok
      DELTA) ((ok el.b) - 1) * (ok dDELTA2_dDelta2) + ((ok el.b) - 1) * gpow F (ok DELTA) ((ok el.b)
      - 2) * gpow F (ok dDELTA_dDelta) 2))
  let dDELTAbi_dDelta ← (if |DELTA| < 10 * DBL_EPSILON then 0 else (ok el.b) * gpow F (ok DELTA)
      ((ok el.b) - 1) * (ok dDELTA_dDelta))
  (ok el.n) * (gpow F (ok DELTA) (ok el.b) * (2 * (ok dPSI_dDelta) + (ok delta) * (ok
      dPSI2_dDelta2)) + 2 * (ok dDELTAbi_dDelta) * ((ok PSI) + (ok delta) * (ok dPSI_dDelta)) + (ok
      dDELTAbi2_dDelta2) * (ok delta) * (ok PSI))

/-- Lines 413-451: the loop body of `ResidualHelmholtzNonAnalytic::dDelta3` with guarded
division, statement by statement in the order of the source. -/
def ResidualHelmholtzNonAnalytic.dDelta3_element_guarded (F : MathFns K)
    (el : ResidualHelmholtzNonAnalyticElement K) (tau delta : K) : Guarded K := do
  let theta ← (1 - (ok tau)) + (ok el.A) * gpow F (gpow F ((ok delta) - 1) 2) (1 / (2 * (ok
      el.beta)))
  let DELTA ← gpow F (ok theta) 2 + (ok el.B) * gpow F (gpow F ((ok delta) - 1) 2) (ok el.a)
  let PSI ← gexp F ((-(ok el.C)) * gpow F ((ok delta) - 1) 2 - (ok el.D) * gpow F ((ok tau) - 1)
      2)
  let dPSI_dDelta ← (-2) * (ok el.C) * ((ok delta) - 1) * (ok PSI)
  let dDELTA_dDelta ← ((ok delta) - 1) * ((ok el.A) * (ok theta) * 2 / (ok el.beta) * gpow F
      (gpow F ((ok delta) - 1) 2) (1 / (2 * (ok el.beta)) - 1) + 2 * (ok el.B) * (ok el.a) * gpow F
      (gpow F ((ok delta) - 1) 2) ((ok el.a) - 1))
  let dPSI2_dDelta2 ← (2 * (ok el.C) * gpow F ((ok delta) - 1) 2 - 1) * 2 * (ok el.C) * (ok PSI)
  let dDELTA2_dDelta2 ← 1 / ((ok delta) - 1) * (ok dDELTA_dDelta) + gpow F ((ok delta) - 1) 2 *
      (4 * (ok el.B) * (ok el.a) * ((ok el.a) - 1) * gpow F (gpow F ((ok delta) - 1) 2) ((ok el.a) -
      2) + 2 * gpow F ((ok el.A) / (ok el.beta)) 2 * gpow F (gpow F (gpow F ((ok delta) - 1) 2) (1 /
      (2 * (ok el.beta)) - 1)) 2 + (ok el.A) * (ok theta) * 4 / (ok el.beta) * (1 / (2 * (ok
      el.beta)) - 1) * gpow F (gpow F ((ok delta) - 1) 2) (1 / (2 * (ok el.beta)) - 2))
  let dDELTAbi2_dDelta2 ← (ok el.b) * (gpow F (ok DELTA) ((ok el.b) - 1) * (ok dDELTA2_dDelta2)
      + ((ok el.b) - 1) * gpow F (ok DELTA) ((ok el.b) - 2) * gpow F (ok dDELTA_dDelta) 2)
  let dtheta_dDelta ← (ok el.A) / (2 * (ok el.beta)) * gpow F (gpow F ((ok delta) - 1) 2) (1 /
      (2 * (ok el.beta)) - 1) * 2 * ((ok delta) - 1)
  let dPSI3_dDelta3 ← 2 * (ok el.C) * (ok PSI) * ((-4) * (ok el.C) * (ok el.C) * gpow F ((ok
      delta) - 1) 3 + 6 * (ok el.C) * ((ok delta) - 1))
  let PI ← 4 * (ok el.B) * (ok el.a) * ((ok el.a) - 1) * gpow F (gpow F ((ok delta) - 1) 2) ((ok
      el.a) - 2) + 2 * gpow F ((ok el.A) / (ok el.beta)) 2 * gpow F (gpow F ((ok delta) - 1) 2) (1 /
      (ok el.beta) - 2) + 4 * (ok el.A) * (ok theta) / (ok el.beta) * (1 / (2 * (ok el.beta)) - 1) *
      gpow F (gpow F ((ok delta) - 1) 2) (1 / (2 * (ok el.beta)) - 2)
  let dPI_dDelta ← (-8) * (ok el.B) * (ok el.a) * ((ok el.a) - 1) * ((ok el.a) - 2) * gpow F
      (gpow F ((ok delta) - 1) 2) ((ok el.a) - 5 / 2) - 8 * gpow F ((ok el.A) / (ok el.beta)) 2 * (1
      / (2 * (ok el.beta)) - 1) * gpow F (gpow F ((ok delta) - 1) 2) (1 / (ok el.beta) - 5 / 2) - (8
      * (ok el.A) * (ok theta)) / (ok el.beta) * (1 / (2 * (ok el.beta)) - 1) * (1 / (2 * (ok
      el.beta)) - 2) * gpow F (gpow F ((ok delta) - 1) 2) (1 / (2 * (ok el.beta)) - 5 / 2) + 4 * (ok
      el.A) / (ok el.beta) * (1 / (2 * (ok el.beta)) - 1) * gpow F (gpow F ((ok delta) - 1) 2) (1 /
      (2 * (ok el.beta)) - 2) * (ok dtheta_dDelta)
  let dDELTA3_dDelta3 ← 1 / ((ok delta) - 1) * (ok dDELTA2_dDelta2) - 1 / gpow F ((ok delta) -
      1) 2 * (ok dDELTA_dDelta) + gpow F ((ok delta) - 1) 2 * (ok dPI_dDelta) + 2 * ((ok delta) - 1)
      * (ok PI)
  let dDELTAbi3_dDelta3 ← (ok el.b) * (gpow F (ok DELTA) ((ok el.b) - 1) * (ok dDELTA3_dDelta3)
      + (ok dDELTA2_dDelta2) * ((ok el.b) - 1) * gpow F (ok DELTA) ((ok el.b) - 2) * (ok
      dDELTA_dDelta) + ((ok el.b) - 1) * (gpow F (ok DELTA) ((ok el.b) - 2) * 2 * (ok dDELTA_dDelta)
      * (ok dDELTA2_dDelta2) + gpow F (ok dDELTA_dDelta) 2 * ((ok el.b) - 2) * gpow F (ok DELTA)
      ((ok el.b) - 3) * (ok dDELTA_dDelta)))
  let dDELTAbi_dDelta ← (if |DELTA| < 10 * DBL_EPSILON then 0 else (ok el.b) * gpow F (ok DELTA)
      ((ok el.b) - 1) * (ok dDELTA_dDelta))
  (ok el.n) * (gpow F (ok DELTA) (ok el.b) * (3 * (ok dPSI2_dDelta2) + (ok delta) * (ok
      dPSI3_dDelta3)) + 3 * (ok dDELTAbi_dDelta) * (2 * (ok dPSI_dDelta) + (ok delta) * (ok
      dPSI2_dDelta2)) + 3 * (ok dDELTAbi2_dDelta2) * ((ok PSI) + (ok delta) * (ok dPSI_dDelta)) +
      (ok dDELTAbi3_dDelta3) * (ok PSI) * (ok delta))

end GuardedDivision

section SAFTAssociating

variable {K : Type} [LinearOrderedField K]

/-- The term `ResidualHelmholtzSAFTAssociating`: five scalar coefficients and the
`disabled` flag. -/
structure ResidualHelmholtzSAFTAssociating (K : Type) where
  a : K
  m : K
  epsilonbar : K
  vbarn : K
  kappabar : K
  disabled : Bool

/-- Lines 768-771: `ResidualHelmholtzSAFTAssociating::g`. -/
def ResidualHelmholtzSAFTAssociating.g (F : MathFns K)
    (_self : ResidualHelmholtzSAFTAssociating K) (eta : K) : K :=
  0.5 * (2 - eta) / F.pow (1 - eta) 3

/-- Lines 772-775: `ResidualHelmholtzSAFTAssociating::dg_deta`. -/
def ResidualHelmholtzSAFTAssociating.dg_deta (F : MathFns K)
    (_self : ResidualHelmholtzSAFTAssociating K) (eta : K) : K :=
  0.5 * (5 - 2 * eta) / F.pow (1 - eta) 4

/-- Lines 776-779: `ResidualHelmholtzSAFTAssociating::d2g_deta2`. -/
def ResidualHelmholtzSAFTAssociating.d2g_deta2 (F : MathFns K)
    (_self : ResidualHelmholtzSAFTAssociating K) (eta : K) : K :=
  3 * (3 - eta) / F.pow (1 - eta) 5

/-- Lines 780-783: `ResidualHelmholtzSAFTAssociating::d3g_deta3`. -/
def ResidualHelmholtzSAFTAssociating.d3g_deta3 (F : MathFns K)
    (_self : ResidualHelmholtzSAFTAssociating K) (eta : K) : K :=
  6 * (7 - 2 * eta) / F.pow (1 - eta) 6

/-- Lines 784-786: `ResidualHelmholtzSAFTAssociating::eta`. -/
def ResidualHelmholtzSAFTAssociating.eta (_F : MathFns K)
    (self : ResidualHelmholtzSAFTAssociating K) (delta : K) : K :=
  self.vbarn * delta

/-- Lines 581-584: `ResidualHelmholtzSAFTAssociating::Deltabar`. -/
def ResidualHelmholtzSAFTAssociating.Deltabar (F : MathFns K)
    (self : ResidualHelmholtzSAFTAssociating K) (tau delta : K) : K :=
  self.g F (self.eta F delta) * (F.exp (self.epsilonbar * tau) - 1) * self.kappabar

/-- Lines 585-588: `ResidualHelmholtzSAFTAssociating::dDeltabar_ddelta__consttau`. -/
def ResidualHelmholtzSAFTAssociating.dDeltabar_ddelta__consttau (F : MathFns K)
    (self : ResidualHelmholtzSAFTAssociating K) (tau delta : K) : K :=
  self.dg_deta F (self.eta F delta) * (F.exp (self.epsilonbar * tau) - 1) * self.kappabar *
      self.vbarn

/-- Lines 589-592: `ResidualHelmholtzSAFTAssociating::d2Deltabar_ddelta2__consttau`. -/
def ResidualHelmholtzSAFTAssociating.d2Deltabar_ddelta2__consttau (F : MathFns K)
    (self : ResidualHelmholtzSAFTAssociating K) (tau delta : K) : K :=
  self.d2g_deta2 F (self.eta F delta) * (F.exp (self.epsilonbar * tau) - 1) * self.kappabar *
      F.pow self.vbarn 2

/-- Lines 593-596: `ResidualHelmholtzSAFTAssociating::dDeltabar_dtau__constdelta`. -/
def ResidualHelmholtzSAFTAssociating.dDeltabar_dtau__constdelta (F : MathFns K)
    (self : ResidualHelmholtzSAFTAssociating K) (tau delta : K) : K :=
  self.g F (self.eta F delta) * self.kappabar * F.exp (self.epsilonbar * tau) * self.epsilonbar

/-- Lines 597-600: `ResidualHelmholtzSAFTAssociating::d2Deltabar_dtau2__constdelta`. -/
def ResidualHelmholtzSAFTAssociating.d2Deltabar_dtau2__constdelta (F : MathFns K)
    (self : ResidualHelmholtzSAFTAssociating K) (tau delta : K) : K :=
  self.g F (self.eta F delta) * self.kappabar * F.exp (self.epsilonbar * tau) * F.pow
      self.epsilonbar 2

/-- Lines 601-604: `ResidualHelmholtzSAFTAssociating::d2Deltabar_ddelta_dtau`. -/
def ResidualHelmholtzSAFTAssociating.d2Deltabar_ddelta_dtau (F : MathFns K)
    (self : ResidualHelmholtzSAFTAssociating K) (tau delta : K) : K :=
  self.dg_deta F (self.eta F delta) * F.exp (self.epsilonbar * tau) * self.epsilonbar *
      self.kappabar * self.vbarn

/-- Lines 605-608: `ResidualHelmholtzSAFTAssociating::d3Deltabar_dtau3__constdelta`. -/
def ResidualHelmholtzSAFTAssociating.d3Deltabar_dtau3__constdelta (F : MathFns K)
    (self : ResidualHelmholtzSAFTAssociating K) (tau delta : K) : K :=
  self.g F (self.eta F delta) * self.kappabar * F.exp (self.epsilonbar * tau) * F.pow
      self.epsilonbar 3

/-- Lines 609-612: `ResidualHelmholtzSAFTAssociating::d3Deltabar_ddelta_dtau2`. -/
def ResidualHelmholtzSAFTAssociating.d3Deltabar_ddelta_dtau2 (F : MathFns K)
    (self : ResidualHelmholtzSAFTAssociating K) (tau delta : K) : K :=
  self.dg_deta F (self.eta F delta) * self.kappabar * F.exp (self.epsilonbar * tau) * F.pow
      self.epsilonbar 2 * self.vbarn

/-- Lines 613-616: `ResidualHelmholtzSAFTAssociating::d3Deltabar_ddelta2_dtau`. -/
def ResidualHelmholtzSAFTAssociating.d3Deltabar_ddelta2_dtau (F : MathFns K)
    (self : ResidualHelmholtzSAFTAssociating K) (tau delta : K) : K :=
  self.d2g_deta2 F (self.eta F delta) * F.exp (self.epsilonbar * tau) * self.epsilonbar *
      self.kappabar * F.pow self.vbarn 2

/-- Lines 617-620: `ResidualHelmholtzSAFTAssociating::d3Deltabar_ddelta3__consttau`. -/
def ResidualHelmholtzSAFTAssociating.d3Deltabar_ddelta3__consttau (F : MathFns K)
    (self : ResidualHelmholtzSAFTAssociating K) (tau delta : K) : K :=
  self.d3g_deta3 F (self.eta F delta) * (F.exp (self.epsilonbar * tau) - 1) * self.kappabar *
      F.pow self.vbarn 3

/-- Lines 622-625: `ResidualHelmholtzSAFTAssociating::X`. -/
def ResidualHelmholtzSAFTAssociating.X (F : MathFns K)
    (_self : ResidualHelmholtzSAFTAssociating K) (delta Deltabar : K) : K :=
  2 / (F.sqrt (1 + 4 * Deltabar * delta) + 1)

/-- Lines 626-630: `ResidualHelmholtzSAFTAssociating::dX_dDeltabar__constdelta`. -/
def ResidualHelmholtzSAFTAssociating.dX_dDeltabar__constdelta (F : MathFns K)
    (self : ResidualHelmholtzSAFTAssociating K) (delta Deltabar : K) : K :=
  let X := self.X F delta Deltabar
  (-delta) * X * X / (2 * Deltabar * delta * X + 1)

/-- Lines 631-635: `ResidualHelmholtzSAFTAssociating::dX_ddelta__constDeltabar`. -/
def ResidualHelmholtzSAFTAssociating.dX_ddelta__constDeltabar (F : MathFns K)
    (self : ResidualHelmholtzSAFTAssociating K) (delta Deltabar : K) : K :=
  let X := self.X F delta Deltabar
  (-Deltabar) * X * X / (2 * Deltabar * delta * X + 1)

/-- Lines 636-640: `ResidualHelmholtzSAFTAssociating::dX_dtau`. -/
def ResidualHelmholtzSAFTAssociating.dX_dtau (F : MathFns K)
    (self : ResidualHelmholtzSAFTAssociating K) (tau delta : K) : K :=
  let Deltabar := self.Deltabar F tau delta
  self.dX_dDeltabar__constdelta F delta Deltabar * self.dDeltabar_dtau__constdelta F tau delta

/-- Lines 641-646: `ResidualHelmholtzSAFTAssociating::dX_ddelta`. -/
def ResidualHelmholtzSAFTAssociating.dX_ddelta (F : MathFns K)
    (self : ResidualHelmholtzSAFTAssociating K) (tau delta : K) : K :=
  let Deltabar := self.Deltabar F tau delta
  (self.dX_ddelta__constDeltabar F delta Deltabar + self.dX_dDeltabar__constdelta F delta
      Deltabar * self.dDeltabar_ddelta__consttau F tau delta)

/-- Lines 647-658: `ResidualHelmholtzSAFTAssociating::d2X_dtau2`. -/
def ResidualHelmholtzSAFTAssociating.d2X_dtau2 (F : MathFns K)
    (self : ResidualHelmholtzSAFTAssociating K) (tau delta : K) : K :=
  let Deltabar := self.Deltabar F tau delta
  let X := self.X F delta Deltabar
  let beta := self.dDeltabar_dtau__constdelta F tau delta
  let d_dXdtau_dbeta := (-delta) * X * X / (2 * Deltabar * delta * X + 1)
  let d_dXdtau_dDeltabar := 2 * delta * delta * X * X * X / F.pow (2 * Deltabar * delta * X + 1)
      2 * beta
  let d_dXdtau_dX := (-2) * beta * delta * X * (Deltabar * delta * X + 1) / F.pow (2 * Deltabar
      * delta * X + 1) 2
  let dbeta_dtau := self.d2Deltabar_dtau2__constdelta F tau delta
  let dX_dDeltabar := self.dX_dDeltabar__constdelta F delta Deltabar
  d_dXdtau_dX * dX_dDeltabar * beta + d_dXdtau_dDeltabar * beta + d_dXdtau_dbeta * dbeta_dtau

/-- Lines 659-671: `ResidualHelmholtzSAFTAssociating::d2X_ddeltadtau`. -/
def ResidualHelmholtzSAFTAssociating.d2X_ddeltadtau (F : MathFns K)
    (self : ResidualHelmholtzSAFTAssociating K) (tau delta : K) : K :=
  let Deltabar := self.Deltabar F tau delta
  let X := self.X F delta Deltabar
  let alpha := self.dDeltabar_ddelta__consttau F tau delta
  let beta := self.dDeltabar_dtau__constdelta F tau delta
  let dalpha_dtau := self.d2Deltabar_ddelta_dtau F tau delta
  let d_dXddelta_dDeltabar := X * X * (2 * delta * delta * X * alpha - 1) / F.pow (2 * Deltabar
      * delta * X + 1) 2
  let d_dXddelta_dalpha := (-delta) * X * X / (2 * Deltabar * delta * X + 1)
  let d_dXddelta_dX := (-(Deltabar + delta * alpha)) * 2 * (Deltabar * delta * X * X + X) /
      F.pow (2 * Deltabar * delta * X + 1) 2
  let dX_dDeltabar := self.dX_dDeltabar__constdelta F delta Deltabar
  d_dXddelta_dX * dX_dDeltabar * beta + d_dXddelta_dDeltabar * beta + d_dXddelta_dalpha *
      dalpha_dtau

/-- Lines 672-693: `ResidualHelmholtzSAFTAssociating::d2X_ddelta2`. -/
def ResidualHelmholtzSAFTAssociating.d2X_ddelta2 (F : MathFns K)
    (self : ResidualHelmholtzSAFTAssociating K) (tau delta : K) : K :=
  let Deltabar := self.Deltabar F tau delta
  let X := self.X F delta Deltabar
  let alpha := self.dDeltabar_ddelta__consttau F tau delta
  let dalpha_ddelta := self.d2Deltabar_ddelta2__consttau F tau delta
  let dX_ddelta_constall := X * X * (2 * Deltabar * Deltabar * X - alpha) / F.pow (2 * Deltabar
      * delta * X + 1) 2
  let d_dXddelta_dX := (-(Deltabar + delta * alpha)) * 2 * (Deltabar * delta * X * X + X) /
      F.pow (2 * Deltabar * delta * X + 1) 2
  let d_dXddelta_dDeltabar := X * X * (2 * delta * delta * X * alpha - 1) / F.pow (2 * Deltabar
      * delta * X + 1) 2
  let d_dXddelta_dalpha := (-delta) * X * X / (2 * Deltabar * delta * X + 1)
  let dX_dDeltabar := self.dX_dDeltabar__constdelta F delta Deltabar
  let dX_ddelta := self.dX_ddelta__constDeltabar F delta Deltabar
  let val := (dX_ddelta_constall + d_dXddelta_dX * dX_ddelta + d_dXddelta_dX * dX_dDeltabar *
      alpha + d_dXddelta_dDeltabar * alpha + d_dXddelta_dalpha * dalpha_ddelta)
  val

/-- Lines 694-707: `ResidualHelmholtzSAFTAssociating::d3X_dtau3`. -/
def ResidualHelmholtzSAFTAssociating.d3X_dtau3 (F : MathFns K)
    (self : ResidualHelmholtzSAFTAssociating K) (tau delta : K) : K :=
  let Delta := self.Deltabar F tau delta
  let X := self.X F delta Delta
  let dX_dDelta := self.dX_dDeltabar__constdelta F delta Delta
  let Delta_t := self.dDeltabar_dtau__constdelta F tau delta
  let Delta_tt := self.d2Deltabar_dtau2__constdelta F tau delta
  let Delta_ttt := self.d3Deltabar_dtau3__constdelta F tau delta
  let dXtt_dX := 2 * X * delta * ((-6) * Delta * F.pow Delta_t 2 * F.pow X 2 * F.pow delta 2 *
      (Delta * X * delta + 1) + 3 * F.pow Delta_t 2 * X * delta * (2 * Delta * X * delta + 1) -
      Delta_tt * F.pow (2 * Delta * X * delta + 1) 3 + X * delta * (Delta * Delta_tt + 3 * F.pow
      Delta_t 2) * F.pow (2 * Delta * X * delta + 1) 2) / F.pow (2 * Delta * X * delta + 1) 4
  let dXtt_dDelta := 2 * F.pow X 3 * F.pow delta 2 * ((-6) * F.pow Delta_t 2 * X * delta *
      (Delta * X * delta + 1) - 3 * F.pow Delta_t 2 * X * delta * (2 * Delta * X * delta + 1) +
      Delta_tt * F.pow (2 * Delta * X * delta + 1) 2) / F.pow (2 * Delta * X * delta + 1) 4
  let dXtt_dDelta_t := 4 * Delta_t * F.pow X 3 * F.pow delta 2 * (3 * Delta * X * delta + 2) /
      F.pow (2 * Delta * X * delta + 1) 3
  let dXtt_dDelta_tt := (-F.pow X 2) * delta / (2 * Delta * X * delta + 1)
  dXtt_dX * dX_dDelta * Delta_t + dXtt_dDelta * Delta_t + dXtt_dDelta_t * Delta_tt +
      dXtt_dDelta_tt * Delta_ttt

/-- Lines 708-725: `ResidualHelmholtzSAFTAssociating::d3X_ddeltadtau2`. -/
def ResidualHelmholtzSAFTAssociating.d3X_ddeltadtau2 (F : MathFns K)
    (self : ResidualHelmholtzSAFTAssociating K) (tau delta : K) : K :=
  let Delta := self.Deltabar F tau delta
  let X := self.X F delta Delta
  let dX_ddelta := self.dX_ddelta__constDeltabar F delta Delta
  let dX_dDelta := self.dX_dDeltabar__constdelta F delta Delta
  let Delta_t := self.dDeltabar_dtau__constdelta F tau delta
  let Delta_d := self.dDeltabar_ddelta__consttau F tau delta
  let Delta_dt := self.d2Deltabar_ddelta_dtau F tau delta
  let Delta_tt := self.d2Deltabar_dtau2__constdelta F tau delta
  let Delta_dtt := self.d3Deltabar_ddelta_dtau2 F tau delta
  let dXtt_ddelta := F.pow X 2 * ((-12) * Delta * F.pow Delta_t 2 * F.pow X 2 * F.pow delta 2 *
      (Delta * X * delta + 1) + 2 * F.pow Delta_t 2 * X * delta * ((-Delta) * X * delta + 2) * (2 *
      Delta * X * delta + 1) - Delta_tt * F.pow (2 * Delta * X * delta + 1) 3 + 2 * X * delta *
      (Delta * Delta_tt + 2 * F.pow Delta_t 2) * F.pow (2 * Delta * X * delta + 1) 2) / F.pow (2 *
      Delta * X * delta + 1) 4
  let dXtt_dX := 2 * X * delta * ((-6) * Delta * F.pow Delta_t 2 * F.pow X 2 * F.pow delta 2 *
      (Delta * X * delta + 1) + 3 * F.pow Delta_t 2 * X * delta * (2 * Delta * X * delta + 1) -
      Delta_tt * F.pow (2 * Delta * X * delta + 1) 3 + X * delta * (Delta * Delta_tt + 3 * F.pow
      Delta_t 2) * F.pow (2 * Delta * X * delta + 1) 2) / F.pow (2 * Delta * X * delta + 1) 4
  let dXtt_dDelta := 2 * F.pow X 3 * F.pow delta 2 * ((-6) * F.pow Delta_t 2 * X * delta *
      (Delta * X * delta + 1) - 3 * F.pow Delta_t 2 * X * delta * (2 * Delta * X * delta + 1) +
      Delta_tt * F.pow (2 * Delta * X * delta + 1) 2) / F.pow (2 * Delta * X * delta + 1) 4
  let dXtt_dDelta_t := 4 * Delta_t * F.pow X 3 * F.pow delta 2 * (3 * Delta * X * delta + 2) /
      F.pow (2 * Delta * X * delta + 1) 3
  let dXtt_dDelta_tt := (-F.pow X 2) * delta / (2 * Delta * X * delta + 1)
  dXtt_ddelta + dXtt_dX * dX_ddelta + dXtt_dX * dX_dDelta * Delta_d + dXtt_dDelta * Delta_d +
      dXtt_dDelta_t * Delta_dt + dXtt_dDelta_tt * Delta_dtt

/-- Lines 727-743: `ResidualHelmholtzSAFTAssociating::d3X_ddelta2dtau`. -/
def ResidualHelmholtzSAFTAssociating.d3X_ddelta2dtau (F : MathFns K)
    (self : ResidualHelmholtzSAFTAssociating K) (tau delta : K) : K :=
  let Delta := self.Deltabar F tau delta
  let X := self.X F delta Delta
  let dX_dDelta := self.dX_dDeltabar__constdelta F delta Delta
  let Delta_t := self.dDeltabar_dtau__constdelta F tau delta
  let Delta_d := self.dDeltabar_ddelta__consttau F tau delta
  let Delta_dd := self.d2Deltabar_ddelta2__consttau F tau delta
  let Delta_dt := self.d2Deltabar_ddelta_dtau F tau delta
  let Delta_ddt := self.d3Deltabar_ddelta2_dtau F tau delta
  let dXdd_dX := 2 * X * ((-6) * Delta * F.pow X 2 * delta * F.pow (Delta + Delta_d * delta) 2 *
      (Delta * X * delta + 1) - Delta_dd * delta * F.pow (2 * Delta * X * delta + 1) 3 + 2 * X * (2
      * Delta * X * delta + 1) * ((-Delta) * Delta_d * delta * (2 * Delta_d * X * F.pow delta 2 - 1)
      - Delta * delta * (2 * F.pow Delta 2 * X - Delta_d) + Delta * (Delta + Delta_d * delta) *
      (Delta * X * delta + 1) + Delta_d * delta * (Delta + Delta_d * delta) * (Delta * X * delta +
      1)) + F.pow (2 * Delta * X * delta + 1) 2 * (3 * F.pow Delta 2 * X + Delta * Delta_dd * X *
      F.pow delta 2 + Delta * X * (Delta + Delta_d * delta) + F.pow Delta_d 2 * X * F.pow delta 2 +
      Delta_d * X * delta * (Delta + Delta_d * delta) + Delta_d * (2 * Delta_d * X * F.pow delta 2 -
      1) - Delta_d)) / F.pow (2 * Delta * X * delta + 1) 4
  let dXdd_dDelta := F.pow X 3 * ((-8) * F.pow Delta 2 * Delta_d * F.pow X 2 * F.pow delta 3 + 8
      * F.pow Delta 2 * Delta_dd * F.pow X 2 * F.pow delta 4 + 10 * F.pow Delta 2 * X * delta - 24 *
      Delta * F.pow Delta_d 2 * F.pow X 2 * F.pow delta 4 + 8 * Delta * Delta_d * X * F.pow delta 2
      + 8 * Delta * Delta_dd * X * F.pow delta 3 + 8 * Delta - 18 * F.pow Delta_d 2 * X * F.pow
      delta 3 + 12 * Delta_d * delta + 2 * Delta_dd * F.pow delta 2) / (16 * F.pow Delta 4 * F.pow X
      4 * F.pow delta 4 + 32 * F.pow Delta 3 * F.pow X 3 * F.pow delta 3 + 24 * F.pow Delta 2 *
      F.pow X 2 * F.pow delta 2 + 8 * Delta * X * delta + 1)
  let dXdd_dDelta_d := 2 * F.pow X 2 * (2 * X * delta * (Delta + Delta_d * delta) * (Delta * X *
      delta + 1) + (2 * Delta * X * delta + 1) * (2 * Delta_d * X * F.pow delta 2 - 1)) / F.pow (2 *
      Delta * X * delta + 1) 3
  let dXdd_dDelta_dd := (-F.pow X 2) * delta / (2 * Delta * X * delta + 1)
  dXdd_dX * dX_dDelta * Delta_t + dXdd_dDelta * Delta_t + dXdd_dDelta_d * Delta_dt +
      dXdd_dDelta_dd * Delta_ddt

/-- Lines 750-767: `ResidualHelmholtzSAFTAssociating::d3X_ddelta3`. -/
def ResidualHelmholtzSAFTAssociating.d3X_ddelta3 (F : MathFns K)
    (self : ResidualHelmholtzSAFTAssociating K) (tau delta : K) : K :=
  let Delta := self.Deltabar F tau delta
  let X := self.X F delta Delta
  let dX_ddelta := self.dX_ddelta__constDeltabar F delta Delta
  let dX_dDelta := self.dX_dDeltabar__constdelta F delta Delta
  let Delta_d := self.dDeltabar_ddelta__consttau F tau delta
  let Delta_dd := self.d2Deltabar_ddelta2__consttau F tau delta
  let Delta_ddd := self.d3Deltabar_ddelta3__consttau F tau delta
  let dXdd_dX := 2 * X * ((-6) * Delta * F.pow X 2 * delta * F.pow (Delta + Delta_d * delta) 2 *
      (Delta * X * delta + 1) - Delta_dd * delta * F.pow (2 * Delta * X * delta + 1) 3 + 2 * X * (2
      * Delta * X * delta + 1) * ((-Delta) * Delta_d * delta * (2 * Delta_d * X * F.pow delta 2 - 1)
      - Delta * delta * (2 * F.pow Delta 2 * X - Delta_d) + Delta * (Delta + Delta_d * delta) *
      (Delta * X * delta + 1) + Delta_d * delta * (Delta + Delta_d * delta) * (Delta * X * delta +
      1)) + F.pow (2 * Delta * X * delta + 1) 2 * (3 * F.pow Delta 2 * X + Delta * Delta_dd * X *
      F.pow delta 2 + Delta * X * (Delta + Delta_d * delta) + F.pow Delta_d 2 * X * F.pow delta 2 +
      Delta_d * X * delta * (Delta + Delta_d * delta) + Delta_d * (2 * Delta_d * X * F.pow delta 2 -
      1) - Delta_d)) / F.pow (2 * Delta * X * delta + 1) 4
  let dXdd_ddelta := F.pow X 2 * ((-24) * F.pow Delta 4 * F.pow X 3 * delta - 8 * F.pow Delta 3
      * Delta_d * F.pow X 3 * F.pow delta 2 - 18 * F.pow Delta 3 * F.pow X 2 + 8 * F.pow Delta 2 *
      Delta_d * F.pow X 2 * delta - 4 * F.pow Delta 2 * Delta_dd * F.pow X 2 * F.pow delta 2 + 10 *
      Delta * F.pow Delta_d 2 * F.pow X 2 * F.pow delta 2 + 12 * Delta * Delta_d * X - 4 * Delta *
      Delta_dd * X * delta + 8 * F.pow Delta_d 2 * X * delta - Delta_dd) / (16 * F.pow Delta 4 *
      F.pow X 4 * F.pow delta 4 + 32 * F.pow Delta 3 * F.pow X 3 * F.pow delta 3 + 24 * F.pow Delta
      2 * F.pow X 2 * F.pow delta 2 + 8 * Delta * X * delta + 1)
  let dXdd_dDelta := F.pow X 3 * ((-8) * F.pow Delta 2 * Delta_d * F.pow X 2 * F.pow delta 3 + 8
      * F.pow Delta 2 * Delta_dd * F.pow X 2 * F.pow delta 4 + 10 * F.pow Delta 2 * X * delta - 24 *
      Delta * F.pow Delta_d 2 * F.pow X 2 * F.pow delta 4 + 8 * Delta * Delta_d * X * F.pow delta 2
      + 8 * Delta * Delta_dd * X * F.pow delta 3 + 8 * Delta - 18 * F.pow Delta_d 2 * X * F.pow
      delta 3 + 12 * Delta_d * delta + 2 * Delta_dd * F.pow delta 2) / (16 * F.pow Delta 4 * F.pow X
      4 * F.pow delta 4 + 32 * F.pow Delta 3 * F.pow X 3 * F.pow delta 3 + 24 * F.pow Delta 2 *
      F.pow X 2 * F.pow delta 2 + 8 * Delta * X * delta + 1)
  let dXdd_dDelta_d := 2 * F.pow X 2 * (2 * X * delta * (Delta + Delta_d * delta) * (Delta * X *
      delta + 1) + (2 * Delta * X * delta + 1) * (2 * Delta_d * X * F.pow delta 2 - 1)) / F.pow (2 *
      Delta * X * delta + 1) 3
  let dXdd_dDelta_dd := (-F.pow X 2) * delta / (2 * Delta * X * delta + 1)
  dXdd_ddelta + dXdd_dX * (dX_ddelta + dX_dDelta * Delta_d) + dXdd_dDelta * Delta_d +
      dXdd_dDelta_d * Delta_dd + dXdd_dDelta_dd * Delta_ddd

/-- Lines 788-812: `ResidualHelmholtzSAFTAssociating::all`. -/
def ResidualHelmholtzSAFTAssociating.all (F : MathFns K)
    (self : ResidualHelmholtzSAFTAssociating K) (tau delta : K)
    (deriv : HelmholtzDerivatives K) : HelmholtzDerivatives K :=
  if self.disabled then deriv else
  let X := self.X F delta (self.Deltabar F tau delta)
  let X_t := self.dX_dtau F tau delta
  let X_d := self.dX_ddelta F tau delta
  let X_tt := self.d2X_dtau2 F tau delta
  let X_dd := self.d2X_ddelta2 F tau delta
  let X_dt := self.d2X_ddeltadtau F tau delta
  let X_ttt := self.d3X_dtau3 F tau delta
  let X_dtt := self.d3X_ddeltadtau2 F tau delta
  let X_ddt := self.d3X_ddelta2dtau F tau delta
  let X_ddd := self.d3X_ddelta3 F tau delta
  { alphar := deriv.alphar + (self.m * self.a * ((F.log X - X / 2 + 0.5))),
    dalphar_ddelta := deriv.dalphar_ddelta + (self.m * self.a * (1 / X - 0.5) * self.dX_ddelta F
        tau delta),
    dalphar_dtau := deriv.dalphar_dtau + (self.m * self.a * (1 / X - 0.5) * self.dX_dtau F tau
        delta),
    d2alphar_ddelta2 := deriv.d2alphar_ddelta2 + (self.m * self.a * ((1 / X - 0.5) * X_dd -
        F.pow (X_d / X) 2)),
    d2alphar_ddelta_dtau := deriv.d2alphar_ddelta_dtau + (self.m * self.a * (((-X_t) / X / X) *
        X_d + X_dt * (1 / X - 0.5))),
    d2alphar_dtau2 := deriv.d2alphar_dtau2 + (self.m * self.a * ((1 / X - 0.5) * X_tt - F.pow
        (X_t / X) 2)),
    d3alphar_ddelta3 := deriv.d3alphar_ddelta3 + (self.m * self.a * ((1 / X - 1 / 2) * X_ddd -
        X_d / F.pow X 2 * X_dd - 2 * (F.pow X 2 * (X_d * X_dd) - F.pow X_d 2 * (X * X_d)) / F.pow X
        4)),
    d3alphar_ddelta2_dtau := deriv.d3alphar_ddelta2_dtau + (self.m * self.a * ((1 / X - 1 / 2) *
        X_ddt - X_t / F.pow X 2 * X_dd - 2 * (F.pow X 2 * (X_d * X_dt) - F.pow X_d 2 * (X * X_t)) /
        F.pow X 4)),
    d3alphar_ddelta_dtau2 := deriv.d3alphar_ddelta_dtau2 + (self.m * self.a * ((1 / X - 1 / 2) *
        X_dtt - X_d / F.pow X 2 * X_tt - 2 * (F.pow X 2 * (X_t * X_dt) - F.pow X_t 2 * (X * X_d)) /
        F.pow X 4)),
    d3alphar_dtau3 := deriv.d3alphar_dtau3 + (self.m * self.a * ((1 / X - 1 / 2) * X_ttt +
        ((-X_t) / F.pow X 2) * X_tt - 2 * (F.pow X 2 * (X_t * X_tt) - F.pow X_t 2 * (X * X_t)) /
        F.pow X 4)) }

/-- An enabled association term with `a = m = epsilonbar = kappabar = 1` and
`vbarn = 1/2`, used to instantiate the statements on the SAFT term. -/
def saftExample : ResidualHelmholtzSAFTAssociating K where
  a := 1
  m := 1
  epsilonbar := 1
  vbarn := 1 / 2
  kappabar := 1
  disabled := false

/-- Lines 802-811: the ten values that `ResidualHelmholtzSAFTAssociating::all` adds to the
aggregate, as expressions of the locals `X`, `X_t`, ..., `X_ddd` of lines 791-800. -/
def ResidualHelmholtzSAFTAssociating.increments (F : MathFns K)
    (self : ResidualHelmholtzSAFTAssociating K)
    (X X_t X_d X_tt X_dd X_dt X_ttt X_dtt X_ddt X_ddd : K) : HelmholtzDerivatives K :=
  { alphar := self.m * self.a * ((F.log X - X / 2 + 0.5)),
    dalphar_ddelta := self.m * self.a * (1 / X - 0.5) * X_d,
    dalphar_dtau := self.m * self.a * (1 / X - 0.5) * X_t,
    d2alphar_ddelta2 := self.m * self.a * ((1 / X - 0.5) * X_dd - F.pow (X_d / X) 2),
    d2alphar_ddelta_dtau := self.m * self.a * (((-X_t) / X / X) * X_d + X_dt * (1 / X - 0.5)),
    d2alphar_dtau2 := self.m * self.a * ((1 / X - 0.5) * X_tt - F.pow (X_t / X) 2),
    d3alphar_ddelta3 := self.m * self.a * ((1 / X - 1 / 2) * X_ddd -
        X_d / F.pow X 2 * X_dd - 2 * (F.pow X 2 * (X_d * X_dd) - F.pow X_d 2 * (X * X_d)) /
        F.pow X 4),
    d3alphar_ddelta2_dtau := self.m * self.a * ((1 / X - 1 / 2) * X_ddt -
        X_t / F.pow X 2 * X_dd - 2 * (F.pow X 2 * (X_d * X_dt) - F.pow X_d 2 * (X * X_t)) /
        F.pow X 4),
    d3alphar_ddelta_dtau2 := self.m * self.a * ((1 / X - 1 / 2) * X_dtt -
        X_d / F.pow X 2 * X_tt - 2 * (F.pow X 2 * (X_t * X_dt) - F.pow X_t 2 * (X * X_d)) /
        F.pow X 4),
    d3alphar_dtau3 := self.m * self.a * ((1 / X - 1 / 2) * X_ttt +
        ((-X_t) / F.pow X 2) * X_tt - 2 * (F.pow X 2 * (X_t * X_tt) - F.pow X_t 2 * (X * X_t)) /
        F.pow X 4) }

/-- The increments of `all` along functions `Xf`, `Xt`, ..., `Xddd` of `(tau, delta)` that
stand for the non-bonded fraction and its partial derivatives. -/
def ResidualHelmholtzSAFTAssociating.incrementsAlong (F : MathFns K)
    (self : ResidualHelmholtzSAFTAssociating K)
    (Xf Xt Xd Xtt Xdd Xdt Xttt Xdtt Xddt Xddd : K → K → K) (tau delta : K) :
    HelmholtzDerivatives K :=
  self.increments F (Xf tau delta) (Xt tau delta) (Xd tau delta) (Xtt tau delta)
    (Xdd tau delta) (Xdt tau delta) (Xttt tau delta) (Xdtt tau delta) (Xddt tau delta)
    (Xddd tau delta)

/-- An enabled association term without association strength: `kappabar = 0`, with
`a = m = epsilonbar = 1` and `vbarn = 1/2`. -/
def saftNoAssociation : ResidualHelmholtzSAFTAssociating K where
  a := 1
  m := 1
  epsilonbar := 1
  vbarn := 1 / 2
  kappabar := 0
  disabled := false

end SAFTAssociating

section AlyLee

variable {K : Type} [LinearOrderedField K]

/-- The term `IdealHelmholtzCP0AlyLee`: the five coefficients `c[0..4]`, the reference
constants and the `enabled` flag. -/
structure IdealHelmholtzCP0AlyLee (K : Type) where
  c : Fin 5 → K
  Tc : K
  T0 : K
  tau0 : K
  enabled : Bool

/-- Lines 927-930: `IdealHelmholtzCP0AlyLee::anti_deriv_cp0_tau2`. -/
def IdealHelmholtzCP0AlyLee.anti_deriv_cp0_tau2 (F : MathFns K)
    (self : IdealHelmholtzCP0AlyLee K) (tau : K) : K :=
  (-self.c 0) / tau + 2 * self.c 1 * self.c 2 / self.Tc / (F.exp ((-2) * self.c 2 * tau /
      self.Tc) - 1) - 2 * self.c 3 * self.c 4 / self.Tc * (F.exp (2 * self.c 4 * tau / self.Tc) + 1)

/-- Lines 931-937: `IdealHelmholtzCP0AlyLee::anti_deriv_cp0_tau`. -/
def IdealHelmholtzCP0AlyLee.anti_deriv_cp0_tau (F : MathFns K)
    (self : IdealHelmholtzCP0AlyLee K) (tau : K) : K :=
  let term1 := self.c 0 * F.log tau
  let term2 := 2 * self.c 1 * self.c 2 * tau / (-self.Tc + self.Tc * F.exp ((-2) * self.c 2 *
      tau / self.Tc)) + self.c 1 * F.log (-1 + F.exp ((-2) * self.c 2 * tau / self.Tc)) + 2 * self.c
      1 * self.c 2 * tau / self.Tc
  let term3 := (-self.c 3) * (self.Tc * F.exp (2 * self.c 4 * tau / self.Tc) * F.log (F.exp (2 *
      self.c 4 * tau / self.Tc) + 1) + self.Tc * F.log (F.exp (2 * self.c 4 * tau / self.Tc) + 1) -
      2 * self.c 4 * tau * F.exp (2 * self.c 4 * tau / self.Tc)) / (self.Tc * (F.exp (2 * self.c 4 *
      tau / self.Tc) + 1))
  term1 + term2 + term3

/-- Lines 917-921: `IdealHelmholtzCP0AlyLee::base`. -/
def IdealHelmholtzCP0AlyLee.base (F : MathFns K)
    (self : IdealHelmholtzCP0AlyLee K) (tau _delta : K) : K :=
  if !self.enabled then 0 else
  (-tau) * (self.anti_deriv_cp0_tau2 F tau - self.anti_deriv_cp0_tau2 F self.tau0) +
      (self.anti_deriv_cp0_tau F tau - self.anti_deriv_cp0_tau F self.tau0)

/-- Lines 922-926: `IdealHelmholtzCP0AlyLee::dTau`. -/
def IdealHelmholtzCP0AlyLee.dTau (F : MathFns K)
    (self : IdealHelmholtzCP0AlyLee K) (tau _delta : K) : K :=
  if !self.enabled then 0 else
  -(self.anti_deriv_cp0_tau2 F tau - self.anti_deriv_cp0_tau2 F self.tau0)

/-- Lines 938-942: `IdealHelmholtzCP0AlyLee::dTau2`. -/
def IdealHelmholtzCP0AlyLee.dTau2 (F : MathFns K)
    (self : IdealHelmholtzCP0AlyLee K) (tau _delta : K) : K :=
  if !self.enabled then 0 else
  (-self.c 0) / F.pow tau 2 - self.c 1 * F.pow (self.c 2 / self.Tc / F.sinh (self.c 2 * tau /
      self.Tc)) 2 - self.c 3 * F.pow (self.c 4 / self.Tc / F.cosh (self.c 4 * tau / self.Tc)) 2

/-- Lines 943-947: `IdealHelmholtzCP0AlyLee::dTau3`. -/
def IdealHelmholtzCP0AlyLee.dTau3 (F : MathFns K)
    (self : IdealHelmholtzCP0AlyLee K) (tau _delta : K) : K :=
  if !self.enabled then 0 else
  2 * self.c 0 / F.pow tau 3 + 2 * self.c 1 * F.pow (self.c 2 / self.Tc) 3 * F.cosh (self.c 2 *
      tau / self.Tc) / F.pow (F.sinh (self.c 2 * tau / self.Tc)) 3 + 2 * self.c 3 * F.pow (self.c 4
      / self.Tc) 3 * F.sinh (self.c 4 * tau / self.Tc) / F.pow (F.cosh (self.c 4 * tau / self.Tc)) 3

/-- An enabled Aly-Lee term with `c = (0, 0, -1, 1, 1)` and `Tc = T0 = tau0 = 1`: only
the `cosh` part of the heat capacity is present, and `c[2] < 0` keeps the argument
`-1 + exp(-2*c[2]*tau/Tc)` of the logarithm in `anti_deriv_cp0_tau` positive. -/
def alyLeeExample : IdealHelmholtzCP0AlyLee K where
  c := ![0, 0, -1, 1, 1]
  Tc := 1
  T0 := 1
  tau0 := 1
  enabled := true

end AlyLee

section CP0PolyT

variable {K : Type} [LinearOrderedField K]

/-- The term `IdealHelmholtzCP0PolyT`: the coefficient sequences `c` and `t` of common
length `N`, and the constants `Tc`, `T0` and `tau0`. -/
structure IdealHelmholtzCP0PolyT (K : Type) where
  N : Nat
  c : Fin N → K
  t : Fin N → K
  Tc : K
  T0 : K
  tau0 : K

/-- Lines 833-844: what the pass for coefficient `i` adds to `sum` in
`IdealHelmholtzCP0PolyT::base`. -/
def IdealHelmholtzCP0PolyT.base_term (F : MathFns K) (self : IdealHelmholtzCP0PolyT K)
    (tau : K) (i : Fin self.N) : K :=
  if |self.t i| < 10 * DBL_EPSILON then
    self.c i - self.c i * tau / self.tau0 + self.c i * F.log (tau / self.tau0)
  else if |self.t i + 1| < 10 * DBL_EPSILON then
    self.c i * tau / self.Tc * F.log (self.tau0 / tau) + self.c i / self.Tc * (tau - self.tau0)
  else
    (-self.c i) * F.pow self.Tc (self.t i) * F.pow tau (-self.t i) /
        (self.t i * (self.t i + 1)) -
      self.c i * F.pow self.T0 (self.t i + 1) * tau / (self.Tc * (self.t i + 1)) +
      self.c i * F.pow self.T0 (self.t i) / self.t i

/-- Lines 829-847: `IdealHelmholtzCP0PolyT::base`.  The accumulator `sum` is read as exact. -/
def IdealHelmholtzCP0PolyT.base (F : MathFns K) (self : IdealHelmholtzCP0PolyT K)
    (tau _delta : K) : K :=
  (List.finRange self.N).foldl (fun sum i => sum + self.base_term F tau i) 0

/-- Lines 852-863: what the pass for coefficient `i` adds to `sum` in
`IdealHelmholtzCP0PolyT::dTau`. -/
def IdealHelmholtzCP0PolyT.dTau_term (F : MathFns K) (self : IdealHelmholtzCP0PolyT K)
    (tau : K) (i : Fin self.N) : K :=
  if |self.t i| < 10 * DBL_EPSILON then
    self.c i / tau - self.c i / self.tau0
  else if |self.t i + 1| < 10 * DBL_EPSILON then
    self.c i / self.Tc * F.log (self.tau0 / tau)
  else
    self.c i * F.pow self.Tc (self.t i) * F.pow tau (-self.t i - 1) / (self.t i + 1) -
      self.c i * F.pow self.Tc (self.t i) / (F.pow self.tau0 (self.t i + 1) * (self.t i + 1))

/-- Lines 848-866: `IdealHelmholtzCP0PolyT::dTau`. -/
def IdealHelmholtzCP0PolyT.dTau (F : MathFns K) (self : IdealHelmholtzCP0PolyT K)
    (tau _delta : K) : K :=
  (List.finRange self.N).foldl (fun sum i => sum + self.dTau_term F tau i) 0

/-- Lines 871-882: what the pass for coefficient `i` adds to `sum` in
`IdealHelmholtzCP0PolyT::dTau2`. -/
def IdealHelmholtzCP0PolyT.dTau2_term (F : MathFns K) (self : IdealHelmholtzCP0PolyT K)
    (tau : K) (i : Fin self.N) : K :=
  if |self.t i| < 10 * DBL_EPSILON then
    (-self.c i) / (tau * tau)
  else if |self.t i + 1| < 10 * DBL_EPSILON then
    (-self.c i) / (tau * self.Tc)
  else
    (-self.c i) * F.pow (self.Tc / tau) (self.t i) / (tau * tau)

/-- Lines 867-885: `IdealHelmholtzCP0PolyT::dTau2`. -/
def IdealHelmholtzCP0PolyT.dTau2 (F : MathFns K) (self : IdealHelmholtzCP0PolyT K)
    (tau _delta : K) : K :=
  (List.finRange self.N).foldl (fun sum i => sum + self.dTau2_term F tau i) 0

/-- Lines 890-901: what the pass for coefficient `i` adds to `sum` in
`IdealHelmholtzCP0PolyT::dTau3`. -/
def IdealHelmholtzCP0PolyT.dTau3_term (F : MathFns K) (self : IdealHelmholtzCP0PolyT K)
    (tau : K) (i : Fin self.N) : K :=
  if |self.t i| < 10 * DBL_EPSILON then
    2 * self.c i / (tau * tau * tau)
  else if |self.t i + 1| < 10 * DBL_EPSILON then
    self.c i / (tau * tau * self.Tc)
  else
    self.c i * F.pow (self.Tc / tau) (self.t i) * (self.t i + 2) / (tau * tau * tau)

/-- Lines 886-904: `IdealHelmholtzCP0PolyT::dTau3`. -/
def IdealHelmholtzCP0PolyT.dTau3 (F : MathFns K) (self : IdealHelmholtzCP0PolyT K)
    (tau _delta : K) : K :=
  (List.finRange self.N).foldl (fun sum i => sum + self.dTau3_term F tau i) 0

/-- A term with one coefficient in each branch: `t = 0`, `t = -1` and `t = 2`, all with
`c = 1`, and `Tc = 2`, `T0 = 1`, `tau0 = Tc/T0 = 2`. -/
def polyTExample : IdealHelmholtzCP0PolyT K where
  N := 3
  c := ![1, 1, 1]
  t := ![0, -1, 2]
  Tc := 2
  T0 := 1
  tau0 := 2

/-- Line 881: the expression of the last branch of `IdealHelmholtzCP0PolyT::dTau2`, as a
function of the coefficient `c` and of the exponent `t`. -/
def IdealHelmholtzCP0PolyT.dTau2_general (F : MathFns K) (self : IdealHelmholtzCP0PolyT K)
    (c t tau : K) : K :=
  (-c) * F.pow (self.Tc / tau) t / (tau * tau)

/-- Line 900: the expression of the last branch of `IdealHelmholtzCP0PolyT::dTau3`, as a
function of the coefficient `c` and of the exponent `t`. -/
def IdealHelmholtzCP0PolyT.dTau3_general (F : MathFns K) (self : IdealHelmholtzCP0PolyT K)
    (c t tau : K) : K :=
  c * F.pow (self.Tc / tau) t * (t + 2) / (tau * tau * tau)

end CP0PolyT

section KahanSum

variable {K : Type} [LinearOrderedField K]

/-- Lines 12-15: one pass of the loop of `kahanSum` on the pair `(sum, c)` with the
element `x[i]`. -/
def kahanStep (state : K × K) (xi : K) : K × K :=
  let sum := state.1
  let c := state.2
  let y := xi - c
  let t := sum + y
  let c := (t - sum) - y
  let sum := t
  (sum, c)

/-- Lines 8-15: the pair `(sum, c)` of `kahanSum` after the first `k` passes of the loop
over `x[1], x[2], ...`.  The initialiser `sum = x[0]` reads the first element; on the empty
list there is none, and the result is `none`. -/
def kahanState (x : List K) (k : Nat) : Option (K × K) :=
  match x with
  | [] => none
  | x0 :: rest => some ((rest.take k).foldl kahanStep (x0, 0))

/-- Lines 6-18: `kahanSum`, the value of `sum` after the passes `i = 1, ..., x.size() - 1`;
`none` when `x[0]` is out of bounds. -/
def kahanSum (x : List K) : Option K :=
  (kahanState x (x.length - 1)).map Prod.fst

end KahanSum

/-- The `<cmath>` functions read in exact real arithmetic.  `ValidNumber` stays a
parameter: which coefficient values count as not configured is decided outside
`Helmholtz.cpp`. -/
noncomputable def realFns (valid : ℝ → Bool) : MathFns ℝ where
  exp := Real.exp
  log := Real.log
  pow := fun x y => x ^ y
  sqrt := Real.sqrt
  sinh := Real.sinh
  cosh := Real.cosh
  ValidNumber := valid

/-- The function `x ^ d * exp (u x)` of which the `B` combinators are the logarithmic
derivatives. -/
noncomputable def powExp (d : ℝ) (u : ℝ → ℝ) (x : ℝ) : ℝ := x ^ d * Real.exp (u x)

/-- The increments that a block in `delta` adds to `du_ddelta`, `d2u_ddelta2` and
`d3u_ddelta3` are, at `x0`, the first, second and third derivative of the value it adds
to `u`. -/
def DeltaIncrementsExact (block : ℝ → UParts ℝ → UParts ℝ) (x0 : ℝ) : Prop :=
  ∀ s : UParts ℝ,
    HasDerivAt (fun x => (block x s).u - s.u) ((block x0 s).du_ddelta - s.du_ddelta) x0 ∧
    HasDerivAt (fun x => (block x s).du_ddelta - s.du_ddelta)
      ((block x0 s).d2u_ddelta2 - s.d2u_ddelta2) x0 ∧
    HasDerivAt (fun x => (block x s).d2u_ddelta2 - s.d2u_ddelta2)
      ((block x0 s).d3u_ddelta3 - s.d3u_ddelta3) x0

/-- The increments that a block in `tau` adds to `du_dtau`, `d2u_dtau2` and `d3u_dtau3`
are, at `x0`, the first, second and third derivative of the value it adds to `u`. -/
def TauIncrementsExact (block : ℝ → UParts ℝ → UParts ℝ) (x0 : ℝ) : Prop :=
  ∀ s : UParts ℝ,
    HasDerivAt (fun x => (block x s).u - s.u) ((block x0 s).du_dtau - s.du_dtau) x0 ∧
    HasDerivAt (fun x => (block x s).du_dtau - s.du_dtau)
      ((block x0 s).d2u_dtau2 - s.d2u_dtau2) x0 ∧
    HasDerivAt (fun x => (block x s).d2u_dtau2 - s.d2u_dtau2)
      ((block x0 s).d3u_dtau3 - s.d3u_dtau3) x0

/-! ## Lemmas on the loop of the generalized-exponential term -/

theorem plainTerm_elements {K : Type}
    (els : List (ResidualHelmholtzGeneralizedExponentialElement K)) :
    (plainTerm els).elements = els := rfl

section GeneralizedExponentialLemmas

variable {K : Type} [LinearOrderedField K]

theorem loopBody_eq_add (F : MathFns K) (self : ResidualHelmholtzGeneralizedExponential K)
    (tau delta : K) (A : HelmholtzDerivatives K)
    (el : ResidualHelmholtzGeneralizedExponentialElement K) :
    self.loopBody F tau delta A el = A.add (elementTerms F self tau delta el) := by
  ext <;>
    simp [elementTerms, ResidualHelmholtzGeneralizedExponential.loopBody,
      HelmholtzDerivatives.add, HelmholtzDerivatives.zero]

theorem add_zero_aggregate (A : HelmholtzDerivatives K) :
    A.add HelmholtzDerivatives.zero = A := by
  ext <;> simp [HelmholtzDerivatives.add, HelmholtzDerivatives.zero]

theorem add_assoc_aggregate (A B C : HelmholtzDerivatives K) :
    (A.add B).add C = A.add (B.add C) := by
  ext <;> simp [HelmholtzDerivatives.add, add_assoc]

theorem foldl_loopBody_eq_add (F : MathFns K)
    (self : ResidualHelmholtzGeneralizedExponential K) (tau delta : K)
    (els : List (ResidualHelmholtzGeneralizedExponentialElement K))
    (A : HelmholtzDerivatives K) :
    els.foldl (self.loopBody F tau delta) A = A.add (sumTerms F self tau delta els) := by
  induction els using List.reverseRecOn generalizing A with
  | nil => simp [sumTerms, add_zero_aggregate]
  | append_singleton l el ih =>
    simp only [sumTerms, List.foldl_append, List.foldl_cons, List.foldl_nil]
    rw [loopBody_eq_add, ih, loopBody_eq_add F self tau delta
      (List.foldl (self.loopBody F tau delta) HelmholtzDerivatives.zero l)]
    simp only [sumTerms, add_assoc_aggregate]

theorem uParts_plainTerm (F : MathFns K)
    (els : List (ResidualHelmholtzGeneralizedExponentialElement K))
    (el : ResidualHelmholtzGeneralizedExponentialElement K) (tau delta : K) :
    uParts F (plainTerm els) el tau delta = UParts.zero := by
  simp [uParts, plainTerm, delta_li_block, tau_mi_block, eta1_block, eta2_block,
    beta1_block, beta2_block]

theorem sumTerms_nil (F : MathFns K) (self : ResidualHelmholtzGeneralizedExponential K)
    (tau delta : K) : sumTerms F self tau delta [] = HelmholtzDerivatives.zero := rfl

theorem sumTerms_cons (F : MathFns K) (self : ResidualHelmholtzGeneralizedExponential K)
    (tau delta : K) (el : ResidualHelmholtzGeneralizedExponentialElement K)
    (els : List (ResidualHelmholtzGeneralizedExponentialElement K)) :
    sumTerms F self tau delta (el :: els)
      = (elementTerms F self tau delta el).add (sumTerms F self tau delta els) := by
  rw [sumTerms, List.foldl_cons, foldl_loopBody_eq_add]
  rfl

/-- The loop started from zero leaves in each field the sum over the elements of that
field of the element contributions. -/
theorem sumTerms_field (F : MathFns K) (self : ResidualHelmholtzGeneralizedExponential K)
    (tau delta : K) (els : List (ResidualHelmholtzGeneralizedExponentialElement K)) :
    sumTerms F self tau delta els =
      { alphar := (els.map fun el => (elementTerms F self tau delta el).alphar).sum
        dalphar_ddelta := (els.map fun el => (elementTerms F self tau delta el).dalphar_ddelta).sum
        dalphar_dtau := (els.map fun el => (elementTerms F self tau delta el).dalphar_dtau).sum
        d2alphar_ddelta2 :=
          (els.map fun el => (elementTerms F self tau delta el).d2alphar_ddelta2).sum
        d2alphar_ddelta_dtau :=
          (els.map fun el => (elementTerms F self tau delta el).d2alphar_ddelta_dtau).sum
        d2alphar_dtau2 := (els.map fun el => (elementTerms F self tau delta el).d2alphar_dtau2).sum
        d3alphar_ddelta3 :=
          (els.map fun el => (elementTerms F self tau delta el).d3alphar_ddelta3).sum
        d3alphar_ddelta2_dtau :=
          (els.map fun el => (elementTerms F self tau delta el).d3alphar_ddelta2_dtau).sum
        d3alphar_ddelta_dtau2 :=
          (els.map fun el => (elementTerms F self tau delta el).d3alphar_ddelta_dtau2).sum
        d3alphar_dtau3 :=
          (els.map fun el => (elementTerms F self tau delta el).d3alphar_dtau3).sum } := by
  induction els with
  | nil => simp [sumTerms_nil, HelmholtzDerivatives.zero]
  | cons el els ih =>
    rw [sumTerms_cons, ih]
    simp [HelmholtzDerivatives.add]

/-- What `all` does to an incoming aggregate: the term's own quantities are added to
the incoming fields after these have been multiplied by the rescaling factors. -/
theorem all_eq_rescaled_add (F : MathFns K)
    (self : ResidualHelmholtzGeneralizedExponential K)
    (tau delta : K) (A : HelmholtzDerivatives K) :
    self.all F tau delta A =
      (self.all F tau delta HelmholtzDerivatives.zero).add
        { alphar := A.alphar
          dalphar_ddelta := A.dalphar_ddelta * (1 / delta)
          dalphar_dtau := A.dalphar_dtau * (1 / tau)
          d2alphar_ddelta2 := A.d2alphar_ddelta2 * POW2 (1 / delta)
          d2alphar_dtau2 := A.d2alphar_dtau2 * POW2 (1 / tau)
          d2alphar_ddelta_dtau := A.d2alphar_ddelta_dtau * (1 / delta * (1 / tau))
          d3alphar_ddelta3 := A.d3alphar_ddelta3 * POW3 (1 / delta)
          d3alphar_dtau3 := A.d3alphar_dtau3 * POW3 (1 / tau)
          d3alphar_ddelta2_dtau := A.d3alphar_ddelta2_dtau * (POW2 (1 / delta) * (1 / tau))
          d3alphar_ddelta_dtau2 := A.d3alphar_ddelta_dtau2 * (1 / delta * POW2 (1 / tau)) } := by
  simp only [ResidualHelmholtzGeneralizedExponential.all]
  rw [foldl_loopBody_eq_add F self tau delta self.elements A,
    foldl_loopBody_eq_add F self tau delta self.elements HelmholtzDerivatives.zero]
  ext <;> simp only [HelmholtzDerivatives.add, HelmholtzDerivatives.zero, zero_add] <;> ring

theorem all_zero_eq (F : MathFns K) (self : ResidualHelmholtzGeneralizedExponential K)
    (tau delta : K) :
    self.all F tau delta HelmholtzDerivatives.zero =
      { alphar := (sumTerms F self tau delta self.elements).alphar
        dalphar_ddelta := (sumTerms F self tau delta self.elements).dalphar_ddelta * (1 / delta)
        dalphar_dtau := (sumTerms F self tau delta self.elements).dalphar_dtau * (1 / tau)
        d2alphar_ddelta2 :=
          (sumTerms F self tau delta self.elements).d2alphar_ddelta2 * POW2 (1 / delta)
        d2alphar_dtau2 := (sumTerms F self tau delta self.elements).d2alphar_dtau2 * POW2 (1 / tau)
        d2alphar_ddelta_dtau :=
          (sumTerms F self tau delta self.elements).d2alphar_ddelta_dtau * (1 / delta * (1 / tau))
        d3alphar_ddelta3 :=
          (sumTerms F self tau delta self.elements).d3alphar_ddelta3 * POW3 (1 / delta)
        d3alphar_dtau3 := (sumTerms F self tau delta self.elements).d3alphar_dtau3 * POW3 (1 / tau)
        d3alphar_ddelta2_dtau :=
          (sumTerms F self tau delta self.elements).d3alphar_ddelta2_dtau
            * (POW2 (1 / delta) * (1 / tau))
        d3alphar_ddelta_dtau2 :=
          (sumTerms F self tau delta self.elements).d3alphar_ddelta_dtau2
            * (1 / delta * POW2 (1 / tau)) } := rfl

theorem elementTerms_eq (F : MathFns K) (self : ResidualHelmholtzGeneralizedExponential K)
    (tau delta : K) (el : ResidualHelmholtzGeneralizedExponentialElement K) :
    elementTerms F self tau delta el =
      { alphar := ndteu F self el tau delta
        dalphar_ddelta := ndteu F self el tau delta
          * B_delta delta el.d (uParts F self el tau delta).du_ddelta
        dalphar_dtau := ndteu F self el tau delta
          * B_tau tau el.t (uParts F self el tau delta).du_dtau
        d2alphar_ddelta2 := ndteu F self el tau delta
          * B_delta2 delta el.d (uParts F self el tau delta).du_ddelta
              (uParts F self el tau delta).d2u_ddelta2
        d2alphar_ddelta_dtau := ndteu F self el tau delta
          * B_delta delta el.d (uParts F self el tau delta).du_ddelta
          * B_tau tau el.t (uParts F self el tau delta).du_dtau
        d2alphar_dtau2 := ndteu F self el tau delta
          * B_tau2 tau el.t (uParts F self el tau delta).du_dtau
              (uParts F self el tau delta).d2u_dtau2
        d3alphar_ddelta3 := ndteu F self el tau delta
          * B_delta3 delta el.d (uParts F self el tau delta).du_ddelta
              (uParts F self el tau delta).d2u_ddelta2 (uParts F self el tau delta).d3u_ddelta3
        d3alphar_ddelta2_dtau := ndteu F self el tau delta
          * B_delta2 delta el.d (uParts F self el tau delta).du_ddelta
              (uParts F self el tau delta).d2u_ddelta2
          * B_tau tau el.t (uParts F self el tau delta).du_dtau
        d3alphar_ddelta_dtau2 := ndteu F self el tau delta
          * B_delta delta el.d (uParts F self el tau delta).du_ddelta
          * B_tau2 tau el.t (uParts F self el tau delta).du_dtau
              (uParts F self el tau delta).d2u_dtau2
        d3alphar_dtau3 := ndteu F self el tau delta
          * B_tau3 tau el.t (uParts F self el tau delta).du_dtau
              (uParts F self el tau delta).d2u_dtau2 (uParts F self el tau delta).d3u_dtau3 } := by
  ext <;> simp [elementTerms, ResidualHelmholtzGeneralizedExponential.loopBody,
    HelmholtzDerivatives.zero]

/-- Every field of `all` on the zero aggregate, as a sum over the elements times the
rescaling factor of the source. -/
theorem all_zero_sums (F : MathFns K) (self : ResidualHelmholtzGeneralizedExponential K)
    (tau delta : K) :
    self.all F tau delta HelmholtzDerivatives.zero =
      { alphar := (self.elements.map fun el => ndteu F self el tau delta).sum
        dalphar_ddelta := (self.elements.map fun el => ndteu F self el tau delta
          * B_delta delta el.d (uParts F self el tau delta).du_ddelta).sum * (1 / delta)
        dalphar_dtau := (self.elements.map fun el => ndteu F self el tau delta
          * B_tau tau el.t (uParts F self el tau delta).du_dtau).sum * (1 / tau)
        d2alphar_ddelta2 := (self.elements.map fun el => ndteu F self el tau delta
          * B_delta2 delta el.d (uParts F self el tau delta).du_ddelta
              (uParts F self el tau delta).d2u_ddelta2).sum * POW2 (1 / delta)
        d2alphar_dtau2 := (self.elements.map fun el => ndteu F self el tau delta
          * B_tau2 tau el.t (uParts F self el tau delta).du_dtau
              (uParts F self el tau delta).d2u_dtau2).sum * POW2 (1 / tau)
        d2alphar_ddelta_dtau := (self.elements.map fun el => ndteu F self el tau delta
          * B_delta delta el.d (uParts F self el tau delta).du_ddelta
          * B_tau tau el.t (uParts F self el tau delta).du_dtau).sum * (1 / delta * (1 / tau))
        d3alphar_ddelta3 := (self.elements.map fun el => ndteu F self el tau delta
          * B_delta3 delta el.d (uParts F self el tau delta).du_ddelta
              (uParts F self el tau delta).d2u_ddelta2
              (uParts F self el tau delta).d3u_ddelta3).sum * POW3 (1 / delta)
        d3alphar_dtau3 := (self.elements.map fun el => ndteu F self el tau delta
          * B_tau3 tau el.t (uParts F self el tau delta).du_dtau
              (uParts F self el tau delta).d2u_dtau2
              (uParts F self el tau delta).d3u_dtau3).sum * POW3 (1 / tau)
        d3alphar_ddelta2_dtau := (self.elements.map fun el => ndteu F self el tau delta
          * B_delta2 delta el.d (uParts F self el tau delta).du_ddelta
              (uParts F self el tau delta).d2u_ddelta2
          * B_tau tau el.t (uParts F self el tau delta).du_dtau).sum
            * (POW2 (1 / delta) * (1 / tau))
        d3alphar_ddelta_dtau2 := (self.elements.map fun el => ndteu F self el tau delta
          * B_delta delta el.d (uParts F self el tau delta).du_ddelta
          * B_tau2 tau el.t (uParts F self el tau delta).du_dtau
              (uParts F self el tau delta).d2u_dtau2).sum * (1 / delta * POW2 (1 / tau)) } := by
  rw [all_zero_eq, sumTerms_field]
  simp only [elementTerms_eq]

end GeneralizedExponentialLemmas

/-! ## Accumulation into a caller-supplied aggregate (C1, C2, C3) -/

/-- Claim C1 (code defect): `all` does not add the term's quantities to a non-zero
incoming aggregate.  For the term with the single element `n = 1, d = 1, t = 0` at
`tau = 1`, `delta = 2` and the aggregate holding one in every field, the resulting
`dalphar_ddelta` is `3/2`, whereas the incoming field plus the value produced from the
zero aggregate is `2`. -/
theorem all_rescales_incoming_aggregate :
    ((plainTerm [plainElement (1 : ℝ) 1 0]).all (realFns fun _ => true) 1 2
        onesAggregate).dalphar_ddelta = 3 / 2 ∧
    (onesAggregate : HelmholtzDerivatives ℝ).dalphar_ddelta
      + ((plainTerm [plainElement (1 : ℝ) 1 0]).all (realFns fun _ => true) 1 2
        HelmholtzDerivatives.zero).dalphar_ddelta = 2 := by
  have h2 : Real.exp (Real.log 2) = 2 := Real.exp_log (by norm_num)
  constructor <;>
  · simp only [ResidualHelmholtzGeneralizedExponential.all,
      plainTerm_elements, List.foldl_cons, List.foldl_nil,
      ResidualHelmholtzGeneralizedExponential.loopBody, ndteu, uParts_plainTerm]
    simp [plainElement, onesAggregate, HelmholtzDerivatives.zero, UParts.zero,
      realFns, B_delta, h2]
    try norm_num

/-- Claim C2 (code defect): accumulation depends on the order of the terms.  With
`T1` the term of the single element `n = 1, d = 1, t = 0` and `T2` the term of the single
element `n = 1, d = 0, t = 0`, at `tau = 1`, `delta = 2` and from the zero aggregate:
`T1.all` then `T2.all` leaves `dalphar_ddelta = 1/2`, `T2.all` then `T1.all` leaves `1`,
and the sum of the two terms evaluated separately is `1`. -/
theorem all_accumulation_depends_on_order :
    ((plainTerm [plainElement (1 : ℝ) 0 0]).all (realFns fun _ => true) 1 2
      ((plainTerm [plainElement (1 : ℝ) 1 0]).all (realFns fun _ => true) 1 2
        HelmholtzDerivatives.zero)).dalphar_ddelta = 1 / 2 ∧
    ((plainTerm [plainElement (1 : ℝ) 1 0]).all (realFns fun _ => true) 1 2
      ((plainTerm [plainElement (1 : ℝ) 0 0]).all (realFns fun _ => true) 1 2
        HelmholtzDerivatives.zero)).dalphar_ddelta = 1 ∧
    ((plainTerm [plainElement (1 : ℝ) 1 0]).all (realFns fun _ => true) 1 2
        HelmholtzDerivatives.zero).dalphar_ddelta
      + ((plainTerm [plainElement (1 : ℝ) 0 0]).all (realFns fun _ => true) 1 2
        HelmholtzDerivatives.zero).dalphar_ddelta = 1 := by
  have h2 : Real.exp (Real.log 2) = 2 := Real.exp_log (by norm_num)
  refine ⟨?_, ?_, ?_⟩ <;>
  · simp only [ResidualHelmholtzGeneralizedExponential.all,
      plainTerm_elements, List.foldl_cons, List.foldl_nil,
      ResidualHelmholtzGeneralizedExponential.loopBody, ndteu, uParts_plainTerm]
    simp [plainElement, HelmholtzDerivatives.zero, UParts.zero, realFns, B_delta, h2]

/-- Claim C3 (code defect): a term with zero elements changes a non-zero aggregate.  At
`tau = 1`, `delta = 2` the aggregate holding one in every field comes back with its
`delta`-derivative fields divided by powers of two. -/
theorem all_empty_term_changes_aggregate :
    (plainTerm ([] : List (ResidualHelmholtzGeneralizedExponentialElement ℝ))).all
        (realFns fun _ => true) 1 2 onesAggregate =
      { alphar := 1
        dalphar_ddelta := 1 / 2
        dalphar_dtau := 1
        d2alphar_ddelta2 := 1 / 4
        d2alphar_ddelta_dtau := 1 / 2
        d2alphar_dtau2 := 1
        d3alphar_ddelta3 := 1 / 8
        d3alphar_ddelta2_dtau := 1 / 4
        d3alphar_ddelta_dtau2 := 1 / 2
        d3alphar_dtau3 := 1 } ∧
    (plainTerm ([] : List (ResidualHelmholtzGeneralizedExponentialElement ℝ))).all
        (realFns fun _ => true) 1 2 onesAggregate ≠ onesAggregate := by
  have h : (plainTerm ([] : List (ResidualHelmholtzGeneralizedExponentialElement ℝ))).all
        (realFns fun _ => true) 1 2 onesAggregate =
      { alphar := 1
        dalphar_ddelta := 1 / 2
        dalphar_dtau := 1
        d2alphar_ddelta2 := 1 / 4
        d2alphar_ddelta_dtau := 1 / 2
        d2alphar_dtau2 := 1
        d3alphar_ddelta3 := 1 / 8
        d3alphar_ddelta2_dtau := 1 / 4
        d3alphar_ddelta_dtau2 := 1 / 2
        d3alphar_dtau3 := 1 } := by
    simp only [ResidualHelmholtzGeneralizedExponential.all, plainTerm_elements,
      List.foldl_nil]
    ext <;> simp [onesAggregate, POW2, POW3] <;> norm_num
  refine ⟨h, ?_⟩
  rw [h]
  intro hne
  have := congrArg HelmholtzDerivatives.dalphar_ddelta hne
  norm_num [onesAggregate] at this

/-! ## The `B` combinators and the plain power law (C4, C5, C6, C7) -/

/-- Claim C4: when `u` and all of its derivatives are zero, the combinators computed in
`all` are `B_delta = d`, `B_delta2 = d(d-1)`, `B_delta3 = d(d-1)(d-2)`, `B_tau = t`,
`B_tau2 = t(t-1)`, `B_tau3 = t(t-1)(t-2)`, for every `d`, `t`, `tau`, `delta`. -/
theorem B_combinators_zero_configuration {K : Type} [LinearOrderedField K]
    (d t tau delta : K) :
    B_delta delta d (UParts.zero : UParts K).du_ddelta = d ∧
    B_delta2 delta d (UParts.zero : UParts K).du_ddelta (UParts.zero : UParts K).d2u_ddelta2
      = d * (d - 1) ∧
    B_delta3 delta d (UParts.zero : UParts K).du_ddelta (UParts.zero : UParts K).d2u_ddelta2
      (UParts.zero : UParts K).d3u_ddelta3 = d * (d - 1) * (d - 2) ∧
    B_tau tau t (UParts.zero : UParts K).du_dtau = t ∧
    B_tau2 tau t (UParts.zero : UParts K).du_dtau (UParts.zero : UParts K).d2u_dtau2
      = t * (t - 1) ∧
    B_tau3 tau t (UParts.zero : UParts K).du_dtau (UParts.zero : UParts K).d2u_dtau2
      (UParts.zero : UParts K).d3u_dtau3 = t * (t - 1) * (t - 2) := by
  simp [B_delta, B_delta2, B_delta3, B_tau, B_tau2, B_tau3, UParts.zero, POW2, POW3]

/-- A conjunction whose second part is proved from the first. -/
theorem and_of_left {a b : Prop} (ha : a) (hb : a → b) : a ∧ b :=
  ⟨ha, hb ha⟩

/-- Calculus of `x^d * exp(u(x))`, the shape of one term of the generalized exponential: its
first three derivatives through the combinators `B_delta`, `B_delta2`, `B_delta3`. -/
theorem powExp_calculus :
    -- `ndteu_plainTerm`
    (∀ (valid : ℝ → Bool) (els : List (ResidualHelmholtzGeneralizedExponentialElement ℝ))
      (el : ResidualHelmholtzGeneralizedExponentialElement ℝ) (tau delta : ℝ) (_ : 0 < tau)
      (_ : 0 < delta),
        ndteu (realFns valid) (plainTerm els) el tau delta = el.n * delta ^ el.d * tau ^ el.t) ∧
    -- `hasDerivAt_powExp`
    (∀ (d : ℝ) (u u1 : ℝ → ℝ) (x : ℝ) (_ : 0 < x) (_ : HasDerivAt u (u1 x) x),
        HasDerivAt (powExp d u) (powExp d u x * B_delta x d (u1 x) / x) x) ∧
    -- `hasDerivAt_powExp_B1`
    (∀ (d : ℝ) (u u1 u2 : ℝ → ℝ) (x : ℝ) (_ : 0 < x) (_ : HasDerivAt u (u1 x) x)
      (_ : HasDerivAt u1 (u2 x) x),
        HasDerivAt (fun y => powExp d u y * B_delta y d (u1 y) / y)
          (powExp d u x * B_delta2 x d (u1 x) (u2 x) / x ^ 2) x) ∧
    -- `hasDerivAt_powExp_B2`
    (∀ (d : ℝ) (u u1 u2 u3 : ℝ → ℝ) (x : ℝ) (_ : 0 < x) (_ : HasDerivAt u (u1 x) x)
      (_ : HasDerivAt u1 (u2 x) x) (_ : HasDerivAt u2 (u3 x) x),
        HasDerivAt (fun y => powExp d u y * B_delta2 y d (u1 y) (u2 y) / y ^ 2)
          (powExp d u x * B_delta3 x d (u1 x) (u2 x) (u3 x) / x ^ 3) x) ∧
    -- `deriv_powExp_eventuallyEq`
    (∀ (d : ℝ) (u u1 : ℝ → ℝ) (x : ℝ) (_ : 0 < x) (_ : ∀ y, 0 < y → HasDerivAt u (u1 y) y),
        deriv (powExp d u) =ᶠ[nhds x] fun y => powExp d u y * B_delta y d (u1 y) / y) ∧
    -- `deriv_deriv_powExp_eventuallyEq`
    (∀ (d : ℝ) (u u1 u2 : ℝ → ℝ) (x : ℝ) (_ : 0 < x) (_ : ∀ y, 0 < y → HasDerivAt u (u1 y) y)
      (_ : ∀ y, 0 < y → HasDerivAt u1 (u2 y) y),
        deriv (deriv (powExp d u))
          =ᶠ[nhds x] fun y => powExp d u y * B_delta2 y d (u1 y) (u2 y) / y ^ 2) ∧
    -- `powExp_three_derivatives`
    (∀ (d : ℝ) (u u1 u2 u3 : ℝ → ℝ) (x : ℝ) (_ : 0 < x) (_ : ∀ y, 0 < y → HasDerivAt u (u1 y) y)
      (_ : ∀ y, 0 < y → HasDerivAt u1 (u2 y) y) (_ : ∀ y, 0 < y → HasDerivAt u2 (u3 y) y),
        HasDerivAt (powExp d u) (powExp d u x * B_delta x d (u1 x) / x) x ∧
        HasDerivAt (deriv (powExp d u)) (powExp d u x * B_delta2 x d (u1 x) (u2 x) / x ^ 2) x ∧
        HasDerivAt (deriv (deriv (powExp d u)))
          (powExp d u x * B_delta3 x d (u1 x) (u2 x) (u3 x) / x ^ 3) x) := by
  refine and_of_left ?_ fun ndteu_plainTerm => ?_
  · intro valid els el tau delta htau hdelta
    simp only [ndteu, uParts_plainTerm, UParts.zero, realFns, add_zero]
    rw [Real.exp_add, Real.rpow_def_of_pos htau, Real.rpow_def_of_pos hdelta,
      mul_comm el.t, mul_comm el.d]
    ring
  refine and_of_left ?_ fun hasDerivAt_powExp => ?_
  · intro d u u1 x hx hu
    have hpow : HasDerivAt (fun y : ℝ => y ^ d) (d * x ^ (d - 1)) x :=
      Real.hasDerivAt_rpow_const (Or.inl hx.ne')
    have h := hpow.mul hu.exp
    refine h.congr_deriv ?_
    rw [Real.rpow_sub_one hx.ne']
    simp only [powExp, B_delta]
    field_simp
    ring
  refine and_of_left ?_ fun hasDerivAt_powExp_B1 => ?_
  · intro d u u1 u2 x hx hu hu1
    have hf := hasDerivAt_powExp d u u1 x hx hu
    have hB : HasDerivAt (fun y => B_delta y d (u1 y)) (1 * u1 x + x * u2 x) x := by
      have := ((hasDerivAt_id x).mul hu1).add_const d
      simpa [B_delta] using this
    have h := (hf.mul hB).div (hasDerivAt_id x) hx.ne'
    refine h.congr_deriv ?_
    simp only [B_delta, B_delta2, POW2, id]
    field_simp
    ring
  refine and_of_left ?_ fun hasDerivAt_powExp_B2 => ?_
  · intro d u u1 u2 u3 x hx hu hu1 hu2
    have hf := hasDerivAt_powExp d u u1 x hx hu
    have hB : HasDerivAt (fun y => B_delta2 y d (u1 y) (u2 y))
        ((1 * x + x * 1) * (u2 x + u1 x * u1 x) + x * x * (u3 x + (u2 x * u1 x + u1 x * u2 x))
          + (2 * d * 1 * u1 x + 2 * d * x * u2 x)) x := by
      have hid := hasDerivAt_id x
      have h1 := ((hid.mul hid).mul (hu2.add (hu1.mul hu1)))
      have h2 := ((hid.const_mul (2 * d)).mul hu1)
      have := (h1.add h2).add_const (d * (d - 1))
      simpa [B_delta2, POW2, mul_assoc] using this
    have h := (hf.mul hB).div ((hasDerivAt_id x).pow 2) (pow_ne_zero 2 hx.ne')
    refine h.congr_deriv ?_
    simp only [B_delta, B_delta2, B_delta3, POW2, POW3, id]
    field_simp
    ring
  refine and_of_left ?_ fun deriv_powExp_eventuallyEq => ?_
  · intro d u u1 x hx hu
    filter_upwards [Ioi_mem_nhds hx] with y hy
    exact (hasDerivAt_powExp d u u1 y hy (hu y hy)).deriv
  refine and_of_left ?_ fun deriv_deriv_powExp_eventuallyEq => ?_
  · intro d u u1 u2 x hx hu hu1
    filter_upwards [Ioi_mem_nhds hx] with y hy
    rw [(deriv_powExp_eventuallyEq d u u1 y hy hu).deriv_eq]
    exact (hasDerivAt_powExp_B1 d u u1 u2 y hy (hu y hy) (hu1 y hy)).deriv
  intro d u u1 u2 u3 x hx hu hu1 hu2
  exact
    ⟨hasDerivAt_powExp d u u1 x hx (hu x hx),
     (hasDerivAt_powExp_B1 d u u1 u2 x hx (hu x hx) (hu1 x hx)).congr_of_eventuallyEq
       (deriv_powExp_eventuallyEq d u u1 x hx hu),
     (hasDerivAt_powExp_B2 d u u1 u2 u3 x hx (hu x hx) (hu1 x hx) (hu2 x hx)).congr_of_eventuallyEq
       (deriv_deriv_powExp_eventuallyEq d u u1 u2 x hx hu hu1)⟩

/-- Claim C5: for a term with all six modifier flags off and every `tau > 0`,
`delta > 0`, `all` on the zero aggregate yields `alphar = sum n*delta^d*tau^t`,
`dalphar_ddelta = sum n*d*delta^(d-1)*tau^t`, `dalphar_dtau = sum n*t*delta^d*tau^(t-1)`
and `d2alphar_ddelta_dtau = sum n*d*t*delta^(d-1)*tau^(t-1)`, with real powers. -/
theorem all_plain_term_is_power_law (valid : ℝ → Bool)
    (self : ResidualHelmholtzGeneralizedExponential ℝ) (tau delta : ℝ)
    (h1 : self.delta_li_in_u = false) (h2 : self.tau_mi_in_u = false)
    (h3 : self.eta1_in_u = false) (h4 : self.eta2_in_u = false)
    (h5 : self.beta1_in_u = false) (h6 : self.beta2_in_u = false)
    (htau : 0 < tau) (hdelta : 0 < delta) :
    let r := self.all (realFns valid) tau delta HelmholtzDerivatives.zero
    r.alphar = (self.elements.map fun el => el.n * delta ^ el.d * tau ^ el.t).sum ∧
    r.dalphar_ddelta
      = (self.elements.map fun el => el.n * el.d * delta ^ (el.d - 1) * tau ^ el.t).sum ∧
    r.dalphar_dtau
      = (self.elements.map fun el => el.n * el.t * delta ^ el.d * tau ^ (el.t - 1)).sum ∧
    r.d2alphar_ddelta_dtau
      = (self.elements.map fun el =>
          el.n * el.d * el.t * delta ^ (el.d - 1) * tau ^ (el.t - 1)).sum := by
  have ndteu_plainTerm := powExp_calculus.1
  obtain ⟨f1, f2, f3, f4, f5, f6, els⟩ := self
  simp only at h1 h2 h3 h4 h5 h6
  subst h1 h2 h3 h4 h5 h6
  intro r
  have hr : r = (plainTerm els).all (realFns valid) tau delta HelmholtzDerivatives.zero := rfl
  rw [all_zero_sums] at hr
  simp only [uParts_plainTerm, ndteu_plainTerm valid els _ tau delta htau hdelta,
    plainTerm_elements, UParts.zero, B_delta, B_tau, mul_zero, zero_add] at hr
  rw [hr]
  have hd : ∀ d : ℝ, delta ^ (d - 1) = delta ^ d / delta := fun d =>
    Real.rpow_sub_one hdelta.ne' d
  have ht : ∀ t : ℝ, tau ^ (t - 1) = tau ^ t / tau := fun t =>
    Real.rpow_sub_one htau.ne' t
  refine ⟨rfl, ?_, ?_, ?_⟩
  · show _ * (1 / delta) = _
    rw [← List.sum_map_mul_right]
    congr 1
    apply List.map_congr_left
    intro el _
    rw [hd]; field_simp; ring
  · show _ * (1 / tau) = _
    rw [← List.sum_map_mul_right]
    congr 1
    apply List.map_congr_left
    intro el _
    rw [ht]; field_simp; ring
  · show _ * (1 / delta * (1 / tau)) = _
    rw [← List.sum_map_mul_right]
    congr 1
    apply List.map_congr_left
    intro el _
    rw [hd, ht]; field_simp; ring

/-- Witness of C5: the term of the single element `n = 2, d = 1, t = 1` at `tau = 3`,
`delta = 5`. -/
theorem all_plain_term_is_power_law_witness :
    (0 : ℝ) < 3 ∧ (0 : ℝ) < 5 ∧
    ((plainTerm [plainElement (2 : ℝ) 1 1]).all (realFns fun _ => true) 3 5
      HelmholtzDerivatives.zero).alphar = 30 ∧
    ((plainTerm [plainElement (2 : ℝ) 1 1]).all (realFns fun _ => true) 3 5
      HelmholtzDerivatives.zero).dalphar_ddelta = 6 ∧
    ((plainTerm [plainElement (2 : ℝ) 1 1]).all (realFns fun _ => true) 3 5
      HelmholtzDerivatives.zero).dalphar_dtau = 10 ∧
    ((plainTerm [plainElement (2 : ℝ) 1 1]).all (realFns fun _ => true) 3 5
      HelmholtzDerivatives.zero).d2alphar_ddelta_dtau = 2 := by
  have h := all_plain_term_is_power_law (fun _ => true) (plainTerm [plainElement (2 : ℝ) 1 1])
    3 5 rfl rfl rfl rfl rfl rfl (by norm_num) (by norm_num)
  refine ⟨by norm_num, by norm_num, h.1.trans ?_, h.2.1.trans ?_, h.2.2.1.trans ?_,
    h.2.2.2.trans ?_⟩ <;>
  · simp only [plainTerm_elements, List.map_cons, List.map_nil, List.sum_cons, List.sum_nil,
      plainElement, sub_self, Real.rpow_one, Real.rpow_zero]
    norm_num

/-- Claim C6: for the term with the single element `n = 1.2198, d = 1, t = 1` and no
modifiers, `all` at `(tau, delta) = (1.3, 0.7)` on the zero aggregate gives
`alphar = 1.2198*0.7*1.3`, `dalphar_ddelta = 1.2198*1.3`, `dalphar_dtau = 1.2198*0.7`,
`d2alphar_ddelta_dtau = 1.2198`, and zero in every pure second-order and every
third-order field. -/
theorem all_end_to_end_example (valid : ℝ → Bool) :
    (plainTerm [plainElement (1.2198 : ℝ) 1 1]).all (realFns valid) 1.3 0.7
        HelmholtzDerivatives.zero =
      { alphar := 1.2198 * 0.7 * 1.3
        dalphar_ddelta := 1.2198 * 1.3
        dalphar_dtau := 1.2198 * 0.7
        d2alphar_ddelta2 := 0
        d2alphar_ddelta_dtau := 1.2198
        d2alphar_dtau2 := 0
        d3alphar_ddelta3 := 0
        d3alphar_ddelta2_dtau := 0
        d3alphar_ddelta_dtau2 := 0
        d3alphar_dtau3 := 0 } := by
  have ndteu_plainTerm := powExp_calculus.1
  have h : ∀ el, ndteu (realFns valid) (plainTerm [plainElement (1.2198 : ℝ) 1 1]) el 1.3 0.7
      = el.n * (0.7 : ℝ) ^ el.d * (1.3 : ℝ) ^ el.t := fun el =>
    ndteu_plainTerm valid _ el 1.3 0.7 (by norm_num) (by norm_num)
  rw [all_zero_sums]
  simp only [uParts_plainTerm, h, plainTerm_elements]
  ext <;> simp [plainElement, UParts.zero, B_delta, B_tau, B_delta2, B_tau2, B_delta3, B_tau3,
    POW2, POW3] <;> norm_num

/-- Claim C7: for every term, `tau > 0` and `delta > 0`, `all` on the zero aggregate
yields, with `term = n*exp(t*ln(tau) + d*ln(delta) + u)` per element, the sums of `term`,
`term*B_delta`, `term*B_tau`, `term*B_delta2`, `term*B_tau2`, `term*B_delta*B_tau`,
`term*B_delta3`, `term*B_tau3`, `term*B_delta2*B_tau`, `term*B_delta*B_tau2`, each divided
by the matching powers of `delta` and `tau`. -/
theorem all_zero_is_rescaled_sum {K : Type} [LinearOrderedField K] (F : MathFns K)
    (self : ResidualHelmholtzGeneralizedExponential K) (tau delta : K)
    (_htau : 0 < tau) (_hdelta : 0 < delta) :
    let term := fun el : ResidualHelmholtzGeneralizedExponentialElement K =>
      el.n * F.exp (el.t * F.log tau + el.d * F.log delta + (uParts F self el tau delta).u)
    let Bd := fun el : ResidualHelmholtzGeneralizedExponentialElement K =>
      B_delta delta el.d (uParts F self el tau delta).du_ddelta
    let Bt := fun el : ResidualHelmholtzGeneralizedExponentialElement K =>
      B_tau tau el.t (uParts F self el tau delta).du_dtau
    let Bd2 := fun el : ResidualHelmholtzGeneralizedExponentialElement K =>
      B_delta2 delta el.d (uParts F self el tau delta).du_ddelta
        (uParts F self el tau delta).d2u_ddelta2
    let Bt2 := fun el : ResidualHelmholtzGeneralizedExponentialElement K =>
      B_tau2 tau el.t (uParts F self el tau delta).du_dtau (uParts F self el tau delta).d2u_dtau2
    let Bd3 := fun el : ResidualHelmholtzGeneralizedExponentialElement K =>
      B_delta3 delta el.d (uParts F self el tau delta).du_ddelta
        (uParts F self el tau delta).d2u_ddelta2 (uParts F self el tau delta).d3u_ddelta3
    let Bt3 := fun el : ResidualHelmholtzGeneralizedExponentialElement K =>
      B_tau3 tau el.t (uParts F self el tau delta).du_dtau (uParts F self el tau delta).d2u_dtau2
        (uParts F self el tau delta).d3u_dtau3
    let r := self.all F tau delta HelmholtzDerivatives.zero
    r.alphar = (self.elements.map term).sum ∧
    r.dalphar_ddelta = (self.elements.map fun el => term el * Bd el).sum / delta ∧
    r.dalphar_dtau = (self.elements.map fun el => term el * Bt el).sum / tau ∧
    r.d2alphar_ddelta2 = (self.elements.map fun el => term el * Bd2 el).sum / delta ^ 2 ∧
    r.d2alphar_dtau2 = (self.elements.map fun el => term el * Bt2 el).sum / tau ^ 2 ∧
    r.d2alphar_ddelta_dtau
      = (self.elements.map fun el => term el * Bd el * Bt el).sum / (delta * tau) ∧
    r.d3alphar_ddelta3 = (self.elements.map fun el => term el * Bd3 el).sum / delta ^ 3 ∧
    r.d3alphar_dtau3 = (self.elements.map fun el => term el * Bt3 el).sum / tau ^ 3 ∧
    r.d3alphar_ddelta2_dtau
      = (self.elements.map fun el => term el * Bd2 el * Bt el).sum / (delta ^ 2 * tau) ∧
    r.d3alphar_ddelta_dtau2
      = (self.elements.map fun el => term el * Bd el * Bt2 el).sum / (delta * tau ^ 2) := by
  intro term Bd Bt Bd2 Bt2 Bd3 Bt3 r
  have hr : r = self.all F tau delta HelmholtzDerivatives.zero := rfl
  rw [all_zero_eq, sumTerms_field] at hr
  simp only [elementTerms_eq] at hr
  have hterm : ∀ el, ndteu F self el tau delta = term el := fun _ => rfl
  simp only [hterm] at hr
  rw [hr]
  refine ⟨rfl, ?_, ?_, ?_, ?_, ?_, ?_, ?_, ?_, ?_⟩ <;>
    simp only [POW2, POW3, Bd, Bt, Bd2, Bt2, Bd3, Bt3] <;> simp only [div_eq_mul_inv, one_mul, mul_inv, pow_succ, pow_zero]

/-- Witness of C7: the term of the single element `n = 1, d = 1, t = 0` at `tau = 1`,
`delta = 2`, whose `dalphar_ddelta` is `exp(ln 2) * 1 / 2`. -/
theorem all_zero_is_rescaled_sum_witness :
    (0 : ℝ) < 1 ∧ (0 : ℝ) < 2 ∧
    ((plainTerm [plainElement (1 : ℝ) 1 0]).all (realFns fun _ => true) 1 2
      HelmholtzDerivatives.zero).dalphar_ddelta = 1 := by
  have h := (all_zero_is_rescaled_sum (realFns fun _ => true)
    (plainTerm [plainElement (1 : ℝ) 1 0]) 1 2 (by norm_num) (by norm_num)).2.1
  have h2 : Real.exp (Real.log 2) = 2 := Real.exp_log (by norm_num)
  refine ⟨by norm_num, by norm_num, ?_⟩
  rw [h]
  simp [plainTerm_elements, uParts_plainTerm, plainElement, UParts.zero, realFns, B_delta, h2]

/-! ## The `B` combinators as logarithmic derivatives (C8) -/

/-- Claim C8: the `B` combinators are the exact logarithmic derivatives of
`f(delta) = delta^d * exp(u(delta))`.  For every `delta > 0`, real `d` and `u` with first,
second and third derivatives `u1`, `u2`, `u3` on the positive axis, the first derivative
of `f` is `f*B_delta/delta`, the second `f*B_delta2/delta^2` and the third
`f*B_delta3/delta^3`, and the same holds in `tau` with `t` and `B_tau`, `B_tau2`,
`B_tau3`. -/
theorem B_combinators_are_logarithmic_derivatives (u u1 u2 u3 : ℝ → ℝ)
    (hu : ∀ y, 0 < y → HasDerivAt u (u1 y) y) (hu1 : ∀ y, 0 < y → HasDerivAt u1 (u2 y) y)
    (hu2 : ∀ y, 0 < y → HasDerivAt u2 (u3 y) y)
    (d delta : ℝ) (hdelta : 0 < delta) (t tau : ℝ) (htau : 0 < tau) :
    (HasDerivAt (powExp d u) (powExp d u delta * B_delta delta d (u1 delta) / delta) delta ∧
     HasDerivAt (deriv (powExp d u))
      (powExp d u delta * B_delta2 delta d (u1 delta) (u2 delta) / delta ^ 2) delta ∧
     HasDerivAt (deriv (deriv (powExp d u)))
      (powExp d u delta * B_delta3 delta d (u1 delta) (u2 delta) (u3 delta) / delta ^ 3)
      delta) ∧
    (HasDerivAt (powExp t u) (powExp t u tau * B_tau tau t (u1 tau) / tau) tau ∧
     HasDerivAt (deriv (powExp t u))
      (powExp t u tau * B_tau2 tau t (u1 tau) (u2 tau) / tau ^ 2) tau ∧
     HasDerivAt (deriv (deriv (powExp t u)))
      (powExp t u tau * B_tau3 tau t (u1 tau) (u2 tau) (u3 tau) / tau ^ 3) tau) := by
  have powExp_three_derivatives := powExp_calculus.2.2.2.2.2.2
  exact
    ⟨powExp_three_derivatives d u u1 u2 u3 delta hdelta hu hu1 hu2,
     powExp_three_derivatives t u u1 u2 u3 tau htau hu hu1 hu2⟩

/-- Witness of C8: `u(x) = -x`, with `d = 2` at `delta = 2` and `t = 1` at `tau = 3`. -/
theorem B_combinators_are_logarithmic_derivatives_witness :
    (0 : ℝ) < 2 ∧ (0 : ℝ) < 3 ∧
    (HasDerivAt (powExp 2 fun x => -x)
        (powExp 2 (fun x => -x) 2 * B_delta 2 2 (-1) / 2) 2 ∧
     HasDerivAt (deriv (powExp 2 fun x => -x))
        (powExp 2 (fun x => -x) 2 * B_delta2 2 2 (-1) 0 / 2 ^ 2) 2 ∧
     HasDerivAt (deriv (deriv (powExp 2 fun x => -x)))
        (powExp 2 (fun x => -x) 2 * B_delta3 2 2 (-1) 0 0 / 2 ^ 3) 2) ∧
    (HasDerivAt (powExp 1 fun x => -x)
        (powExp 1 (fun x => -x) 3 * B_tau 3 1 (-1) / 3) 3 ∧
     HasDerivAt (deriv (powExp 1 fun x => -x))
        (powExp 1 (fun x => -x) 3 * B_tau2 3 1 (-1) 0 / 3 ^ 2) 3 ∧
     HasDerivAt (deriv (deriv (powExp 1 fun x => -x)))
        (powExp 1 (fun x => -x) 3 * B_tau3 3 1 (-1) 0 0 / 3 ^ 3) 3) :=
  ⟨by norm_num, by norm_num,
   B_combinators_are_logarithmic_derivatives (fun x => -x) (fun _ => -1) (fun _ => 0)
    (fun _ => 0) (fun y _ => (hasDerivAt_id y).neg) (fun y _ => hasDerivAt_const y (-1 : ℝ))
    (fun y _ => hasDerivAt_const y (0 : ℝ)) 2 2 (by norm_num) 1 3 (by norm_num)⟩

/-! ## The modifier increments as derivatives (C9, C10) -/

/-- Calculus of the exponent modifiers of the generalized exponential: the cutoff recurrence and
the exactness of the increments of each block. -/
theorem modifier_calculus :
    -- `hasDerivAt_mul_one_div`: Differentiating `k * g y * (1 / y)`.
    (∀ (g : ℝ → ℝ) (g1 k x : ℝ) (_ : x ≠ 0) (_ : HasDerivAt g g1 x),
        HasDerivAt (fun y => k * g y * (1 / y)) (k * g1 * (1 / x) - k * g x * (1 / x ^ 2)) x) ∧
    -- `cutoff_recurrence`: A value `g` whose derivative is `m * g / x` (a multiple of a power
    -- `x ^ m`) has the second and third derivatives computed by the cutoff recurrences of the
    -- source.
    (∀ (g : ℝ → ℝ) (m x : ℝ) (_ : 0 < x) (_ : ∀ y, 0 < y → HasDerivAt g (m * g y * (1 / y)) y),
        HasDerivAt (fun y => m * g y * (1 / y)) ((m - 1) * (m * g x * (1 / x)) * (1 / x)) x ∧
        HasDerivAt (fun y => (m - 1) * (m * g y * (1 / y)) * (1 / y))
          ((m - 2) * ((m - 1) * (m * g x * (1 / x)) * (1 / x)) * (1 / x)) x) ∧
    -- `hasDerivAt_delta_li_u_increment`
    (∀ (el : ResidualHelmholtzGeneralizedExponentialElement ℝ) (_ : el.l_double = (el.l_int : ℝ))
      (y : ℝ) (_ : 0 < y),
        HasDerivAt (fun x => delta_li_u_increment el x)
          (el.l_double * delta_li_u_increment el y * (1 / y)) y) ∧
    -- `hasDerivAt_tau_mi_u_increment`
    (∀ (valid : ℝ → Bool) (el : ResidualHelmholtzGeneralizedExponentialElement ℝ) (y : ℝ)
      (_ : 0 < y),
        HasDerivAt (fun x => tau_mi_u_increment (realFns valid) el x)
          (el.m_double * tau_mi_u_increment (realFns valid) el y * (1 / y)) y) ∧
    -- `tauIncrementsExact_id`
    (∀ (x0 : ℝ),
        TauIncrementsExact (fun _ s => s) x0) ∧
    -- `deltaIncrementsExact_id`
    (∀ (x0 : ℝ),
        DeltaIncrementsExact (fun _ s => s) x0) ∧
    -- `tau_mi_block_exact`
    (∀ (valid : ℝ → Bool) (b : Bool) (el : ResidualHelmholtzGeneralizedExponentialElement ℝ)
      (tau : ℝ) (_ : 0 < tau),
        TauIncrementsExact (fun x s => tau_mi_block (realFns valid) b el x s) tau) ∧
    -- `eta1_block_exact`
    (∀ (valid : ℝ → Bool) (b : Bool) (el : ResidualHelmholtzGeneralizedExponentialElement ℝ)
      (delta : ℝ),
        DeltaIncrementsExact (fun x s => eta1_block (realFns valid) b el x s) delta) ∧
    -- `eta2_block_exact`
    (∀ (valid : ℝ → Bool) (b : Bool) (el : ResidualHelmholtzGeneralizedExponentialElement ℝ)
      (delta : ℝ),
        DeltaIncrementsExact (fun x s => eta2_block (realFns valid) b el x s) delta) ∧
    -- `beta1_block_exact`
    (∀ (valid : ℝ → Bool) (b : Bool) (el : ResidualHelmholtzGeneralizedExponentialElement ℝ)
      (tau : ℝ),
        TauIncrementsExact (fun x s => beta1_block (realFns valid) b el x s) tau) ∧
    -- `beta2_block_exact`
    (∀ (valid : ℝ → Bool) (b : Bool) (el : ResidualHelmholtzGeneralizedExponentialElement ℝ)
      (tau : ℝ),
        TauIncrementsExact (fun x s => beta2_block (realFns valid) b el x s) tau) := by
  refine and_of_left ?_ fun hasDerivAt_mul_one_div => ?_
  · intro g g1 k x hx hg
    have hinv : HasDerivAt (fun y : ℝ => 1 / y) (-(x ^ 2)⁻¹) x := by
      simpa [one_div] using hasDerivAt_inv hx
    have h := (hg.const_mul k).mul hinv
    refine h.congr_deriv ?_
    simp only [one_div, div_eq_mul_inv, mul_inv, ← inv_pow]
    ring
  refine and_of_left ?_ fun cutoff_recurrence => ?_
  · intro g m x hx hg
    have h2 : ∀ y, 0 < y →
        HasDerivAt (fun y => m * g y * (1 / y)) ((m - 1) * (m * g y * (1 / y)) * (1 / y)) y := by
      intro y hy
      refine (hasDerivAt_mul_one_div g _ m y hy.ne' (hg y hy)).congr_deriv ?_
      simp only [one_div, div_eq_mul_inv, mul_inv, ← inv_pow]
      ring
    refine ⟨h2 x hx, ?_⟩
    refine (hasDerivAt_mul_one_div (fun y => m * g y * (1 / y)) _ (m - 1) x hx.ne'
      (h2 x hx)).congr_deriv ?_
    simp only [one_div, div_eq_mul_inv, mul_inv, ← inv_pow]
    ring
  refine and_of_left ?_ fun hasDerivAt_delta_li_u_increment => ?_
  · intro el hl y hy
    have h := (hasDerivAt_zpow el.l_int y (Or.inl hy.ne')).const_mul (-el.c)
    refine h.congr_deriv ?_
    rw [zpow_sub_one₀ hy.ne', hl]
    simp only [delta_li_u_increment]
    ring
  refine and_of_left ?_ fun hasDerivAt_tau_mi_u_increment => ?_
  · intro valid el y hy
    have h := (Real.hasDerivAt_rpow_const (p := el.m_double) (Or.inl hy.ne')).const_mul (-el.omega)
    refine h.congr_deriv ?_
    rw [Real.rpow_sub_one hy.ne']
    simp only [tau_mi_u_increment, realFns]
    ring
  refine and_of_left ?_ fun tauIncrementsExact_id => ?_
  · intro x0
    intro s
    simp only [sub_self]
    exact ⟨hasDerivAt_const _ _, hasDerivAt_const _ _, hasDerivAt_const _ _⟩
  refine and_of_left ?_ fun deltaIncrementsExact_id => ?_
  · intro x0
    intro s
    simp only [sub_self]
    exact ⟨hasDerivAt_const _ _, hasDerivAt_const _ _, hasDerivAt_const _ _⟩
  refine and_of_left ?_ fun tau_mi_block_exact => ?_
  · intro valid b el tau htau
    by_cases hb : b = true
    · by_cases hm : |el.m_double| > 0
      · intro s
        have h1 := hasDerivAt_tau_mi_u_increment valid el
        have h23 := cutoff_recurrence (fun x => tau_mi_u_increment (realFns valid) el x)
          el.m_double tau htau h1
        simp only [tau_mi_block, hb, hm, if_true, add_sub_cancel_left]
        exact ⟨h1 tau htau, h23.1, h23.2⟩
      · have : (fun x s => tau_mi_block (realFns valid) b el x s) = fun _ s => s := by
          funext x s; simp [tau_mi_block, hm]
        rw [this]; exact tauIncrementsExact_id tau
    · have : (fun x s => tau_mi_block (realFns valid) b el x s) = fun _ s => s := by
        funext x s; simp [tau_mi_block, hb]
      rw [this]; exact tauIncrementsExact_id tau
  refine and_of_left ?_ fun eta1_block_exact => ?_
  · intro valid b el delta
    by_cases hb : b = true ∧ valid el.eta1 = true
    · intro s
      simp only [eta1_block, hb.1, realFns, hb.2, if_true, add_sub_cancel_left, sub_self]
      refine ⟨?_, hasDerivAt_const _ _, hasDerivAt_const _ _⟩
      have := ((hasDerivAt_id delta).sub_const el.epsilon1).const_mul (-el.eta1)
      simpa using this
    · have : (fun x s => eta1_block (realFns valid) b el x s) = fun _ s => s := by
        funext x s
        by_cases h1 : b = true <;> by_cases h2 : valid el.eta1 = true <;>
          simp [eta1_block, realFns, h1, h2] at hb ⊢
      rw [this]; exact deltaIncrementsExact_id delta
  refine and_of_left ?_ fun eta2_block_exact => ?_
  · intro valid b el delta
    by_cases hb : b = true ∧ valid el.eta2 = true
    · intro s
      simp only [eta2_block, hb.1, realFns, hb.2, if_true, add_sub_cancel_left, sub_self, POW2]
      have hlin := (hasDerivAt_id delta).sub_const el.epsilon2
      refine ⟨?_, ?_, hasDerivAt_const _ _⟩
      · refine ((hlin.mul hlin).const_mul (-el.eta2)).congr_deriv ?_
        simp only [id]; ring
      · refine (hlin.const_mul (-2 * el.eta2)).congr_deriv ?_
        ring
    · have : (fun x s => eta2_block (realFns valid) b el x s) = fun _ s => s := by
        funext x s
        by_cases h1 : b = true <;> by_cases h2 : valid el.eta2 = true <;>
          simp [eta2_block, realFns, h1, h2] at hb ⊢
      rw [this]; exact deltaIncrementsExact_id delta
  refine and_of_left ?_ fun beta1_block_exact => ?_
  · intro valid b el tau
    by_cases hb : b = true ∧ valid el.beta1 = true
    · intro s
      simp only [beta1_block, hb.1, realFns, hb.2, if_true, add_sub_cancel_left, sub_self]
      refine ⟨?_, hasDerivAt_const _ _, hasDerivAt_const _ _⟩
      have := ((hasDerivAt_id tau).sub_const el.gamma1).const_mul (-el.beta1)
      simpa using this
    · have : (fun x s => beta1_block (realFns valid) b el x s) = fun _ s => s := by
        funext x s
        by_cases h1 : b = true <;> by_cases h2 : valid el.beta1 = true <;>
          simp [beta1_block, realFns, h1, h2] at hb ⊢
      rw [this]; exact tauIncrementsExact_id tau
  intro valid b el tau
  by_cases hb : b = true ∧ valid el.beta2 = true
  · intro s
    simp only [beta2_block, hb.1, realFns, hb.2, if_true, add_sub_cancel_left, sub_self, POW2]
    have hlin := (hasDerivAt_id tau).sub_const el.gamma2
    refine ⟨?_, ?_, hasDerivAt_const _ _⟩
    · refine ((hlin.mul hlin).const_mul (-el.beta2)).congr_deriv ?_
      simp only [id]; ring
    · refine (hlin.const_mul (-2 * el.beta2)).congr_deriv ?_
      ring
  · have : (fun x s => beta2_block (realFns valid) b el x s) = fun _ s => s := by
      funext x s
      by_cases h1 : b = true <;> by_cases h2 : valid el.beta2 = true <;>
        simp [beta2_block, realFns, h1, h2] at hb ⊢
    rw [this]; exact tauIncrementsExact_id tau

/-- Claim C9, as stated, fails: for the element `c = 1`, `l_double = 3/2`, `l_int = 1`
at `delta = 1` the cutoff is applied (flag set, `l_double` valid, `l_int > 0`), the value
increment `-c*delta^l_int` has derivative `-1`, and `du_ddelta_increment` is `-3/2`, which
is not its derivative. -/
theorem delta_li_increment_not_derivative :
    (delta_li_block (realFns fun _ => true) true mismatchedElement 1 UParts.zero).du_ddelta
      = delta_li_du_ddelta_increment (mismatchedElement :
          ResidualHelmholtzGeneralizedExponentialElement ℝ) 1 ∧
    delta_li_du_ddelta_increment (mismatchedElement :
      ResidualHelmholtzGeneralizedExponentialElement ℝ) 1 = -(3 / 2) ∧
    HasDerivAt (fun x : ℝ => delta_li_u_increment mismatchedElement x) (-1) 1 ∧
    ¬ HasDerivAt (fun x : ℝ => delta_li_u_increment mismatchedElement x)
      (delta_li_du_ddelta_increment mismatchedElement 1) 1 := by
  have h1 : HasDerivAt (fun x : ℝ => delta_li_u_increment mismatchedElement x) (-1) 1 := by
    have := ((hasDerivAt_id (1 : ℝ)).const_mul (-1 : ℝ))
    simpa [delta_li_u_increment, mismatchedElement, plainElement] using this
  have hv : delta_li_du_ddelta_increment (mismatchedElement :
      ResidualHelmholtzGeneralizedExponentialElement ℝ) 1 = -(3 / 2) := by
    norm_num [delta_li_du_ddelta_increment, delta_li_u_increment, mismatchedElement,
      plainElement]
  refine ⟨?_, hv, h1, ?_⟩
  · simp [delta_li_block, realFns, mismatchedElement, plainElement, UParts.zero]
  · intro h
    have := h.unique h1
    rw [hv] at this
    norm_num at this

/-- Claim C9, amended: for every element with the density cutoff applied (flag set,
`l_double` valid, `l_int > 0`) whose `l_double` equals `l_int`, and every `delta > 0`, the
block adds `u_increment = -c*delta^l_int` and the three increments, and
`du_ddelta_increment`, `d2u_ddelta2_increment`, `d3u_ddelta3_increment` are the first,
second and third derivatives with respect to `delta` of `u_increment`. -/
theorem delta_li_increments_are_derivatives (valid : ℝ → Bool)
    (el : ResidualHelmholtzGeneralizedExponentialElement ℝ) (delta : ℝ) (s : UParts ℝ)
    (hvalid : valid el.l_double = true) (hpos : el.l_int > 0)
    (hl : el.l_double = (el.l_int : ℝ)) (hdelta : 0 < delta) :
    delta_li_block (realFns valid) true el delta s =
      { s with
        u := s.u + delta_li_u_increment el delta
        du_ddelta := s.du_ddelta + delta_li_du_ddelta_increment el delta
        d2u_ddelta2 := s.d2u_ddelta2 + delta_li_d2u_ddelta2_increment el delta
        d3u_ddelta3 := s.d3u_ddelta3 + delta_li_d3u_ddelta3_increment el delta } ∧
    HasDerivAt (fun x => delta_li_u_increment el x)
      (delta_li_du_ddelta_increment el delta) delta ∧
    HasDerivAt (fun x => delta_li_du_ddelta_increment el x)
      (delta_li_d2u_ddelta2_increment el delta) delta ∧
    HasDerivAt (fun x => delta_li_d2u_ddelta2_increment el x)
      (delta_li_d3u_ddelta3_increment el delta) delta := by
  have hasDerivAt_delta_li_u_increment := modifier_calculus.2.2.1
  have cutoff_recurrence := modifier_calculus.2.1
  have h1 := hasDerivAt_delta_li_u_increment el hl
  have h23 := cutoff_recurrence (fun x => delta_li_u_increment el x) el.l_double delta hdelta h1
  refine ⟨?_, h1 delta hdelta, h23.1, h23.2⟩
  simp [delta_li_block, realFns, hvalid, hpos]

/-- Witness of the amended C9: the element `c = 1`, `l_double = 2`, `l_int = 2` at
`delta = 3`. -/
theorem delta_li_increments_are_derivatives_witness :
    (cutoffElement : ResidualHelmholtzGeneralizedExponentialElement ℝ).l_int > 0 ∧
    (cutoffElement : ResidualHelmholtzGeneralizedExponentialElement ℝ).l_double
      = ((cutoffElement : ResidualHelmholtzGeneralizedExponentialElement ℝ).l_int : ℝ) ∧
    (0 : ℝ) < 3 ∧
    HasDerivAt (fun x : ℝ => delta_li_u_increment cutoffElement x)
      (delta_li_du_ddelta_increment cutoffElement 3) 3 :=
  ⟨by decide, by norm_num [cutoffElement, plainElement], by norm_num,
   (delta_li_increments_are_derivatives (fun _ => true) cutoffElement 3 UParts.zero rfl
    (by decide) (by norm_num [cutoffElement, plainElement]) (by norm_num)).2.1⟩

/-- Claim C10: for every element, `tau > 0` and `delta > 0`.  Whatever the flags, the
increments that the temperature cutoff and the four quadratic-well blocks add to `du`,
`d2u`, `d3u` are the first, second and third derivatives of the value they add to `u` (a
field a block leaves alone counting as increment zero).  When the temperature cutoff is
taken (`|m_double| > 0`), the value it adds to `u` is `-omega*tau^m_double` and its three
increments are the successive derivatives of that value; when a well is taken, the value it
adds is `-eta1*(delta - epsilon1)`, `-eta2*(delta - epsilon2)^2`, `-beta1*(tau - gamma1)`,
`-beta2*(tau - gamma2)^2`, with the increments `-eta1`, then `-2*eta2*(delta - epsilon2)` and
`-2*eta2`, and likewise in `tau`, each the derivative of the one before, the missing ones
being the derivative zero of a constant. -/
theorem modifier_increments_are_derivatives (valid : ℝ → Bool)
    (el : ResidualHelmholtzGeneralizedExponentialElement ℝ) (tau delta : ℝ)
    (htau : 0 < tau) (_hdelta : 0 < delta) (b1 b2 b3 b4 b5 : Bool) (s : UParts ℝ) :
    (TauIncrementsExact (fun x s => tau_mi_block (realFns valid) b1 el x s) tau ∧
      DeltaIncrementsExact (fun x s => eta1_block (realFns valid) b2 el x s) delta ∧
      DeltaIncrementsExact (fun x s => eta2_block (realFns valid) b3 el x s) delta ∧
      TauIncrementsExact (fun x s => beta1_block (realFns valid) b4 el x s) tau ∧
      TauIncrementsExact (fun x s => beta2_block (realFns valid) b5 el x s) tau) ∧
    (|el.m_double| > 0 →
      tau_mi_block (realFns valid) true el tau s =
        { s with
          u := s.u + -el.omega * tau ^ el.m_double
          du_dtau := s.du_dtau + tau_mi_du_dtau_increment (realFns valid) el tau
          d2u_dtau2 := s.d2u_dtau2 + tau_mi_d2u_dtau2_increment (realFns valid) el tau
          d3u_dtau3 := s.d3u_dtau3 + tau_mi_d3u_dtau3_increment (realFns valid) el tau } ∧
      HasDerivAt (fun x : ℝ => -el.omega * x ^ el.m_double)
        (tau_mi_du_dtau_increment (realFns valid) el tau) tau ∧
      HasDerivAt (fun x => tau_mi_du_dtau_increment (realFns valid) el x)
        (tau_mi_d2u_dtau2_increment (realFns valid) el tau) tau ∧
      HasDerivAt (fun x => tau_mi_d2u_dtau2_increment (realFns valid) el x)
        (tau_mi_d3u_dtau3_increment (realFns valid) el tau) tau) ∧
    (valid el.eta1 = true →
      eta1_block (realFns valid) true el delta s =
        { s with
          u := s.u + -el.eta1 * (delta - el.epsilon1)
          du_ddelta := s.du_ddelta + -el.eta1 } ∧
      HasDerivAt (fun x : ℝ => -el.eta1 * (x - el.epsilon1)) (-el.eta1) delta ∧
      HasDerivAt (fun _ : ℝ => -el.eta1) 0 delta) ∧
    (valid el.eta2 = true →
      eta2_block (realFns valid) true el delta s =
        { s with
          u := s.u + -el.eta2 * (delta - el.epsilon2) ^ 2
          du_ddelta := s.du_ddelta + -2 * el.eta2 * (delta - el.epsilon2)
          d2u_ddelta2 := s.d2u_ddelta2 + -2 * el.eta2 } ∧
      HasDerivAt (fun x : ℝ => -el.eta2 * (x - el.epsilon2) ^ 2)
        (-2 * el.eta2 * (delta - el.epsilon2)) delta ∧
      HasDerivAt (fun x : ℝ => -2 * el.eta2 * (x - el.epsilon2)) (-2 * el.eta2) delta ∧
      HasDerivAt (fun _ : ℝ => -2 * el.eta2) 0 delta) ∧
    (valid el.beta1 = true →
      beta1_block (realFns valid) true el tau s =
        { s with
          u := s.u + -el.beta1 * (tau - el.gamma1)
          du_dtau := s.du_dtau + -el.beta1 } ∧
      HasDerivAt (fun x : ℝ => -el.beta1 * (x - el.gamma1)) (-el.beta1) tau ∧
      HasDerivAt (fun _ : ℝ => -el.beta1) 0 tau) ∧
    (valid el.beta2 = true →
      beta2_block (realFns valid) true el tau s =
        { s with
          u := s.u + -el.beta2 * (tau - el.gamma2) ^ 2
          du_dtau := s.du_dtau + -2 * el.beta2 * (tau - el.gamma2)
          d2u_dtau2 := s.d2u_dtau2 + -2 * el.beta2 } ∧
      HasDerivAt (fun x : ℝ => -el.beta2 * (x - el.gamma2) ^ 2)
        (-2 * el.beta2 * (tau - el.gamma2)) tau ∧
      HasDerivAt (fun x : ℝ => -2 * el.beta2 * (x - el.gamma2)) (-2 * el.beta2) tau ∧
      HasDerivAt (fun _ : ℝ => -2 * el.beta2) 0 tau) := by
  have cutoff_recurrence := modifier_calculus.2.1
  have hasDerivAt_tau_mi_u_increment := modifier_calculus.2.2.2.1
  have tau_mi_block_exact := modifier_calculus.2.2.2.2.2.2.1
  have eta1_block_exact := modifier_calculus.2.2.2.2.2.2.2.1
  have eta2_block_exact := modifier_calculus.2.2.2.2.2.2.2.2.1
  have beta1_block_exact := modifier_calculus.2.2.2.2.2.2.2.2.2.1
  have beta2_block_exact := modifier_calculus.2.2.2.2.2.2.2.2.2.2
  have hlin : ∀ k e x0 : ℝ, HasDerivAt (fun x : ℝ => -k * (x - e)) (-k) x0 := by
    intro k e x0
    simpa using ((hasDerivAt_id x0).sub_const e).const_mul (-k)
  have hquad : ∀ k e x0 : ℝ,
      HasDerivAt (fun x : ℝ => -k * (x - e) ^ 2) (-2 * k * (x0 - e)) x0 ∧
      HasDerivAt (fun x : ℝ => -2 * k * (x - e)) (-2 * k) x0 := by
    intro k e x0
    have hl := (hasDerivAt_id' x0).sub_const e
    refine ⟨((hl.pow 2).const_mul (-k)).congr_deriv ?_, ?_⟩
    · simp only [Nat.cast_ofNat]; ring
    · simpa using hl.const_mul (-2 * k)
  refine ⟨⟨tau_mi_block_exact valid b1 el tau htau, eta1_block_exact valid b2 el delta,
     eta2_block_exact valid b3 el delta, beta1_block_exact valid b4 el tau,
     beta2_block_exact valid b5 el tau⟩, fun hm => ?_, fun hv => ?_, fun hv => ?_,
     fun hv => ?_, fun hv => ?_⟩
  · have h1 := hasDerivAt_tau_mi_u_increment valid el
    have h23 := cutoff_recurrence (fun x => tau_mi_u_increment (realFns valid) el x)
      el.m_double tau htau h1
    refine ⟨?_, h1 tau htau, h23.1, h23.2⟩
    simp [tau_mi_block, hm, tau_mi_u_increment, realFns]
  · exact ⟨by simp [eta1_block, realFns, hv], hlin _ _ _, hasDerivAt_const _ _⟩
  · exact ⟨by simp [eta2_block, realFns, hv, POW2, sq], (hquad _ _ _).1, (hquad _ _ _).2,
      hasDerivAt_const _ _⟩
  · exact ⟨by simp [beta1_block, realFns, hv], hlin _ _ _, hasDerivAt_const _ _⟩
  · exact ⟨by simp [beta2_block, realFns, hv, POW2, sq], (hquad _ _ _).1, (hquad _ _ _).2,
      hasDerivAt_const _ _⟩

/-- Witness of C10: the element of `allModifiersTerm` (`omega = 1`, `m_double = 3/2`, unit
wells centred at `1`) at `tau = 2`, `delta = 3`, where every block is taken. -/
theorem modifier_increments_are_derivatives_witness :
    (0 : ℝ) < 2 ∧ (0 : ℝ) < 3 ∧
    |(allModifiersElement : ResidualHelmholtzGeneralizedExponentialElement ℝ).m_double| > 0 ∧
    (tau_mi_block (realFns fun _ => true) true allModifiersElement 2 UParts.zero).u
      = 0 + -1 * (2 : ℝ) ^ (3 / 2 : ℝ) ∧
    HasDerivAt (fun x : ℝ => -1 * x ^ (3 / 2 : ℝ))
      (tau_mi_du_dtau_increment (realFns fun _ => true) allModifiersElement 2) 2 ∧
    (eta2_block (realFns fun _ => true) true allModifiersElement 3 UParts.zero).du_ddelta
      = 0 + -2 * 1 * (3 - 1) ∧
    HasDerivAt (fun x : ℝ => -1 * (x - 1) ^ 2) (-2 * 1 * (3 - 1)) 3 ∧
    HasDerivAt (fun x : ℝ => -1 * (x - 1)) (-1) 2 :=
  have hm : |(allModifiersElement : ResidualHelmholtzGeneralizedExponentialElement ℝ).m_double|
      > 0 := by norm_num [allModifiersElement]
  ⟨by norm_num, by norm_num, hm,
   congrArg UParts.u ((modifier_increments_are_derivatives (fun _ => true) allModifiersElement
      2 3 (by norm_num) (by norm_num) true true true true true UParts.zero).2.1 hm).1,
   ((modifier_increments_are_derivatives (fun _ => true) allModifiersElement
      2 3 (by norm_num) (by norm_num) true true true true true UParts.zero).2.1 hm).2.1,
   congrArg UParts.du_ddelta ((modifier_increments_are_derivatives (fun _ => true)
      allModifiersElement 2 3 (by norm_num) (by norm_num) true true true true true
      UParts.zero).2.2.2.1 rfl).1,
   ((modifier_increments_are_derivatives (fun _ => true) allModifiersElement
      2 3 (by norm_num) (by norm_num) true true true true true UParts.zero).2.2.2.1 rfl).2.1,
   ((modifier_increments_are_derivatives (fun _ => true) allModifiersElement
      2 3 (by norm_num) (by norm_num) true true true true true UParts.zero).2.2.2.2.1 rfl).2.1⟩

/-! ## The skip policy of the generalized-exponential modifiers (C11) -/

theorem uParts_delta_li_skipped {K : Type} [LinearOrderedField K] (F : MathFns K)
    (self : ResidualHelmholtzGeneralizedExponential K)
    (el : ResidualHelmholtzGeneralizedExponentialElement K) (tau delta : K)
    (h : el.l_int ≤ 0) :
    uParts F { self with delta_li_in_u := true } el tau delta
      = uParts F { self with delta_li_in_u := false } el tau delta := by
  have hn : ¬ (el.l_int > 0) := not_lt.mpr h
  simp [uParts, delta_li_block, hn]

theorem uParts_tau_mi_skipped {K : Type} [LinearOrderedField K] (F : MathFns K)
    (self : ResidualHelmholtzGeneralizedExponential K)
    (el : ResidualHelmholtzGeneralizedExponentialElement K) (tau delta : K)
    (h : el.m_double = 0) :
    uParts F { self with tau_mi_in_u := true } el tau delta
      = uParts F { self with tau_mi_in_u := false } el tau delta := by
  simp [uParts, tau_mi_block, h]

/-- Claim C11: for every term, `tau > 0` and `delta > 0`, an element whose `l_int` is
`<= 0` gives the same ten contributions with the density-cutoff flag on as with it off,
whatever `c` is, and an element whose `m_double` is `0` gives the same ten contributions
with the temperature-cutoff flag on as with it off, whatever `omega` is. -/
theorem skipped_modifiers_contribute_nothing {K : Type} [LinearOrderedField K] (F : MathFns K)
    (self : ResidualHelmholtzGeneralizedExponential K)
    (el : ResidualHelmholtzGeneralizedExponentialElement K) (tau delta : K)
    (_htau : 0 < tau) (_hdelta : 0 < delta) :
    (el.l_int ≤ 0 →
      elementTerms F { self with delta_li_in_u := true } tau delta el
        = elementTerms F { self with delta_li_in_u := false } tau delta el) ∧
    (el.m_double = 0 →
      elementTerms F { self with tau_mi_in_u := true } tau delta el
        = elementTerms F { self with tau_mi_in_u := false } tau delta el) := by
  constructor
  · intro h
    simp only [elementTerms, ResidualHelmholtzGeneralizedExponential.loopBody, ndteu,
      uParts_delta_li_skipped F self el tau delta h]
  · intro h
    simp only [elementTerms, ResidualHelmholtzGeneralizedExponential.loopBody, ndteu,
      uParts_tau_mi_skipped F self el tau delta h]

/-- Witness of C11: the element `n = d = t = 1`, `c = 5`, `l_int = 0` at `tau = 2`,
`delta = 3`. -/
theorem skipped_modifiers_contribute_nothing_witness :
    (0 : ℝ) < 2 ∧ (0 : ℝ) < 3 ∧
    ({ plainElement (1 : ℝ) 1 1 with c := 5, l_int := 0, l_double := 0 } :
        ResidualHelmholtzGeneralizedExponentialElement ℝ).l_int ≤ 0 ∧
    elementTerms (realFns fun _ => true) { plainTerm [] with delta_li_in_u := true } 2 3
        { plainElement (1 : ℝ) 1 1 with c := 5, l_int := 0, l_double := 0 }
      = elementTerms (realFns fun _ => true) { plainTerm [] with delta_li_in_u := false } 2 3
        { plainElement (1 : ℝ) 1 1 with c := 5, l_int := 0, l_double := 0 } :=
  ⟨by norm_num, by norm_num, by decide,
   (skipped_modifiers_contribute_nothing (realFns fun _ => true) (plainTerm []) _ 2 3
      (by norm_num) (by norm_num)).1 (by decide)⟩

/-! ## Terms without elements and disabled terms (C13, C14) -/

/-- Claim C13: a non-analytic term with `N = 0` returns `0` from `base` and from each
of the nine derivative accessors at every input, and its `all` leaves every field of the
aggregate unchanged. -/
theorem nonanalytic_zero_elements {K : Type} [LinearOrderedField K] (F : MathFns K)
    (self : ResidualHelmholtzNonAnalytic K) (hN : self.N = 0) (tau delta : K)
    (derivs : HelmholtzDerivatives K) :
    self.base F tau delta = 0 ∧ self.dDelta F tau delta = 0 ∧ self.dTau F tau delta = 0 ∧
    self.dDelta2 F tau delta = 0 ∧ self.dDelta_dTau F tau delta = 0 ∧
    self.dTau2 F tau delta = 0 ∧ self.dDelta3 F tau delta = 0 ∧
    self.dDelta_dTau2 F tau delta = 0 ∧ self.dDelta2_dTau F tau delta = 0 ∧
    self.dTau3 F tau delta = 0 ∧ self.all F tau delta derivs = derivs := by
  simp [ResidualHelmholtzNonAnalytic.base, ResidualHelmholtzNonAnalytic.dDelta,
    ResidualHelmholtzNonAnalytic.dTau, ResidualHelmholtzNonAnalytic.dDelta2,
    ResidualHelmholtzNonAnalytic.dDelta_dTau, ResidualHelmholtzNonAnalytic.dTau2,
    ResidualHelmholtzNonAnalytic.dDelta3, ResidualHelmholtzNonAnalytic.dDelta_dTau2,
    ResidualHelmholtzNonAnalytic.dDelta2_dTau, ResidualHelmholtzNonAnalytic.dTau3,
    ResidualHelmholtzNonAnalytic.all, ResidualHelmholtzNonAnalytic.accumulate, hN]

/-- Witness of C13: the term with no element, at `tau = 2`, `delta = 3`. -/
theorem nonanalytic_zero_elements_witness :
    (⟨0, [], []⟩ : ResidualHelmholtzNonAnalytic ℝ).N = 0 ∧
    (⟨0, [], []⟩ : ResidualHelmholtzNonAnalytic ℝ).base (realFns fun _ => true) 2 3 = 0 ∧
    (⟨0, [], []⟩ : ResidualHelmholtzNonAnalytic ℝ).all (realFns fun _ => true) 2 3
      onesAggregate = onesAggregate :=
  ⟨rfl,
   (nonanalytic_zero_elements (realFns fun _ => true) ⟨0, [], []⟩ rfl 2 3 onesAggregate).1,
   (nonanalytic_zero_elements (realFns fun _ => true) ⟨0, [], []⟩ rfl 2 3
      onesAggregate).2.2.2.2.2.2.2.2.2.2⟩

/-- Claim C14: when the SAFT term is disabled, `all` leaves every field of the
aggregate unchanged for every input; when the Aly-Lee term is not enabled, `base`, `dTau`,
`dTau2` and `dTau3` each return `0` for every input. -/
theorem disabled_terms_contribute_zero {K : Type} [LinearOrderedField K] (F : MathFns K)
    (saft : ResidualHelmholtzSAFTAssociating K) (alyLee : IdealHelmholtzCP0AlyLee K)
    (hdisabled : saft.disabled = true) (henabled : alyLee.enabled = false) (tau delta : K)
    (deriv : HelmholtzDerivatives K) :
    saft.all F tau delta deriv = deriv ∧
    alyLee.base F tau delta = 0 ∧ alyLee.dTau F tau delta = 0 ∧
    alyLee.dTau2 F tau delta = 0 ∧ alyLee.dTau3 F tau delta = 0 := by
  simp [ResidualHelmholtzSAFTAssociating.all, IdealHelmholtzCP0AlyLee.base,
    IdealHelmholtzCP0AlyLee.dTau, IdealHelmholtzCP0AlyLee.dTau2, IdealHelmholtzCP0AlyLee.dTau3,
    hdisabled, henabled]

/-- Witness of C14: a disabled SAFT term and a not enabled Aly-Lee term with all
coefficients one, at `tau = 2`, `delta = 3`. -/
theorem disabled_terms_contribute_zero_witness :
    (⟨1, 1, 1, 1, 1, true⟩ : ResidualHelmholtzSAFTAssociating ℝ).disabled = true ∧
    (⟨fun _ => 1, 1, 1, 1, false⟩ : IdealHelmholtzCP0AlyLee ℝ).enabled = false ∧
    (⟨1, 1, 1, 1, 1, true⟩ : ResidualHelmholtzSAFTAssociating ℝ).all (realFns fun _ => true) 2 3
      onesAggregate = onesAggregate ∧
    (⟨fun _ => 1, 1, 1, 1, false⟩ : IdealHelmholtzCP0AlyLee ℝ).base (realFns fun _ => true) 2 3
      = 0 :=
  ⟨rfl, rfl,
   (disabled_terms_contribute_zero (realFns fun _ => true) ⟨1, 1, 1, 1, 1, true⟩
      ⟨fun _ => 1, 1, 1, 1, false⟩ rfl rfl 2 3 onesAggregate).1,
   (disabled_terms_contribute_zero (realFns fun _ => true) ⟨1, 1, 1, 1, 1, true⟩
      ⟨fun _ => 1, 1, 1, 1, false⟩ rfl rfl 2 3 onesAggregate).2.1⟩

/-! ## The critical-region policy of the non-analytic term (C15, C16, C17) -/

/-- The value `s[i]` of `base` in terms of the named sub-expressions. -/
theorem base_element_eq {K : Type} [LinearOrderedField K] (F : MathFns K)
    (el : ResidualHelmholtzNonAnalyticElement K) (tau delta : K) :
    ResidualHelmholtzNonAnalytic.base_element F el tau delta =
      el.n * F.pow (NonAnalytic.DELTA F el tau delta) el.b * delta * (NonAnalytic.PSI F el tau
          delta) :=
  rfl

/-- The value `s[i]` of `dDelta` in terms of the named sub-expressions. -/
theorem dDelta_element_eq {K : Type} [LinearOrderedField K] (F : MathFns K)
    (el : ResidualHelmholtzNonAnalyticElement K) (tau delta : K) :
    ResidualHelmholtzNonAnalytic.dDelta_element F el tau delta =
      el.n * (F.pow (NonAnalytic.DELTA F el tau delta) el.b * ((NonAnalytic.PSI F el tau delta)
          + delta * (NonAnalytic.dPSI_dDelta F el tau delta)) + (NonAnalytic.dDELTAbi_dDelta_guarded
          F el tau delta) * delta * (NonAnalytic.PSI F el tau delta)) :=
  rfl

/-- The value `s[i]` of `dTau` in terms of the named sub-expressions. -/
theorem dTau_element_eq {K : Type} [LinearOrderedField K] (F : MathFns K)
    (el : ResidualHelmholtzNonAnalyticElement K) (tau delta : K) :
    ResidualHelmholtzNonAnalytic.dTau_element F el tau delta =
      el.n * delta * ((NonAnalytic.dDELTAbi_dTau F el tau delta) * (NonAnalytic.PSI F el tau
          delta) + F.pow (NonAnalytic.DELTA F el tau delta) el.b * (NonAnalytic.dPSI_dTau F el tau
          delta)) :=
  rfl

/-- The value `s[i]` of `dDelta2` in terms of the named sub-expressions. -/
theorem dDelta2_element_eq {K : Type} [LinearOrderedField K] (F : MathFns K)
    (el : ResidualHelmholtzNonAnalyticElement K) (tau delta : K) :
    ResidualHelmholtzNonAnalytic.dDelta2_element F el tau delta =
      el.n * (F.pow (NonAnalytic.DELTA F el tau delta) el.b * (2 * (NonAnalytic.dPSI_dDelta F el
          tau delta) + delta * (NonAnalytic.dPSI2_dDelta2 F el tau delta)) + 2 *
          (NonAnalytic.dDELTAbi_dDelta_guarded F el tau delta) * ((NonAnalytic.PSI F el tau delta) +
          delta * (NonAnalytic.dPSI_dDelta F el tau delta)) + (if |delta - 1| < 10 * DBL_EPSILON
          then 0 else NonAnalytic.dDELTAbi2_dDelta2 F el tau delta (if |delta - 1| < 10 *
          DBL_EPSILON then 0 else NonAnalytic.dDELTA2_dDelta2 F el tau delta)) * delta *
          (NonAnalytic.PSI F el tau delta)) :=
  rfl

/-- The value `s[i]` of `dDelta_dTau` in terms of the named sub-expressions. -/
theorem dDelta_dTau_element_eq {K : Type} [LinearOrderedField K] (F : MathFns K)
    (el : ResidualHelmholtzNonAnalyticElement K) (tau delta : K) :
    ResidualHelmholtzNonAnalytic.dDelta_dTau_element F el tau delta =
      el.n * (F.pow (NonAnalytic.DELTA F el tau delta) el.b * ((NonAnalytic.dPSI_dTau F el tau
          delta) + delta * (NonAnalytic.dPSI2_dDelta_dTau F el tau delta)) + delta *
          (NonAnalytic.dDELTAbi_dDelta_guarded F el tau delta) * (NonAnalytic.dPSI_dTau F el tau
          delta) + (NonAnalytic.dDELTAbi_dTau F el tau delta) * ((NonAnalytic.PSI F el tau delta) +
          delta * (NonAnalytic.dPSI_dDelta F el tau delta)) + (NonAnalytic.dDELTAbi2_dDelta_dTau F
          el tau delta) * delta * (NonAnalytic.PSI F el tau delta)) :=
  rfl

/-- The value `s[i]` of `dTau2` in terms of the named sub-expressions. -/
theorem dTau2_element_eq {K : Type} [LinearOrderedField K] (F : MathFns K)
    (el : ResidualHelmholtzNonAnalyticElement K) (tau delta : K) :
    ResidualHelmholtzNonAnalytic.dTau2_element F el tau delta =
      el.n * delta * ((NonAnalytic.dDELTAbi2_dTau2 F el tau delta) * (NonAnalytic.PSI F el tau
          delta) + 2 * (NonAnalytic.dDELTAbi_dTau F el tau delta) * (NonAnalytic.dPSI_dTau F el tau
          delta) + F.pow (NonAnalytic.DELTA F el tau delta) el.b * (NonAnalytic.dPSI2_dTau2 F el tau
          delta)) :=
  rfl

/-- The value `s[i]` of `dDelta3` in terms of the named sub-expressions. -/
theorem dDelta3_element_eq {K : Type} [LinearOrderedField K] (F : MathFns K)
    (el : ResidualHelmholtzNonAnalyticElement K) (tau delta : K) :
    ResidualHelmholtzNonAnalytic.dDelta3_element F el tau delta =
      el.n * (F.pow (NonAnalytic.DELTA F el tau delta) el.b * (3 * (NonAnalytic.dPSI2_dDelta2 F
          el tau delta) + delta * (NonAnalytic.dPSI3_dDelta3 F el tau delta)) + 3 *
          (NonAnalytic.dDELTAbi_dDelta_guarded F el tau delta) * (2 * (NonAnalytic.dPSI_dDelta F el
          tau delta) + delta * (NonAnalytic.dPSI2_dDelta2 F el tau delta)) + 3 *
          (NonAnalytic.dDELTAbi2_dDelta2 F el tau delta (NonAnalytic.dDELTA2_dDelta2_unguarded F el
          tau delta)) * ((NonAnalytic.PSI F el tau delta) + delta * (NonAnalytic.dPSI_dDelta F el
          tau delta)) + (NonAnalytic.dDELTAbi3_dDelta3 F el tau delta
          (NonAnalytic.dDELTA2_dDelta2_unguarded F el tau delta) (NonAnalytic.dDELTA3_dDelta3 F el
          tau delta (NonAnalytic.dDELTA2_dDelta2_unguarded F el tau delta))) * (NonAnalytic.PSI F el
          tau delta) * delta) :=
  rfl

/-- The value `s[i]` of `dDelta_dTau2` in terms of the named sub-expressions. -/
theorem dDelta_dTau2_element_eq {K : Type} [LinearOrderedField K] (F : MathFns K)
    (el : ResidualHelmholtzNonAnalyticElement K) (tau delta : K) :
    ResidualHelmholtzNonAnalytic.dDelta_dTau2_element F el tau delta =
      el.n * delta * ((NonAnalytic.dDELTAbi2_dTau2 F el tau delta) * (NonAnalytic.dPSI_dDelta F
          el tau delta) + (NonAnalytic.dDELTAbi3_dDelta_dTau2 F el tau delta) * (NonAnalytic.PSI F
          el tau delta) + 2 * (NonAnalytic.dDELTAbi_dTau F el tau delta) *
          (NonAnalytic.dPSI2_dDelta_dTau F el tau delta) + 2 * (NonAnalytic.dDELTAbi2_dDelta_dTau F
          el tau delta) * (NonAnalytic.dPSI_dTau F el tau delta) + F.pow (NonAnalytic.DELTA F el tau
          delta) el.b * (NonAnalytic.dPSI3_dDelta_dTau2 F el tau delta) +
          (NonAnalytic.dDELTAbi_dDelta_guarded F el tau delta) * (NonAnalytic.dPSI2_dTau2 F el tau
          delta)) + el.n * ((NonAnalytic.dDELTAbi2_dTau2 F el tau delta) * (NonAnalytic.PSI F el tau
          delta) + 2 * (NonAnalytic.dDELTAbi_dTau F el tau delta) * (NonAnalytic.dPSI_dTau F el tau
          delta) + F.pow (NonAnalytic.DELTA F el tau delta) el.b * (NonAnalytic.dPSI2_dTau2 F el tau
          delta)) :=
  rfl

/-- The value `s[i]` of `dDelta2_dTau` in terms of the named sub-expressions. -/
theorem dDelta2_dTau_element_eq {K : Type} [LinearOrderedField K] (F : MathFns K)
    (el : ResidualHelmholtzNonAnalyticElement K) (tau delta : K) :
    ResidualHelmholtzNonAnalytic.dDelta2_dTau_element F el tau delta =
      el.n * ((F.pow (NonAnalytic.DELTA F el tau delta) el.b * (2 *
          (NonAnalytic.dPSI2_dDelta_dTau F el tau delta) + delta * (NonAnalytic.dPSI3_dDelta2_dTau F
          el tau delta)) + (NonAnalytic.dDELTAbi_dTau F el tau delta) * (2 *
          (NonAnalytic.dPSI_dDelta F el tau delta) + delta * (NonAnalytic.dPSI2_dDelta2 F el tau
          delta))) + (2 * (NonAnalytic.dDELTAbi_dDelta_guarded F el tau delta) *
          ((NonAnalytic.dPSI_dTau F el tau delta) + delta * (NonAnalytic.dPSI2_dDelta_dTau F el tau
          delta)) + 2 * (NonAnalytic.dDELTAbi2_dDelta_dTau F el tau delta) * ((NonAnalytic.PSI F el
          tau delta) + delta * (NonAnalytic.dPSI_dDelta F el tau delta))) +
          ((NonAnalytic.dDELTAbi2_dDelta2 F el tau delta (NonAnalytic.dDELTA2_dDelta2_unguarded F el
          tau delta)) * delta * (NonAnalytic.dPSI_dTau F el tau delta) +
          (NonAnalytic.dDELTAbi3_dDelta2_dTau_lines F el tau delta
          (NonAnalytic.dDELTA2_dDelta2_unguarded F el tau delta)) * delta * (NonAnalytic.PSI F el
          tau delta))) :=
  rfl

/-- The value `s[i]` of `dTau3` in terms of the named sub-expressions. -/
theorem dTau3_element_eq {K : Type} [LinearOrderedField K] (F : MathFns K)
    (el : ResidualHelmholtzNonAnalyticElement K) (tau delta : K) :
    ResidualHelmholtzNonAnalytic.dTau3_element F el tau delta =
      el.n * delta * ((NonAnalytic.dDELTAbi3_dTau3 F el tau delta) * (NonAnalytic.PSI F el tau
          delta) + (3 * (NonAnalytic.dDELTAbi2_dTau2 F el tau delta)) * (NonAnalytic.dPSI_dTau F el
          tau delta) + (3 * (NonAnalytic.dDELTAbi_dTau F el tau delta)) * (NonAnalytic.dPSI2_dTau2 F
          el tau delta) + F.pow (NonAnalytic.DELTA F el tau delta) el.b * (NonAnalytic.dPSI3_dTau3 F
          el tau delta)) :=
  rfl

theorem dbl_epsilon_real : (DBL_EPSILON : ℝ) = 1 / 2 ^ 52 := rfl

/-- Claim C15 (code defect): `dDelta3` evaluates `dDELTA2_dDelta2` through the closed form
although `|delta - 1| < 10*DBL_EPSILON`.  For the element with
`DELTA = (1 - tau)^2 + (delta - 1)^2` and `b = 1`, at `tau = 1` and `delta = 1 + 2^-52`, the
value of `dDELTA2_dDelta2` in `dDelta3` is `2` and `dDelta3` stores `6`, while `all`, which
applies the guard, adds `0` to `d3alphar_ddelta3`. -/
theorem dDelta3_ignores_delta_guard :
    |(1 + 1 / 2 ^ 52 : ℝ) - 1| < 10 * DBL_EPSILON ∧
    NonAnalytic.dDELTA2_dDelta2_unguarded (realFns fun _ => true) (quadraticElement 1) 1
      (1 + 1 / 2 ^ 52) = 2 ∧
    ResidualHelmholtzNonAnalytic.dDelta3_element (realFns fun _ => true) (quadraticElement 1) 1
      (1 + 1 / 2 ^ 52) = 6 ∧
    (ResidualHelmholtzNonAnalytic.all_element (realFns fun _ => true) (quadraticElement 1) 1
      (1 + 1 / 2 ^ 52) HelmholtzDerivatives.zero).d3alphar_ddelta3 = 0 := by
  have hg : |(1 + 1 / 2 ^ 52 : ℝ) - 1| < 10 * DBL_EPSILON := by
    rw [dbl_epsilon_real]; norm_num [abs_of_pos]
  refine ⟨hg, ?_, ?_, ?_⟩
  · simp [NonAnalytic.dDELTA2_dDelta2_unguarded, NonAnalytic.dDELTA_dDelta, NonAnalytic.theta,
      quadraticElement, realFns]
  · simp [ResidualHelmholtzNonAnalytic.dDelta3_element, quadraticElement, realFns]
    norm_num
  · simp only [ResidualHelmholtzNonAnalytic.all_element, if_pos hg]
    simp [quadraticElement, realFns, HelmholtzDerivatives.zero]

/-- Claim C16 (code defect): derivatives of `DELTA^b` are not forced to zero when
`|DELTA| < 10*DBL_EPSILON`.  For `DELTA = (1 - tau)^2 + (delta - 1)^2`: with `b = 7/8` at
`tau = 1 + 2^-30`, `delta = 1`, where `DELTA = 2^-60`, the `dDELTAbi_dTau` of `dTau` is not
zero; with `b = 1` at `tau = 1`, `delta = 1 + 2^-30`, where `DELTA = 2^-60` and `|delta - 1|`
is above the tolerance, `all` adds to `dalphar_ddelta` the value stored by `dDelta`, which
applies the guard, plus the unguarded `dDELTAbi_dDelta*delta*PSI = 2^-29 * (1 + 2^-30)`. -/
theorem dTau_and_all_ignore_DELTA_guard :
    (|NonAnalytic.DELTA (realFns fun _ => true) (quadraticElement (7 / 8)) (1 + 1 / 2 ^ 30) 1|
        < 10 * DBL_EPSILON ∧
      NonAnalytic.dDELTAbi_dTau (realFns fun _ => true) (quadraticElement (7 / 8))
        (1 + 1 / 2 ^ 30) 1 ≠ 0) ∧
    (|NonAnalytic.DELTA (realFns fun _ => true) (quadraticElement 1) 1 (1 + 1 / 2 ^ 30)|
        < 10 * DBL_EPSILON ∧
      ¬ |(1 + 1 / 2 ^ 30 : ℝ) - 1| < 10 * DBL_EPSILON ∧
      (ResidualHelmholtzNonAnalytic.all_element (realFns fun _ => true) (quadraticElement 1) 1
        (1 + 1 / 2 ^ 30) HelmholtzDerivatives.zero).dalphar_ddelta
        = ResidualHelmholtzNonAnalytic.dDelta_element (realFns fun _ => true) (quadraticElement 1)
            1 (1 + 1 / 2 ^ 30) + 1 / 2 ^ 29 * (1 + 1 / 2 ^ 30)) := by
  have hD1 : NonAnalytic.DELTA (realFns fun _ => true) (quadraticElement (7 / 8))
      (1 + 1 / 2 ^ 30) 1 = 1 / 2 ^ 60 := by
    simp [NonAnalytic.DELTA, NonAnalytic.theta, quadraticElement, realFns]
    norm_num
  have hD2 : NonAnalytic.DELTA (realFns fun _ => true) (quadraticElement 1) 1
      (1 + 1 / 2 ^ 30) = 1 / 2 ^ 60 := by
    simp [NonAnalytic.DELTA, NonAnalytic.theta, quadraticElement, realFns]
    norm_num
  have hg : ¬ |(1 + 1 / 2 ^ 30 : ℝ) - 1| < 10 * DBL_EPSILON := by
    rw [dbl_epsilon_real]; norm_num [abs_of_pos]
  have hsmall : |(1 / 2 ^ 60 : ℝ)| < 10 * DBL_EPSILON := by
    rw [dbl_epsilon_real]; norm_num [abs_of_pos]
  refine ⟨⟨by rw [hD1]; exact hsmall, ?_⟩, by rw [hD2]; exact hsmall, hg, ?_⟩
  · have hpos : (0 : ℝ) < (1 / 2 ^ 60 : ℝ) ^ ((7 / 8 : ℝ) - 1) :=
      Real.rpow_pos_of_pos (by norm_num) _
    have hth : NonAnalytic.theta (realFns fun _ => true) (quadraticElement (7 / 8))
        (1 + 1 / 2 ^ 30) 1 = -(1 / 2 ^ 30) := by
      simp [NonAnalytic.theta, quadraticElement]
    simp only [NonAnalytic.dDELTAbi_dTau, hD1, hth]
    simp only [quadraticElement, realFns]
    have := hpos.ne'
    positivity
  · rw [dDelta_element_eq]
    simp only [NonAnalytic.dDELTAbi_dDelta_guarded, hD2, if_pos hsmall,
      ResidualHelmholtzNonAnalytic.all_element, if_neg hg]
    simp [NonAnalytic.DELTA, NonAnalytic.PSI, NonAnalytic.dPSI_dDelta, NonAnalytic.theta,
      quadraticElement, realFns, HelmholtzDerivatives.zero]
    norm_num

theorem Guarded.bind_eq_divByZero {K L : Type} (m : Guarded K) (f : K → Guarded L)
    (h : ∀ x, f x = Guarded.divByZero) : m.bind f = Guarded.divByZero := by
  cases m with
  | ok x => exact h x
  | divByZero => rfl

theorem Guarded.div_zero_eq {K : Type} [LinearOrderedField K] (a : Guarded K) : a / (Guarded.ok (0 : K)) = Guarded.divByZero := by
  cases a <;> simp [HDiv.hDiv, Div.div, Guarded.div, Guarded.bind]

theorem Guarded.divByZero_mul {K : Type} [LinearOrderedField K] (a : Guarded K) : (Guarded.divByZero : Guarded K) * a = Guarded.divByZero := rfl

theorem Guarded.divByZero_add {K : Type} [LinearOrderedField K] (a : Guarded K) : (Guarded.divByZero : Guarded K) + a = Guarded.divByZero := rfl

theorem Guarded.ok_sub_one {K : Type} [LinearOrderedField K] (x : K) : (Guarded.ok x : Guarded K) - 1 = Guarded.ok (x - 1) := rfl

theorem dDelta3_element_guarded_at_one {K : Type} [LinearOrderedField K] (F : MathFns K)
    (el : ResidualHelmholtzNonAnalyticElement K) (tau : K) :
    ResidualHelmholtzNonAnalytic.dDelta3_element_guarded F el tau 1 = Guarded.divByZero := by
  unfold ResidualHelmholtzNonAnalytic.dDelta3_element_guarded
  simp only [Bind.bind]
  refine Guarded.bind_eq_divByZero _ _ fun theta => ?_
  refine Guarded.bind_eq_divByZero _ _ fun DELTA => ?_
  refine Guarded.bind_eq_divByZero _ _ fun PSI => ?_
  refine Guarded.bind_eq_divByZero _ _ fun dPSI_dDelta => ?_
  refine Guarded.bind_eq_divByZero _ _ fun dDELTA_dDelta => ?_
  refine Guarded.bind_eq_divByZero _ _ fun dPSI2_dDelta2 => ?_
  simp only [Guarded.ok_sub_one, sub_self, Guarded.div_zero_eq, Guarded.divByZero_mul,
    Guarded.divByZero_add]
  rfl

/-- Claim C17 (code defect): with division guarded, `dDelta3` at `delta = 1` divides by
zero (`1.0/(delta-1.0)` in line 429).  Shown for the first element of the consistency
fixture (`beta = 0.3`, `a = 3.5`) at `tau = 1.3`. -/
theorem dDelta3_divides_by_zero_at_one :
    (0 : ℝ) < 1.3 ∧ (1.3 : ℝ) ≠ 1 ∧
    (0 : ℝ) < (fixtureElement : ResidualHelmholtzNonAnalyticElement ℝ).beta ∧
    (fixtureElement : ResidualHelmholtzNonAnalyticElement ℝ).beta < 1 / 2 ∧
    (1 : ℝ) < (fixtureElement : ResidualHelmholtzNonAnalyticElement ℝ).a ∧
    ResidualHelmholtzNonAnalytic.dDelta3_element_guarded (realFns fun _ => true) fixtureElement
      1.3 1 = Guarded.divByZero := by
  refine ⟨by norm_num, by norm_num, ?_, ?_, ?_, dDelta3_element_guarded_at_one _ _ _⟩ <;>
    norm_num [fixtureElement]

/-! ## Derivative consistency of the generalized-exponential term (C12) -/

section ExponentTotalsLemmas

variable {K : Type} [LinearOrderedField K]

theorem UParts.add_zero_right (s : UParts K) : s.add UParts.zero = s := by
  ext <;> simp [UParts.add, UParts.zero]

theorem UParts.zero_add_left (s : UParts K) : UParts.zero.add s = s := by
  ext <;> simp [UParts.add, UParts.zero]

theorem delta_li_block_add (F : MathFns K) (b : Bool)
    (el : ResidualHelmholtzGeneralizedExponentialElement K) (x : K) (s : UParts K) :
    delta_li_block F b el x s = s.add (delta_li_block F b el x UParts.zero) := by
  unfold delta_li_block
  split_ifs <;> ext <;> simp [UParts.add, UParts.zero]

theorem tau_mi_block_add (F : MathFns K) (b : Bool)
    (el : ResidualHelmholtzGeneralizedExponentialElement K) (x : K) (s : UParts K) :
    tau_mi_block F b el x s = s.add (tau_mi_block F b el x UParts.zero) := by
  unfold tau_mi_block
  split_ifs <;> ext <;> simp [UParts.add, UParts.zero]

theorem eta1_block_add (F : MathFns K) (b : Bool)
    (el : ResidualHelmholtzGeneralizedExponentialElement K) (x : K) (s : UParts K) :
    eta1_block F b el x s = s.add (eta1_block F b el x UParts.zero) := by
  unfold eta1_block
  split_ifs <;> ext <;> simp [UParts.add, UParts.zero]

theorem eta2_block_add (F : MathFns K) (b : Bool)
    (el : ResidualHelmholtzGeneralizedExponentialElement K) (x : K) (s : UParts K) :
    eta2_block F b el x s = s.add (eta2_block F b el x UParts.zero) := by
  unfold eta2_block
  split_ifs <;> ext <;> simp [UParts.add, UParts.zero]

theorem beta1_block_add (F : MathFns K) (b : Bool)
    (el : ResidualHelmholtzGeneralizedExponentialElement K) (x : K) (s : UParts K) :
    beta1_block F b el x s = s.add (beta1_block F b el x UParts.zero) := by
  unfold beta1_block
  split_ifs <;> ext <;> simp [UParts.add, UParts.zero]

theorem beta2_block_add (F : MathFns K) (b : Bool)
    (el : ResidualHelmholtzGeneralizedExponentialElement K) (x : K) (s : UParts K) :
    beta2_block F b el x s = s.add (beta2_block F b el x UParts.zero) := by
  unfold beta2_block
  split_ifs <;> ext <;> simp [UParts.add, UParts.zero]

/-- A block in `delta` leaves the `tau` fields alone. -/
theorem delta_blocks_tau_fields (F : MathFns K) (b : Bool)
    (el : ResidualHelmholtzGeneralizedExponentialElement K) (x : K) :
    ((delta_li_block F b el x UParts.zero).du_dtau = 0 ∧
      (delta_li_block F b el x UParts.zero).d2u_dtau2 = 0 ∧
      (delta_li_block F b el x UParts.zero).d3u_dtau3 = 0) ∧
    ((eta1_block F b el x UParts.zero).du_dtau = 0 ∧
      (eta1_block F b el x UParts.zero).d2u_dtau2 = 0 ∧
      (eta1_block F b el x UParts.zero).d3u_dtau3 = 0) ∧
    ((eta2_block F b el x UParts.zero).du_dtau = 0 ∧
      (eta2_block F b el x UParts.zero).d2u_dtau2 = 0 ∧
      (eta2_block F b el x UParts.zero).d3u_dtau3 = 0) := by
  refine ⟨?_, ?_, ?_⟩
  · unfold delta_li_block; split_ifs <;> simp [UParts.zero]
  · unfold eta1_block; split_ifs <;> simp [UParts.zero]
  · unfold eta2_block; split_ifs <;> simp [UParts.zero]

/-- A block in `tau` leaves the `delta` fields alone. -/
theorem tau_blocks_delta_fields (F : MathFns K) (b : Bool)
    (el : ResidualHelmholtzGeneralizedExponentialElement K) (x : K) :
    ((tau_mi_block F b el x UParts.zero).du_ddelta = 0 ∧
      (tau_mi_block F b el x UParts.zero).d2u_ddelta2 = 0 ∧
      (tau_mi_block F b el x UParts.zero).d3u_ddelta3 = 0) ∧
    ((beta1_block F b el x UParts.zero).du_ddelta = 0 ∧
      (beta1_block F b el x UParts.zero).d2u_ddelta2 = 0 ∧
      (beta1_block F b el x UParts.zero).d3u_ddelta3 = 0) ∧
    ((beta2_block F b el x UParts.zero).du_ddelta = 0 ∧
      (beta2_block F b el x UParts.zero).d2u_ddelta2 = 0 ∧
      (beta2_block F b el x UParts.zero).d3u_ddelta3 = 0) := by
  refine ⟨?_, ?_, ?_⟩
  · unfold tau_mi_block; split_ifs <;> simp [UParts.zero]
  · unfold beta1_block; split_ifs <;> simp [UParts.zero]
  · unfold beta2_block; split_ifs <;> simp [UParts.zero]

theorem deltaParts_eq_add (F : MathFns K) (self : ResidualHelmholtzGeneralizedExponential K)
    (el : ResidualHelmholtzGeneralizedExponentialElement K) (delta : K) :
    deltaParts F self el delta =
      ((delta_li_block F self.delta_li_in_u el delta UParts.zero).add
        (eta1_block F self.eta1_in_u el delta UParts.zero)).add
        (eta2_block F self.eta2_in_u el delta UParts.zero) := by
  unfold deltaParts
  rw [eta2_block_add, eta1_block_add]

theorem tauParts_eq_add (F : MathFns K) (self : ResidualHelmholtzGeneralizedExponential K)
    (el : ResidualHelmholtzGeneralizedExponentialElement K) (tau : K) :
    tauParts F self el tau =
      ((tau_mi_block F self.tau_mi_in_u el tau UParts.zero).add
        (beta1_block F self.beta1_in_u el tau UParts.zero)).add
        (beta2_block F self.beta2_in_u el tau UParts.zero) := by
  unfold tauParts
  rw [beta2_block_add, beta1_block_add]

/-- The exponent totals split into a part in `delta` and a part in `tau`: no modifier
depends on both variables. -/
theorem uParts_split (F : MathFns K) (self : ResidualHelmholtzGeneralizedExponential K)
    (el : ResidualHelmholtzGeneralizedExponentialElement K) (tau delta : K) :
    uParts F self el tau delta =
      { u := (deltaParts F self el delta).u + (tauParts F self el tau).u
        du_ddelta := (deltaParts F self el delta).du_ddelta
        du_dtau := (tauParts F self el tau).du_dtau
        d2u_ddelta2 := (deltaParts F self el delta).d2u_ddelta2
        d2u_dtau2 := (tauParts F self el tau).d2u_dtau2
        d3u_ddelta3 := (deltaParts F self el delta).d3u_ddelta3
        d3u_dtau3 := (tauParts F self el tau).d3u_dtau3 } := by
  have hd := delta_blocks_tau_fields F
  have ht := tau_blocks_delta_fields F
  unfold uParts
  rw [beta2_block_add, beta1_block_add, eta2_block_add, eta1_block_add, tau_mi_block_add,
    delta_li_block_add, UParts.zero_add_left, deltaParts_eq_add, tauParts_eq_add]
  ext <;>
    simp only [UParts.add, (hd self.delta_li_in_u el delta).1,
      (hd self.eta1_in_u el delta).2.1, (hd self.eta2_in_u el delta).2.2,
      (ht self.tau_mi_in_u el tau).1, (ht self.beta1_in_u el tau).2.1,
      (ht self.beta2_in_u el tau).2.2, add_zero, zero_add]
  ring

end ExponentTotalsLemmas

/-- Calculus of the exponent totals of the generalized exponential and of one term
`n*delta^d*tau^t*exp(u)`. -/
theorem exponent_totals_calculus :
    -- `delta_li_block_exact`
    (∀ (valid : ℝ → Bool) (b : Bool) (el : ResidualHelmholtzGeneralizedExponentialElement ℝ)
      (_ : el.l_double = (el.l_int : ℝ)) (delta : ℝ) (_ : 0 < delta),
        DeltaIncrementsExact (fun x s => delta_li_block (realFns valid) b el x s) delta) ∧
    -- `deltaParts_exact`: The `delta` part of the exponent totals: each derivative field is the
    -- derivative of the field before it.
    (∀ (valid : ℝ → Bool) (self : ResidualHelmholtzGeneralizedExponential ℝ)
      (el : ResidualHelmholtzGeneralizedExponentialElement ℝ) (_ : el.l_double = (el.l_int : ℝ))
      (delta : ℝ) (_ : 0 < delta),
        HasDerivAt (fun x => (deltaParts (realFns valid) self el x).u)
          (deltaParts (realFns valid) self el delta).du_ddelta delta ∧
        HasDerivAt (fun x => (deltaParts (realFns valid) self el x).du_ddelta)
          (deltaParts (realFns valid) self el delta).d2u_ddelta2 delta ∧
        HasDerivAt (fun x => (deltaParts (realFns valid) self el x).d2u_ddelta2)
          (deltaParts (realFns valid) self el delta).d3u_ddelta3 delta) ∧
    -- `tauParts_exact`: The `tau` part of the exponent totals: each derivative field is the
    -- derivative of the field before it.
    (∀ (valid : ℝ → Bool) (self : ResidualHelmholtzGeneralizedExponential ℝ)
      (el : ResidualHelmholtzGeneralizedExponentialElement ℝ) (tau : ℝ) (_ : 0 < tau),
        HasDerivAt (fun x => (tauParts (realFns valid) self el x).u)
          (tauParts (realFns valid) self el tau).du_dtau tau ∧
        HasDerivAt (fun x => (tauParts (realFns valid) self el x).du_dtau)
          (tauParts (realFns valid) self el tau).d2u_dtau2 tau ∧
        HasDerivAt (fun x => (tauParts (realFns valid) self el x).d2u_dtau2)
          (tauParts (realFns valid) self el tau).d3u_dtau3 tau) ∧
    -- `expTerm_chain`: The three logarithmic-derivative steps for `E y = n * exp (c + d * log y
    -- + v y)`, in the scaled form the source stores: `E * B / y`, `E * B2 / y^2`, `E * B3 /
    -- y^3`.
    (∀ (n c d : ℝ) (v v1 v2 : ℝ → ℝ) (v3x x : ℝ) (_ : 0 < x) (_ : HasDerivAt v (v1 x) x)
      (_ : HasDerivAt v1 (v2 x) x) (_ : HasDerivAt v2 v3x x),
        HasDerivAt (fun y => n * Real.exp (c + d * Real.log y + v y))
          (n * Real.exp (c + d * Real.log x + v x) * B_delta x d (v1 x) * (1 / x)) x ∧
        HasDerivAt (fun y => n * Real.exp (c + d * Real.log y + v y) * B_delta y d (v1 y) * (1 / y))
          (n * Real.exp (c + d * Real.log x + v x) * B_delta2 x d (v1 x) (v2 x) * POW2 (1 / x)) x ∧
        HasDerivAt (fun y => n * Real.exp (c + d * Real.log y + v y) * B_delta2 y d (v1 y) (v2 y)
            * POW2 (1 / y))
          (n * Real.exp (c + d * Real.log x + v x) * B_delta3 x d (v1 x) (v2 x) v3x
            * POW3 (1 / x)) x) ∧
    -- `hasDerivAt_list_sum`
    (∀ {α : Type} (l : List α) (g : α → ℝ → ℝ) (g1 : α → ℝ) (x : ℝ)
      (_ : ∀ a ∈ l, HasDerivAt (g a) (g1 a) x),
        HasDerivAt (fun y => (l.map fun a => g a y).sum) (l.map g1).sum x) ∧
    -- `hasDerivAt_sum_mul`: Differentiating a field of the aggregate: a sum over the elements
    -- times a common factor.
    (∀ {α : Type} (l : List α) (g : α → ℝ → ℝ) (k : ℝ → ℝ) (g1 : α → ℝ) (k1 x : ℝ)
      (_ : ∀ a ∈ l, HasDerivAt (fun y => g a y * k y) (g1 a * k1) x),
        HasDerivAt (fun y => (l.map fun a => g a y).sum * k y) ((l.map g1).sum * k1) x) ∧
    -- `ndteu_delta_form`
    (∀ (valid : ℝ → Bool) (self : ResidualHelmholtzGeneralizedExponential ℝ)
      (el : ResidualHelmholtzGeneralizedExponentialElement ℝ) (tau y : ℝ),
        ndteu (realFns valid) self el tau y =
          el.n * Real.exp ((el.t * Real.log tau + (tauParts (realFns valid) self el tau).u)
            + el.d * Real.log y + (deltaParts (realFns valid) self el y).u)) ∧
    -- `ndteu_tau_form`
    (∀ (valid : ℝ → Bool) (self : ResidualHelmholtzGeneralizedExponential ℝ)
      (el : ResidualHelmholtzGeneralizedExponentialElement ℝ) (y delta : ℝ),
        ndteu (realFns valid) self el y delta =
          el.n * Real.exp ((el.d * Real.log delta + (deltaParts (realFns valid) self el delta).u)
            + el.t * Real.log y + (tauParts (realFns valid) self el y).u)) ∧
    -- `element_delta_derivatives`: One element's contributions, differentiated in `delta`.
    (∀ (valid : ℝ → Bool) (self : ResidualHelmholtzGeneralizedExponential ℝ)
      (el : ResidualHelmholtzGeneralizedExponentialElement ℝ) (_ : el.l_double = (el.l_int : ℝ))
      (tau delta : ℝ) (_ : 0 < delta),
        HasDerivAt (fun y => ndteu (realFns valid) self el tau y)
          (ndteu (realFns valid) self el tau delta
            * B_delta delta el.d (uParts (realFns valid) self el tau delta).du_ddelta
            * (1 / delta)) delta ∧
        HasDerivAt (fun y => ndteu (realFns valid) self el tau y
            * B_delta y el.d (uParts (realFns valid) self el tau y).du_ddelta * (1 / y))
          (ndteu (realFns valid) self el tau delta
            * B_delta2 delta el.d (uParts (realFns valid) self el tau delta).du_ddelta
                (uParts (realFns valid) self el tau delta).d2u_ddelta2
            * POW2 (1 / delta)) delta ∧
        HasDerivAt (fun y => ndteu (realFns valid) self el tau y
            * B_delta2 y el.d (uParts (realFns valid) self el tau y).du_ddelta
                (uParts (realFns valid) self el tau y).d2u_ddelta2 * POW2 (1 / y))
          (ndteu (realFns valid) self el tau delta
            * B_delta3 delta el.d (uParts (realFns valid) self el tau delta).du_ddelta
                (uParts (realFns valid) self el tau delta).d2u_ddelta2
                (uParts (realFns valid) self el tau delta).d3u_ddelta3
            * POW3 (1 / delta)) delta) ∧
    -- `element_tau_derivatives`: One element's contributions, differentiated in `tau`.
    (∀ (valid : ℝ → Bool) (self : ResidualHelmholtzGeneralizedExponential ℝ)
      (el : ResidualHelmholtzGeneralizedExponentialElement ℝ) (tau delta : ℝ) (_ : 0 < tau),
        HasDerivAt (fun y => ndteu (realFns valid) self el y delta)
          (ndteu (realFns valid) self el tau delta
            * B_tau tau el.t (uParts (realFns valid) self el tau delta).du_dtau
            * (1 / tau)) tau ∧
        HasDerivAt (fun y => ndteu (realFns valid) self el y delta
            * B_tau y el.t (uParts (realFns valid) self el y delta).du_dtau * (1 / y))
          (ndteu (realFns valid) self el tau delta
            * B_tau2 tau el.t (uParts (realFns valid) self el tau delta).du_dtau
                (uParts (realFns valid) self el tau delta).d2u_dtau2
            * POW2 (1 / tau)) tau ∧
        HasDerivAt (fun y => ndteu (realFns valid) self el y delta
            * B_tau2 y el.t (uParts (realFns valid) self el y delta).du_dtau
                (uParts (realFns valid) self el y delta).d2u_dtau2 * POW2 (1 / y))
          (ndteu (realFns valid) self el tau delta
            * B_tau3 tau el.t (uParts (realFns valid) self el tau delta).du_dtau
                (uParts (realFns valid) self el tau delta).d2u_dtau2
                (uParts (realFns valid) self el tau delta).d3u_dtau3
            * POW3 (1 / tau)) tau) ∧
    -- `ndteu_eq_powers`: In exact arithmetic `ndteu` is `n * delta^d * tau^t * exp u`.
    (∀ (valid : ℝ → Bool) (self : ResidualHelmholtzGeneralizedExponential ℝ)
      (el : ResidualHelmholtzGeneralizedExponentialElement ℝ) (tau delta : ℝ) (_ : 0 < tau)
      (_ : 0 < delta),
        ndteu (realFns valid) self el tau delta =
          el.n * delta ^ el.d * tau ^ el.t
            * Real.exp (uParts (realFns valid) self el tau delta).u) := by
  have hasDerivAt_delta_li_u_increment := modifier_calculus.2.2.1
  have cutoff_recurrence := modifier_calculus.2.1
  have deltaIncrementsExact_id := modifier_calculus.2.2.2.2.2.1
  have eta1_block_exact := modifier_calculus.2.2.2.2.2.2.2.1
  have eta2_block_exact := modifier_calculus.2.2.2.2.2.2.2.2.1
  have tau_mi_block_exact := modifier_calculus.2.2.2.2.2.2.1
  have beta1_block_exact := modifier_calculus.2.2.2.2.2.2.2.2.2.1
  have beta2_block_exact := modifier_calculus.2.2.2.2.2.2.2.2.2.2
  refine and_of_left ?_ fun delta_li_block_exact => ?_
  · intro valid b el hl delta hdelta
    by_cases hb : b = true ∧ valid el.l_double = true ∧ el.l_int > 0
    · intro s
      have h1 := hasDerivAt_delta_li_u_increment el hl
      have h23 := cutoff_recurrence (fun x => delta_li_u_increment el x)
        el.l_double delta hdelta h1
      simp only [delta_li_block, hb.1, realFns, hb.2.1, hb.2.2, decide_True, Bool.and_self,
        if_true, add_sub_cancel_left]
      exact ⟨h1 delta hdelta, h23.1, h23.2⟩
    · have : (fun x s => delta_li_block (realFns valid) b el x s) = fun _ s => s := by
        funext x s
        by_cases h1 : b = true <;> by_cases h2 : valid el.l_double = true <;>
          by_cases h3 : el.l_int > 0 <;> simp [delta_li_block, realFns, h1, h2, h3] at hb ⊢
      rw [this]; exact deltaIncrementsExact_id delta
  refine and_of_left ?_ fun deltaParts_exact => ?_
  · intro valid self el hl delta hdelta
    have h1 := delta_li_block_exact valid self.delta_li_in_u el hl delta hdelta UParts.zero
    have h2 := eta1_block_exact valid self.eta1_in_u el delta UParts.zero
    have h3 := eta2_block_exact valid self.eta2_in_u el delta UParts.zero
    simp only [UParts.zero, sub_zero] at h1 h2 h3
    simp only [deltaParts_eq_add, UParts.add, UParts.zero]
    exact ⟨(h1.1.add h2.1).add h3.1, (h1.2.1.add h2.2.1).add h3.2.1,
      (h1.2.2.add h2.2.2).add h3.2.2⟩
  refine and_of_left ?_ fun tauParts_exact => ?_
  · intro valid self el tau htau
    have h1 := tau_mi_block_exact valid self.tau_mi_in_u el tau htau UParts.zero
    have h2 := beta1_block_exact valid self.beta1_in_u el tau UParts.zero
    have h3 := beta2_block_exact valid self.beta2_in_u el tau UParts.zero
    simp only [UParts.zero, sub_zero] at h1 h2 h3
    simp only [tauParts_eq_add, UParts.add, UParts.zero]
    exact ⟨(h1.1.add h2.1).add h3.1, (h1.2.1.add h2.2.1).add h3.2.1,
      (h1.2.2.add h2.2.2).add h3.2.2⟩
  refine and_of_left ?_ fun expTerm_chain => ?_
  · intro n c d v v1 v2 v3x x hx hv hv1 hv2
    have hid := hasDerivAt_id x
    have hinv : HasDerivAt (fun y : ℝ => 1 / y) (-(x ^ 2)⁻¹) x := by
      simpa [one_div] using hasDerivAt_inv hx.ne'
    have hE : HasDerivAt (fun y => n * Real.exp (c + d * Real.log y + v y))
        (n * Real.exp (c + d * Real.log x + v x) * B_delta x d (v1 x) * (1 / x)) x := by
      have h := (((((Real.hasDerivAt_log hx.ne').const_mul d).const_add c).add hv).exp).const_mul n
      refine h.congr_deriv ?_
      have hr1 := mul_inv_cancel₀ hx.ne'
      simp only [B_delta, one_div, div_eq_mul_inv, mul_inv, ← inv_pow]
      generalize Real.exp (c + d * Real.log x + v x) = E
      generalize v1 x = a1
      generalize x⁻¹ = xi at hr1 ⊢
      linear_combination
        (-E * a1 * n) * hr1
    have hB1 : HasDerivAt (fun y => B_delta y d (v1 y)) (1 * v1 x + x * v2 x) x := by
      have := (hid.mul hv1).add_const d
      simpa [B_delta] using this
    have hB2 : HasDerivAt (fun y => B_delta2 y d (v1 y) (v2 y))
        ((1 * x + x * 1) * (v2 x + v1 x * v1 x) + x * x * (v3x + (v2 x * v1 x + v1 x * v2 x))
          + (2 * d * 1 * v1 x + 2 * d * x * v2 x)) x := by
      have h1 := ((hid.mul hid).mul (hv2.add (hv1.mul hv1)))
      have h2 := ((hid.const_mul (2 * d)).mul hv1)
      have := (h1.add h2).add_const (d * (d - 1))
      simpa [B_delta2, POW2, mul_assoc] using this
    refine ⟨hE, ?_, ?_⟩
    · refine ((hE.mul hB1).mul hinv).congr_deriv ?_
      have hr1 := mul_inv_cancel₀ hx.ne'
      simp only [B_delta, B_delta2, POW2, one_div, div_eq_mul_inv, mul_inv, ← inv_pow]
      generalize Real.exp (c + d * Real.log x + v x) = E
      generalize v1 x = a1
      generalize v2 x = a2
      generalize x⁻¹ = xi at hr1 ⊢
      linear_combination
        (-E * a1 * n * xi - E * a2 * n * x * xi) * hr1
    · have hinv2 : HasDerivAt (fun y : ℝ => POW2 (1 / y)) (-(x ^ 2)⁻¹ * (1 / x) + 1 / x * -(x ^ 2)⁻¹) x := by
        simpa [POW2] using hinv.mul hinv
      refine ((hE.mul hB2).mul hinv2).congr_deriv ?_
      have hr1 := mul_inv_cancel₀ hx.ne'
      simp only [B_delta, B_delta2, B_delta3, POW2, POW3, one_div, div_eq_mul_inv, mul_inv,
        ← inv_pow]
      generalize Real.exp (c + d * Real.log x + v x) = E
      generalize v1 x = a1
      generalize v2 x = a2
      generalize x⁻¹ = xi at hr1 ⊢
      linear_combination
        (-2 * E * a1 * a2 * n * x ^ 2 * xi ^ 2 - 2 * E * a1 * d * n * xi ^ 2
          - 2 * E * a1 ^ 2 * n * x * xi ^ 2 - 2 * E * a2 * d * n * x * xi ^ 2
          - 2 * E * a2 * n * x * xi ^ 2 - E * n * v3x * x ^ 2 * xi ^ 2) * hr1
  refine and_of_left ?_ fun hasDerivAt_list_sum => ?_
  · intro α l g g1 x h
    induction l with
    | nil => simpa using hasDerivAt_const x (0 : ℝ)
    | cons a l ih =>
      simp only [List.map_cons, List.sum_cons]
      exact (h a (List.mem_cons_self a l)).add (ih fun b hb => h b (List.mem_cons_of_mem a hb))
  refine and_of_left ?_ fun hasDerivAt_sum_mul => ?_
  · intro α l g k g1 k1 x h
    have := hasDerivAt_list_sum l (fun a y => g a y * k y) (fun a => g1 a * k1) x h
    simpa only [List.sum_map_mul_right] using this
  refine and_of_left ?_ fun ndteu_delta_form => ?_
  · intro valid self el tau y
    simp only [ndteu, uParts_split]
    simp only [realFns]
    congr 2
    ring
  refine and_of_left ?_ fun ndteu_tau_form => ?_
  · intro valid self el y delta
    simp only [ndteu, uParts_split]
    simp only [realFns]
    congr 2
    ring
  refine and_of_left ?_ fun element_delta_derivatives => ?_
  · intro valid self el hl tau delta hdelta
    have hP := deltaParts_exact valid self el hl delta hdelta
    have h := expTerm_chain el.n (el.t * Real.log tau + (tauParts (realFns valid) self el tau).u)
      el.d (fun y => (deltaParts (realFns valid) self el y).u)
      (fun y => (deltaParts (realFns valid) self el y).du_ddelta)
      (fun y => (deltaParts (realFns valid) self el y).d2u_ddelta2)
      (deltaParts (realFns valid) self el delta).d3u_ddelta3 delta hdelta hP.1 hP.2.1 hP.2.2
    simp only [ndteu_delta_form]
    simp only [uParts_split]
    exact h
  refine and_of_left ?_ fun element_tau_derivatives => ?_
  · intro valid self el tau delta htau
    have hP := tauParts_exact valid self el tau htau
    have h := expTerm_chain el.n
      (el.d * Real.log delta + (deltaParts (realFns valid) self el delta).u)
      el.t (fun y => (tauParts (realFns valid) self el y).u)
      (fun y => (tauParts (realFns valid) self el y).du_dtau)
      (fun y => (tauParts (realFns valid) self el y).d2u_dtau2)
      (tauParts (realFns valid) self el tau).d3u_dtau3 tau htau hP.1 hP.2.1 hP.2.2
    simp only [ndteu_tau_form]
    simp only [uParts_split]
    exact h
  intro valid self el tau delta htau hdelta
  simp only [ndteu, realFns]
  rw [Real.exp_add, Real.exp_add, Real.rpow_def_of_pos htau, Real.rpow_def_of_pos hdelta]
  rw [mul_comm (Real.log tau), mul_comm (Real.log delta)]
  ring

/-- Claim C12: for `tau > 0`, `delta > 0` and elements whose `l_double` equals `l_int`, the
fields that `all` produces on the zero aggregate are the partial derivatives of
`alphar(tau, delta) = sum_i n_i*delta^d_i*tau^t_i*exp(u_i)`: each field is the derivative,
in the variable added to its name, of the field one order below, and the three mixed
fields are reached by differentiating in either order. -/
theorem all_fields_are_partial_derivatives (valid : ℝ → Bool)
    (self : ResidualHelmholtzGeneralizedExponential ℝ) (tau delta : ℝ)
    (htau : 0 < tau) (hdelta : 0 < delta)
    (hl : ∀ el ∈ self.elements, el.l_double = (el.l_int : ℝ)) :
    (self.all (realFns valid) tau delta HelmholtzDerivatives.zero).alphar =
      (self.elements.map fun el => el.n * delta ^ el.d * tau ^ el.t
        * Real.exp (uParts (realFns valid) self el tau delta).u).sum ∧
    HasDerivAt (fun x => (self.all (realFns valid) tau x HelmholtzDerivatives.zero).alphar)
      (self.all (realFns valid) tau delta HelmholtzDerivatives.zero).dalphar_ddelta delta ∧
    HasDerivAt (fun x => (self.all (realFns valid) x delta HelmholtzDerivatives.zero).alphar)
      (self.all (realFns valid) tau delta HelmholtzDerivatives.zero).dalphar_dtau tau ∧
    HasDerivAt
      (fun x => (self.all (realFns valid) tau x HelmholtzDerivatives.zero).dalphar_ddelta)
      (self.all (realFns valid) tau delta HelmholtzDerivatives.zero).d2alphar_ddelta2 delta ∧
    HasDerivAt
      (fun x => (self.all (realFns valid) x delta HelmholtzDerivatives.zero).dalphar_dtau)
      (self.all (realFns valid) tau delta HelmholtzDerivatives.zero).d2alphar_dtau2 tau ∧
    HasDerivAt
      (fun x => (self.all (realFns valid) tau x HelmholtzDerivatives.zero).dalphar_dtau)
      (self.all (realFns valid) tau delta HelmholtzDerivatives.zero).d2alphar_ddelta_dtau
      delta ∧
    HasDerivAt
      (fun x => (self.all (realFns valid) x delta HelmholtzDerivatives.zero).dalphar_ddelta)
      (self.all (realFns valid) tau delta HelmholtzDerivatives.zero).d2alphar_ddelta_dtau
      tau ∧
    HasDerivAt
      (fun x => (self.all (realFns valid) tau x HelmholtzDerivatives.zero).d2alphar_ddelta2)
      (self.all (realFns valid) tau delta HelmholtzDerivatives.zero).d3alphar_ddelta3 delta ∧
    HasDerivAt
      (fun x => (self.all (realFns valid) x delta HelmholtzDerivatives.zero).d2alphar_dtau2)
      (self.all (realFns valid) tau delta HelmholtzDerivatives.zero).d3alphar_dtau3 tau ∧
    HasDerivAt
      (fun x =>
        (self.all (realFns valid) tau x HelmholtzDerivatives.zero).d2alphar_ddelta_dtau)
      (self.all (realFns valid) tau delta HelmholtzDerivatives.zero).d3alphar_ddelta2_dtau
      delta ∧
    HasDerivAt
      (fun x => (self.all (realFns valid) x delta HelmholtzDerivatives.zero).d2alphar_ddelta2)
      (self.all (realFns valid) tau delta HelmholtzDerivatives.zero).d3alphar_ddelta2_dtau
      tau ∧
    HasDerivAt
      (fun x => (self.all (realFns valid) tau x HelmholtzDerivatives.zero).d2alphar_dtau2)
      (self.all (realFns valid) tau delta HelmholtzDerivatives.zero).d3alphar_ddelta_dtau2
      delta ∧
    HasDerivAt
      (fun x =>
        (self.all (realFns valid) x delta HelmholtzDerivatives.zero).d2alphar_ddelta_dtau)
      (self.all (realFns valid) tau delta HelmholtzDerivatives.zero).d3alphar_ddelta_dtau2
      tau := by
  have element_delta_derivatives := exponent_totals_calculus.2.2.2.2.2.2.2.2.1
  have element_tau_derivatives := exponent_totals_calculus.2.2.2.2.2.2.2.2.2.1
  have ndteu_eq_powers := exponent_totals_calculus.2.2.2.2.2.2.2.2.2.2
  have hasDerivAt_list_sum := @And.left _ _ exponent_totals_calculus.2.2.2.2
  have hasDerivAt_sum_mul := @And.left _ _ exponent_totals_calculus.2.2.2.2.2
  have hD := fun el hel =>
    element_delta_derivatives valid self el (hl el hel) tau delta hdelta
  have hT := fun el (_ : el ∈ self.elements) =>
    element_tau_derivatives valid self el tau delta htau
  simp only [all_zero_sums]
  refine ⟨?_, ?_, ?_, ?_, ?_, ?_, ?_, ?_, ?_, ?_, ?_, ?_, ?_⟩
  · exact congrArg List.sum (List.map_congr_left fun el _ =>
      ndteu_eq_powers valid self el tau delta htau hdelta)
  · rw [← List.sum_map_mul_right]
    exact hasDerivAt_list_sum _ _ _ _ fun el hel => (hD el hel).1
  · rw [← List.sum_map_mul_right]
    exact hasDerivAt_list_sum _ _ _ _ fun el hel => (hT el hel).1
  · exact hasDerivAt_sum_mul _ _ _ _ _ _ fun el hel => (hD el hel).2.1
  · exact hasDerivAt_sum_mul _ _ _ _ _ _ fun el hel => (hT el hel).2.1
  · refine hasDerivAt_sum_mul _ _ _ _ _ _ fun el hel => ?_
    simp only [uParts_split]
    have h := ((hD el hel).1.mul_const
      (B_tau tau el.t (tauParts (realFns valid) self el tau).du_dtau * (1 / tau)))
    simp only [uParts_split] at h
    refine (h.congr_deriv ?_).congr_of_eventuallyEq (Filter.Eventually.of_forall fun y => ?_)
    · ring
    · ring
  · refine hasDerivAt_sum_mul _ _ _ _ _ _ fun el hel => ?_
    simp only [uParts_split]
    have h := ((hT el hel).1.mul_const
      (B_delta delta el.d (deltaParts (realFns valid) self el delta).du_ddelta * (1 / delta)))
    simp only [uParts_split] at h
    refine (h.congr_deriv ?_).congr_of_eventuallyEq (Filter.Eventually.of_forall fun y => ?_)
    · ring
    · ring
  · exact hasDerivAt_sum_mul _ _ _ _ _ _ fun el hel => (hD el hel).2.2
  · exact hasDerivAt_sum_mul _ _ _ _ _ _ fun el hel => (hT el hel).2.2
  · refine hasDerivAt_sum_mul _ _ _ _ _ _ fun el hel => ?_
    simp only [uParts_split]
    have h := ((hD el hel).2.1.mul_const
      (B_tau tau el.t (tauParts (realFns valid) self el tau).du_dtau * (1 / tau)))
    simp only [uParts_split] at h
    refine (h.congr_deriv ?_).congr_of_eventuallyEq (Filter.Eventually.of_forall fun y => ?_)
    · ring
    · ring
  · refine hasDerivAt_sum_mul _ _ _ _ _ _ fun el hel => ?_
    simp only [uParts_split]
    have h := ((hT el hel).1.mul_const
      (B_delta2 delta el.d (deltaParts (realFns valid) self el delta).du_ddelta
        (deltaParts (realFns valid) self el delta).d2u_ddelta2 * POW2 (1 / delta)))
    simp only [uParts_split] at h
    refine (h.congr_deriv ?_).congr_of_eventuallyEq (Filter.Eventually.of_forall fun y => ?_)
    · ring
    · ring
  · refine hasDerivAt_sum_mul _ _ _ _ _ _ fun el hel => ?_
    simp only [uParts_split]
    have h := ((hD el hel).1.mul_const
      (B_tau2 tau el.t (tauParts (realFns valid) self el tau).du_dtau
        (tauParts (realFns valid) self el tau).d2u_dtau2 * POW2 (1 / tau)))
    simp only [uParts_split] at h
    refine (h.congr_deriv ?_).congr_of_eventuallyEq (Filter.Eventually.of_forall fun y => ?_)
    · ring
    · ring
  · refine hasDerivAt_sum_mul _ _ _ _ _ _ fun el hel => ?_
    simp only [uParts_split]
    have h := ((hT el hel).2.1.mul_const
      (B_delta delta el.d (deltaParts (realFns valid) self el delta).du_ddelta * (1 / delta)))
    simp only [uParts_split] at h
    refine (h.congr_deriv ?_).congr_of_eventuallyEq (Filter.Eventually.of_forall fun y => ?_)
    · ring
    · ring

/-- Witness of C12: the term with the density cutoff switched on and the one element
`n = d = t = 1`, `c = 1`, `l_double = l_int = 2`, at `tau = 2`, `delta = 3`. -/
theorem all_fields_are_partial_derivatives_witness :
    (0 : ℝ) < 2 ∧ (0 : ℝ) < 3 ∧
    (∀ el ∈ ({ plainTerm [cutoffElement] with delta_li_in_u := true } :
        ResidualHelmholtzGeneralizedExponential ℝ).elements, el.l_double = (el.l_int : ℝ)) ∧
    HasDerivAt
      (fun x => (ResidualHelmholtzGeneralizedExponential.all (realFns fun _ => true)
        { plainTerm [cutoffElement] with delta_li_in_u := true } 2 x
        HelmholtzDerivatives.zero).alphar)
      (ResidualHelmholtzGeneralizedExponential.all (realFns fun _ => true)
        { plainTerm [cutoffElement] with delta_li_in_u := true } 2 3
        HelmholtzDerivatives.zero).dalphar_ddelta 3 :=
  have hl : ∀ el ∈ ({ plainTerm [cutoffElement] with delta_li_in_u := true } :
      ResidualHelmholtzGeneralizedExponential ℝ).elements, el.l_double = (el.l_int : ℝ) := by
    intro el hel
    have : el = cutoffElement := by simpa [plainTerm] using hel
    subst this
    norm_num [cutoffElement, plainElement]
  ⟨by norm_num, by norm_num, hl,
   (all_fields_are_partial_derivatives (fun _ => true) _ 2 3 (by norm_num) (by norm_num)
      hl).2.1⟩

/-! ## Derivative consistency of the non-analytic term (C18, C19, C20) -/

theorem fillScratch_aux {K : Type} (els : List (ResidualHelmholtzNonAnalyticElement K))
    (f : ResidualHelmholtzNonAnalyticElement K → K) (s : List K) (k : Nat) :
    ((List.range k).foldl
      (fun s i => match els[i]? with
        | some el => s.set i (f el)
        | none => s) s).length = s.length ∧
    ∀ j, ((List.range k).foldl
      (fun s i => match els[i]? with
        | some el => s.set i (f el)
        | none => s) s)[j]? =
      if j < k ∧ j < els.length ∧ j < s.length then (els[j]?).map f else s[j]? := by
  induction k with
  | zero => simp
  | succ k ih =>
    rw [List.range_succ, List.foldl_append]
    simp only [List.foldl_cons, List.foldl_nil]
    obtain ⟨hlen, hget⟩ := ih
    rcases hk : els[k]? with _ | el
    · simp only [hlen, true_and]
      intro j
      rw [hget j]
      have hk' : els.length ≤ k := by
        simpa [List.getElem?_eq_none_iff] using hk
      by_cases hj : j < els.length
      · have : j < k := lt_of_lt_of_le hj hk'
        simp [hj, this, Nat.lt_succ_of_lt this]
      · simp [hj]
    · simp only [List.length_set, hlen, true_and]
      intro j
      have hk' : k < els.length := by
        by_contra hcon
        rw [List.getElem?_eq_none_iff.mpr (not_lt.mp hcon)] at hk
        exact Option.noConfusion hk
      rw [List.getElem?_set]
      by_cases hjk : k = j
      · subst hjk
        by_cases hks : k < s.length
        · simp [hlen, hks, hk, hk']
        · have hks' : s.length ≤ k := not_lt.mp hks
          simp [hlen, hks, hget k, List.getElem?_eq_none_iff.mpr hks', hks']
      · simp only [hjk, if_false]
        rw [hget j]
        have : j < k + 1 ↔ j < k := by omega
        simp [this]

theorem fillScratch_eq_map {K : Type} [LinearOrderedField K]
    (self : ResidualHelmholtzNonAnalytic K) (hwf : self.WellFormed)
    (f : ResidualHelmholtzNonAnalyticElement K → K) :
    self.fillScratch f = self.elements.map f := by
  obtain ⟨hN, hs⟩ := hwf
  have h := fillScratch_aux self.elements f self.s self.N
  apply List.ext_getElem?
  intro j
  refine (h.2 j).trans ?_
  by_cases hj : j < self.N
  · have h1 : j < self.elements.length := by omega
    have h2 : j < self.s.length := by omega
    simp [hj, h1, h2]
  · have h1 : self.elements.length ≤ j := by omega
    have h2 : self.s.length ≤ j := by omega
    simp [hj, List.getElem?_eq_none_iff.mpr h1, List.getElem?_eq_none_iff.mpr h2]

/-- On a well-formed term an accessor returns the sum of its element values. -/
theorem accumulate_eq_sum {K : Type} [LinearOrderedField K]
    (self : ResidualHelmholtzNonAnalytic K) (hwf : self.WellFormed)
    (f : ResidualHelmholtzNonAnalyticElement K → K) :
    self.accumulate f = (self.elements.map f).sum := by
  unfold ResidualHelmholtzNonAnalytic.accumulate
  by_cases hN : self.N = 0
  · have : self.elements = [] := by
      apply List.eq_nil_of_length_eq_zero
      rw [← hwf.1, hN]
    simp [hN, this]
  · simp [hN, fillScratch_eq_map self hwf f]

/-! ### Calculus of the sub-expressions of the non-analytic term -/

/-- Rules for the real powers of `(delta - 1)^2` that occur in the non-analytic term. -/
theorem sq_rpow_rules :
    -- `hasDerivAt_rpow_two_comp`
    (∀ (f : ℝ → ℝ) (f1 x : ℝ) (_ : HasDerivAt f f1 x),
        HasDerivAt (fun y => f y ^ (2 : ℝ)) (2 * f x * f1) x) ∧
    -- `hasDerivAt_sq_sub_one`
    (∀ (x : ℝ),
        HasDerivAt (fun y : ℝ => (y - 1) ^ (2 : ℝ)) (2 * (x - 1)) x) ∧
    -- `sq_sub_one_pos`
    (∀ (x : ℝ) (_ : x ≠ 1),
        0 < (x - 1) ^ (2 : ℝ)) ∧
    -- `hasDerivAt_X_rpow`: Powers of `(x-1)^2`: the derivative of `((x-1)^2)^p` is
    -- `2*p*((x-1)^2)^p/(x-1)`.
    (∀ (p x : ℝ) (_ : x ≠ 1),
        HasDerivAt (fun y : ℝ => ((y - 1) ^ (2 : ℝ)) ^ p)
          (2 * p * ((x - 1) ^ (2 : ℝ)) ^ p / (x - 1)) x) ∧
    -- `X_rpow_sub_one`
    (∀ (p x : ℝ) (_ : x ≠ 1),
        ((x - 1) ^ 2) ^ (p - 1) = ((x - 1) ^ 2) ^ p / (x - 1) ^ 2) ∧
    -- `X_rpow_sub_two`
    (∀ (p x : ℝ) (_ : x ≠ 1),
        ((x - 1) ^ 2) ^ (p - 2) = ((x - 1) ^ 2) ^ p / (x - 1) ^ 4) ∧
    -- `X_rpow_sub_three`
    (∀ (p x : ℝ) (_ : x ≠ 1),
        ((x - 1) ^ 2) ^ (p - 3) = ((x - 1) ^ 2) ^ p / (x - 1) ^ 6) ∧
    -- `X_rpow_half`: Below one, the half power of `(x-1)^2` is `1 - x`.
    (∀ (x : ℝ) (_ : x < 1),
        ((x - 1) ^ 2) ^ (1 / 2 : ℝ) = 1 - x) ∧
    -- `X_rpow_half_gt`: Above one, the half power of `(x-1)^2` is `x - 1`.
    (∀ (x : ℝ) (_ : 1 < x),
        ((x - 1) ^ 2) ^ (1 / 2 : ℝ) = x - 1) ∧
    -- `X_rpow_sub_half`
    (∀ (p x : ℝ) (_ : x < 1),
        ((x - 1) ^ 2) ^ (p - 0.5) = ((x - 1) ^ 2) ^ p / (1 - x)) ∧
    -- `X_rpow_sub_five_halves`
    (∀ (p x : ℝ) (_ : x < 1),
        ((x - 1) ^ 2) ^ (p - 5 / 2) = ((x - 1) ^ 2) ^ p / ((x - 1) ^ 4 * (1 - x))) ∧
    -- `X_rpow_inv_beta`: The power `1/beta` of `(x-1)^2` is the square of the power
    -- `1/(2*beta)`.
    (∀ (beta x : ℝ) (_ : x ≠ 1),
        ((x - 1) ^ 2) ^ (1 / beta) = (((x - 1) ^ 2) ^ (1 / (2 * beta))) ^ 2) := by
  refine and_of_left ?_ fun hasDerivAt_rpow_two_comp => ?_
  · intro f f1 x hf
    have h := hf.pow 2
    refine (h.congr_deriv ?_).congr_of_eventuallyEq (Filter.Eventually.of_forall fun y => ?_)
    · simp
    · simp only [Real.rpow_two]
  refine and_of_left ?_ fun hasDerivAt_sq_sub_one => ?_
  · intro x
    have h := hasDerivAt_rpow_two_comp (fun y => y - 1) 1 x ((hasDerivAt_id' x).sub_const 1)
    simpa using h
  refine and_of_left ?_ fun sq_sub_one_pos => ?_
  · intro x hx
    rw [Real.rpow_two]
    exact lt_of_le_of_ne (sq_nonneg (x - 1)) (pow_ne_zero 2 (sub_ne_zero.mpr hx)).symm
  refine and_of_left ?_ fun hasDerivAt_X_rpow => ?_
  · intro p x hx
    have hX := sq_sub_one_pos x hx
    have hx0 : x - 1 ≠ 0 := sub_ne_zero.mpr hx
    have h := (hasDerivAt_sq_sub_one x).rpow_const (p := p) (Or.inl hX.ne')
    refine h.congr_deriv ?_
    rw [Real.rpow_sub_one hX.ne', Real.rpow_two]
    field_simp
    ring
  refine and_of_left ?_ fun X_rpow_sub_one => ?_
  · intro p x hx
    have hX := sq_sub_one_pos x hx
    rw [Real.rpow_two] at hX
    rw [Real.rpow_sub_one hX.ne']
  refine and_of_left ?_ fun X_rpow_sub_two => ?_
  · intro p x hx
    have hX := sq_sub_one_pos x hx
    rw [Real.rpow_two] at hX
    rw [Real.rpow_sub hX, Real.rpow_two]
    congr 1
    ring
  refine and_of_left ?_ fun X_rpow_sub_three => ?_
  · intro p x hx
    have hX := sq_sub_one_pos x hx
    rw [Real.rpow_two] at hX
    have h3 : ((x - 1) ^ 2) ^ (3 : ℝ) = (x - 1) ^ 6 := by
      rw [show (3 : ℝ) = ((3 : ℕ) : ℝ) by norm_num, Real.rpow_natCast]
      ring
    rw [Real.rpow_sub hX, h3]
  refine and_of_left ?_ fun X_rpow_half => ?_
  · intro x hx
    rw [← Real.sqrt_eq_rpow, Real.sqrt_sq_eq_abs, abs_of_neg (by linarith)]
    ring
  refine and_of_left ?_ fun X_rpow_half_gt => ?_
  · intro x hx
    rw [← Real.sqrt_eq_rpow, Real.sqrt_sq_eq_abs, abs_of_pos (by linarith)]
  refine and_of_left ?_ fun X_rpow_sub_half => ?_
  · intro p x hx
    have hX := sq_sub_one_pos x hx.ne
    rw [Real.rpow_two] at hX
    rw [show (0.5 : ℝ) = 1 / 2 by norm_num, Real.rpow_sub hX, X_rpow_half x hx]
  refine and_of_left ?_ fun X_rpow_sub_five_halves => ?_
  · intro p x hx
    have hX := sq_sub_one_pos x hx.ne
    rw [Real.rpow_two] at hX
    rw [show p - 5 / 2 = p - 2 - 1 / 2 by ring, Real.rpow_sub hX, X_rpow_half x hx,
      X_rpow_sub_two p x hx.ne, div_div]
  intro beta x hx
  have hX := sq_sub_one_pos x hx
  rw [Real.rpow_two] at hX
  rw [show (1 / beta : ℝ) = 1 / (2 * beta) + 1 / (2 * beta) by ring, Real.rpow_add hX]
  ring_nf

/-! #### Derivatives with respect to `delta` -/

/-! #### Derivatives with respect to `tau` -/

theorem singleTerm_wellFormed {K : Type} [LinearOrderedField K]
    (el : ResidualHelmholtzNonAnalyticElement K) : (singleTerm el).WellFormed :=
  ⟨rfl, rfl⟩

theorem singleTerm_accumulate {K : Type} [LinearOrderedField K]
    (el : ResidualHelmholtzNonAnalyticElement K)
    (f : ResidualHelmholtzNonAnalyticElement K → K) :
    (singleTerm el).accumulate f = f el := by
  rw [accumulate_eq_sum _ (singleTerm_wellFormed el)]
  simp [singleTerm]

/-- First-order calculus of the sub-expressions of the non-analytic term in `delta`, and their
calculus up to third order in `tau`. -/
theorem nonanalytic_first_order_calculus :
    -- `hasDerivAt_theta_delta`
    (∀ (valid : ℝ → Bool) (el : ResidualHelmholtzNonAnalyticElement ℝ) (tau delta : ℝ)
      (_ : delta ≠ 1),
        HasDerivAt (fun x => NonAnalytic.theta (realFns valid) el tau x)
          (NonAnalytic.dtheta_dDelta (realFns valid) el tau delta) delta) ∧
    -- `hasDerivAt_DELTA_delta`
    (∀ (valid : ℝ → Bool) (el : ResidualHelmholtzNonAnalyticElement ℝ) (tau delta : ℝ)
      (_ : delta ≠ 1),
        HasDerivAt (fun x => NonAnalytic.DELTA (realFns valid) el tau x)
          (NonAnalytic.dDELTA_dDelta (realFns valid) el tau delta) delta) ∧
    -- `hasDerivAt_PSI_delta`
    (∀ (valid : ℝ → Bool) (el : ResidualHelmholtzNonAnalyticElement ℝ) (tau delta : ℝ),
        HasDerivAt (fun x => NonAnalytic.PSI (realFns valid) el tau x)
          (NonAnalytic.dPSI_dDelta (realFns valid) el tau delta) delta) ∧
    -- `hasDerivAt_DELTAbi_delta`
    (∀ (valid : ℝ → Bool) (el : ResidualHelmholtzNonAnalyticElement ℝ) (tau delta : ℝ)
      (_ : delta ≠ 1) (_ : NonAnalytic.DELTA (realFns valid) el tau delta ≠ 0),
        HasDerivAt (fun x => (NonAnalytic.DELTA (realFns valid) el tau x) ^ el.b)
          (NonAnalytic.dDELTAbi_dDelta (realFns valid) el tau delta) delta) ∧
    -- `hasDerivAt_base_element_delta`: The value of `base` for one element, differentiated in
    -- `delta`: the closed form of the source with `dDELTAbi_dDelta` not replaced by zero.
    (∀ (valid : ℝ → Bool) (el : ResidualHelmholtzNonAnalyticElement ℝ) (tau delta : ℝ)
      (_ : delta ≠ 1) (_ : NonAnalytic.DELTA (realFns valid) el tau delta ≠ 0),
        HasDerivAt
          (fun x => ResidualHelmholtzNonAnalytic.base_element (realFns valid) el tau x)
          (el.n * ((NonAnalytic.DELTA (realFns valid) el tau delta) ^ el.b
              * (NonAnalytic.PSI (realFns valid) el tau delta
                + delta * NonAnalytic.dPSI_dDelta (realFns valid) el tau delta)
            + NonAnalytic.dDELTAbi_dDelta (realFns valid) el tau delta * delta
              * NonAnalytic.PSI (realFns valid) el tau delta)) delta) ∧
    -- `hasDerivAt_theta_tau`
    (∀ (valid : ℝ → Bool) (el : ResidualHelmholtzNonAnalyticElement ℝ) (tau delta : ℝ),
        HasDerivAt (fun y => NonAnalytic.theta (realFns valid) el y delta) (-1) tau) ∧
    -- `hasDerivAt_DELTA_tau`
    (∀ (valid : ℝ → Bool) (el : ResidualHelmholtzNonAnalyticElement ℝ) (tau delta : ℝ),
        HasDerivAt (fun y => NonAnalytic.DELTA (realFns valid) el y delta)
          (NonAnalytic.dDELTA_dTau (realFns valid) el tau delta) tau) ∧
    -- `hasDerivAt_PSI_tau`
    (∀ (valid : ℝ → Bool) (el : ResidualHelmholtzNonAnalyticElement ℝ) (tau delta : ℝ),
        HasDerivAt (fun y => NonAnalytic.PSI (realFns valid) el y delta)
          (NonAnalytic.dPSI_dTau (realFns valid) el tau delta) tau) ∧
    -- `hasDerivAt_dPSI_dTau_tau`
    (∀ (valid : ℝ → Bool) (el : ResidualHelmholtzNonAnalyticElement ℝ) (tau delta : ℝ),
        HasDerivAt (fun y => NonAnalytic.dPSI_dTau (realFns valid) el y delta)
          (NonAnalytic.dPSI2_dTau2 (realFns valid) el tau delta) tau) ∧
    -- `hasDerivAt_dPSI2_dTau2_tau`
    (∀ (valid : ℝ → Bool) (el : ResidualHelmholtzNonAnalyticElement ℝ) (tau delta : ℝ),
        HasDerivAt (fun y => NonAnalytic.dPSI2_dTau2 (realFns valid) el y delta)
          (NonAnalytic.dPSI3_dTau3 (realFns valid) el tau delta) tau) ∧
    -- `hasDerivAt_DELTAbi_tau`
    (∀ (valid : ℝ → Bool) (el : ResidualHelmholtzNonAnalyticElement ℝ) (tau delta : ℝ)
      (_ : NonAnalytic.DELTA (realFns valid) el tau delta ≠ 0),
        HasDerivAt (fun y => (NonAnalytic.DELTA (realFns valid) el y delta) ^ el.b)
          (NonAnalytic.dDELTAbi_dTau (realFns valid) el tau delta) tau) ∧
    -- `hasDerivAt_dDELTAbi_dTau_tau`
    (∀ (valid : ℝ → Bool) (el : ResidualHelmholtzNonAnalyticElement ℝ) (tau delta : ℝ)
      (_ : NonAnalytic.DELTA (realFns valid) el tau delta ≠ 0),
        HasDerivAt (fun y => NonAnalytic.dDELTAbi_dTau (realFns valid) el y delta)
          (NonAnalytic.dDELTAbi2_dTau2 (realFns valid) el tau delta) tau) ∧
    -- `hasDerivAt_dDELTAbi2_dTau2_tau`
    (∀ (valid : ℝ → Bool) (el : ResidualHelmholtzNonAnalyticElement ℝ) (tau delta : ℝ)
      (_ : NonAnalytic.DELTA (realFns valid) el tau delta ≠ 0),
        HasDerivAt (fun y => NonAnalytic.dDELTAbi2_dTau2 (realFns valid) el y delta)
          (NonAnalytic.dDELTAbi3_dTau3 (realFns valid) el tau delta) tau) ∧
    -- `hasDerivAt_tau_chain_element`: The value of `dTau`, `dTau2`, `dTau3` for one element is
    -- the `tau`-derivative of the value of `base`, `dTau`, `dTau2`.
    (∀ (valid : ℝ → Bool) (el : ResidualHelmholtzNonAnalyticElement ℝ) (tau delta : ℝ)
      (_ : NonAnalytic.DELTA (realFns valid) el tau delta ≠ 0),
        HasDerivAt (fun y => ResidualHelmholtzNonAnalytic.base_element (realFns valid) el y delta)
          (ResidualHelmholtzNonAnalytic.dTau_element (realFns valid) el tau delta) tau ∧
        HasDerivAt (fun y => ResidualHelmholtzNonAnalytic.dTau_element (realFns valid) el y delta)
          (ResidualHelmholtzNonAnalytic.dTau2_element (realFns valid) el tau delta) tau ∧
        HasDerivAt (fun y => ResidualHelmholtzNonAnalytic.dTau2_element (realFns valid) el y delta)
          (ResidualHelmholtzNonAnalytic.dTau3_element (realFns valid) el tau delta) tau) ∧
    -- `hasDerivAt_base_element_dDelta`: With the guard on `DELTA` not taken, the value of
    -- `dDelta` for one element is the `delta`-derivative of the value of `base`.
    (∀ (valid : ℝ → Bool) (el : ResidualHelmholtzNonAnalyticElement ℝ) (tau delta : ℝ)
      (_ : delta ≠ 1) (_ : 0 < NonAnalytic.DELTA (realFns valid) el tau delta)
      (_ : 10 * DBL_EPSILON ≤ NonAnalytic.DELTA (realFns valid) el tau delta),
        HasDerivAt
          (fun x => ResidualHelmholtzNonAnalytic.base_element (realFns valid) el tau x)
          (ResidualHelmholtzNonAnalytic.dDelta_element (realFns valid) el tau delta) delta) := by
  have hasDerivAt_X_rpow := sq_rpow_rules.2.2.2.1
  have X_rpow_sub_one := sq_rpow_rules.2.2.2.2.1
  have hasDerivAt_rpow_two_comp := sq_rpow_rules.1
  have hasDerivAt_sq_sub_one := sq_rpow_rules.2.1
  refine and_of_left ?_ fun hasDerivAt_theta_delta => ?_
  · intro valid el tau delta hd
    have hx0 : delta - 1 ≠ 0 := sub_ne_zero.mpr hd
    have h := ((hasDerivAt_X_rpow (1 / (2 * el.beta)) delta hd).const_mul el.A).const_add
      (1 - tau)
    refine (h.congr_deriv ?_).congr_of_eventuallyEq (Filter.Eventually.of_forall fun y => rfl)
    simp only [NonAnalytic.dtheta_dDelta, realFns, Real.rpow_two, X_rpow_sub_one _ _ hd,
      div_eq_mul_inv, mul_inv, one_mul]
    generalize el.beta⁻¹ = r
    field_simp
    ring
  refine and_of_left ?_ fun hasDerivAt_DELTA_delta => ?_
  · intro valid el tau delta hd
    have hx0 : delta - 1 ≠ 0 := sub_ne_zero.mpr hd
    have h := (hasDerivAt_rpow_two_comp _ _ _ (hasDerivAt_theta_delta valid el tau delta hd)).add
      ((hasDerivAt_X_rpow el.a delta hd).const_mul el.B)
    refine (h.congr_deriv ?_).congr_of_eventuallyEq (Filter.Eventually.of_forall fun y => rfl)
    simp only [NonAnalytic.dDELTA_dDelta, NonAnalytic.dtheta_dDelta, realFns, Real.rpow_two,
      X_rpow_sub_one _ _ hd, div_eq_mul_inv, mul_inv, one_mul]
    generalize el.beta⁻¹ = r
    field_simp
    ring
  refine and_of_left ?_ fun hasDerivAt_PSI_delta => ?_
  · intro valid el tau delta
    have h := (((hasDerivAt_sq_sub_one delta).const_mul (-el.C)).sub_const
      (el.D * (tau - 1) ^ (2 : ℝ))).exp
    refine (h.congr_deriv ?_).congr_of_eventuallyEq (Filter.Eventually.of_forall fun y => rfl)
    simp only [NonAnalytic.dPSI_dDelta, NonAnalytic.PSI, realFns]
    ring
  refine and_of_left ?_ fun hasDerivAt_DELTAbi_delta => ?_
  · intro valid el tau delta hd hD
    have h := (hasDerivAt_DELTA_delta valid el tau delta hd).rpow_const (p := el.b) (Or.inl hD)
    refine h.congr_deriv ?_
    simp only [NonAnalytic.dDELTAbi_dDelta, realFns]
    ring
  refine and_of_left ?_ fun hasDerivAt_base_element_delta => ?_
  · intro valid el tau delta hd hD
    have h := (((hasDerivAt_DELTAbi_delta valid el tau delta hd hD).const_mul el.n).mul
      (hasDerivAt_id' delta)).mul (hasDerivAt_PSI_delta valid el tau delta)
    refine (h.congr_deriv ?_).congr_of_eventuallyEq (Filter.Eventually.of_forall fun y => rfl)
    ring
  refine and_of_left ?_ fun hasDerivAt_theta_tau => ?_
  · intro valid el tau delta
    have h := ((hasDerivAt_id' tau).const_sub 1).add_const
      (el.A * ((delta - 1) ^ (2 : ℝ)) ^ (1 / (2 * el.beta)))
    exact h.congr_of_eventuallyEq (Filter.Eventually.of_forall fun y => rfl)
  refine and_of_left ?_ fun hasDerivAt_DELTA_tau => ?_
  · intro valid el tau delta
    have h := (hasDerivAt_rpow_two_comp _ _ _ (hasDerivAt_theta_tau valid el tau delta)).add_const
      (el.B * ((delta - 1) ^ (2 : ℝ)) ^ el.a)
    refine (h.congr_deriv ?_).congr_of_eventuallyEq (Filter.Eventually.of_forall fun y => rfl)
    simp only [NonAnalytic.dDELTA_dTau]
    ring
  refine and_of_left ?_ fun hasDerivAt_PSI_tau => ?_
  · intro valid el tau delta
    have h := (((hasDerivAt_sq_sub_one tau).const_mul el.D).const_sub
      ((-el.C) * (delta - 1) ^ (2 : ℝ))).exp
    refine (h.congr_deriv ?_).congr_of_eventuallyEq (Filter.Eventually.of_forall fun y => rfl)
    simp only [NonAnalytic.dPSI_dTau, NonAnalytic.PSI, realFns]
    ring
  refine and_of_left ?_ fun hasDerivAt_dPSI_dTau_tau => ?_
  · intro valid el tau delta
    have h := (((hasDerivAt_id' tau).sub_const 1).const_mul ((-2) * el.D)).mul
      (hasDerivAt_PSI_tau valid el tau delta)
    refine (h.congr_deriv ?_).congr_of_eventuallyEq (Filter.Eventually.of_forall fun y => rfl)
    simp only [NonAnalytic.dPSI_dTau, NonAnalytic.dPSI2_dTau2, realFns, Real.rpow_two]
    ring
  refine and_of_left ?_ fun hasDerivAt_dPSI2_dTau2_tau => ?_
  · intro valid el tau delta
    have h := (((((hasDerivAt_sq_sub_one tau).const_mul (2 * el.D)).sub_const 1).mul_const
      2).mul_const el.D).mul (hasDerivAt_PSI_tau valid el tau delta)
    refine (h.congr_deriv ?_).congr_of_eventuallyEq (Filter.Eventually.of_forall fun y => rfl)
    have h3 : (tau - 1) ^ (3 : ℝ) = (tau - 1) ^ 3 := by
      rw [show (3 : ℝ) = ((3 : ℕ) : ℝ) by norm_num, Real.rpow_natCast]
    simp only [NonAnalytic.dPSI_dTau, NonAnalytic.dPSI3_dTau3, realFns, Real.rpow_two, h3]
    ring
  refine and_of_left ?_ fun hasDerivAt_DELTAbi_tau => ?_
  · intro valid el tau delta hD
    have h := (hasDerivAt_DELTA_tau valid el tau delta).rpow_const (p := el.b) (Or.inl hD)
    refine h.congr_deriv ?_
    simp only [NonAnalytic.dDELTAbi_dTau, NonAnalytic.dDELTA_dTau, realFns]
  refine and_of_left ?_ fun hasDerivAt_dDELTAbi_dTau_tau => ?_
  · intro valid el tau delta hD
    have h := (((hasDerivAt_theta_tau valid el tau delta).const_mul (-2)).mul_const el.b).mul
      ((hasDerivAt_DELTA_tau valid el tau delta).rpow_const (p := el.b - 1) (Or.inl hD))
    refine (h.congr_deriv ?_).congr_of_eventuallyEq (Filter.Eventually.of_forall fun y => rfl)
    simp only [NonAnalytic.dDELTAbi2_dTau2, NonAnalytic.dDELTA_dTau, realFns, Real.rpow_two,
      show el.b - 1 - 1 = el.b - 2 by ring]
    ring
  refine and_of_left ?_ fun hasDerivAt_dDELTAbi2_dTau2_tau => ?_
  · intro valid el tau delta hD
    have hth := hasDerivAt_theta_tau valid el tau delta
    have hDE := hasDerivAt_DELTA_tau valid el tau delta
    have h := ((hDE.rpow_const (p := el.b - 1) (Or.inl hD)).const_mul (2 * el.b)).add
      (((((hasDerivAt_rpow_two_comp _ _ _ hth).const_mul 4).mul_const el.b).mul_const
        (el.b - 1)).mul (hDE.rpow_const (p := el.b - 2) (Or.inl hD)))
    refine (h.congr_deriv ?_).congr_of_eventuallyEq (Filter.Eventually.of_forall fun y => rfl)
    have h3 : ∀ t : ℝ, t ^ (3 : ℝ) = t ^ 3 := by
      intro t
      rw [show (3 : ℝ) = ((3 : ℕ) : ℝ) by norm_num, Real.rpow_natCast]
    simp only [NonAnalytic.dDELTAbi3_dTau3, NonAnalytic.dDELTA_dTau, realFns, Real.rpow_two, h3,
      show el.b - 1 - 1 = el.b - 2 by ring, show el.b - 2 - 1 = el.b - 3 by ring]
    ring
  refine and_of_left ?_ fun hasDerivAt_tau_chain_element => ?_
  · intro valid el tau delta hD
    have hW0 := hasDerivAt_DELTAbi_tau valid el tau delta hD
    have hW1 := hasDerivAt_dDELTAbi_dTau_tau valid el tau delta hD
    have hW2 := hasDerivAt_dDELTAbi2_dTau2_tau valid el tau delta hD
    have hP0 := hasDerivAt_PSI_tau valid el tau delta
    have hP1 := hasDerivAt_dPSI_dTau_tau valid el tau delta
    have hP2 := hasDerivAt_dPSI2_dTau2_tau valid el tau delta
    refine ⟨?_, ?_, ?_⟩
    · have h := ((hW0.const_mul el.n).mul_const delta).mul hP0
      refine (h.congr_deriv ?_).congr_of_eventuallyEq (Filter.Eventually.of_forall fun y => rfl)
      rw [dTau_element_eq]
      simp only [realFns]
      ring
    · have h := ((hW1.mul hP0).add (hW0.mul hP1)).const_mul (el.n * delta)
      refine (h.congr_deriv ?_).congr_of_eventuallyEq (Filter.Eventually.of_forall fun y => rfl)
      rw [dTau2_element_eq]
      simp only [realFns]
      ring
    · have h := (((hW2.mul hP0).add ((hW1.const_mul 2).mul hP1)).add
        (hW0.mul hP2)).const_mul (el.n * delta)
      refine (h.congr_deriv ?_).congr_of_eventuallyEq (Filter.Eventually.of_forall fun y => rfl)
      rw [dTau3_element_eq]
      simp only [realFns]
      ring
  intro valid el tau delta hd hD hg
  refine (hasDerivAt_base_element_delta valid el tau delta hd hD.ne').congr_deriv ?_
  rw [dDelta_element_eq]
  simp only [NonAnalytic.dDELTAbi_dDelta_guarded, abs_of_pos hD, not_lt.mpr hg, if_false]
  rfl

/-- Claim C18, amended: on a well-formed term, for `tau > 0`, `delta > 0`, `delta != 1` and
`DELTA > 0` for every element, `base` is the sum of `n*DELTA^b*delta*PSI`, `dTau` is the
partial derivative of `base` with respect to `tau`, `dTau2` that of `dTau` and `dTau3` that
of `dTau2`; and when moreover `DELTA >= 10*DBL_EPSILON` for every element, `dDelta` is the
partial derivative of `base` with respect to `delta`. -/
theorem nonanalytic_first_order_and_tau_chain (valid : ℝ → Bool)
    (self : ResidualHelmholtzNonAnalytic ℝ) (hwf : self.WellFormed) (tau delta : ℝ)
    (_htau : 0 < tau) (_hdelta : 0 < delta) (hd : delta ≠ 1)
    (hD : ∀ el ∈ self.elements, 0 < NonAnalytic.DELTA (realFns valid) el tau delta) :
    self.base (realFns valid) tau delta =
      (self.elements.map fun el =>
        el.n * (NonAnalytic.DELTA (realFns valid) el tau delta) ^ el.b * delta
          * NonAnalytic.PSI (realFns valid) el tau delta).sum ∧
    HasDerivAt (fun y => self.base (realFns valid) y delta)
      (self.dTau (realFns valid) tau delta) tau ∧
    HasDerivAt (fun y => self.dTau (realFns valid) y delta)
      (self.dTau2 (realFns valid) tau delta) tau ∧
    HasDerivAt (fun y => self.dTau2 (realFns valid) y delta)
      (self.dTau3 (realFns valid) tau delta) tau ∧
    ((∀ el ∈ self.elements,
        10 * DBL_EPSILON ≤ NonAnalytic.DELTA (realFns valid) el tau delta) →
      HasDerivAt (fun x => self.base (realFns valid) tau x)
        (self.dDelta (realFns valid) tau delta) delta) := by
  have hasDerivAt_tau_chain_element := nonanalytic_first_order_calculus.2.2.2.2.2.2.2.2.2.2.2.2.2.1
  have hasDerivAt_list_sum := @And.left _ _ exponent_totals_calculus.2.2.2.2
  have hasDerivAt_base_element_dDelta := nonanalytic_first_order_calculus.2.2.2.2.2.2.2.2.2.2.2.2.2.2
  simp only [ResidualHelmholtzNonAnalytic.base, ResidualHelmholtzNonAnalytic.dTau,
    ResidualHelmholtzNonAnalytic.dTau2, ResidualHelmholtzNonAnalytic.dTau3,
    ResidualHelmholtzNonAnalytic.dDelta, accumulate_eq_sum self hwf]
  have hT := fun el hel => hasDerivAt_tau_chain_element valid el tau delta (hD el hel).ne'
  refine ⟨rfl, ?_, ?_, ?_, ?_⟩
  · exact hasDerivAt_list_sum _ _ _ _ fun el hel => (hT el hel).1
  · exact hasDerivAt_list_sum _ _ _ _ fun el hel => (hT el hel).2.1
  · exact hasDerivAt_list_sum _ _ _ _ fun el hel => (hT el hel).2.2
  · intro hg
    exact hasDerivAt_list_sum _ _ _ _ fun el hel =>
      hasDerivAt_base_element_dDelta valid el tau delta hd (hD el hel) (hg el hel)

/-- Values of `theta`, `DELTA` and `PSI` for the example elements. -/
theorem example_element_values :
    -- `quadraticElement_theta`
    (∀ (valid : ℝ → Bool) (b tau x : ℝ),
        NonAnalytic.theta (realFns valid) (quadraticElement b) tau x = 1 - tau) ∧
    -- `quadraticElement_DELTA`
    (∀ (valid : ℝ → Bool) (b tau x : ℝ),
        NonAnalytic.DELTA (realFns valid) (quadraticElement b) tau x
          = (1 - tau) ^ 2 + (x - 1) ^ 2) ∧
    -- `quadraticElement_PSI`
    (∀ (valid : ℝ → Bool) (b tau x : ℝ),
        NonAnalytic.PSI (realFns valid) (quadraticElement b) tau x = 1) ∧
    -- `quadraticTerm_DELTA_above`
    (∀ (valid : ℝ → Bool),
        ∀ el ∈ (singleTerm (quadraticElement (1 : ℝ))).elements,
          10 * DBL_EPSILON < NonAnalytic.DELTA (realFns valid) el 2 (1 / 2)) ∧
    -- `half_above_tolerance`
    (10 * (DBL_EPSILON : ℝ) < |(1 / 2 : ℝ) - 1|) ∧
    -- `gaussianElement_theta`
    (∀ (valid : ℝ → Bool) (tau x : ℝ),
        NonAnalytic.theta (realFns valid) gaussianElement tau x = 1 - tau) ∧
    -- `gaussianElement_DELTA`
    (∀ (valid : ℝ → Bool) (tau x : ℝ),
        NonAnalytic.DELTA (realFns valid) gaussianElement tau x
          = (1 - tau) ^ 2 + (x - 1) ^ 2) ∧
    -- `gaussianElement_PSI`
    (∀ (valid : ℝ → Bool) (tau x : ℝ),
        NonAnalytic.PSI (realFns valid) gaussianElement tau x = Real.exp (-(tau - 1) ^ 2)) := by
  refine and_of_left ?_ fun quadraticElement_theta => ?_
  · intro valid b tau x
    simp [NonAnalytic.theta, quadraticElement]
  refine and_of_left ?_ fun quadraticElement_DELTA => ?_
  · intro valid b tau x
    simp only [NonAnalytic.DELTA, quadraticElement_theta]
    simp [quadraticElement, realFns]
  refine and_of_left ?_ fun quadraticElement_PSI => ?_
  · intro valid b tau x
    simp [NonAnalytic.PSI, quadraticElement, realFns]
  refine and_of_left ?_ fun quadraticTerm_DELTA_above => ?_
  · intro valid
    intro el hel
    have : el = quadraticElement 1 := by simpa [singleTerm] using hel
    subst this
    rw [quadraticElement_DELTA, dbl_epsilon_real]
    norm_num
  refine and_of_left ?_ fun half_above_tolerance => ?_
  · rw [dbl_epsilon_real, abs_of_neg (by norm_num)]
    norm_num
  refine and_of_left ?_ fun gaussianElement_theta => ?_
  · intro valid tau x
    simp [NonAnalytic.theta, gaussianElement]
  refine and_of_left ?_ fun gaussianElement_DELTA => ?_
  · intro valid tau x
    simp only [NonAnalytic.DELTA, gaussianElement_theta]
    simp [gaussianElement, realFns]
  intro valid tau x
  simp [NonAnalytic.PSI, gaussianElement, realFns]

/-- Claim C18, as stated, fails: for the one-element term with `n = 1`, `a = b = beta = 1`,
`A = 0`, `B = 1`, `C = D = 0` at `tau = 1`, `delta = 1 + 2^-30`, `DELTA = 2^-60` is positive
but below `10*DBL_EPSILON`, so `dDelta` drops the term in `dDELTAbi_dDelta` and returns
`(delta-1)^2`, while `base = (delta-1)^2*delta` has derivative
`2*(delta-1)*delta + (delta-1)^2`. -/
theorem nonanalytic_dDelta_not_derivative_in_guard :
    (singleTerm (quadraticElement (1 : ℝ))).WellFormed ∧
    (0 : ℝ) < 1 ∧ (0 : ℝ) < 1 + 1 / 2 ^ 30 ∧ (1 : ℝ) + 1 / 2 ^ 30 ≠ 1 ∧
    (∀ el ∈ (singleTerm (quadraticElement (1 : ℝ))).elements,
      0 < NonAnalytic.DELTA (realFns fun _ => true) el 1 (1 + 1 / 2 ^ 30)) ∧
    ¬ HasDerivAt
      (fun x => (singleTerm (quadraticElement (1 : ℝ))).base (realFns fun _ => true) 1 x)
      ((singleTerm (quadraticElement (1 : ℝ))).dDelta (realFns fun _ => true) 1
        (1 + 1 / 2 ^ 30)) (1 + 1 / 2 ^ 30) := by
  have quadraticElement_DELTA := example_element_values.2.1
  have quadraticElement_PSI := example_element_values.2.2.1
  refine ⟨singleTerm_wellFormed _, by norm_num, by positivity, by norm_num, ?_, ?_⟩
  · intro el hel
    have : el = quadraticElement 1 := by simpa [singleTerm] using hel
    subst this
    rw [quadraticElement_DELTA]
    norm_num
  · intro h
    have hfun : (fun x => (singleTerm (quadraticElement (1 : ℝ))).base
        (realFns fun _ => true) 1 x) = fun x => (x - 1) ^ 2 * x := by
      funext x
      rw [ResidualHelmholtzNonAnalytic.base, singleTerm_accumulate, base_element_eq,
        quadraticElement_DELTA, quadraticElement_PSI]
      simp [quadraticElement, realFns]
    have hval : (singleTerm (quadraticElement (1 : ℝ))).dDelta (realFns fun _ => true) 1
        (1 + 1 / 2 ^ 30) = (1 / 2 ^ 30) ^ 2 := by
      have hg : |(1 - (1 : ℝ)) ^ 2 + (1 + 1 / 2 ^ 30 - 1) ^ 2| < 10 * DBL_EPSILON := by
        rw [dbl_epsilon_real, abs_of_nonneg (by positivity)]
        norm_num
      rw [ResidualHelmholtzNonAnalytic.dDelta, singleTerm_accumulate, dDelta_element_eq]
      simp only [NonAnalytic.dDELTAbi_dDelta_guarded, quadraticElement_DELTA,
        quadraticElement_PSI, if_pos hg, NonAnalytic.dPSI_dDelta]
      simp [quadraticElement, realFns]
    rw [hfun, hval] at h
    have hgen : ∀ x0 : ℝ, HasDerivAt (fun x : ℝ => (x - 1) ^ 2 * x)
        (2 * (x0 - 1) * x0 + (x0 - 1) ^ 2) x0 := by
      intro x0
      have := (((hasDerivAt_id' x0).sub_const 1).pow 2).mul (hasDerivAt_id' x0)
      refine this.congr_deriv ?_
      ring
    have := h.unique (hgen (1 + 1 / 2 ^ 30))
    norm_num at this

/-- Witness of the amended C18: the one-element term with the quadratic `DELTA` at
`tau = 2`, `delta = 2`, where `DELTA = 2`. -/
theorem nonanalytic_first_order_and_tau_chain_witness :
    (singleTerm (quadraticElement (1 : ℝ))).WellFormed ∧
    (0 : ℝ) < 2 ∧ (2 : ℝ) ≠ 1 ∧
    (∀ el ∈ (singleTerm (quadraticElement (1 : ℝ))).elements,
      0 < NonAnalytic.DELTA (realFns fun _ => true) el 2 2) ∧
    (∀ el ∈ (singleTerm (quadraticElement (1 : ℝ))).elements,
      10 * DBL_EPSILON ≤ NonAnalytic.DELTA (realFns fun _ => true) el 2 2) ∧
    HasDerivAt
      (fun y => (singleTerm (quadraticElement (1 : ℝ))).base (realFns fun _ => true) y 2)
      ((singleTerm (quadraticElement (1 : ℝ))).dTau (realFns fun _ => true) 2 2) 2 ∧
    HasDerivAt
      (fun x => (singleTerm (quadraticElement (1 : ℝ))).base (realFns fun _ => true) 2 x)
      ((singleTerm (quadraticElement (1 : ℝ))).dDelta (realFns fun _ => true) 2 2) 2 := by
  have quadraticElement_DELTA := example_element_values.2.1
  exact
    have hD : ∀ el ∈ (singleTerm (quadraticElement (1 : ℝ))).elements,
        0 < NonAnalytic.DELTA (realFns fun _ => true) el 2 2 := by
      intro el hel
      have : el = quadraticElement 1 := by simpa [singleTerm] using hel
      subst this
      rw [quadraticElement_DELTA]
      norm_num
    have hg : ∀ el ∈ (singleTerm (quadraticElement (1 : ℝ))).elements,
        10 * DBL_EPSILON ≤ NonAnalytic.DELTA (realFns fun _ => true) el 2 2 := by
      intro el hel
      have : el = quadraticElement 1 := by simpa [singleTerm] using hel
      subst this
      rw [quadraticElement_DELTA, dbl_epsilon_real]
      norm_num
    ⟨singleTerm_wellFormed _, by norm_num, by norm_num, hD, hg,
     (nonanalytic_first_order_and_tau_chain (fun _ => true) _ (singleTerm_wellFormed _) 2 2
        (by norm_num) (by norm_num) (by norm_num) hD).2.1,
     (nonanalytic_first_order_and_tau_chain (fun _ => true) _ (singleTerm_wellFormed _) 2 2
        (by norm_num) (by norm_num) (by norm_num) hD).2.2.2.2 hg⟩

/-! #### Higher derivatives with respect to `delta` -/

/-- Second-order calculus in `delta` of the sub-expressions of the non-analytic term. -/
theorem nonanalytic_delta_calculus :
    -- `rpow_three_eq`
    (∀ (t : ℝ),
        t ^ (3 : ℝ) = t ^ 3) ∧
    -- `hasDerivAt_dPSI_dDelta_delta`
    (∀ (valid : ℝ → Bool) (el : ResidualHelmholtzNonAnalyticElement ℝ) (tau delta : ℝ),
        HasDerivAt (fun x => NonAnalytic.dPSI_dDelta (realFns valid) el tau x)
          (NonAnalytic.dPSI2_dDelta2 (realFns valid) el tau delta) delta) ∧
    -- `hasDerivAt_dPSI2_dDelta2_delta`
    (∀ (valid : ℝ → Bool) (el : ResidualHelmholtzNonAnalyticElement ℝ) (tau delta : ℝ),
        HasDerivAt (fun x => NonAnalytic.dPSI2_dDelta2 (realFns valid) el tau x)
          (NonAnalytic.dPSI3_dDelta3 (realFns valid) el tau delta) delta) ∧
    -- `hasDerivAt_dPSI_dTau_delta`
    (∀ (valid : ℝ → Bool) (el : ResidualHelmholtzNonAnalyticElement ℝ) (tau delta : ℝ),
        HasDerivAt (fun x => NonAnalytic.dPSI_dTau (realFns valid) el tau x)
          (NonAnalytic.dPSI2_dDelta_dTau (realFns valid) el tau delta) delta) ∧
    -- `hasDerivAt_dPSI2_dDelta_dTau_delta`
    (∀ (valid : ℝ → Bool) (el : ResidualHelmholtzNonAnalyticElement ℝ) (tau delta : ℝ),
        HasDerivAt (fun x => NonAnalytic.dPSI2_dDelta_dTau (realFns valid) el tau x)
          (NonAnalytic.dPSI3_dDelta2_dTau (realFns valid) el tau delta) delta) ∧
    -- `hasDerivAt_over_delta_minus_1`: The quotient `dDELTA_dDelta/(delta-1)` has derivative
    -- `(delta-1)*PI`.
    (∀ (valid : ℝ → Bool) (el : ResidualHelmholtzNonAnalyticElement ℝ) (tau delta : ℝ)
      (_ : delta ≠ 1),
        HasDerivAt
          (fun x => NonAnalytic.dDELTA_dDelta_over_delta_minus_1 (realFns valid) el tau x)
          ((delta - 1) * NonAnalytic.PI (realFns valid) el tau delta) delta) ∧
    -- `dDELTA2_dDelta2_eq`: The closed form of `dDELTA2_dDelta2` is `dDELTA_dDelta/(delta-1) +
    -- (delta-1)^2*PI`.
    (∀ (valid : ℝ → Bool) (el : ResidualHelmholtzNonAnalyticElement ℝ) (tau delta : ℝ)
      (_ : delta ≠ 1),
        NonAnalytic.dDELTA2_dDelta2 (realFns valid) el tau delta =
          NonAnalytic.dDELTA_dDelta_over_delta_minus_1 (realFns valid) el tau delta
            + (delta - 1) ^ (2 : ℝ) * NonAnalytic.PI (realFns valid) el tau delta) ∧
    -- `dDELTA2_dDelta2_unguarded_eq`: Away from `delta = 1` the unguarded text of
    -- `dDELTA2_dDelta2` has the value of the closed form.
    (∀ (valid : ℝ → Bool) (el : ResidualHelmholtzNonAnalyticElement ℝ) (tau delta : ℝ)
      (_ : delta ≠ 1),
        NonAnalytic.dDELTA2_dDelta2_unguarded (realFns valid) el tau delta =
          NonAnalytic.dDELTA2_dDelta2 (realFns valid) el tau delta) ∧
    -- `hasDerivAt_dDELTA_dDelta_delta`
    (∀ (valid : ℝ → Bool) (el : ResidualHelmholtzNonAnalyticElement ℝ) (tau delta : ℝ)
      (_ : delta ≠ 1),
        HasDerivAt (fun x => NonAnalytic.dDELTA_dDelta (realFns valid) el tau x)
          (NonAnalytic.dDELTA2_dDelta2 (realFns valid) el tau delta) delta) ∧
    -- `hasDerivAt_PI_delta`: Below `delta = 1`, `dPI_dDelta` is the derivative of `PI`.
    (∀ (valid : ℝ → Bool) (el : ResidualHelmholtzNonAnalyticElement ℝ) (tau delta : ℝ)
      (_ : delta < 1),
        HasDerivAt (fun x => NonAnalytic.PI (realFns valid) el tau x)
          (NonAnalytic.dPI_dDelta (realFns valid) el tau delta) delta) ∧
    -- `dDELTA_dDelta_eq_mul`
    (∀ (valid : ℝ → Bool) (el : ResidualHelmholtzNonAnalyticElement ℝ) (tau delta : ℝ),
        NonAnalytic.dDELTA_dDelta (realFns valid) el tau delta =
          (delta - 1) * NonAnalytic.dDELTA_dDelta_over_delta_minus_1 (realFns valid) el tau delta) ∧
    -- `hasDerivAt_dDELTA2_dDelta2_delta`: Below `delta = 1`, `dDELTA3_dDelta3` is the
    -- derivative of `dDELTA2_dDelta2`.
    (∀ (valid : ℝ → Bool) (el : ResidualHelmholtzNonAnalyticElement ℝ) (tau delta : ℝ)
      (_ : delta < 1),
        HasDerivAt (fun x => NonAnalytic.dDELTA2_dDelta2 (realFns valid) el tau x)
          (NonAnalytic.dDELTA3_dDelta3 (realFns valid) el tau delta
            (NonAnalytic.dDELTA2_dDelta2 (realFns valid) el tau delta)) delta) ∧
    -- `hasDerivAt_dDELTAbi_dDelta_delta`
    (∀ (valid : ℝ → Bool) (el : ResidualHelmholtzNonAnalyticElement ℝ) (tau delta : ℝ)
      (_ : delta ≠ 1) (_ : NonAnalytic.DELTA (realFns valid) el tau delta ≠ 0),
        HasDerivAt (fun x => NonAnalytic.dDELTAbi_dDelta (realFns valid) el tau x)
          (NonAnalytic.dDELTAbi2_dDelta2 (realFns valid) el tau delta
            (NonAnalytic.dDELTA2_dDelta2 (realFns valid) el tau delta)) delta) ∧
    -- `hasDerivAt_dDELTAbi2_dDelta2_delta`: Below `delta = 1`, `dDELTAbi3_dDelta3` is the
    -- derivative of `dDELTAbi2_dDelta2`.
    (∀ (valid : ℝ → Bool) (el : ResidualHelmholtzNonAnalyticElement ℝ) (tau delta : ℝ)
      (_ : delta < 1) (_ : NonAnalytic.DELTA (realFns valid) el tau delta ≠ 0),
        HasDerivAt
          (fun x => NonAnalytic.dDELTAbi2_dDelta2 (realFns valid) el tau x
            (NonAnalytic.dDELTA2_dDelta2 (realFns valid) el tau x))
          (NonAnalytic.dDELTAbi3_dDelta3 (realFns valid) el tau delta
            (NonAnalytic.dDELTA2_dDelta2 (realFns valid) el tau delta)
            (NonAnalytic.dDELTA3_dDelta3 (realFns valid) el tau delta
              (NonAnalytic.dDELTA2_dDelta2 (realFns valid) el tau delta))) delta) ∧
    -- `hasDerivAt_dDELTA_dTau_delta`: Below `delta = 1`, `dDELTA2_dDelta_dTau` is the
    -- `delta`-derivative of `dDELTA_dTau`.
    (∀ (valid : ℝ → Bool) (el : ResidualHelmholtzNonAnalyticElement ℝ) (tau delta : ℝ)
      (_ : delta < 1),
        HasDerivAt (fun x => NonAnalytic.dDELTA_dTau (realFns valid) el tau x)
          (NonAnalytic.dDELTA2_dDelta_dTau (realFns valid) el tau delta) delta) ∧
    -- `hasDerivAt_dDELTAbi_dTau_delta`
    (∀ (valid : ℝ → Bool) (el : ResidualHelmholtzNonAnalyticElement ℝ) (tau delta : ℝ)
      (_ : delta ≠ 1) (_ : NonAnalytic.DELTA (realFns valid) el tau delta ≠ 0),
        HasDerivAt (fun x => NonAnalytic.dDELTAbi_dTau (realFns valid) el tau x)
          (NonAnalytic.dDELTAbi2_dDelta_dTau (realFns valid) el tau delta) delta) ∧
    -- `beta_coefficient`
    (∀ (A beta : ℝ),
        2 * A * (beta - 1) / (beta * beta) = -(2 * A / beta) * (1 / beta - 1)) ∧
    -- `hasDerivAt_dDELTAbi2_dDelta_dTau_delta`: Below `delta = 1`, `dDELTAbi3_dDelta2_dTau` of
    -- `dDelta2_dTau` is the `delta`-derivative of `dDELTAbi2_dDelta_dTau`.
    (∀ (valid : ℝ → Bool) (el : ResidualHelmholtzNonAnalyticElement ℝ) (tau delta : ℝ)
      (_ : delta < 1) (_ : NonAnalytic.DELTA (realFns valid) el tau delta ≠ 0),
        HasDerivAt (fun x => NonAnalytic.dDELTAbi2_dDelta_dTau (realFns valid) el tau x)
          (NonAnalytic.dDELTAbi3_dDelta2_dTau_lines (realFns valid) el tau delta
            (NonAnalytic.dDELTA2_dDelta2 (realFns valid) el tau delta)) delta) := by
  have hasDerivAt_PSI_delta := nonanalytic_first_order_calculus.2.2.1
  have hasDerivAt_sq_sub_one := sq_rpow_rules.2.1
  have hasDerivAt_theta_delta := nonanalytic_first_order_calculus.1
  have hasDerivAt_X_rpow := sq_rpow_rules.2.2.2.1
  have X_rpow_sub_one := sq_rpow_rules.2.2.2.2.1
  have X_rpow_sub_two := sq_rpow_rules.2.2.2.2.2.1
  have X_rpow_inv_beta := sq_rpow_rules.2.2.2.2.2.2.2.2.2.2.2
  have X_rpow_sub_five_halves := sq_rpow_rules.2.2.2.2.2.2.2.2.2.2.1
  have hasDerivAt_DELTA_delta := nonanalytic_first_order_calculus.2.1
  have hasDerivAt_rpow_two_comp := sq_rpow_rules.1
  have X_rpow_sub_half := sq_rpow_rules.2.2.2.2.2.2.2.2.2.1
  refine and_of_left ?_ fun rpow_three_eq => ?_
  · intro t
    rw [show (3 : ℝ) = ((3 : ℕ) : ℝ) by norm_num, Real.rpow_natCast]
  refine and_of_left ?_ fun hasDerivAt_dPSI_dDelta_delta => ?_
  · intro valid el tau delta
    have h := (((hasDerivAt_id' delta).sub_const 1).const_mul ((-2) * el.C)).mul
      (hasDerivAt_PSI_delta valid el tau delta)
    refine (h.congr_deriv ?_).congr_of_eventuallyEq (Filter.Eventually.of_forall fun y => rfl)
    simp only [NonAnalytic.dPSI_dDelta, NonAnalytic.dPSI2_dDelta2, realFns, Real.rpow_two]
    ring
  refine and_of_left ?_ fun hasDerivAt_dPSI2_dDelta2_delta => ?_
  · intro valid el tau delta
    have h := (((((hasDerivAt_sq_sub_one delta).const_mul (2 * el.C)).sub_const 1).mul_const
      2).mul_const el.C).mul (hasDerivAt_PSI_delta valid el tau delta)
    refine (h.congr_deriv ?_).congr_of_eventuallyEq (Filter.Eventually.of_forall fun y => rfl)
    simp only [NonAnalytic.dPSI_dDelta, NonAnalytic.dPSI3_dDelta3, realFns, Real.rpow_two,
      rpow_three_eq]
    ring
  refine and_of_left ?_ fun hasDerivAt_dPSI_dTau_delta => ?_
  · intro valid el tau delta
    have h := (hasDerivAt_PSI_delta valid el tau delta).const_mul ((-2) * el.D * (tau - 1))
    refine (h.congr_deriv ?_).congr_of_eventuallyEq (Filter.Eventually.of_forall fun y => rfl)
    simp only [NonAnalytic.dPSI_dDelta, NonAnalytic.dPSI2_dDelta_dTau, realFns]
    ring
  refine and_of_left ?_ fun hasDerivAt_dPSI2_dDelta_dTau_delta => ?_
  · intro valid el tau delta
    have h := ((((hasDerivAt_id' delta).sub_const 1).const_mul (4 * el.C * el.D)).mul_const
      (tau - 1)).mul (hasDerivAt_PSI_delta valid el tau delta)
    refine (h.congr_deriv ?_).congr_of_eventuallyEq (Filter.Eventually.of_forall fun y => rfl)
    simp only [NonAnalytic.dPSI_dDelta, NonAnalytic.dPSI3_dDelta2_dTau, NonAnalytic.dPSI_dTau,
      realFns, Real.rpow_two]
    ring
  refine and_of_left ?_ fun hasDerivAt_over_delta_minus_1 => ?_
  · intro valid el tau delta hd
    have hx0 : delta - 1 ≠ 0 := sub_ne_zero.mpr hd
    have hth := hasDerivAt_theta_delta valid el tau delta hd
    have h := ((((hth.const_mul el.A).mul_const 2).div_const el.beta).mul
      (hasDerivAt_X_rpow (1 / (2 * el.beta) - 1) delta hd)).add
      ((hasDerivAt_X_rpow (el.a - 1) delta hd).const_mul (2 * el.B * el.a))
    refine (h.congr_deriv ?_).congr_of_eventuallyEq (Filter.Eventually.of_forall fun y => rfl)
    simp only [NonAnalytic.PI, NonAnalytic.dtheta_dDelta, realFns, Real.rpow_two,
      X_rpow_sub_one _ _ hd, X_rpow_sub_two _ _ hd, X_rpow_inv_beta el.beta delta hd]
    simp only [div_eq_mul_inv, mul_inv, one_mul]
    generalize el.beta⁻¹ = r
    generalize NonAnalytic.theta _ el tau delta = th
    revert hx0
    generalize delta - 1 = x
    intro hx0
    generalize (x ^ 2) ^ (2⁻¹ * r) = P1
    generalize (x ^ 2) ^ el.a = P2
    generalize el.A = cA
    generalize el.B = cB
    generalize el.a = ca
    have hr1 := mul_inv_cancel₀ hx0
    simp only [← inv_pow]
    generalize x⁻¹ = xi at hr1 ⊢
    linear_combination
      (4 * P1 * cA * r * th * xi ^ 3 - 2 * P1 * cA * r ^ 2 * th * xi ^ 3
        + 4 * P2 * cB * ca * xi ^ 3 - 4 * P2 * cB * ca ^ 2 * xi ^ 3) * hr1
  refine and_of_left ?_ fun dDELTA2_dDelta2_eq => ?_
  · intro valid el tau delta hd
    have hx0 : delta - 1 ≠ 0 := sub_ne_zero.mpr hd
    simp only [NonAnalytic.dDELTA2_dDelta2, NonAnalytic.PI, realFns, Real.rpow_two,
      X_rpow_sub_one _ _ hd, X_rpow_sub_two _ _ hd, X_rpow_inv_beta el.beta delta hd]
    simp only [div_eq_mul_inv, mul_inv, one_mul]
    generalize el.beta⁻¹ = r
    generalize delta - 1 = x
    ring
  refine and_of_left ?_ fun dDELTA2_dDelta2_unguarded_eq => ?_
  · intro valid el tau delta hd
    have hx0 : delta - 1 ≠ 0 := sub_ne_zero.mpr hd
    simp only [NonAnalytic.dDELTA2_dDelta2_unguarded, NonAnalytic.dDELTA2_dDelta2,
      NonAnalytic.dDELTA_dDelta, NonAnalytic.dDELTA_dDelta_over_delta_minus_1]
    field_simp
  refine and_of_left ?_ fun hasDerivAt_dDELTA_dDelta_delta => ?_
  · intro valid el tau delta hd
    have h := ((hasDerivAt_id' delta).sub_const 1).mul
      (hasDerivAt_over_delta_minus_1 valid el tau delta hd)
    refine (h.congr_deriv ?_).congr_of_eventuallyEq (Filter.Eventually.of_forall fun y => rfl)
    rw [dDELTA2_dDelta2_eq valid el tau delta hd, Real.rpow_two]
    ring
  refine and_of_left ?_ fun hasDerivAt_PI_delta => ?_
  · intro valid el tau delta hd
    have hx0 : delta - 1 ≠ 0 := sub_ne_zero.mpr hd.ne
    have hx1 : 1 - delta ≠ 0 := sub_ne_zero.mpr hd.ne'
    have hth := hasDerivAt_theta_delta valid el tau delta hd.ne
    have h := (((hasDerivAt_X_rpow (el.a - 2) delta hd.ne).const_mul
        (4 * el.B * el.a * (el.a - 1))).add
      ((hasDerivAt_X_rpow (1 / el.beta - 2) delta hd.ne).const_mul
        (2 * (el.A / el.beta) ^ (2 : ℝ)))).add
      ((((hth.const_mul (4 * el.A)).div_const el.beta).mul_const
        (1 / (2 * el.beta) - 1)).mul (hasDerivAt_X_rpow (1 / (2 * el.beta) - 2) delta hd.ne))
    refine (h.congr_deriv ?_).congr_of_eventuallyEq (Filter.Eventually.of_forall fun y => rfl)
    simp only [NonAnalytic.dPI_dDelta, realFns, Real.rpow_two,
      X_rpow_sub_two _ _ hd.ne, X_rpow_sub_five_halves _ _ hd]
    generalize NonAnalytic.dtheta_dDelta _ el tau delta = dth
    generalize NonAnalytic.theta _ el tau delta = th
    simp only [div_eq_mul_inv, mul_inv, one_mul]
    generalize el.beta⁻¹ = r
    have h1 : (1 : ℝ) - delta = -(delta - 1) := by ring
    simp only [h1]
    generalize delta - 1 = x
    ring
  refine and_of_left ?_ fun dDELTA_dDelta_eq_mul => ?_
  · intro valid el tau delta
    exact
      rfl
  refine and_of_left ?_ fun hasDerivAt_dDELTA2_dDelta2_delta => ?_
  · intro valid el tau delta hd
    have hx0 : delta - 1 ≠ 0 := sub_ne_zero.mpr hd.ne
    have h := (hasDerivAt_over_delta_minus_1 valid el tau delta hd.ne).add
      ((hasDerivAt_sq_sub_one delta).mul (hasDerivAt_PI_delta valid el tau delta hd))
    have hev : ∀ᶠ x in nhds delta, x ≠ 1 := continuousAt_id.eventually_ne hd.ne
    refine (h.congr_deriv ?_).congr_of_eventuallyEq (hev.mono fun x hx => ?_)
    · simp only [NonAnalytic.dDELTA3_dDelta3, dDELTA2_dDelta2_eq valid el tau delta hd.ne,
        dDELTA_dDelta_eq_mul]
      simp only [realFns, Real.rpow_two]
      field_simp
      ring
    · exact dDELTA2_dDelta2_eq valid el tau x hx
  refine and_of_left ?_ fun hasDerivAt_dDELTAbi_dDelta_delta => ?_
  · intro valid el tau delta hd hD
    have hDE := hasDerivAt_DELTA_delta valid el tau delta hd
    have h := ((hDE.rpow_const (p := el.b - 1) (Or.inl hD)).const_mul el.b).mul
      (hasDerivAt_dDELTA_dDelta_delta valid el tau delta hd)
    refine (h.congr_deriv ?_).congr_of_eventuallyEq (Filter.Eventually.of_forall fun y => rfl)
    simp only [NonAnalytic.dDELTAbi2_dDelta2, realFns, Real.rpow_two,
      show el.b - 1 - 1 = el.b - 2 by ring]
    ring
  refine and_of_left ?_ fun hasDerivAt_dDELTAbi2_dDelta2_delta => ?_
  · intro valid el tau delta hd hD
    have hDE := hasDerivAt_DELTA_delta valid el tau delta hd.ne
    have h1 := hasDerivAt_dDELTA_dDelta_delta valid el tau delta hd.ne
    have h2 := hasDerivAt_dDELTA2_dDelta2_delta valid el tau delta hd
    have h := (((hDE.rpow_const (p := el.b - 1) (Or.inl hD)).mul h2).add
      (((hDE.rpow_const (p := el.b - 2) (Or.inl hD)).const_mul (el.b - 1)).mul
        (hasDerivAt_rpow_two_comp _ _ _ h1))).const_mul el.b
    refine (h.congr_deriv ?_).congr_of_eventuallyEq (Filter.Eventually.of_forall fun y => rfl)
    simp only [NonAnalytic.dDELTAbi3_dDelta3, realFns, Real.rpow_two,
      show el.b - 1 - 1 = el.b - 2 by ring, show el.b - 2 - 1 = el.b - 3 by ring]
    ring
  refine and_of_left ?_ fun hasDerivAt_dDELTA_dTau_delta => ?_
  · intro valid el tau delta hd
    have hx0 : delta - 1 ≠ 0 := sub_ne_zero.mpr hd.ne
    have hx1 : 1 - delta ≠ 0 := sub_ne_zero.mpr hd.ne'
    have h := (hasDerivAt_theta_delta valid el tau delta hd.ne).const_mul (-2)
    refine (h.congr_deriv ?_).congr_of_eventuallyEq (Filter.Eventually.of_forall fun y => rfl)
    simp only [NonAnalytic.dDELTA2_dDelta_dTau, NonAnalytic.dtheta_dDelta, realFns, Real.rpow_two,
      X_rpow_sub_one _ _ hd.ne, X_rpow_sub_half _ _ hd]
    simp only [div_eq_mul_inv, mul_inv, one_mul]
    generalize el.beta⁻¹ = r
    field_simp
    ring
  refine and_of_left ?_ fun hasDerivAt_dDELTAbi_dTau_delta => ?_
  · intro valid el tau delta hd hD
    have hDE := hasDerivAt_DELTA_delta valid el tau delta hd
    have hth := hasDerivAt_theta_delta valid el tau delta hd
    have h := ((hth.const_mul (-2)).mul_const el.b).mul
      (hDE.rpow_const (p := el.b - 1) (Or.inl hD))
    refine (h.congr_deriv ?_).congr_of_eventuallyEq (Filter.Eventually.of_forall fun y => rfl)
    simp only [NonAnalytic.dDELTAbi2_dDelta_dTau, NonAnalytic.dtheta_dDelta, realFns,
      show el.b - 1 - 1 = el.b - 2 by ring]
    ring
  refine and_of_left ?_ fun beta_coefficient => ?_
  · intro A beta
    by_cases hb : beta = 0
    · simp [hb]
    · field_simp
      ring
  intro valid el tau delta hd hD
  have hx0 : delta - 1 ≠ 0 := sub_ne_zero.mpr hd.ne
  have hx1 : 1 - delta ≠ 0 := sub_ne_zero.mpr hd.ne'
  have hDE := hasDerivAt_DELTA_delta valid el tau delta hd.ne
  have hth := hasDerivAt_theta_delta valid el tau delta hd.ne
  have h1 := hasDerivAt_dDELTA_dDelta_delta valid el tau delta hd.ne
  have h := ((((hDE.rpow_const (p := el.b - 1) (Or.inl hD)).const_mul
      ((-el.A) * el.b * 2 / el.beta)).mul ((hasDerivAt_id' delta).sub_const 1)).mul
      (hasDerivAt_X_rpow (1 / (2 * el.beta) - 1) delta hd.ne)).sub
    (((((hth.const_mul 2).mul_const el.b).mul_const (el.b - 1)).mul
      (hDE.rpow_const (p := el.b - 2) (Or.inl hD))).mul h1)
  refine (h.congr_deriv ?_).congr_of_eventuallyEq (Filter.Eventually.of_forall fun y => rfl)
  simp only [NonAnalytic.dDELTAbi3_dDelta2_dTau_lines, NonAnalytic.dDELTA_dTau,
    NonAnalytic.dDELTA3_dDelta2_dTau, NonAnalytic.dDELTA2_dDelta_dTau,
    NonAnalytic.dtheta_dDelta, beta_coefficient, realFns, Real.rpow_two,
    show el.b - 1 - 1 = el.b - 2 by ring, show el.b - 2 - 1 = el.b - 3 by ring]
  simp only [X_rpow_sub_one _ _ hd.ne, X_rpow_sub_half _ _ hd]
  generalize NonAnalytic.dDELTA_dDelta _ el tau delta = d1
  generalize NonAnalytic.dDELTA2_dDelta2 _ el tau delta = d2
  generalize NonAnalytic.theta _ el tau delta = th
  generalize NonAnalytic.DELTA _ el tau delta ^ (el.b - 1) = w1
  generalize NonAnalytic.DELTA _ el tau delta ^ (el.b - 2) = w2
  generalize NonAnalytic.DELTA _ el tau delta ^ (el.b - 3) = w3
  simp only [div_eq_mul_inv, mul_inv, one_mul]
  generalize el.beta⁻¹ = r
  have hneg : (1 : ℝ) - delta = -(delta - 1) := by ring
  simp only [hneg, inv_neg]
  revert hx0
  generalize delta - 1 = x
  intro hx0
  generalize (x ^ 2) ^ (2⁻¹ * r) = P1
  generalize el.A = cA
  generalize el.b = cb
  have hr1 := mul_inv_cancel₀ hx0
  simp only [← inv_pow]
  generalize x⁻¹ = xi at hr1 ⊢
  linear_combination
    (4 * P1 * cA * cb * d1 * r * w2 * xi + 4 * P1 * cA * cb * r * w1 * xi ^ 2
      - 2 * P1 * cA * cb * r ^ 2 * w1 * xi ^ 2
      - 4 * P1 * cA * cb ^ 2 * d1 * r * w2 * xi) * hr1

/-! #### Mixed derivatives -/

/-! #### The accessors of second and third order -/

theorem dbl_epsilon_pos : (0 : ℝ) < 10 * DBL_EPSILON := by
  rw [dbl_epsilon_real]
  positivity

/-- The element values of `dDelta`, `dDelta2` and `dDelta_dTau` are derivatives where no guard
is taken. -/
theorem nonanalytic_guarded_elements :
    -- `dDELTAbi_dDelta_guarded_eq`: Above the tolerance the guard on `DELTA` is not taken.
    (∀ (valid : ℝ → Bool) (el : ResidualHelmholtzNonAnalyticElement ℝ) (tau delta : ℝ)
      (_ : 10 * DBL_EPSILON ≤ NonAnalytic.DELTA (realFns valid) el tau delta),
        NonAnalytic.dDELTAbi_dDelta_guarded (realFns valid) el tau delta =
          NonAnalytic.dDELTAbi_dDelta (realFns valid) el tau delta) ∧
    -- `eventually_DELTA_above`: Near a point where `DELTA` is above the tolerance it stays
    -- above it.
    (∀ (valid : ℝ → Bool) (el : ResidualHelmholtzNonAnalyticElement ℝ) (tau delta : ℝ)
      (_ : delta ≠ 1) (_ : 10 * DBL_EPSILON < NonAnalytic.DELTA (realFns valid) el tau delta),
        ∀ᶠ x in nhds delta, 10 * DBL_EPSILON ≤ NonAnalytic.DELTA (realFns valid) el tau x) ∧
    -- `eventually_delta_above`: Near a point where `|delta-1|` is above the tolerance it stays
    -- above it.
    (∀ (delta : ℝ) (_ : 10 * DBL_EPSILON < |delta - 1|),
        ∀ᶠ x in nhds delta, ¬ |x - 1| < 10 * (DBL_EPSILON : ℝ)) ∧
    -- `hasDerivAt_dDelta_element`: With both guards not taken near the point, the value of
    -- `dDelta2` for one element is the `delta`-derivative of the value of `dDelta`.
    (∀ (valid : ℝ → Bool) (el : ResidualHelmholtzNonAnalyticElement ℝ) (tau delta : ℝ)
      (_ : 10 * DBL_EPSILON < |delta - 1|)
      (_ : 10 * DBL_EPSILON < NonAnalytic.DELTA (realFns valid) el tau delta),
        HasDerivAt
          (fun x => ResidualHelmholtzNonAnalytic.dDelta_element (realFns valid) el tau x)
          (ResidualHelmholtzNonAnalytic.dDelta2_element (realFns valid) el tau delta) delta) ∧
    -- `hasDerivAt_dDelta2_element`: Below `delta = 1`, with both guards not taken near the
    -- point, the value of `dDelta3` for one element is the `delta`-derivative of the value of
    -- `dDelta2`.
    (∀ (valid : ℝ → Bool) (el : ResidualHelmholtzNonAnalyticElement ℝ) (tau delta : ℝ)
      (_ : delta < 1) (_ : 10 * DBL_EPSILON < |delta - 1|)
      (_ : 10 * DBL_EPSILON < NonAnalytic.DELTA (realFns valid) el tau delta),
        HasDerivAt
          (fun x => ResidualHelmholtzNonAnalytic.dDelta2_element (realFns valid) el tau x)
          (ResidualHelmholtzNonAnalytic.dDelta3_element (realFns valid) el tau delta) delta) ∧
    -- `hasDerivAt_dDelta_dTau_element`: Below `delta = 1`, with the guard on `DELTA` not taken
    -- near the point, the value of `dDelta2_dTau` for one element is the `delta`-derivative of
    -- the value of `dDelta_dTau`.
    (∀ (valid : ℝ → Bool) (el : ResidualHelmholtzNonAnalyticElement ℝ) (tau delta : ℝ)
      (_ : delta < 1) (_ : 10 * DBL_EPSILON < NonAnalytic.DELTA (realFns valid) el tau delta),
        HasDerivAt
          (fun x => ResidualHelmholtzNonAnalytic.dDelta_dTau_element (realFns valid) el tau x)
          (ResidualHelmholtzNonAnalytic.dDelta2_dTau_element (realFns valid) el tau delta)
          delta) := by
  have hasDerivAt_DELTA_delta := nonanalytic_first_order_calculus.2.1
  have hasDerivAt_DELTAbi_delta := nonanalytic_first_order_calculus.2.2.2.1
  have hasDerivAt_dDELTAbi_dDelta_delta := nonanalytic_delta_calculus.2.2.2.2.2.2.2.2.2.2.2.2.1
  have hasDerivAt_PSI_delta := nonanalytic_first_order_calculus.2.2.1
  have hasDerivAt_dPSI_dDelta_delta := nonanalytic_delta_calculus.2.1
  have hasDerivAt_dDELTAbi2_dDelta2_delta := nonanalytic_delta_calculus.2.2.2.2.2.2.2.2.2.2.2.2.2.1
  have hasDerivAt_dPSI2_dDelta2_delta := nonanalytic_delta_calculus.2.2.1
  have dDELTA2_dDelta2_unguarded_eq := nonanalytic_delta_calculus.2.2.2.2.2.2.2.1
  have hasDerivAt_dDELTAbi_dTau_delta := nonanalytic_delta_calculus.2.2.2.2.2.2.2.2.2.2.2.2.2.2.2.1
  have hasDerivAt_dDELTAbi2_dDelta_dTau_delta := nonanalytic_delta_calculus.2.2.2.2.2.2.2.2.2.2.2.2.2.2.2.2.2
  have hasDerivAt_dPSI_dTau_delta := nonanalytic_delta_calculus.2.2.2.1
  have hasDerivAt_dPSI2_dDelta_dTau_delta := nonanalytic_delta_calculus.2.2.2.2.1
  refine and_of_left ?_ fun dDELTAbi_dDelta_guarded_eq => ?_
  · intro valid el tau delta hD
    have hpos : 0 < NonAnalytic.DELTA (realFns valid) el tau delta :=
      lt_of_lt_of_le dbl_epsilon_pos hD
    simp only [NonAnalytic.dDELTAbi_dDelta_guarded, abs_of_pos hpos, not_lt.mpr hD, if_false]
  refine and_of_left ?_ fun eventually_DELTA_above => ?_
  · intro valid el tau delta hd hD
    exact
      ((hasDerivAt_DELTA_delta valid el tau delta hd).continuousAt.eventually
        (lt_mem_nhds hD)).mono fun _ hx => hx.le
  refine and_of_left ?_ fun eventually_delta_above => ?_
  · intro delta htol
    have hc : ContinuousAt (fun x : ℝ => |x - 1|) delta :=
      ((continuous_id.sub continuous_const).abs).continuousAt
    exact (hc.eventually (lt_mem_nhds htol)).mono fun _ hx => not_lt.mpr hx.le
  refine and_of_left ?_ fun hasDerivAt_dDelta_element => ?_
  · intro valid el tau delta htol hD
    have hd : delta ≠ 1 := by
      intro h
      rw [h, sub_self, abs_zero] at htol
      exact absurd htol (not_lt.mpr dbl_epsilon_pos.le)
    have hne : NonAnalytic.DELTA (realFns valid) el tau delta ≠ 0 :=
      (lt_trans dbl_epsilon_pos hD).ne'
    have hW0 := hasDerivAt_DELTAbi_delta valid el tau delta hd hne
    have hW1 := hasDerivAt_dDELTAbi_dDelta_delta valid el tau delta hd hne
    have hP0 := hasDerivAt_PSI_delta valid el tau delta
    have hP1 := hasDerivAt_dPSI_dDelta_delta valid el tau delta
    have hid := hasDerivAt_id' delta
    have h := ((hW0.mul (hP0.add (hid.mul hP1))).add ((hW1.mul hid).mul hP0)).const_mul el.n
    refine (h.congr_deriv ?_).congr_of_eventuallyEq
      ((eventually_DELTA_above valid el tau delta hd hD).mono fun x hx => ?_)
    · rw [dDelta2_element_eq, dDELTAbi_dDelta_guarded_eq valid el tau delta hD.le]
      simp only [if_neg (not_lt.mpr htol.le), realFns]
      ring
    · beta_reduce
      rw [dDelta_element_eq, dDELTAbi_dDelta_guarded_eq valid el tau x hx]
      rfl
  refine and_of_left ?_ fun hasDerivAt_dDelta2_element => ?_
  · intro valid el tau delta hlt htol hD
    have hd : delta ≠ 1 := hlt.ne
    have hne : NonAnalytic.DELTA (realFns valid) el tau delta ≠ 0 :=
      (lt_trans dbl_epsilon_pos hD).ne'
    have hW0 := hasDerivAt_DELTAbi_delta valid el tau delta hd hne
    have hW1 := hasDerivAt_dDELTAbi_dDelta_delta valid el tau delta hd hne
    have hW2 := hasDerivAt_dDELTAbi2_dDelta2_delta valid el tau delta hlt hne
    have hP0 := hasDerivAt_PSI_delta valid el tau delta
    have hP1 := hasDerivAt_dPSI_dDelta_delta valid el tau delta
    have hP2 := hasDerivAt_dPSI2_dDelta2_delta valid el tau delta
    have hid := hasDerivAt_id' delta
    have h := (((hW0.mul ((hP1.const_mul 2).add (hid.mul hP2))).add
      ((hW1.const_mul 2).mul (hP0.add (hid.mul hP1)))).add
      ((hW2.mul hid).mul hP0)).const_mul el.n
    refine (h.congr_deriv ?_).congr_of_eventuallyEq
      (((eventually_DELTA_above valid el tau delta hd hD).and
        (eventually_delta_above delta htol)).mono fun x hx => ?_)
    · rw [dDelta3_element_eq, dDELTAbi_dDelta_guarded_eq valid el tau delta hD.le,
        dDELTA2_dDelta2_unguarded_eq valid el tau delta hd]
      simp only [realFns]
      ring
    · beta_reduce
      rw [dDelta2_element_eq, dDELTAbi_dDelta_guarded_eq valid el tau x hx.1]
      simp only [if_neg hx.2]
      rfl
  intro valid el tau delta hlt hD
  have hd : delta ≠ 1 := hlt.ne
  have hne : NonAnalytic.DELTA (realFns valid) el tau delta ≠ 0 :=
    (lt_trans dbl_epsilon_pos hD).ne'
  have hW0 := hasDerivAt_DELTAbi_delta valid el tau delta hd hne
  have hW1 := hasDerivAt_dDELTAbi_dDelta_delta valid el tau delta hd hne
  have hWT := hasDerivAt_dDELTAbi_dTau_delta valid el tau delta hd hne
  have hWT1 := hasDerivAt_dDELTAbi2_dDelta_dTau_delta valid el tau delta hlt hne
  have hP0 := hasDerivAt_PSI_delta valid el tau delta
  have hP1 := hasDerivAt_dPSI_dDelta_delta valid el tau delta
  have hPT := hasDerivAt_dPSI_dTau_delta valid el tau delta
  have hPDT := hasDerivAt_dPSI2_dDelta_dTau_delta valid el tau delta
  have hid := hasDerivAt_id' delta
  have h := ((((hW0.mul (hPT.add (hid.mul hPDT))).add ((hid.mul hW1).mul hPT)).add
    (hWT.mul (hP0.add (hid.mul hP1)))).add ((hWT1.mul hid).mul hP0)).const_mul el.n
  refine (h.congr_deriv ?_).congr_of_eventuallyEq
    ((eventually_DELTA_above valid el tau delta hd hD).mono fun x hx => ?_)
  · rw [dDelta2_dTau_element_eq, dDELTAbi_dDelta_guarded_eq valid el tau delta hD.le,
      dDELTA2_dDelta2_unguarded_eq valid el tau delta hd]
    simp only [realFns]
    ring
  · beta_reduce
    rw [dDelta_dTau_element_eq, dDELTAbi_dDelta_guarded_eq valid el tau x hx]
    rfl

/-- Where the code meets C20: on a well-formed term, for `tau > 0`, `delta > 0`,
`delta != 1`, `|delta-1|` above the tolerance `10*DBL_EPSILON` and `DELTA` above
`10*DBL_EPSILON` for every element, `dDelta2` is the partial derivative of `dDelta` with respect to `delta`; and
for `delta < 1`, `dDelta3` is the partial derivative of `dDelta2` with respect to `delta`
and `dPI_dDelta` is the `delta`-derivative of `PI`. -/
theorem nonanalytic_pure_delta_derivatives (valid : ℝ → Bool)
    (self : ResidualHelmholtzNonAnalytic ℝ) (hwf : self.WellFormed) (tau delta : ℝ)
    (_htau : 0 < tau) (_hdelta : 0 < delta) (_hd : delta ≠ 1)
    (htol : 10 * DBL_EPSILON < |delta - 1|)
    (hD : ∀ el ∈ self.elements,
      10 * DBL_EPSILON < NonAnalytic.DELTA (realFns valid) el tau delta) :
    HasDerivAt (fun x => self.dDelta (realFns valid) tau x)
      (self.dDelta2 (realFns valid) tau delta) delta ∧
    (delta < 1 →
      HasDerivAt (fun x => self.dDelta2 (realFns valid) tau x)
        (self.dDelta3 (realFns valid) tau delta) delta ∧
      ∀ el ∈ self.elements,
        HasDerivAt (fun x => NonAnalytic.PI (realFns valid) el tau x)
          (NonAnalytic.dPI_dDelta (realFns valid) el tau delta) delta) := by
  have hasDerivAt_PI_delta := nonanalytic_delta_calculus.2.2.2.2.2.2.2.2.2.1
  have hasDerivAt_list_sum := @And.left _ _ exponent_totals_calculus.2.2.2.2
  have hasDerivAt_dDelta_element := nonanalytic_guarded_elements.2.2.2.1
  have hasDerivAt_dDelta2_element := nonanalytic_guarded_elements.2.2.2.2.1
  simp only [ResidualHelmholtzNonAnalytic.dDelta, ResidualHelmholtzNonAnalytic.dDelta2,
    ResidualHelmholtzNonAnalytic.dDelta3, accumulate_eq_sum self hwf]
  refine ⟨?_, fun hlt => ⟨?_, fun el _ => hasDerivAt_PI_delta valid el tau delta hlt⟩⟩
  · exact hasDerivAt_list_sum _ _ _ _ fun el hel =>
      hasDerivAt_dDelta_element valid el tau delta htol (hD el hel)
  · exact hasDerivAt_list_sum _ _ _ _ fun el hel =>
      hasDerivAt_dDelta2_element valid el tau delta hlt htol (hD el hel)

/-- Where the code meets C19: on a well-formed term, for `tau > 0`, `0 < delta < 1` and
`DELTA` above `10*DBL_EPSILON` for every element, `dDelta2_dTau` is the partial derivative of
`dDelta_dTau` with respect to `delta`; and for every element `dDELTA_dTau` is the
`tau`-derivative of `DELTA` and `dDELTA2_dDelta_dTau` the `delta`-derivative of
`dDELTA_dTau`, that is the mixed partial of `DELTA`. -/
theorem nonanalytic_mixed_third_derivative (valid : ℝ → Bool)
    (self : ResidualHelmholtzNonAnalytic ℝ) (hwf : self.WellFormed) (tau delta : ℝ)
    (_htau : 0 < tau) (_hdelta : 0 < delta) (hlt : delta < 1)
    (hD : ∀ el ∈ self.elements,
      10 * DBL_EPSILON < NonAnalytic.DELTA (realFns valid) el tau delta) :
    HasDerivAt (fun x => self.dDelta_dTau (realFns valid) tau x)
      (self.dDelta2_dTau (realFns valid) tau delta) delta ∧
    ∀ el ∈ self.elements,
      (∀ t x, HasDerivAt (fun y => NonAnalytic.DELTA (realFns valid) el y x)
        (NonAnalytic.dDELTA_dTau (realFns valid) el t x) t) ∧
      HasDerivAt (fun x => NonAnalytic.dDELTA_dTau (realFns valid) el tau x)
        (NonAnalytic.dDELTA2_dDelta_dTau (realFns valid) el tau delta) delta := by
  have hasDerivAt_DELTA_tau := nonanalytic_first_order_calculus.2.2.2.2.2.2.1
  have hasDerivAt_dDELTA_dTau_delta := nonanalytic_delta_calculus.2.2.2.2.2.2.2.2.2.2.2.2.2.2.1
  have hasDerivAt_list_sum := @And.left _ _ exponent_totals_calculus.2.2.2.2
  have hasDerivAt_dDelta_dTau_element := nonanalytic_guarded_elements.2.2.2.2.2
  simp only [ResidualHelmholtzNonAnalytic.dDelta_dTau,
    ResidualHelmholtzNonAnalytic.dDelta2_dTau, accumulate_eq_sum self hwf]
  refine ⟨?_, fun el _ => ⟨fun t x => hasDerivAt_DELTA_tau valid el t x,
    hasDerivAt_dDELTA_dTau_delta valid el tau delta hlt⟩⟩
  exact hasDerivAt_list_sum _ _ _ _ fun el hel =>
    hasDerivAt_dDelta_dTau_element valid el tau delta hlt (hD el hel)

/-- An instance of `nonanalytic_pure_delta_derivatives`: the one-element term with the
quadratic `DELTA` at `tau = 2`, `delta = 1/2`, where `DELTA = 5/4`. -/
theorem nonanalytic_pure_delta_derivatives_witness :
    (singleTerm (quadraticElement (1 : ℝ))).WellFormed ∧
    (0 : ℝ) < 2 ∧ (0 : ℝ) < 1 / 2 ∧ (1 / 2 : ℝ) ≠ 1 ∧ (1 / 2 : ℝ) < 1 ∧
    10 * (DBL_EPSILON : ℝ) < |(1 / 2 : ℝ) - 1| ∧
    (∀ el ∈ (singleTerm (quadraticElement (1 : ℝ))).elements,
      10 * DBL_EPSILON < NonAnalytic.DELTA (realFns fun _ => true) el 2 (1 / 2)) ∧
    HasDerivAt
      (fun x => (singleTerm (quadraticElement (1 : ℝ))).dDelta (realFns fun _ => true) 2 x)
      ((singleTerm (quadraticElement (1 : ℝ))).dDelta2 (realFns fun _ => true) 2 (1 / 2))
      (1 / 2) ∧
    HasDerivAt
      (fun x => (singleTerm (quadraticElement (1 : ℝ))).dDelta2 (realFns fun _ => true) 2 x)
      ((singleTerm (quadraticElement (1 : ℝ))).dDelta3 (realFns fun _ => true) 2 (1 / 2))
      (1 / 2) := by
  have half_above_tolerance := example_element_values.2.2.2.2.1
  have quadraticTerm_DELTA_above := example_element_values.2.2.2.1
  exact
    ⟨singleTerm_wellFormed _, by norm_num, by norm_num, by norm_num, by norm_num,
     half_above_tolerance, quadraticTerm_DELTA_above _,
     (nonanalytic_pure_delta_derivatives (fun _ => true) _ (singleTerm_wellFormed _) 2 (1 / 2)
        (by norm_num) (by norm_num) (by norm_num) half_above_tolerance
        (quadraticTerm_DELTA_above _)).1,
     ((nonanalytic_pure_delta_derivatives (fun _ => true) _ (singleTerm_wellFormed _) 2 (1 / 2)
        (by norm_num) (by norm_num) (by norm_num) half_above_tolerance
        (quadraticTerm_DELTA_above _)).2 (by norm_num)).1⟩

/-- An instance of `nonanalytic_mixed_third_derivative`: the one-element term with the
quadratic `DELTA` at `tau = 2`, `delta = 1/2`, where `DELTA = 5/4`. -/
theorem nonanalytic_mixed_third_derivative_witness :
    (singleTerm (quadraticElement (1 : ℝ))).WellFormed ∧
    (0 : ℝ) < 2 ∧ (0 : ℝ) < 1 / 2 ∧ (1 / 2 : ℝ) < 1 ∧
    (∀ el ∈ (singleTerm (quadraticElement (1 : ℝ))).elements,
      10 * DBL_EPSILON < NonAnalytic.DELTA (realFns fun _ => true) el 2 (1 / 2)) ∧
    HasDerivAt
      (fun x =>
        (singleTerm (quadraticElement (1 : ℝ))).dDelta_dTau (realFns fun _ => true) 2 x)
      ((singleTerm (quadraticElement (1 : ℝ))).dDelta2_dTau (realFns fun _ => true) 2
        (1 / 2)) (1 / 2) := by
  have quadraticTerm_DELTA_above := example_element_values.2.2.2.1
  exact
    ⟨singleTerm_wellFormed _, by norm_num, by norm_num, by norm_num,
     quadraticTerm_DELTA_above _,
     (nonanalytic_mixed_third_derivative (fun _ => true) _ (singleTerm_wellFormed _) 2 (1 / 2)
        (by norm_num) (by norm_num) (by norm_num) (quadraticTerm_DELTA_above _)).1⟩

/-- Two places where C20 does not hold.  In the guard: for the one-element term with
the quadratic `DELTA` at `tau = 1`, `delta = 1 + 2^-30`, `DELTA = 2^-60` is positive but
below `10*DBL_EPSILON`; near that point `dDelta` returns `(delta-1)^2`, of derivative
`2*(delta-1)`, and `dDelta2` returns `2*delta`.  Above one: for `a = 3`, `A = 0`, `B = 1`
at `tau = 1`, `delta = 2`, `PI = 24*(delta-1)^2` has derivative `48` and `dPI_dDelta`
is `-48`. -/
theorem nonanalytic_pure_delta_derivatives_fail :
    ((singleTerm (quadraticElement (1 : ℝ))).WellFormed ∧
      (0 : ℝ) < 1 ∧ (0 : ℝ) < 1 + 1 / 2 ^ 30 ∧ (1 : ℝ) + 1 / 2 ^ 30 ≠ 1 ∧
      10 * (DBL_EPSILON : ℝ) < |(1 : ℝ) + 1 / 2 ^ 30 - 1| ∧
      (∀ el ∈ (singleTerm (quadraticElement (1 : ℝ))).elements,
        0 < NonAnalytic.DELTA (realFns fun _ => true) el 1 (1 + 1 / 2 ^ 30)) ∧
      ¬ HasDerivAt
        (fun x => (singleTerm (quadraticElement (1 : ℝ))).dDelta (realFns fun _ => true) 1 x)
        ((singleTerm (quadraticElement (1 : ℝ))).dDelta2 (realFns fun _ => true) 1
          (1 + 1 / 2 ^ 30)) (1 + 1 / 2 ^ 30)) ∧
    ((0 : ℝ) < 1 ∧ (0 : ℝ) < 2 ∧ (2 : ℝ) ≠ 1 ∧ 10 * (DBL_EPSILON : ℝ) < |(2 : ℝ) - 1| ∧
      0 < NonAnalytic.DELTA (realFns fun _ => true) (cubicElement : ResidualHelmholtzNonAnalyticElement ℝ) 1 2 ∧
      ¬ HasDerivAt (fun x => NonAnalytic.PI (realFns fun _ => true) (cubicElement : ResidualHelmholtzNonAnalyticElement ℝ) 1 x)
        (NonAnalytic.dPI_dDelta (realFns fun _ => true) (cubicElement : ResidualHelmholtzNonAnalyticElement ℝ) 1 2) 2) := by
  have quadraticElement_DELTA := example_element_values.2.1
  have quadraticElement_PSI := example_element_values.2.2.1
  have quadraticElement_theta := example_element_values.1
  refine ⟨⟨singleTerm_wellFormed _, by norm_num, by positivity, by norm_num, ?_, ?_, ?_⟩,
    ⟨by norm_num, by norm_num, by norm_num, ?_, ?_, ?_⟩⟩
  · rw [show (1 : ℝ) + 1 / 2 ^ 30 - 1 = 1 / 2 ^ 30 by ring, abs_of_pos (by positivity),
      dbl_epsilon_real]
    norm_num
  · intro el hel
    have : el = quadraticElement 1 := by simpa [singleTerm] using hel
    subst this
    rw [quadraticElement_DELTA]
    norm_num
  · intro h
    have hnear : ∀ᶠ x in nhds ((1 : ℝ) + 1 / 2 ^ 30),
        (singleTerm (quadraticElement (1 : ℝ))).dDelta (realFns fun _ => true) 1 x
          = (x - 1) ^ 2 := by
      have hmem : Set.Ioo (1 : ℝ) (1 + 1 / 2 ^ 26) ∈ nhds ((1 : ℝ) + 1 / 2 ^ 30) :=
        Ioo_mem_nhds (by norm_num) (by norm_num)
      refine Filter.eventually_of_mem hmem fun x hx => ?_
      have hg : |(1 - (1 : ℝ)) ^ 2 + (x - 1) ^ 2| < 10 * DBL_EPSILON := by
        rw [dbl_epsilon_real, abs_of_nonneg (by positivity)]
        have h1 : 0 < x - 1 := by linarith [hx.1]
        have h2 : x - 1 < 1 / 2 ^ 26 := by linarith [hx.2]
        have h3 : (x - 1) ^ 2 < (1 / 2 ^ 26) ^ 2 := by
          exact pow_lt_pow_left₀ h2 h1.le (by norm_num)
        norm_num at h3 ⊢
        linarith
      rw [ResidualHelmholtzNonAnalytic.dDelta, singleTerm_accumulate, dDelta_element_eq]
      simp only [NonAnalytic.dDELTAbi_dDelta_guarded, quadraticElement_DELTA,
        quadraticElement_PSI, if_pos hg, NonAnalytic.dPSI_dDelta]
      simp [quadraticElement, realFns]
    have hval : (singleTerm (quadraticElement (1 : ℝ))).dDelta2 (realFns fun _ => true) 1
        (1 + 1 / 2 ^ 30) = 2 * (1 + 1 / 2 ^ 30) := by
      have hg : ¬ |(1 : ℝ) + 1 / 2 ^ 30 - 1| < 10 * DBL_EPSILON := by
        rw [show (1 : ℝ) + 1 / 2 ^ 30 - 1 = 1 / 2 ^ 30 by ring, abs_of_pos (by positivity),
          dbl_epsilon_real]
        norm_num
      have hg2 : |(1 - (1 : ℝ)) ^ 2 + (1 + 1 / 2 ^ 30 - 1) ^ 2| < 10 * DBL_EPSILON := by
        rw [dbl_epsilon_real, abs_of_nonneg (by positivity)]
        norm_num
      rw [ResidualHelmholtzNonAnalytic.dDelta2, singleTerm_accumulate, dDelta2_element_eq]
      simp only [NonAnalytic.dDELTAbi_dDelta_guarded, quadraticElement_DELTA,
        quadraticElement_PSI, if_pos hg2, if_neg hg, NonAnalytic.dPSI_dDelta,
        NonAnalytic.dPSI2_dDelta2, NonAnalytic.dDELTAbi2_dDelta2, NonAnalytic.dDELTA2_dDelta2,
        NonAnalytic.dDELTA_dDelta_over_delta_minus_1, NonAnalytic.dDELTA_dDelta,
        quadraticElement_theta]
      simp [quadraticElement, realFns]
    have ht : HasDerivAt (fun x : ℝ => (x - 1) ^ 2) (2 * (1 + 1 / 2 ^ 30 - 1))
        ((1 : ℝ) + 1 / 2 ^ 30) := by
      have := ((hasDerivAt_id' ((1 : ℝ) + 1 / 2 ^ 30)).sub_const 1).pow 2
      refine this.congr_deriv ?_
      norm_num
    have ht2 := ht.congr_of_eventuallyEq hnear
    rw [hval] at h
    have := h.unique ht2
    norm_num at this
  · rw [dbl_epsilon_real]
    norm_num
  · norm_num [NonAnalytic.DELTA, NonAnalytic.theta, cubicElement, realFns]
  · intro h
    have hfun : (fun x => NonAnalytic.PI (realFns fun _ => true) (cubicElement : ResidualHelmholtzNonAnalyticElement ℝ) 1 x)
        = fun x => 24 * (x - 1) ^ 2 := by
      funext x
      norm_num [NonAnalytic.PI, NonAnalytic.theta, cubicElement, realFns]
    have hval : NonAnalytic.dPI_dDelta (realFns fun _ => true) (cubicElement : ResidualHelmholtzNonAnalyticElement ℝ) 1 2
        = -48 := by
      norm_num [NonAnalytic.dPI_dDelta, NonAnalytic.theta, NonAnalytic.dtheta_dDelta,
        cubicElement, realFns]
    rw [hfun, hval] at h
    have ht : HasDerivAt (fun x : ℝ => 24 * (x - 1) ^ 2) 48 (2 : ℝ) := by
      have := (((hasDerivAt_id' (2 : ℝ)).sub_const 1).pow 2).const_mul 24
      refine this.congr_deriv ?_
      norm_num
    have := h.unique ht
    norm_num at this

/-- Two places where C19 does not hold.  In the guard: for the one-element term with
the quadratic `DELTA` and `D = 1` at `tau = delta = 1 + 2^-30`, `DELTA = 2^-59` is positive
but below `10*DBL_EPSILON`; near that point `dDelta_dTau` has `delta`-derivative
`-4*(delta-1)*(tau-1)*PSI` and `dDelta2_dTau` returns `-4*delta*(tau-1)*PSI`.  Above one:
for `A = 1`, `beta = 1/2`, `B = 0` at `tau = 1`, `delta = 2`, `dDELTA_dTau = -2*(delta-1)^2`
has `delta`-derivative `-4` and `dDELTA2_dDelta_dTau` is `4`. -/
theorem nonanalytic_mixed_third_derivative_fails :
    ((singleTerm (gaussianElement : ResidualHelmholtzNonAnalyticElement ℝ)).WellFormed ∧
      (0 : ℝ) < 1 + 1 / 2 ^ 30 ∧ (1 : ℝ) + 1 / 2 ^ 30 ≠ 1 ∧
      (∀ el ∈ (singleTerm (gaussianElement : ResidualHelmholtzNonAnalyticElement ℝ)).elements,
        0 < NonAnalytic.DELTA (realFns fun _ => true) el (1 + 1 / 2 ^ 30) (1 + 1 / 2 ^ 30)) ∧
      ¬ HasDerivAt
        (fun x => (singleTerm (gaussianElement : ResidualHelmholtzNonAnalyticElement ℝ)).dDelta_dTau
          (realFns fun _ => true) (1 + 1 / 2 ^ 30) x)
        ((singleTerm (gaussianElement : ResidualHelmholtzNonAnalyticElement ℝ)).dDelta2_dTau
          (realFns fun _ => true) (1 + 1 / 2 ^ 30) (1 + 1 / 2 ^ 30)) (1 + 1 / 2 ^ 30)) ∧
    ((0 : ℝ) < 1 ∧ (0 : ℝ) < 2 ∧ (2 : ℝ) ≠ 1 ∧
      0 < NonAnalytic.DELTA (realFns fun _ => true)
        (thetaElement : ResidualHelmholtzNonAnalyticElement ℝ) 1 2 ∧
      ¬ HasDerivAt
        (fun x => NonAnalytic.dDELTA_dTau (realFns fun _ => true)
          (thetaElement : ResidualHelmholtzNonAnalyticElement ℝ) 1 x)
        (NonAnalytic.dDELTA2_dDelta_dTau (realFns fun _ => true)
          (thetaElement : ResidualHelmholtzNonAnalyticElement ℝ) 1 2) 2) := by
  have gaussianElement_DELTA := example_element_values.2.2.2.2.2.2.1
  have gaussianElement_PSI := example_element_values.2.2.2.2.2.2.2
  have gaussianElement_theta := example_element_values.2.2.2.2.2.1
  refine ⟨⟨singleTerm_wellFormed _, by positivity, by norm_num, ?_, ?_⟩,
    ⟨by norm_num, by norm_num, by norm_num, ?_, ?_⟩⟩
  · intro el hel
    have : el = gaussianElement := by simpa [singleTerm] using hel
    subst this
    rw [gaussianElement_DELTA]
    positivity
  · intro h
    have hnear : ∀ᶠ x in nhds ((1 : ℝ) + 1 / 2 ^ 30),
        (singleTerm (gaussianElement : ResidualHelmholtzNonAnalyticElement ℝ)).dDelta_dTau
          (realFns fun _ => true) (1 + 1 / 2 ^ 30) x
          = ((1 - (1 + 1 / 2 ^ 30)) ^ 2 + (x - 1) ^ 2)
              * (-2 * (1 + 1 / 2 ^ 30 - 1) * Real.exp (-(1 + 1 / 2 ^ 30 - 1) ^ 2))
            + -2 * (1 - (1 + 1 / 2 ^ 30)) * Real.exp (-(1 + 1 / 2 ^ 30 - 1) ^ 2) := by
      have hmem : Set.Ioo (1 : ℝ) (1 + 1 / 2 ^ 26) ∈ nhds ((1 : ℝ) + 1 / 2 ^ 30) :=
        Ioo_mem_nhds (by norm_num) (by norm_num)
      refine Filter.eventually_of_mem hmem fun x hx => ?_
      have hg : |(1 - ((1 : ℝ) + 1 / 2 ^ 30)) ^ 2 + (x - 1) ^ 2| < 10 * DBL_EPSILON := by
        rw [dbl_epsilon_real, abs_of_nonneg (by positivity)]
        have h1 : 0 < x - 1 := by linarith [hx.1]
        have h2 : x - 1 < 1 / 2 ^ 26 := by linarith [hx.2]
        have h3 : (x - 1) ^ 2 < (1 / 2 ^ 26) ^ 2 := pow_lt_pow_left₀ h2 h1.le (by norm_num)
        norm_num at h3 ⊢
        linarith
      rw [ResidualHelmholtzNonAnalytic.dDelta_dTau, singleTerm_accumulate,
        dDelta_dTau_element_eq]
      simp only [NonAnalytic.dDELTAbi_dDelta_guarded, gaussianElement_DELTA,
        gaussianElement_PSI, if_pos hg, NonAnalytic.dPSI_dDelta, NonAnalytic.dPSI_dTau,
        NonAnalytic.dPSI2_dDelta_dTau, NonAnalytic.dDELTAbi_dTau,
        NonAnalytic.dDELTAbi2_dDelta_dTau, gaussianElement_theta]
      simp [gaussianElement, realFns]
    have hval : (singleTerm (gaussianElement : ResidualHelmholtzNonAnalyticElement ℝ)).dDelta2_dTau
        (realFns fun _ => true) (1 + 1 / 2 ^ 30) (1 + 1 / 2 ^ 30)
        = 2 * (1 + 1 / 2 ^ 30)
          * (-2 * (1 + 1 / 2 ^ 30 - 1) * Real.exp (-(1 + 1 / 2 ^ 30 - 1) ^ 2)) := by
      have hg2 : |(1 - ((1 : ℝ) + 1 / 2 ^ 30)) ^ 2 + (1 + 1 / 2 ^ 30 - 1) ^ 2|
          < 10 * DBL_EPSILON := by
        rw [dbl_epsilon_real, abs_of_nonneg (by positivity)]
        norm_num
      rw [ResidualHelmholtzNonAnalytic.dDelta2_dTau, singleTerm_accumulate,
        dDelta2_dTau_element_eq]
      simp only [NonAnalytic.dDELTAbi_dDelta_guarded, gaussianElement_DELTA,
        gaussianElement_PSI, if_pos hg2, NonAnalytic.dPSI_dDelta, NonAnalytic.dPSI_dTau,
        NonAnalytic.dPSI2_dDelta_dTau, NonAnalytic.dPSI2_dDelta2,
        NonAnalytic.dPSI3_dDelta2_dTau, NonAnalytic.dDELTAbi_dTau,
        NonAnalytic.dDELTAbi2_dDelta_dTau, NonAnalytic.dDELTAbi2_dDelta2,
        NonAnalytic.dDELTA2_dDelta2_unguarded, NonAnalytic.dDELTAbi3_dDelta2_dTau_lines,
        NonAnalytic.dDELTA_dTau, NonAnalytic.dDELTA3_dDelta2_dTau,
        NonAnalytic.dDELTA2_dDelta_dTau, NonAnalytic.dDELTA_dDelta, gaussianElement_theta]
      simp [gaussianElement, realFns]
    have hgen : ∀ x0 c k d : ℝ,
        HasDerivAt (fun x : ℝ => (c + (x - 1) ^ 2) * k + d) (2 * (x0 - 1) * k) x0 := by
      intro x0 c k d
      have := ((((hasDerivAt_id' x0).sub_const 1).pow 2).const_add c).mul_const k
      refine (this.add_const d).congr_deriv ?_
      ring
    have ht := hgen ((1 : ℝ) + 1 / 2 ^ 30) ((1 - (1 + 1 / 2 ^ 30)) ^ 2)
      (-2 * (1 + 1 / 2 ^ 30 - 1) * Real.exp (-(1 + 1 / 2 ^ 30 - 1) ^ 2))
      (-2 * (1 - (1 + 1 / 2 ^ 30)) * Real.exp (-(1 + 1 / 2 ^ 30 - 1) ^ 2))
    have ht2 := ht.congr_of_eventuallyEq hnear
    rw [hval] at h
    have hEq := h.unique ht2
    have hE : Real.exp (-((1 : ℝ) + 1 / 2 ^ 30 - 1) ^ 2) ≠ 0 := (Real.exp_pos _).ne'
    have hk : (-2 * ((1 : ℝ) + 1 / 2 ^ 30 - 1) * Real.exp (-((1 : ℝ) + 1 / 2 ^ 30 - 1) ^ 2))
        ≠ 0 := mul_ne_zero (by norm_num) hE
    have := mul_right_cancel₀ hk hEq
    norm_num at this
  · norm_num [NonAnalytic.DELTA, NonAnalytic.theta, thetaElement, realFns]
  · intro h
    have hfun : (fun x => NonAnalytic.dDELTA_dTau (realFns fun _ => true)
        (thetaElement : ResidualHelmholtzNonAnalyticElement ℝ) 1 x)
        = fun x => -2 * (x - 1) ^ 2 := by
      funext x
      norm_num [NonAnalytic.dDELTA_dTau, NonAnalytic.theta, thetaElement, realFns]
    have hval : NonAnalytic.dDELTA2_dDelta_dTau (realFns fun _ => true)
        (thetaElement : ResidualHelmholtzNonAnalyticElement ℝ) 1 2 = 4 := by
      norm_num [NonAnalytic.dDELTA2_dDelta_dTau, thetaElement, realFns]
    rw [hfun, hval] at h
    have ht : HasDerivAt (fun x : ℝ => -2 * (x - 1) ^ 2) (-4) (2 : ℝ) := by
      have := (((hasDerivAt_id' (2 : ℝ)).sub_const 1).pow 2).const_mul (-2)
      refine this.congr_deriv ?_
      norm_num
    have := h.unique ht
    norm_num at this

/-- Claim C20 fails in the code above `delta = 1`.  For the one-element term with
`DELTA = (1 - tau)^2 + (delta - 1)^6` (`a = 3`, `b = 1`, `A = 0`, `B = 1`, `C = D = 0`) at
`tau = 1`, `delta = 2`, where `DELTA = 1` and `|delta - 1| = 1` are far above the tolerance:
`dDelta3` returns `138`, and the derivative of `dDelta2` with respect to `delta` is `330`.
The difference comes from `dPI_dDelta`, which is `-48` where `PI = 24*(delta - 1)^2` has the
derivative `48`. -/
theorem nonanalytic_dDelta3_wrong_above_one :
    (0 : ℝ) < 1 ∧ (0 : ℝ) < 2 ∧ (2 : ℝ) ≠ 1 ∧ 10 * (DBL_EPSILON : ℝ) < |(2 : ℝ) - 1| ∧
    NonAnalytic.DELTA (realFns fun _ => true)
      (cubicElement : ResidualHelmholtzNonAnalyticElement ℝ) 1 2 = 1 ∧
    (singleTerm (cubicElement : ResidualHelmholtzNonAnalyticElement ℝ)).dDelta3
      (realFns fun _ => true) 1 2 = 138 ∧
    HasDerivAt
      (fun x => (singleTerm (cubicElement : ResidualHelmholtzNonAnalyticElement ℝ)).dDelta2
        (realFns fun _ => true) 1 x) 330 2 ∧
    ¬ HasDerivAt
      (fun x => (singleTerm (cubicElement : ResidualHelmholtzNonAnalyticElement ℝ)).dDelta2
        (realFns fun _ => true) 1 x)
      ((singleTerm (cubicElement : ResidualHelmholtzNonAnalyticElement ℝ)).dDelta3
        (realFns fun _ => true) 1 2) 2 ∧
    NonAnalytic.dPI_dDelta (realFns fun _ => true)
      (cubicElement : ResidualHelmholtzNonAnalyticElement ℝ) 1 2 = -48 ∧
    HasDerivAt (fun x => NonAnalytic.PI (realFns fun _ => true)
      (cubicElement : ResidualHelmholtzNonAnalyticElement ℝ) 1 x) 48 2 := by
  have hD : NonAnalytic.DELTA (realFns fun _ => true)
      (cubicElement : ResidualHelmholtzNonAnalyticElement ℝ) 1 2 = 1 := by
    norm_num [NonAnalytic.DELTA, NonAnalytic.theta, cubicElement, realFns]
  have hval : (singleTerm (cubicElement : ResidualHelmholtzNonAnalyticElement ℝ)).dDelta3
      (realFns fun _ => true) 1 2 = 138 := by
    have hg : ¬ |(1 : ℝ)| < 10 * DBL_EPSILON := by
      rw [dbl_epsilon_real]; norm_num
    rw [ResidualHelmholtzNonAnalytic.dDelta3, singleTerm_accumulate, dDelta3_element_eq]
    simp only [NonAnalytic.dDELTAbi_dDelta_guarded, hD, if_neg hg]
    norm_num [NonAnalytic.DELTA, NonAnalytic.theta, NonAnalytic.PSI, NonAnalytic.dPSI_dDelta,
      NonAnalytic.dPSI2_dDelta2, NonAnalytic.dPSI3_dDelta3, NonAnalytic.dDELTAbi_dDelta,
      NonAnalytic.dDELTA_dDelta, NonAnalytic.dDELTAbi2_dDelta2,
      NonAnalytic.dDELTA2_dDelta2_unguarded, NonAnalytic.dDELTAbi3_dDelta3,
      NonAnalytic.dDELTA3_dDelta3, NonAnalytic.PI, NonAnalytic.dPI_dDelta,
      NonAnalytic.dtheta_dDelta, cubicElement, realFns]
  have hnear : ∀ᶠ x in nhds (2 : ℝ),
      (singleTerm (cubicElement : ResidualHelmholtzNonAnalyticElement ℝ)).dDelta2
        (realFns fun _ => true) 1 x = 12 * (x - 1) ^ 5 + 30 * (x - 1) ^ 4 * x := by
    have hmem : Set.Ioo (3 / 2 : ℝ) (5 / 2) ∈ nhds (2 : ℝ) :=
      Ioo_mem_nhds (by norm_num) (by norm_num)
    refine Filter.eventually_of_mem hmem fun x hx => ?_
    have h1 : (1 / 2 : ℝ) < x - 1 := by linarith [hx.1]
    have hg1 : ¬ |x - 1| < 10 * DBL_EPSILON := by
      rw [dbl_epsilon_real, abs_of_pos (by linarith)]
      norm_num
      linarith
    have hDx : NonAnalytic.DELTA (realFns fun _ => true)
        (cubicElement : ResidualHelmholtzNonAnalyticElement ℝ) 1 x = (x - 1) ^ 6 := by
      have h3 : ∀ y : ℝ, y ^ (3 : ℝ) = y ^ (3 : ℕ) := fun y => by
        rw [← Real.rpow_natCast]; norm_num
      norm_num [NonAnalytic.DELTA, NonAnalytic.theta, cubicElement, realFns, h3]
      ring
    have hg2 : ¬ |(x - 1) ^ 6| < 10 * DBL_EPSILON := by
      rw [dbl_epsilon_real, abs_of_pos (by positivity)]
      have : (1 / 2 : ℝ) ^ 6 < (x - 1) ^ 6 := pow_lt_pow_left₀ h1 (by norm_num) (by norm_num)
      norm_num at this ⊢
      linarith
    rw [ResidualHelmholtzNonAnalytic.dDelta2, singleTerm_accumulate, dDelta2_element_eq]
    simp only [NonAnalytic.dDELTAbi_dDelta_guarded, hDx, if_neg hg1, if_neg hg2]
    norm_num [NonAnalytic.theta, NonAnalytic.PSI, NonAnalytic.dPSI_dDelta,
      NonAnalytic.dPSI2_dDelta2, NonAnalytic.dDELTAbi_dDelta,
      NonAnalytic.dDELTA_dDelta, NonAnalytic.dDELTAbi2_dDelta2,
      NonAnalytic.dDELTA2_dDelta2, NonAnalytic.dDELTA_dDelta_over_delta_minus_1,
      cubicElement, realFns]
    ring
  have hgen : ∀ x0 : ℝ, HasDerivAt (fun x : ℝ => 12 * (x - 1) ^ 5 + 30 * (x - 1) ^ 4 * x)
      (60 * (x0 - 1) ^ 4 + (120 * (x0 - 1) ^ 3 * x0 + 30 * (x0 - 1) ^ 4)) x0 := by
    intro x0
    have hl := (hasDerivAt_id' x0).sub_const 1
    refine (((hl.pow 5).const_mul 12).add (((hl.pow 4).const_mul 30).mul
      (hasDerivAt_id' x0))).congr_deriv ?_
    simp only [Nat.cast_ofNat]
    ring
  have ht : HasDerivAt
      (fun x => (singleTerm (cubicElement : ResidualHelmholtzNonAnalyticElement ℝ)).dDelta2
        (realFns fun _ => true) 1 x) 330 2 := by
    refine ((hgen 2).congr_of_eventuallyEq hnear).congr_deriv ?_
    norm_num
  refine ⟨by norm_num, by norm_num, by norm_num, ?_, hD, hval, ht, ?_, ?_, ?_⟩
  · rw [dbl_epsilon_real]
    norm_num
  · intro h
    rw [hval] at h
    have := h.unique ht
    norm_num at this
  · norm_num [NonAnalytic.dPI_dDelta, NonAnalytic.theta, NonAnalytic.dtheta_dDelta,
      cubicElement, realFns]
  · have hfun : (fun x => NonAnalytic.PI (realFns fun _ => true)
        (cubicElement : ResidualHelmholtzNonAnalyticElement ℝ) 1 x)
        = fun x => 24 * (x - 1) ^ 2 := by
      funext x
      norm_num [NonAnalytic.PI, NonAnalytic.theta, cubicElement, realFns]
    rw [hfun]
    refine ((((hasDerivAt_id' (2 : ℝ)).sub_const 1).pow 2).const_mul 24).congr_deriv ?_
    norm_num

/-- Claim C19 fails in the code above `delta = 1`.  For the one-element term with
`DELTA = theta^2`, `theta = (1 - tau) + (delta - 1)^2` and `b = 2` (`beta = 1/2`, `A = 1`,
`B = 0`, `C = D = 0`) at `tau = 1`, `delta = 2`, where `DELTA = 1` is far above the
tolerance: `dDelta2_dTau` returns `-32`, and the derivative of `dDelta_dTau` with respect to
`delta` is `-288`.  The difference comes from `dDELTA2_dDelta_dTau`, which is `4` where
`dDELTA_dTau = -2*(delta - 1)^2` has the derivative `-4`. -/
theorem nonanalytic_dDelta2_dTau_wrong_above_one :
    (0 : ℝ) < 1 ∧ (0 : ℝ) < 2 ∧ (2 : ℝ) ≠ 1 ∧
    NonAnalytic.DELTA (realFns fun _ => true)
      (thetaSquareElement : ResidualHelmholtzNonAnalyticElement ℝ) 1 2 = 1 ∧
    (singleTerm (thetaSquareElement : ResidualHelmholtzNonAnalyticElement ℝ)).dDelta2_dTau
      (realFns fun _ => true) 1 2 = -32 ∧
    HasDerivAt
      (fun x =>
        (singleTerm (thetaSquareElement : ResidualHelmholtzNonAnalyticElement ℝ)).dDelta_dTau
          (realFns fun _ => true) 1 x) (-288) 2 ∧
    ¬ HasDerivAt
      (fun x =>
        (singleTerm (thetaSquareElement : ResidualHelmholtzNonAnalyticElement ℝ)).dDelta_dTau
          (realFns fun _ => true) 1 x)
      ((singleTerm (thetaSquareElement : ResidualHelmholtzNonAnalyticElement ℝ)).dDelta2_dTau
        (realFns fun _ => true) 1 2) 2 ∧
    NonAnalytic.dDELTA2_dDelta_dTau (realFns fun _ => true)
      (thetaSquareElement : ResidualHelmholtzNonAnalyticElement ℝ) 1 2 = 4 ∧
    HasDerivAt (fun x => NonAnalytic.dDELTA_dTau (realFns fun _ => true)
      (thetaSquareElement : ResidualHelmholtzNonAnalyticElement ℝ) 1 x) (-4) 2 := by
  have hD : NonAnalytic.DELTA (realFns fun _ => true)
      (thetaSquareElement : ResidualHelmholtzNonAnalyticElement ℝ) 1 2 = 1 := by
    norm_num [NonAnalytic.DELTA, NonAnalytic.theta, thetaSquareElement, realFns]
  have hval :
      (singleTerm (thetaSquareElement : ResidualHelmholtzNonAnalyticElement ℝ)).dDelta2_dTau
        (realFns fun _ => true) 1 2 = -32 := by
    have hg : ¬ |(1 : ℝ)| < 10 * DBL_EPSILON := by
      rw [dbl_epsilon_real]; norm_num
    rw [ResidualHelmholtzNonAnalytic.dDelta2_dTau, singleTerm_accumulate,
      dDelta2_dTau_element_eq]
    simp only [NonAnalytic.dDELTAbi_dDelta_guarded, hD, if_neg hg]
    norm_num [NonAnalytic.DELTA, NonAnalytic.theta, NonAnalytic.PSI, NonAnalytic.dPSI_dDelta,
      NonAnalytic.dPSI_dTau, NonAnalytic.dPSI2_dDelta_dTau, NonAnalytic.dPSI2_dDelta2,
      NonAnalytic.dPSI3_dDelta2_dTau, NonAnalytic.dDELTAbi_dTau, NonAnalytic.dDELTAbi_dDelta,
      NonAnalytic.dDELTAbi2_dDelta_dTau, NonAnalytic.dDELTAbi2_dDelta2,
      NonAnalytic.dDELTA2_dDelta2_unguarded, NonAnalytic.dDELTAbi3_dDelta2_dTau_lines,
      NonAnalytic.dDELTA_dTau, NonAnalytic.dDELTA3_dDelta2_dTau,
      NonAnalytic.dDELTA2_dDelta_dTau, NonAnalytic.dDELTA_dDelta, thetaSquareElement, realFns]
  have hfun : ∀ x : ℝ,
      (singleTerm (thetaSquareElement : ResidualHelmholtzNonAnalyticElement ℝ)).dDelta_dTau
        (realFns fun _ => true) 1 x = -4 * (x - 1) ^ 6 - 24 * (x - 1) ^ 5 * x := by
    intro x
    rw [ResidualHelmholtzNonAnalytic.dDelta_dTau, singleTerm_accumulate,
      dDelta_dTau_element_eq]
    norm_num [NonAnalytic.DELTA, NonAnalytic.theta, NonAnalytic.PSI, NonAnalytic.dPSI_dDelta,
      NonAnalytic.dPSI_dTau, NonAnalytic.dPSI2_dDelta_dTau, NonAnalytic.dDELTAbi_dTau,
      NonAnalytic.dDELTAbi2_dDelta_dTau, NonAnalytic.dDELTA_dDelta, thetaSquareElement, realFns]
    ring
  have hgen : ∀ x0 : ℝ, HasDerivAt (fun x : ℝ => -4 * (x - 1) ^ 6 - 24 * (x - 1) ^ 5 * x)
      (-24 * (x0 - 1) ^ 5 - (120 * (x0 - 1) ^ 4 * x0 + 24 * (x0 - 1) ^ 5)) x0 := by
    intro x0
    have hl := (hasDerivAt_id' x0).sub_const 1
    refine (((hl.pow 6).const_mul (-4)).sub (((hl.pow 5).const_mul 24).mul
      (hasDerivAt_id' x0))).congr_deriv ?_
    simp only [Nat.cast_ofNat]
    ring
  have ht : HasDerivAt
      (fun x =>
        (singleTerm (thetaSquareElement : ResidualHelmholtzNonAnalyticElement ℝ)).dDelta_dTau
          (realFns fun _ => true) 1 x) (-288) 2 := by
    rw [funext hfun]
    refine (hgen 2).congr_deriv ?_
    norm_num
  refine ⟨by norm_num, by norm_num, by norm_num, hD, hval, ht, ?_, ?_, ?_⟩
  · intro h
    rw [hval] at h
    have := h.unique ht
    norm_num at this
  · norm_num [NonAnalytic.dDELTA2_dDelta_dTau, thetaSquareElement, realFns]
  · have hfun : (fun x => NonAnalytic.dDELTA_dTau (realFns fun _ => true)
        (thetaSquareElement : ResidualHelmholtzNonAnalyticElement ℝ) 1 x)
        = fun x => -2 * (x - 1) ^ 2 := by
      funext x
      norm_num [NonAnalytic.dDELTA_dTau, NonAnalytic.theta, thetaSquareElement, realFns]
    rw [hfun]
    refine ((((hasDerivAt_id' (2 : ℝ)).sub_const 1).pow 2).const_mul (-2)).congr_deriv ?_
    norm_num

/-! ## The SAFT association term (C21 to C25) -/

/-- Calculus of the functions `g`, `X`, `eta` and `Deltabar` of the SAFT association term. -/
theorem saft_calculus :
    -- `rpow_ofNat_eq`
    (∀ (t : ℝ) (n : ℕ),
        t ^ ((n : ℕ) : ℝ) = t ^ n) ∧
    -- `rpow_four_eq`
    (∀ (t : ℝ),
        t ^ (4 : ℝ) = t ^ 4) ∧
    -- `rpow_five_eq`
    (∀ (t : ℝ),
        t ^ (5 : ℝ) = t ^ 5) ∧
    -- `rpow_six_eq`
    (∀ (t : ℝ),
        t ^ (6 : ℝ) = t ^ 6) ∧
    -- `saft_g_forms`: The functions `g`, `dg_deta`, `d2g_deta2`, `d3g_deta3` with the powers
    -- written as natural powers.
    (∀ (valid : ℝ → Bool) (self : ResidualHelmholtzSAFTAssociating ℝ) (eta : ℝ),
        self.g (realFns valid) eta = 0.5 * (2 - eta) / (1 - eta) ^ 3 ∧
        self.dg_deta (realFns valid) eta = 0.5 * (5 - 2 * eta) / (1 - eta) ^ 4 ∧
        self.d2g_deta2 (realFns valid) eta = 3 * (3 - eta) / (1 - eta) ^ 5 ∧
        self.d3g_deta3 (realFns valid) eta = 6 * (7 - 2 * eta) / (1 - eta) ^ 6) ∧
    -- `hasDerivAt_saft_g`
    (∀ (valid : ℝ → Bool) (self : ResidualHelmholtzSAFTAssociating ℝ) (eta : ℝ) (_ : eta ≠ 1),
        HasDerivAt (fun x => self.g (realFns valid) x) (self.dg_deta (realFns valid) eta) eta ∧
        HasDerivAt (fun x => self.dg_deta (realFns valid) x)
          (self.d2g_deta2 (realFns valid) eta) eta ∧
        HasDerivAt (fun x => self.d2g_deta2 (realFns valid) x)
          (self.d3g_deta3 (realFns valid) eta) eta) ∧
    -- `saft_denominator_eq_sqrt`: With `s = sqrt(1 + 4*Deltabar*delta)`, the denominator
    -- `2*Deltabar*delta*X + 1` of the source is `s`.
    (∀ (valid : ℝ → Bool) (self : ResidualHelmholtzSAFTAssociating ℝ) (delta Deltabar : ℝ)
      (_ : 0 < 1 + 4 * Deltabar * delta),
        2 * Deltabar * delta * self.X (realFns valid) delta Deltabar + 1
          = Real.sqrt (1 + 4 * Deltabar * delta)) ∧
    -- `saft_denominator_pos`
    (∀ (valid : ℝ → Bool) (self : ResidualHelmholtzSAFTAssociating ℝ) (delta Deltabar : ℝ)
      (_ : 0 < 1 + 4 * Deltabar * delta),
        0 < 2 * Deltabar * delta * self.X (realFns valid) delta Deltabar + 1) ∧
    -- `saft_X_pos`
    (∀ (valid : ℝ → Bool) (self : ResidualHelmholtzSAFTAssociating ℝ) (delta Deltabar : ℝ),
        0 < self.X (realFns valid) delta Deltabar) ∧
    -- `hasDerivAt_saft_X_Deltabar`
    (∀ (valid : ℝ → Bool) (self : ResidualHelmholtzSAFTAssociating ℝ) (delta Deltabar : ℝ)
      (_ : 0 < 1 + 4 * Deltabar * delta),
        HasDerivAt (fun D => self.X (realFns valid) delta D)
          (self.dX_dDeltabar__constdelta (realFns valid) delta Deltabar) Deltabar) ∧
    -- `hasDerivAt_saft_X_delta`
    (∀ (valid : ℝ → Bool) (self : ResidualHelmholtzSAFTAssociating ℝ) (delta Deltabar : ℝ)
      (_ : 0 < 1 + 4 * Deltabar * delta),
        HasDerivAt (fun d => self.X (realFns valid) d Deltabar)
          (self.dX_ddelta__constDeltabar (realFns valid) delta Deltabar) delta) ∧
    -- `hasDerivAt_saft_exp`
    (∀ (eps tau : ℝ),
        HasDerivAt (fun t => Real.exp (eps * t)) (Real.exp (eps * tau) * eps) tau) ∧
    -- `hasDerivAt_saft_eta`
    (∀ (valid : ℝ → Bool) (self : ResidualHelmholtzSAFTAssociating ℝ) (delta : ℝ),
        HasDerivAt (fun d => self.eta (realFns valid) d) self.vbarn delta) ∧
    -- `hasDerivAt_saft_Deltabar_tau`: The `tau`-derivatives of `Deltabar` and of its partial
    -- derivatives.
    (∀ (valid : ℝ → Bool) (self : ResidualHelmholtzSAFTAssociating ℝ) (tau delta : ℝ),
        HasDerivAt (fun t => self.Deltabar (realFns valid) t delta)
          (self.dDeltabar_dtau__constdelta (realFns valid) tau delta) tau ∧
        HasDerivAt (fun t => self.dDeltabar_dtau__constdelta (realFns valid) t delta)
          (self.d2Deltabar_dtau2__constdelta (realFns valid) tau delta) tau ∧
        HasDerivAt (fun t => self.d2Deltabar_dtau2__constdelta (realFns valid) t delta)
          (self.d3Deltabar_dtau3__constdelta (realFns valid) tau delta) tau ∧
        HasDerivAt (fun t => self.dDeltabar_ddelta__consttau (realFns valid) t delta)
          (self.d2Deltabar_ddelta_dtau (realFns valid) tau delta) tau ∧
        HasDerivAt (fun t => self.d2Deltabar_ddelta_dtau (realFns valid) t delta)
          (self.d3Deltabar_ddelta_dtau2 (realFns valid) tau delta) tau ∧
        HasDerivAt (fun t => self.d2Deltabar_ddelta2__consttau (realFns valid) t delta)
          (self.d3Deltabar_ddelta2_dtau (realFns valid) tau delta) tau) ∧
    -- `hasDerivAt_saft_Deltabar_delta`: The `delta`-derivatives of `Deltabar` and of its
    -- partial derivatives, away from `eta = 1`.
    (∀ (valid : ℝ → Bool) (self : ResidualHelmholtzSAFTAssociating ℝ) (tau delta : ℝ)
      (_ : self.vbarn * delta ≠ 1),
        HasDerivAt (fun d => self.Deltabar (realFns valid) tau d)
          (self.dDeltabar_ddelta__consttau (realFns valid) tau delta) delta ∧
        HasDerivAt (fun d => self.dDeltabar_ddelta__consttau (realFns valid) tau d)
          (self.d2Deltabar_ddelta2__consttau (realFns valid) tau delta) delta ∧
        HasDerivAt (fun d => self.d2Deltabar_ddelta2__consttau (realFns valid) tau d)
          (self.d3Deltabar_ddelta3__consttau (realFns valid) tau delta) delta ∧
        HasDerivAt (fun d => self.dDeltabar_dtau__constdelta (realFns valid) tau d)
          (self.d2Deltabar_ddelta_dtau (realFns valid) tau delta) delta ∧
        HasDerivAt (fun d => self.d2Deltabar_dtau2__constdelta (realFns valid) tau d)
          (self.d3Deltabar_ddelta_dtau2 (realFns valid) tau delta) delta ∧
        HasDerivAt (fun d => self.d2Deltabar_ddelta_dtau (realFns valid) tau d)
          (self.d3Deltabar_ddelta2_dtau (realFns valid) tau delta) delta) ∧
    -- `realFns_pow`
    (∀ (valid : ℝ → Bool) (a b : ℝ),
        (realFns valid).pow a b = a ^ b) ∧
    -- `realFns_sqrt`
    (∀ (valid : ℝ → Bool) (a : ℝ),
        (realFns valid).sqrt a = Real.sqrt a) := by
  have rpow_three_eq := nonanalytic_delta_calculus.1
  refine and_of_left ?_ fun rpow_ofNat_eq => ?_
  · intro t n
    exact
      Real.rpow_natCast t n
  refine and_of_left ?_ fun rpow_four_eq => ?_
  · intro t
    rw [show (4 : ℝ) = ((4 : ℕ) : ℝ) by norm_num, Real.rpow_natCast]
  refine and_of_left ?_ fun rpow_five_eq => ?_
  · intro t
    rw [show (5 : ℝ) = ((5 : ℕ) : ℝ) by norm_num, Real.rpow_natCast]
  refine and_of_left ?_ fun rpow_six_eq => ?_
  · intro t
    rw [show (6 : ℝ) = ((6 : ℕ) : ℝ) by norm_num, Real.rpow_natCast]
  refine and_of_left ?_ fun saft_g_forms => ?_
  · intro valid self eta
    refine ⟨?_, ?_, ?_, ?_⟩
    · simp only [ResidualHelmholtzSAFTAssociating.g, realFns, rpow_three_eq]
    · simp only [ResidualHelmholtzSAFTAssociating.dg_deta, realFns, rpow_four_eq]
    · simp only [ResidualHelmholtzSAFTAssociating.d2g_deta2, realFns, rpow_five_eq]
    · simp only [ResidualHelmholtzSAFTAssociating.d3g_deta3, realFns, rpow_six_eq]
  refine and_of_left ?_ fun hasDerivAt_saft_g => ?_
  · intro valid self eta h
    have h0 : 1 - eta ≠ 0 := sub_ne_zero.mpr h.symm
    have hlin : HasDerivAt (fun x : ℝ => 1 - x) (-1) eta := by
      simpa using (hasDerivAt_id' eta).const_sub 1
    have hf := fun x => saft_g_forms valid self x
    simp only [fun x => (hf x).1, fun x => (hf x).2.1, fun x => (hf x).2.2.1,
      fun x => (hf x).2.2.2]
    refine ⟨?_, ?_, ?_⟩
    · have h1 := (((hasDerivAt_id' eta).const_sub 2).const_mul (0.5 : ℝ)).div (hlin.pow 3)
        (pow_ne_zero 3 h0)
      refine h1.congr_deriv ?_
      field_simp
      ring
    · have h1 := ((((hasDerivAt_id' eta).const_mul 2).const_sub 5).const_mul (0.5 : ℝ)).div
        (hlin.pow 4) (pow_ne_zero 4 h0)
      refine h1.congr_deriv ?_
      field_simp
      ring
    · have h1 := (((hasDerivAt_id' eta).const_sub 3).const_mul (3 : ℝ)).div (hlin.pow 5)
        (pow_ne_zero 5 h0)
      refine h1.congr_deriv ?_
      field_simp
      ring
  refine and_of_left ?_ fun saft_denominator_eq_sqrt => ?_
  · intro valid self delta Deltabar h
    have hs : 0 < Real.sqrt (1 + 4 * Deltabar * delta) := Real.sqrt_pos.mpr h
    have hsq : Real.sqrt (1 + 4 * Deltabar * delta) * Real.sqrt (1 + 4 * Deltabar * delta)
        = 1 + 4 * Deltabar * delta := Real.mul_self_sqrt h.le
    simp only [ResidualHelmholtzSAFTAssociating.X, realFns]
    have h1 : Real.sqrt (1 + 4 * Deltabar * delta) + 1 ≠ 0 := by positivity
    field_simp
    linear_combination -hsq
  refine and_of_left ?_ fun saft_denominator_pos => ?_
  · intro valid self delta Deltabar h
    rw [saft_denominator_eq_sqrt valid self delta Deltabar h]
    exact Real.sqrt_pos.mpr h
  refine and_of_left ?_ fun saft_X_pos => ?_
  · intro valid self delta Deltabar
    simp only [ResidualHelmholtzSAFTAssociating.X, realFns]
    have := Real.sqrt_nonneg (1 + 4 * Deltabar * delta)
    positivity
  refine and_of_left ?_ fun hasDerivAt_saft_X_Deltabar => ?_
  · intro valid self delta Deltabar h
    have hs : 0 < Real.sqrt (1 + 4 * Deltabar * delta) := Real.sqrt_pos.mpr h
    have hsq : Real.sqrt (1 + 4 * Deltabar * delta) * Real.sqrt (1 + 4 * Deltabar * delta)
        = 1 + 4 * Deltabar * delta := Real.mul_self_sqrt h.le
    have hin : HasDerivAt (fun D : ℝ => 1 + 4 * D * delta) (4 * delta) Deltabar := by
      have := (((hasDerivAt_id' Deltabar).const_mul 4).mul_const delta).const_add 1
      simpa using this
    have h1 := (hasDerivAt_const Deltabar (2 : ℝ)).div ((hin.sqrt h.ne').add_const 1)
      (by positivity)
    refine (h1.congr_deriv ?_).congr_of_eventuallyEq (Filter.Eventually.of_forall fun y => rfl)
    simp only [ResidualHelmholtzSAFTAssociating.dX_dDeltabar__constdelta]
    rw [saft_denominator_eq_sqrt valid self delta Deltabar h]
    simp only [ResidualHelmholtzSAFTAssociating.X, realFns]
    have h2 : Real.sqrt (1 + 4 * Deltabar * delta) + 1 ≠ 0 := by positivity
    field_simp
    ring
  refine and_of_left ?_ fun hasDerivAt_saft_X_delta => ?_
  · intro valid self delta Deltabar h
    have hs : 0 < Real.sqrt (1 + 4 * Deltabar * delta) := Real.sqrt_pos.mpr h
    have hin : HasDerivAt (fun d : ℝ => 1 + 4 * Deltabar * d) (4 * Deltabar) delta := by
      have := ((hasDerivAt_id' delta).const_mul (4 * Deltabar)).const_add 1
      simpa using this
    have h1 := (hasDerivAt_const delta (2 : ℝ)).div ((hin.sqrt h.ne').add_const 1)
      (by positivity)
    refine (h1.congr_deriv ?_).congr_of_eventuallyEq (Filter.Eventually.of_forall fun y => rfl)
    simp only [ResidualHelmholtzSAFTAssociating.dX_ddelta__constDeltabar]
    rw [saft_denominator_eq_sqrt valid self delta Deltabar h]
    simp only [ResidualHelmholtzSAFTAssociating.X, realFns]
    have h2 : Real.sqrt (1 + 4 * Deltabar * delta) + 1 ≠ 0 := by positivity
    field_simp
    ring
  refine and_of_left ?_ fun hasDerivAt_saft_exp => ?_
  · intro eps tau
    have := ((hasDerivAt_id' tau).const_mul eps).exp
    simpa using this
  refine and_of_left ?_ fun hasDerivAt_saft_eta => ?_
  · intro valid self delta
    have := (hasDerivAt_id' delta).const_mul self.vbarn
    simpa [ResidualHelmholtzSAFTAssociating.eta] using this
  refine and_of_left ?_ fun hasDerivAt_saft_Deltabar_tau => ?_
  · intro valid self tau delta
    have he := hasDerivAt_saft_exp self.epsilonbar tau
    refine ⟨?_, ?_, ?_, ?_, ?_, ?_⟩
    · have h := ((he.sub_const 1).const_mul
        (self.g (realFns valid) (self.eta (realFns valid) delta))).mul_const self.kappabar
      refine (h.congr_deriv ?_).congr_of_eventuallyEq (Filter.Eventually.of_forall fun y => rfl)
      simp only [ResidualHelmholtzSAFTAssociating.dDeltabar_dtau__constdelta, realFns]
      ring
    · have h := ((he.const_mul
        (self.g (realFns valid) (self.eta (realFns valid) delta) * self.kappabar)).mul_const
        self.epsilonbar)
      refine (h.congr_deriv ?_).congr_of_eventuallyEq (Filter.Eventually.of_forall fun y => rfl)
      simp only [ResidualHelmholtzSAFTAssociating.d2Deltabar_dtau2__constdelta, realFns,
        Real.rpow_two]
      ring
    · have h := ((he.const_mul
        (self.g (realFns valid) (self.eta (realFns valid) delta) * self.kappabar)).mul_const
        (self.epsilonbar ^ (2 : ℝ)))
      refine (h.congr_deriv ?_).congr_of_eventuallyEq (Filter.Eventually.of_forall fun y => rfl)
      simp only [ResidualHelmholtzSAFTAssociating.d3Deltabar_dtau3__constdelta, realFns,
        Real.rpow_two, rpow_three_eq]
      ring
    · have h := (((he.sub_const 1).const_mul
        (self.dg_deta (realFns valid) (self.eta (realFns valid) delta))).mul_const
        self.kappabar).mul_const self.vbarn
      refine (h.congr_deriv ?_).congr_of_eventuallyEq (Filter.Eventually.of_forall fun y => rfl)
      simp only [ResidualHelmholtzSAFTAssociating.d2Deltabar_ddelta_dtau, realFns]
      ring
    · have h := (((he.const_mul
        (self.dg_deta (realFns valid) (self.eta (realFns valid) delta))).mul_const
        self.epsilonbar).mul_const self.kappabar).mul_const self.vbarn
      refine (h.congr_deriv ?_).congr_of_eventuallyEq (Filter.Eventually.of_forall fun y => rfl)
      simp only [ResidualHelmholtzSAFTAssociating.d3Deltabar_ddelta_dtau2, realFns, Real.rpow_two]
      ring
    · have h := (((he.sub_const 1).const_mul
        (self.d2g_deta2 (realFns valid) (self.eta (realFns valid) delta))).mul_const
        self.kappabar).mul_const (self.vbarn ^ (2 : ℝ))
      refine (h.congr_deriv ?_).congr_of_eventuallyEq (Filter.Eventually.of_forall fun y => rfl)
      simp only [ResidualHelmholtzSAFTAssociating.d3Deltabar_ddelta2_dtau, realFns]
      ring
  refine and_of_left ?_ fun hasDerivAt_saft_Deltabar_delta => ?_
  · intro valid self tau delta heta
    have hη := hasDerivAt_saft_eta valid self delta
    have hg := hasDerivAt_saft_g valid self (self.eta (realFns valid) delta) heta
    have hg0 : HasDerivAt (fun d => self.g (realFns valid) (self.eta (realFns valid) d))
        (self.dg_deta (realFns valid) (self.eta (realFns valid) delta) * self.vbarn) delta :=
      hg.1.comp delta hη
    have hg1 : HasDerivAt (fun d => self.dg_deta (realFns valid) (self.eta (realFns valid) d))
        (self.d2g_deta2 (realFns valid) (self.eta (realFns valid) delta) * self.vbarn) delta :=
      hg.2.1.comp delta hη
    have hg2 : HasDerivAt (fun d => self.d2g_deta2 (realFns valid) (self.eta (realFns valid) d))
        (self.d3g_deta3 (realFns valid) (self.eta (realFns valid) delta) * self.vbarn) delta :=
      hg.2.2.comp delta hη
    refine ⟨?_, ?_, ?_, ?_, ?_, ?_⟩
    · have h := (hg0.mul_const (Real.exp (self.epsilonbar * tau) - 1)).mul_const self.kappabar
      refine (h.congr_deriv ?_).congr_of_eventuallyEq (Filter.Eventually.of_forall fun y => rfl)
      simp only [ResidualHelmholtzSAFTAssociating.dDeltabar_ddelta__consttau, realFns]
      ring
    · have h := ((hg1.mul_const (Real.exp (self.epsilonbar * tau) - 1)).mul_const
        self.kappabar).mul_const self.vbarn
      refine (h.congr_deriv ?_).congr_of_eventuallyEq (Filter.Eventually.of_forall fun y => rfl)
      simp only [ResidualHelmholtzSAFTAssociating.d2Deltabar_ddelta2__consttau, realFns,
        Real.rpow_two]
      ring
    · have h := ((hg2.mul_const (Real.exp (self.epsilonbar * tau) - 1)).mul_const
        self.kappabar).mul_const (self.vbarn ^ (2 : ℝ))
      refine (h.congr_deriv ?_).congr_of_eventuallyEq (Filter.Eventually.of_forall fun y => rfl)
      simp only [ResidualHelmholtzSAFTAssociating.d3Deltabar_ddelta3__consttau, realFns,
        Real.rpow_two, rpow_three_eq]
      ring
    · have h := ((hg0.mul_const self.kappabar).mul_const
        (Real.exp (self.epsilonbar * tau))).mul_const self.epsilonbar
      refine (h.congr_deriv ?_).congr_of_eventuallyEq (Filter.Eventually.of_forall fun y => rfl)
      simp only [ResidualHelmholtzSAFTAssociating.d2Deltabar_ddelta_dtau, realFns]
      ring
    · have h := ((hg0.mul_const self.kappabar).mul_const
        (Real.exp (self.epsilonbar * tau))).mul_const (self.epsilonbar ^ (2 : ℝ))
      refine (h.congr_deriv ?_).congr_of_eventuallyEq (Filter.Eventually.of_forall fun y => rfl)
      simp only [ResidualHelmholtzSAFTAssociating.d3Deltabar_ddelta_dtau2, realFns]
      ring
    · have h := (((hg1.mul_const (Real.exp (self.epsilonbar * tau))).mul_const
        self.epsilonbar).mul_const self.kappabar).mul_const self.vbarn
      refine (h.congr_deriv ?_).congr_of_eventuallyEq (Filter.Eventually.of_forall fun y => rfl)
      simp only [ResidualHelmholtzSAFTAssociating.d3Deltabar_ddelta2_dtau, realFns, Real.rpow_two]
      ring
  refine and_of_left ?_ fun realFns_pow => ?_
  · intro valid a b
    exact
      rfl
  intro valid a
  exact
    rfl

/-- The chain rule along `Xf(tau, delta) = X(delta, Deltabar(tau, delta))` up to third order,
and the facts on the example term. -/
theorem saft_chain_calculus :
    -- `hasDerivAt_saft_Xf_tau`: The non-bonded fraction along `tau`: `dX_dtau` is its
    -- derivative.
    (∀ (valid : ℝ → Bool) (self : ResidualHelmholtzSAFTAssociating ℝ) (tau delta : ℝ)
      (_ : 0 < 1 + 4 * self.Deltabar (realFns valid) tau delta * delta),
        HasDerivAt (fun y => self.X (realFns valid) delta (self.Deltabar (realFns valid) y delta))
          (self.dX_dtau (realFns valid) tau delta) tau) ∧
    -- `hasDerivAt_saft_Xf_delta`: The non-bonded fraction along `delta`: `dX_ddelta` is its
    -- derivative.
    (∀ (valid : ℝ → Bool) (self : ResidualHelmholtzSAFTAssociating ℝ) (tau delta : ℝ)
      (_ : self.vbarn * delta ≠ 1)
      (_ : 0 < 1 + 4 * self.Deltabar (realFns valid) tau delta * delta),
        HasDerivAt (fun y => self.X (realFns valid) y (self.Deltabar (realFns valid) tau y))
          (self.dX_ddelta (realFns valid) tau delta) delta) ∧
    -- `hasDerivAt_saft_dX_dtau_tau`: The derivative of `dX_dtau` in `tau` is `d2X_dtau2`.
    (∀ (valid : ℝ → Bool) (self : ResidualHelmholtzSAFTAssociating ℝ) (tau delta : ℝ)
      (_ : 0 < 1 + 4 * self.Deltabar (realFns valid) tau delta * delta),
        HasDerivAt (fun y => self.dX_dtau (realFns valid) y delta)
          (self.d2X_dtau2 (realFns valid) tau delta) tau) ∧
    -- `hasDerivAt_saft_dX_ddelta_tau`: The derivative of `dX_ddelta` in `tau` is
    -- `d2X_ddeltadtau`.
    (∀ (valid : ℝ → Bool) (self : ResidualHelmholtzSAFTAssociating ℝ) (tau delta : ℝ)
      (_ : 0 < 1 + 4 * self.Deltabar (realFns valid) tau delta * delta),
        HasDerivAt (fun y => self.dX_ddelta (realFns valid) y delta)
          (self.d2X_ddeltadtau (realFns valid) tau delta) tau) ∧
    -- `hasDerivAt_saft_dX_dtau_delta`: The derivative of `dX_dtau` in `delta` is
    -- `d2X_ddeltadtau` too.
    (∀ (valid : ℝ → Bool) (self : ResidualHelmholtzSAFTAssociating ℝ) (tau delta : ℝ)
      (_ : self.vbarn * delta ≠ 1)
      (_ : 0 < 1 + 4 * self.Deltabar (realFns valid) tau delta * delta),
        HasDerivAt (fun y => self.dX_dtau (realFns valid) tau y)
          (self.d2X_ddeltadtau (realFns valid) tau delta) delta) ∧
    -- `hasDerivAt_saft_dX_ddelta_delta`: The derivative of `dX_ddelta` in `delta` is
    -- `d2X_ddelta2`.
    (∀ (valid : ℝ → Bool) (self : ResidualHelmholtzSAFTAssociating ℝ) (tau delta : ℝ)
      (_ : self.vbarn * delta ≠ 1)
      (_ : 0 < 1 + 4 * self.Deltabar (realFns valid) tau delta * delta),
        HasDerivAt (fun y => self.dX_ddelta (realFns valid) tau y)
          (self.d2X_ddelta2 (realFns valid) tau delta) delta) ∧
    -- `hasDerivAt_saft_d2X_dtau2_tau`: The derivative of `d2X_dtau2` in `tau` is `d3X_dtau3`.
    (∀ (valid : ℝ → Bool) (self : ResidualHelmholtzSAFTAssociating ℝ) (tau delta : ℝ)
      (_ : 0 < 1 + 4 * self.Deltabar (realFns valid) tau delta * delta),
        HasDerivAt (fun y => self.d2X_dtau2 (realFns valid) y delta)
          (self.d3X_dtau3 (realFns valid) tau delta) tau) ∧
    -- `hasDerivAt_saft_d2X_dtau2_delta`: The derivative of `d2X_dtau2` in `delta` is
    -- `d3X_ddeltadtau2`.
    (∀ (valid : ℝ → Bool) (self : ResidualHelmholtzSAFTAssociating ℝ) (tau delta : ℝ)
      (_ : self.vbarn * delta ≠ 1)
      (_ : 0 < 1 + 4 * self.Deltabar (realFns valid) tau delta * delta),
        HasDerivAt (fun y => self.d2X_dtau2 (realFns valid) tau y)
          (self.d3X_ddeltadtau2 (realFns valid) tau delta) delta) ∧
    -- `hasDerivAt_saft_d2X_ddelta2_tau`: The derivative of `d2X_ddelta2` in `tau` is
    -- `d3X_ddelta2dtau`.
    (∀ (valid : ℝ → Bool) (self : ResidualHelmholtzSAFTAssociating ℝ) (tau delta : ℝ)
      (_ : 0 < 1 + 4 * self.Deltabar (realFns valid) tau delta * delta),
        HasDerivAt (fun y => self.d2X_ddelta2 (realFns valid) y delta)
          (self.d3X_ddelta2dtau (realFns valid) tau delta) tau) ∧
    -- `hasDerivAt_saft_d2X_ddelta2_delta`: The derivative of `d2X_ddelta2` in `delta` is
    -- `d3X_ddelta3`.
    (∀ (valid : ℝ → Bool) (self : ResidualHelmholtzSAFTAssociating ℝ) (tau delta : ℝ)
      (_ : self.vbarn * delta ≠ 1)
      (_ : 0 < 1 + 4 * self.Deltabar (realFns valid) tau delta * delta),
        HasDerivAt (fun y => self.d2X_ddelta2 (realFns valid) tau y)
          (self.d3X_ddelta3 (realFns valid) tau delta) delta) ∧
    -- `saft_Deltabar_nonneg`: In the physical regime (`eta < 1`, `epsilonbar*tau ≥ 0`,
    -- `kappabar ≥ 0`) the association strength `Deltabar` is not negative.
    (∀ (valid : ℝ → Bool) (self : ResidualHelmholtzSAFTAssociating ℝ) (tau delta : ℝ)
      (_ : self.vbarn * delta < 1) (_ : 0 ≤ self.epsilonbar * tau) (_ : 0 ≤ self.kappabar),
        0 ≤ self.Deltabar (realFns valid) tau delta) ∧
    -- `saft_radicand_pos`: Where `Deltabar` is not negative and `delta` is positive, the square
    -- root in `X` has a positive argument.
    (∀ (valid : ℝ → Bool) (self : ResidualHelmholtzSAFTAssociating ℝ) (tau delta : ℝ)
      (_ : 0 < delta) (_ : 0 ≤ self.Deltabar (realFns valid) tau delta),
        0 < 1 + 4 * self.Deltabar (realFns valid) tau delta * delta) ∧
    -- `saftExample_eta_ne_one`
    ((saftExample : ResidualHelmholtzSAFTAssociating ℝ).vbarn * 1 ≠ 1) ∧
    -- `saftExample_radicand_pos`
    (0 < 1 + 4 * (saftExample : ResidualHelmholtzSAFTAssociating ℝ).Deltabar
        (realFns fun _ => true) 1 1 * 1) := by
  have hasDerivAt_saft_X_Deltabar := saft_calculus.2.2.2.2.2.2.2.2.2.1
  have hasDerivAt_saft_Deltabar_tau := saft_calculus.2.2.2.2.2.2.2.2.2.2.2.2.2.1
  have hasDerivAt_saft_Deltabar_delta := saft_calculus.2.2.2.2.2.2.2.2.2.2.2.2.2.2.1
  have saft_denominator_eq_sqrt := saft_calculus.2.2.2.2.2.2.1
  have realFns_sqrt := saft_calculus.2.2.2.2.2.2.2.2.2.2.2.2.2.2.2.2
  have saft_denominator_pos := saft_calculus.2.2.2.2.2.2.2.1
  have realFns_pow := saft_calculus.2.2.2.2.2.2.2.2.2.2.2.2.2.2.2.1
  have rpow_three_eq := nonanalytic_delta_calculus.1
  have rpow_four_eq := saft_calculus.2.1
  have hasDerivAt_rpow_two_comp := sq_rpow_rules.1
  have saft_g_forms := saft_calculus.2.2.2.2.1
  refine and_of_left ?_ fun hasDerivAt_saft_Xf_tau => ?_
  · intro valid self tau delta hpos
    exact
      (hasDerivAt_saft_X_Deltabar valid self delta _ hpos).comp tau
        (hasDerivAt_saft_Deltabar_tau valid self tau delta).1
  refine and_of_left ?_ fun hasDerivAt_saft_Xf_delta => ?_
  · intro valid self tau delta heta hpos
    have hD := (hasDerivAt_saft_Deltabar_delta valid self tau delta heta).1
    have hs : 0 < Real.sqrt (1 + 4 * self.Deltabar (realFns valid) tau delta * delta) :=
      Real.sqrt_pos.mpr hpos
    have hin := (((hD.const_mul 4).mul (hasDerivAt_id' delta)).const_add 1)
    have h1 := (hasDerivAt_const delta (2 : ℝ)).div ((hin.sqrt hpos.ne').add_const 1)
      (by positivity)
    refine (h1.congr_deriv ?_).congr_of_eventuallyEq (Filter.Eventually.of_forall fun y => rfl)
    simp only [ResidualHelmholtzSAFTAssociating.dX_ddelta,
      ResidualHelmholtzSAFTAssociating.dX_ddelta__constDeltabar,
      ResidualHelmholtzSAFTAssociating.dX_dDeltabar__constdelta]
    rw [saft_denominator_eq_sqrt valid self delta _ hpos]
    simp only [ResidualHelmholtzSAFTAssociating.X, realFns_sqrt]
    have h2 : Real.sqrt (1 + 4 * self.Deltabar (realFns valid) tau delta * delta) + 1 ≠ 0 := by
      positivity
    have h3 := hs.ne'
    revert h2 h3
    generalize ResidualHelmholtzSAFTAssociating.dDeltabar_ddelta__consttau _ self _ _ = Dd
    generalize Real.sqrt (1 + 4 * self.Deltabar (realFns valid) tau delta * delta) = s
    intro h2 h3
    field_simp
    ring
  refine and_of_left ?_ fun hasDerivAt_saft_dX_dtau_tau => ?_
  · intro valid self tau delta hpos
    have hq := saft_denominator_pos valid self delta (self.Deltabar (realFns valid) tau delta) hpos
    have hT := hasDerivAt_saft_Deltabar_tau valid self tau delta
    have hX := hasDerivAt_saft_Xf_tau valid self tau delta hpos
    have h_Deltabar := hT.1
    have h := (HasDerivAt.mul (HasDerivAt.div (HasDerivAt.mul (HasDerivAt.mul (hasDerivAt_const tau
      (-delta)) hX) hX) (HasDerivAt.add (HasDerivAt.mul (HasDerivAt.mul (HasDerivAt.mul
      (hasDerivAt_const tau (2 : ℝ)) h_Deltabar) (hasDerivAt_const tau delta)) hX) (hasDerivAt_const
      tau (1 : ℝ))) hq.ne') hT.2.1)
    refine (h.congr_deriv ?_).congr_of_eventuallyEq (Filter.Eventually.of_forall fun y => rfl)
    simp only [ResidualHelmholtzSAFTAssociating.d2X_dtau2,
      ResidualHelmholtzSAFTAssociating.dX_dDeltabar__constdelta,
      ResidualHelmholtzSAFTAssociating.dX_ddelta__constDeltabar,
      ResidualHelmholtzSAFTAssociating.dX_dtau, ResidualHelmholtzSAFTAssociating.dX_ddelta,
      realFns_pow, Real.rpow_two, rpow_three_eq, rpow_four_eq]
    have hq0 := hq.ne'
    revert hq0
    generalize ResidualHelmholtzSAFTAssociating.X _ self _ _ = x
    generalize ResidualHelmholtzSAFTAssociating.Deltabar _ self _ _ = D
    generalize ResidualHelmholtzSAFTAssociating.dDeltabar_dtau__constdelta _ self _ _ = Dt
    generalize ResidualHelmholtzSAFTAssociating.d2Deltabar_dtau2__constdelta _ self _ _ = Dtt
    intro hq0
    have hq1 : 2 * D * x * delta + 1 = 2 * D * delta * x + 1 := by ring
    have hqi := mul_inv_cancel₀ hq0
    simp only [hq1, div_eq_mul_inv, ← inv_pow]
    generalize (2 * D * delta * x + 1)⁻¹ = qi at hqi ⊢
    ring
  refine and_of_left ?_ fun hasDerivAt_saft_dX_ddelta_tau => ?_
  · intro valid self tau delta hpos
    have hq := saft_denominator_pos valid self delta (self.Deltabar (realFns valid) tau delta) hpos
    have hT := hasDerivAt_saft_Deltabar_tau valid self tau delta
    have hX := hasDerivAt_saft_Xf_tau valid self tau delta hpos
    have h_Deltabar := hT.1
    have h := (HasDerivAt.add (HasDerivAt.div (HasDerivAt.mul (HasDerivAt.mul (h_Deltabar).neg hX)
      hX) (HasDerivAt.add (HasDerivAt.mul (HasDerivAt.mul (HasDerivAt.mul (hasDerivAt_const tau (2 :
      ℝ)) h_Deltabar) (hasDerivAt_const tau delta)) hX) (hasDerivAt_const tau (1 : ℝ))) hq.ne')
      (HasDerivAt.mul (HasDerivAt.div (HasDerivAt.mul (HasDerivAt.mul (hasDerivAt_const tau
      (-delta)) hX) hX) (HasDerivAt.add (HasDerivAt.mul (HasDerivAt.mul (HasDerivAt.mul
      (hasDerivAt_const tau (2 : ℝ)) h_Deltabar) (hasDerivAt_const tau delta)) hX) (hasDerivAt_const
      tau (1 : ℝ))) hq.ne') hT.2.2.2.1))
    refine (h.congr_deriv ?_).congr_of_eventuallyEq (Filter.Eventually.of_forall fun y => rfl)
    simp only [ResidualHelmholtzSAFTAssociating.d2X_ddeltadtau,
      ResidualHelmholtzSAFTAssociating.dX_dDeltabar__constdelta,
      ResidualHelmholtzSAFTAssociating.dX_ddelta__constDeltabar,
      ResidualHelmholtzSAFTAssociating.dX_dtau, ResidualHelmholtzSAFTAssociating.dX_ddelta,
      realFns_pow, Real.rpow_two, rpow_three_eq, rpow_four_eq]
    have hq0 := hq.ne'
    revert hq0
    generalize ResidualHelmholtzSAFTAssociating.X _ self _ _ = x
    generalize ResidualHelmholtzSAFTAssociating.Deltabar _ self _ _ = D
    generalize ResidualHelmholtzSAFTAssociating.dDeltabar_dtau__constdelta _ self _ _ = Dt
    generalize ResidualHelmholtzSAFTAssociating.dDeltabar_ddelta__consttau _ self _ _ = Dd
    generalize ResidualHelmholtzSAFTAssociating.d2Deltabar_ddelta_dtau _ self _ _ = Ddt
    intro hq0
    have hq1 : 2 * D * x * delta + 1 = 2 * D * delta * x + 1 := by ring
    have hqi := mul_inv_cancel₀ hq0
    simp only [hq1, div_eq_mul_inv, ← inv_pow]
    generalize (2 * D * delta * x + 1)⁻¹ = qi at hqi ⊢
    ring
  refine and_of_left ?_ fun hasDerivAt_saft_dX_dtau_delta => ?_
  · intro valid self tau delta heta hpos
    have hq := saft_denominator_pos valid self delta (self.Deltabar (realFns valid) tau delta) hpos
    have hDl := hasDerivAt_saft_Deltabar_delta valid self tau delta heta
    have hX := hasDerivAt_saft_Xf_delta valid self tau delta heta hpos
    have h_Deltabar := hDl.1
    have h := (HasDerivAt.mul (HasDerivAt.div (HasDerivAt.mul (HasDerivAt.mul ((hasDerivAt_id'
      delta)).neg hX) hX) (HasDerivAt.add (HasDerivAt.mul (HasDerivAt.mul (HasDerivAt.mul
      (hasDerivAt_const delta (2 : ℝ)) h_Deltabar) (hasDerivAt_id' delta)) hX) (hasDerivAt_const
      delta (1 : ℝ))) hq.ne') hDl.2.2.2.1)
    refine (h.congr_deriv ?_).congr_of_eventuallyEq (Filter.Eventually.of_forall fun y => rfl)
    simp only [ResidualHelmholtzSAFTAssociating.d2X_ddeltadtau,
      ResidualHelmholtzSAFTAssociating.dX_dDeltabar__constdelta,
      ResidualHelmholtzSAFTAssociating.dX_ddelta__constDeltabar,
      ResidualHelmholtzSAFTAssociating.dX_dtau, ResidualHelmholtzSAFTAssociating.dX_ddelta,
      realFns_pow, Real.rpow_two, rpow_three_eq, rpow_four_eq]
    have hq0 := hq.ne'
    revert hq0
    generalize ResidualHelmholtzSAFTAssociating.X _ self _ _ = x
    generalize ResidualHelmholtzSAFTAssociating.Deltabar _ self _ _ = D
    generalize ResidualHelmholtzSAFTAssociating.dDeltabar_dtau__constdelta _ self _ _ = Dt
    generalize ResidualHelmholtzSAFTAssociating.dDeltabar_ddelta__consttau _ self _ _ = Dd
    generalize ResidualHelmholtzSAFTAssociating.d2Deltabar_ddelta_dtau _ self _ _ = Ddt
    intro hq0
    have hq1 : 2 * D * x * delta + 1 = 2 * D * delta * x + 1 := by ring
    have hqi := mul_inv_cancel₀ hq0
    simp only [hq1, div_eq_mul_inv, ← inv_pow]
    generalize (2 * D * delta * x + 1)⁻¹ = qi at hqi ⊢
    ring
  refine and_of_left ?_ fun hasDerivAt_saft_dX_ddelta_delta => ?_
  · intro valid self tau delta heta hpos
    have hq := saft_denominator_pos valid self delta (self.Deltabar (realFns valid) tau delta) hpos
    have hDl := hasDerivAt_saft_Deltabar_delta valid self tau delta heta
    have hX := hasDerivAt_saft_Xf_delta valid self tau delta heta hpos
    have h_Deltabar := hDl.1
    have h := (HasDerivAt.add (HasDerivAt.div (HasDerivAt.mul (HasDerivAt.mul (h_Deltabar).neg hX)
      hX) (HasDerivAt.add (HasDerivAt.mul (HasDerivAt.mul (HasDerivAt.mul (hasDerivAt_const delta (2
      : ℝ)) h_Deltabar) (hasDerivAt_id' delta)) hX) (hasDerivAt_const delta (1 : ℝ))) hq.ne')
      (HasDerivAt.mul (HasDerivAt.div (HasDerivAt.mul (HasDerivAt.mul ((hasDerivAt_id' delta)).neg
      hX) hX) (HasDerivAt.add (HasDerivAt.mul (HasDerivAt.mul (HasDerivAt.mul (hasDerivAt_const
      delta (2 : ℝ)) h_Deltabar) (hasDerivAt_id' delta)) hX) (hasDerivAt_const delta (1 : ℝ)))
      hq.ne') hDl.2.1))
    refine (h.congr_deriv ?_).congr_of_eventuallyEq (Filter.Eventually.of_forall fun y => rfl)
    simp only [ResidualHelmholtzSAFTAssociating.d2X_ddelta2,
      ResidualHelmholtzSAFTAssociating.dX_dDeltabar__constdelta,
      ResidualHelmholtzSAFTAssociating.dX_ddelta__constDeltabar,
      ResidualHelmholtzSAFTAssociating.dX_dtau, ResidualHelmholtzSAFTAssociating.dX_ddelta,
      realFns_pow, Real.rpow_two, rpow_three_eq, rpow_four_eq]
    have hq0 := hq.ne'
    revert hq0
    generalize ResidualHelmholtzSAFTAssociating.X _ self _ _ = x
    generalize ResidualHelmholtzSAFTAssociating.Deltabar _ self _ _ = D
    generalize ResidualHelmholtzSAFTAssociating.dDeltabar_ddelta__consttau _ self _ _ = Dd
    generalize ResidualHelmholtzSAFTAssociating.d2Deltabar_ddelta2__consttau _ self _ _ = Ddd
    intro hq0
    have hq1 : 2 * D * x * delta + 1 = 2 * D * delta * x + 1 := by ring
    have hqi := mul_inv_cancel₀ hq0
    simp only [hq1, div_eq_mul_inv, ← inv_pow]
    generalize (2 * D * delta * x + 1)⁻¹ = qi at hqi ⊢
    ring
  refine and_of_left ?_ fun hasDerivAt_saft_d2X_dtau2_tau => ?_
  · intro valid self tau delta hpos
    have hq := saft_denominator_pos valid self delta (self.Deltabar (realFns valid) tau delta) hpos
    have hT := hasDerivAt_saft_Deltabar_tau valid self tau delta
    have hX := hasDerivAt_saft_Xf_tau valid self tau delta hpos
    have h_Deltabar := hT.1
    have h_X := hX
    have h_beta := hT.2.1
    have h_d_dXdtau_dbeta := (HasDerivAt.div (HasDerivAt.mul (HasDerivAt.mul (hasDerivAt_const tau
      (-delta)) h_X) h_X) (HasDerivAt.add (HasDerivAt.mul (HasDerivAt.mul (HasDerivAt.mul
      (hasDerivAt_const tau (2 : ℝ)) h_Deltabar) (hasDerivAt_const tau delta)) h_X)
      (hasDerivAt_const tau (1 : ℝ))) hq.ne')
    have h_d_dXdtau_dDeltabar := (HasDerivAt.mul (HasDerivAt.div (HasDerivAt.mul (HasDerivAt.mul
      (HasDerivAt.mul (hasDerivAt_const tau (((2 : ℝ) * delta) * delta)) h_X) h_X) h_X)
      (hasDerivAt_rpow_two_comp _ _ _ (HasDerivAt.add (HasDerivAt.mul (HasDerivAt.mul
      (HasDerivAt.mul (hasDerivAt_const tau (2 : ℝ)) h_Deltabar) (hasDerivAt_const tau delta)) h_X)
      (hasDerivAt_const tau (1 : ℝ)))) (Real.rpow_pos_of_pos hq _).ne') h_beta)
    have h_d_dXdtau_dX := (HasDerivAt.div (HasDerivAt.mul (HasDerivAt.mul (HasDerivAt.mul
      (HasDerivAt.mul (hasDerivAt_const tau (-(2 : ℝ))) h_beta) (hasDerivAt_const tau delta)) h_X)
      (HasDerivAt.add (HasDerivAt.mul (HasDerivAt.mul h_Deltabar (hasDerivAt_const tau delta)) h_X)
      (hasDerivAt_const tau (1 : ℝ)))) (hasDerivAt_rpow_two_comp _ _ _ (HasDerivAt.add
      (HasDerivAt.mul (HasDerivAt.mul (HasDerivAt.mul (hasDerivAt_const tau (2 : ℝ)) h_Deltabar)
      (hasDerivAt_const tau delta)) h_X) (hasDerivAt_const tau (1 : ℝ)))) (Real.rpow_pos_of_pos hq
      _).ne')
    have h_dbeta_dtau := hT.2.2.1
    have h_dX_dDeltabar := (HasDerivAt.div (HasDerivAt.mul (HasDerivAt.mul (hasDerivAt_const tau
      (-delta)) h_X) h_X) (HasDerivAt.add (HasDerivAt.mul (HasDerivAt.mul (HasDerivAt.mul
      (hasDerivAt_const tau (2 : ℝ)) h_Deltabar) (hasDerivAt_const tau delta)) h_X)
      (hasDerivAt_const tau (1 : ℝ))) hq.ne')
    have h := (HasDerivAt.add (HasDerivAt.add (HasDerivAt.mul (HasDerivAt.mul h_d_dXdtau_dX
      h_dX_dDeltabar) h_beta) (HasDerivAt.mul h_d_dXdtau_dDeltabar h_beta)) (HasDerivAt.mul
      h_d_dXdtau_dbeta h_dbeta_dtau))
    refine (h.congr_deriv ?_).congr_of_eventuallyEq (Filter.Eventually.of_forall fun y => rfl)
    simp only [ResidualHelmholtzSAFTAssociating.d3X_dtau3,
      ResidualHelmholtzSAFTAssociating.dX_dDeltabar__constdelta,
      ResidualHelmholtzSAFTAssociating.dX_ddelta__constDeltabar,
      ResidualHelmholtzSAFTAssociating.dX_dtau, ResidualHelmholtzSAFTAssociating.dX_ddelta,
      realFns_pow, Real.rpow_two, rpow_three_eq, rpow_four_eq]
    have hq0 := hq.ne'
    revert hq0
    generalize ResidualHelmholtzSAFTAssociating.X _ self _ _ = x
    generalize ResidualHelmholtzSAFTAssociating.Deltabar _ self _ _ = D
    generalize ResidualHelmholtzSAFTAssociating.dDeltabar_dtau__constdelta _ self _ _ = Dt
    generalize ResidualHelmholtzSAFTAssociating.d2Deltabar_dtau2__constdelta _ self _ _ = Dtt
    generalize ResidualHelmholtzSAFTAssociating.d3Deltabar_dtau3__constdelta _ self _ _ = Dttt
    intro hq0
    have hq1 : 2 * D * x * delta + 1 = 2 * D * delta * x + 1 := by ring
    have hqi := mul_inv_cancel₀ hq0
    simp only [hq1, div_eq_mul_inv, ← inv_pow]
    generalize (2 * D * delta * x + 1)⁻¹ = qi at hqi ⊢
    linear_combination
      ((-6 * delta ^ 2 * x ^ 3 * Dt * Dtt) * qi ^ 2
        + (-4 * delta ^ 3 * x ^ 4 * D * Dt * Dtt - 2 * delta ^ 2 * x ^ 3 * Dt * Dtt) * qi ^ 3
        + (-4 * delta ^ 4 * x ^ 5 * D * Dt ^ 3 - 6 * delta ^ 3 * x ^ 4 * Dt ^ 3) * qi ^ 4
        + (-2 * delta ^ 3 * x ^ 4 * Dt ^ 3) * qi ^ 5) * hqi
  refine and_of_left ?_ fun hasDerivAt_saft_d2X_dtau2_delta => ?_
  · intro valid self tau delta heta hpos
    have hq := saft_denominator_pos valid self delta (self.Deltabar (realFns valid) tau delta) hpos
    have hDl := hasDerivAt_saft_Deltabar_delta valid self tau delta heta
    have hX := hasDerivAt_saft_Xf_delta valid self tau delta heta hpos
    have h_Deltabar := hDl.1
    have h_X := hX
    have h_beta := hDl.2.2.2.1
    have h_d_dXdtau_dbeta := (HasDerivAt.div (HasDerivAt.mul (HasDerivAt.mul ((hasDerivAt_id'
      delta)).neg h_X) h_X) (HasDerivAt.add (HasDerivAt.mul (HasDerivAt.mul (HasDerivAt.mul
      (hasDerivAt_const delta (2 : ℝ)) h_Deltabar) (hasDerivAt_id' delta)) h_X) (hasDerivAt_const
      delta (1 : ℝ))) hq.ne')
    have h_d_dXdtau_dDeltabar := (HasDerivAt.mul (HasDerivAt.div (HasDerivAt.mul (HasDerivAt.mul
      (HasDerivAt.mul (HasDerivAt.mul (HasDerivAt.mul (hasDerivAt_const delta (2 : ℝ))
      (hasDerivAt_id' delta)) (hasDerivAt_id' delta)) h_X) h_X) h_X) (hasDerivAt_rpow_two_comp _ _ _
      (HasDerivAt.add (HasDerivAt.mul (HasDerivAt.mul (HasDerivAt.mul (hasDerivAt_const delta (2 :
      ℝ)) h_Deltabar) (hasDerivAt_id' delta)) h_X) (hasDerivAt_const delta (1 : ℝ))))
      (Real.rpow_pos_of_pos hq _).ne') h_beta)
    have h_d_dXdtau_dX := (HasDerivAt.div (HasDerivAt.mul (HasDerivAt.mul (HasDerivAt.mul
      (HasDerivAt.mul (hasDerivAt_const delta (-(2 : ℝ))) h_beta) (hasDerivAt_id' delta)) h_X)
      (HasDerivAt.add (HasDerivAt.mul (HasDerivAt.mul h_Deltabar (hasDerivAt_id' delta)) h_X)
      (hasDerivAt_const delta (1 : ℝ)))) (hasDerivAt_rpow_two_comp _ _ _ (HasDerivAt.add
      (HasDerivAt.mul (HasDerivAt.mul (HasDerivAt.mul (hasDerivAt_const delta (2 : ℝ)) h_Deltabar)
      (hasDerivAt_id' delta)) h_X) (hasDerivAt_const delta (1 : ℝ)))) (Real.rpow_pos_of_pos hq
      _).ne')
    have h_dbeta_dtau := hDl.2.2.2.2.1
    have h_dX_dDeltabar := (HasDerivAt.div (HasDerivAt.mul (HasDerivAt.mul ((hasDerivAt_id'
      delta)).neg h_X) h_X) (HasDerivAt.add (HasDerivAt.mul (HasDerivAt.mul (HasDerivAt.mul
      (hasDerivAt_const delta (2 : ℝ)) h_Deltabar) (hasDerivAt_id' delta)) h_X) (hasDerivAt_const
      delta (1 : ℝ))) hq.ne')
    have h := (HasDerivAt.add (HasDerivAt.add (HasDerivAt.mul (HasDerivAt.mul h_d_dXdtau_dX
      h_dX_dDeltabar) h_beta) (HasDerivAt.mul h_d_dXdtau_dDeltabar h_beta)) (HasDerivAt.mul
      h_d_dXdtau_dbeta h_dbeta_dtau))
    refine (h.congr_deriv ?_).congr_of_eventuallyEq (Filter.Eventually.of_forall fun y => rfl)
    simp only [ResidualHelmholtzSAFTAssociating.d3X_ddeltadtau2,
      ResidualHelmholtzSAFTAssociating.dX_dDeltabar__constdelta,
      ResidualHelmholtzSAFTAssociating.dX_ddelta__constDeltabar,
      ResidualHelmholtzSAFTAssociating.dX_dtau, ResidualHelmholtzSAFTAssociating.dX_ddelta,
      realFns_pow, Real.rpow_two, rpow_three_eq, rpow_four_eq]
    have hq0 := hq.ne'
    revert hq0
    generalize ResidualHelmholtzSAFTAssociating.X _ self _ _ = x
    generalize ResidualHelmholtzSAFTAssociating.Deltabar _ self _ _ = D
    generalize ResidualHelmholtzSAFTAssociating.dDeltabar_dtau__constdelta _ self _ _ = Dt
    generalize ResidualHelmholtzSAFTAssociating.dDeltabar_ddelta__consttau _ self _ _ = Dd
    generalize ResidualHelmholtzSAFTAssociating.d2Deltabar_dtau2__constdelta _ self _ _ = Dtt
    generalize ResidualHelmholtzSAFTAssociating.d2Deltabar_ddelta_dtau _ self _ _ = Ddt
    generalize ResidualHelmholtzSAFTAssociating.d3Deltabar_ddelta_dtau2 _ self _ _ = Ddtt
    intro hq0
    have hq1 : 2 * D * x * delta + 1 = 2 * D * delta * x + 1 := by ring
    have hqi := mul_inv_cancel₀ hq0
    simp only [hq1, div_eq_mul_inv, ← inv_pow]
    generalize (2 * D * delta * x + 1)⁻¹ = qi at hqi ⊢
    linear_combination
      ((-2 * delta ^ 2 * x ^ 3 * Dd * Dtt - 4 * delta ^ 2 * x ^ 3 * Dt * Ddt + x ^ 2 * Dtt) * qi ^
          2
        + (-6 * delta ^ 3 * x ^ 4 * D * Dd * Dtt + 2 * delta ^ 3 * x ^ 4 * D * Dt * Ddt - 2 * delta ^
          2 * x ^ 4 * D ^ 2 * Dtt - 4 * delta ^ 2 * x ^ 3 * Dd * Dtt + 2 * delta ^ 2 * x ^ 3 *
          Dt * Ddt + x ^ 2 * Dtt) * qi ^ 3
        + (-4 * delta ^ 4 * x ^ 5 * D * Dt ^ 2 * Dd - 6 * delta ^ 3 * x ^ 4 * D * Dd * Dtt + 6 * delta
          ^ 3 * x ^ 4 * D * Dt * Ddt - 2 * delta * x ^ 3 * D * Dtt - 4 * delta ^ 4 * x ^ 5 * D
          ^ 2 * Dd * Dtt + 4 * delta ^ 4 * x ^ 5 * D ^ 2 * Dt * Ddt - 6 * delta ^ 2 * x ^ 4 *
          D ^ 2 * Dtt - 4 * delta ^ 3 * x ^ 5 * D ^ 3 * Dtt - 6 * delta ^ 3 * x ^ 4 * Dt ^ 2 *
          Dd - 2 * delta ^ 2 * x ^ 3 * Dd * Dtt + 2 * delta ^ 2 * x ^ 3 * Dt * Ddt + 2 * delta
          * x ^ 3 * Dt ^ 2) * qi ^ 4
        + (-2 * delta ^ 2 * x ^ 4 * D * Dt ^ 2 - 2 * delta ^ 3 * x ^ 4 * Dt ^ 2 * Dd) * qi ^ 5) * hqi
  refine and_of_left ?_ fun hasDerivAt_saft_d2X_ddelta2_tau => ?_
  · intro valid self tau delta hpos
    have hq := saft_denominator_pos valid self delta (self.Deltabar (realFns valid) tau delta) hpos
    have hT := hasDerivAt_saft_Deltabar_tau valid self tau delta
    have hX := hasDerivAt_saft_Xf_tau valid self tau delta hpos
    have h_Deltabar := hT.1
    have h_X := hX
    have h_alpha := hT.2.2.2.1
    have h_dalpha_ddelta := hT.2.2.2.2.2
    have h_dX_ddelta_constall := (HasDerivAt.div (HasDerivAt.mul (HasDerivAt.mul h_X h_X)
      (HasDerivAt.sub (HasDerivAt.mul (HasDerivAt.mul (HasDerivAt.mul (hasDerivAt_const tau (2 : ℝ))
      h_Deltabar) h_Deltabar) h_X) h_alpha)) (hasDerivAt_rpow_two_comp _ _ _ (HasDerivAt.add
      (HasDerivAt.mul (HasDerivAt.mul (HasDerivAt.mul (hasDerivAt_const tau (2 : ℝ)) h_Deltabar)
      (hasDerivAt_const tau delta)) h_X) (hasDerivAt_const tau (1 : ℝ)))) (Real.rpow_pos_of_pos hq
      _).ne')
    have h_d_dXddelta_dX := (HasDerivAt.div (HasDerivAt.mul (HasDerivAt.mul ((HasDerivAt.add
      h_Deltabar (HasDerivAt.mul (hasDerivAt_const tau delta) h_alpha))).neg (hasDerivAt_const tau
      (2 : ℝ))) (HasDerivAt.add (HasDerivAt.mul (HasDerivAt.mul (HasDerivAt.mul h_Deltabar
      (hasDerivAt_const tau delta)) h_X) h_X) h_X)) (hasDerivAt_rpow_two_comp _ _ _ (HasDerivAt.add
      (HasDerivAt.mul (HasDerivAt.mul (HasDerivAt.mul (hasDerivAt_const tau (2 : ℝ)) h_Deltabar)
      (hasDerivAt_const tau delta)) h_X) (hasDerivAt_const tau (1 : ℝ)))) (Real.rpow_pos_of_pos hq
      _).ne')
    have h_d_dXddelta_dDeltabar := (HasDerivAt.div (HasDerivAt.mul (HasDerivAt.mul h_X h_X)
      (HasDerivAt.sub (HasDerivAt.mul (HasDerivAt.mul (hasDerivAt_const tau (((2 : ℝ) * delta) *
      delta)) h_X) h_alpha) (hasDerivAt_const tau (1 : ℝ)))) (hasDerivAt_rpow_two_comp _ _ _
      (HasDerivAt.add (HasDerivAt.mul (HasDerivAt.mul (HasDerivAt.mul (hasDerivAt_const tau (2 : ℝ))
      h_Deltabar) (hasDerivAt_const tau delta)) h_X) (hasDerivAt_const tau (1 : ℝ))))
      (Real.rpow_pos_of_pos hq _).ne')
    have h_d_dXddelta_dalpha := (HasDerivAt.div (HasDerivAt.mul (HasDerivAt.mul (hasDerivAt_const
      tau (-delta)) h_X) h_X) (HasDerivAt.add (HasDerivAt.mul (HasDerivAt.mul (HasDerivAt.mul
      (hasDerivAt_const tau (2 : ℝ)) h_Deltabar) (hasDerivAt_const tau delta)) h_X)
      (hasDerivAt_const tau (1 : ℝ))) hq.ne')
    have h_dX_dDeltabar := (HasDerivAt.div (HasDerivAt.mul (HasDerivAt.mul (hasDerivAt_const tau
      (-delta)) h_X) h_X) (HasDerivAt.add (HasDerivAt.mul (HasDerivAt.mul (HasDerivAt.mul
      (hasDerivAt_const tau (2 : ℝ)) h_Deltabar) (hasDerivAt_const tau delta)) h_X)
      (hasDerivAt_const tau (1 : ℝ))) hq.ne')
    have h_dX_ddelta := (HasDerivAt.div (HasDerivAt.mul (HasDerivAt.mul (h_Deltabar).neg h_X) h_X)
      (HasDerivAt.add (HasDerivAt.mul (HasDerivAt.mul (HasDerivAt.mul (hasDerivAt_const tau (2 : ℝ))
      h_Deltabar) (hasDerivAt_const tau delta)) h_X) (hasDerivAt_const tau (1 : ℝ))) hq.ne')
    have h_val := (HasDerivAt.add (HasDerivAt.add (HasDerivAt.add (HasDerivAt.add
      h_dX_ddelta_constall (HasDerivAt.mul h_d_dXddelta_dX h_dX_ddelta)) (HasDerivAt.mul
      (HasDerivAt.mul h_d_dXddelta_dX h_dX_dDeltabar) h_alpha)) (HasDerivAt.mul
      h_d_dXddelta_dDeltabar h_alpha)) (HasDerivAt.mul h_d_dXddelta_dalpha h_dalpha_ddelta))
    have h := h_val
    refine (h.congr_deriv ?_).congr_of_eventuallyEq (Filter.Eventually.of_forall fun y => rfl)
    simp only [ResidualHelmholtzSAFTAssociating.d3X_ddelta2dtau,
      ResidualHelmholtzSAFTAssociating.dX_dDeltabar__constdelta,
      ResidualHelmholtzSAFTAssociating.dX_ddelta__constDeltabar,
      ResidualHelmholtzSAFTAssociating.dX_dtau, ResidualHelmholtzSAFTAssociating.dX_ddelta,
      realFns_pow, Real.rpow_two, rpow_three_eq, rpow_four_eq]
    have hq0 := hq.ne'
    revert hq0
    generalize ResidualHelmholtzSAFTAssociating.X _ self _ _ = x
    generalize ResidualHelmholtzSAFTAssociating.Deltabar _ self _ _ = D
    generalize ResidualHelmholtzSAFTAssociating.dDeltabar_dtau__constdelta _ self _ _ = Dt
    generalize ResidualHelmholtzSAFTAssociating.dDeltabar_ddelta__consttau _ self _ _ = Dd
    generalize ResidualHelmholtzSAFTAssociating.d2Deltabar_ddelta_dtau _ self _ _ = Ddt
    generalize ResidualHelmholtzSAFTAssociating.d2Deltabar_ddelta2__consttau _ self _ _ = Ddd
    generalize ResidualHelmholtzSAFTAssociating.d3Deltabar_ddelta2_dtau _ self _ _ = Dddt
    intro hq0
    have hq1 : 2 * D * x * delta + 1 = 2 * D * delta * x + 1 := by ring
    have hq2 : 16 * D ^ 4 * x ^ 4 * delta ^ 4 + 32 * D ^ 3 * x ^ 3 * delta ^ 3
        + 24 * D ^ 2 * x ^ 2 * delta ^ 2 + 8 * D * x * delta + 1 = (2 * D * delta * x + 1) ^ 4 := by ring
    have hqi := mul_inv_cancel₀ hq0
    simp only [hq2, hq1, div_eq_mul_inv, ← inv_pow]
    generalize (2 * D * delta * x + 1)⁻¹ = qi at hqi ⊢
    linear_combination
      ((-2 * delta ^ 2 * x ^ 3 * Dd * Ddt - 2 * delta ^ 2 * x ^ 3 * Dt * Ddd + x ^ 2 * Ddt) * qi ^
          2
        + (6 * delta ^ 3 * x ^ 4 * D * Dd * Ddt - 6 * delta ^ 3 * x ^ 4 * D * Dt * Ddd + 2 * delta ^ 2
          * x ^ 4 * D ^ 2 * Ddt + 4 * delta ^ 2 * x ^ 3 * Dd * Ddt - 4 * delta ^ 2 * x ^ 3 *
          Dt * Ddd - x ^ 2 * Ddt) * qi ^ 3
        + (6 * delta ^ 3 * x ^ 4 * D * Dd * Ddt - 6 * delta ^ 2 * x ^ 4 * D * Dt * Dd - 4 * delta ^ 4
          * x ^ 5 * D * Dt * Dd ^ 2 - 6 * delta ^ 3 * x ^ 4 * D * Dt * Ddd + 2 * delta * x ^ 3
          * D * Ddt + 2 * x ^ 3 * D * Dt + 4 * delta ^ 4 * x ^ 5 * D ^ 2 * Dd * Ddt - 4 *
          delta ^ 3 * x ^ 5 * D ^ 2 * Dt * Dd - 4 * delta ^ 4 * x ^ 5 * D ^ 2 * Dt * Ddd + 6 *
          delta ^ 2 * x ^ 4 * D ^ 2 * Ddt + 4 * delta ^ 3 * x ^ 5 * D ^ 3 * Ddt + 2 * delta ^
          2 * x ^ 3 * Dd * Ddt + 2 * delta * x ^ 3 * Dt * Dd - 6 * delta ^ 3 * x ^ 4 * Dt * Dd
          ^ 2 - 2 * delta ^ 2 * x ^ 3 * Dt * Ddd) * qi ^ 4
        + (-4 * delta ^ 2 * x ^ 4 * D * Dt * Dd - 2 * delta * x ^ 4 * D ^ 2 * Dt - 2 * delta ^ 3 * x ^
          4 * Dt * Dd ^ 2) * qi ^ 5) * hqi
  refine and_of_left ?_ fun hasDerivAt_saft_d2X_ddelta2_delta => ?_
  · intro valid self tau delta heta hpos
    have hq := saft_denominator_pos valid self delta (self.Deltabar (realFns valid) tau delta) hpos
    have hDl := hasDerivAt_saft_Deltabar_delta valid self tau delta heta
    have hX := hasDerivAt_saft_Xf_delta valid self tau delta heta hpos
    have h_Deltabar := hDl.1
    have h_X := hX
    have h_alpha := hDl.2.1
    have h_dalpha_ddelta := hDl.2.2.1
    have h_dX_ddelta_constall := (HasDerivAt.div (HasDerivAt.mul (HasDerivAt.mul h_X h_X)
      (HasDerivAt.sub (HasDerivAt.mul (HasDerivAt.mul (HasDerivAt.mul (hasDerivAt_const delta (2 :
      ℝ)) h_Deltabar) h_Deltabar) h_X) h_alpha)) (hasDerivAt_rpow_two_comp _ _ _ (HasDerivAt.add
      (HasDerivAt.mul (HasDerivAt.mul (HasDerivAt.mul (hasDerivAt_const delta (2 : ℝ)) h_Deltabar)
      (hasDerivAt_id' delta)) h_X) (hasDerivAt_const delta (1 : ℝ)))) (Real.rpow_pos_of_pos hq
      _).ne')
    have h_d_dXddelta_dX := (HasDerivAt.div (HasDerivAt.mul (HasDerivAt.mul ((HasDerivAt.add
      h_Deltabar (HasDerivAt.mul (hasDerivAt_id' delta) h_alpha))).neg (hasDerivAt_const delta (2 :
      ℝ))) (HasDerivAt.add (HasDerivAt.mul (HasDerivAt.mul (HasDerivAt.mul h_Deltabar
      (hasDerivAt_id' delta)) h_X) h_X) h_X)) (hasDerivAt_rpow_two_comp _ _ _ (HasDerivAt.add
      (HasDerivAt.mul (HasDerivAt.mul (HasDerivAt.mul (hasDerivAt_const delta (2 : ℝ)) h_Deltabar)
      (hasDerivAt_id' delta)) h_X) (hasDerivAt_const delta (1 : ℝ)))) (Real.rpow_pos_of_pos hq
      _).ne')
    have h_d_dXddelta_dDeltabar := (HasDerivAt.div (HasDerivAt.mul (HasDerivAt.mul h_X h_X)
      (HasDerivAt.sub (HasDerivAt.mul (HasDerivAt.mul (HasDerivAt.mul (HasDerivAt.mul
      (hasDerivAt_const delta (2 : ℝ)) (hasDerivAt_id' delta)) (hasDerivAt_id' delta)) h_X) h_alpha)
      (hasDerivAt_const delta (1 : ℝ)))) (hasDerivAt_rpow_two_comp _ _ _ (HasDerivAt.add
      (HasDerivAt.mul (HasDerivAt.mul (HasDerivAt.mul (hasDerivAt_const delta (2 : ℝ)) h_Deltabar)
      (hasDerivAt_id' delta)) h_X) (hasDerivAt_const delta (1 : ℝ)))) (Real.rpow_pos_of_pos hq
      _).ne')
    have h_d_dXddelta_dalpha := (HasDerivAt.div (HasDerivAt.mul (HasDerivAt.mul ((hasDerivAt_id'
      delta)).neg h_X) h_X) (HasDerivAt.add (HasDerivAt.mul (HasDerivAt.mul (HasDerivAt.mul
      (hasDerivAt_const delta (2 : ℝ)) h_Deltabar) (hasDerivAt_id' delta)) h_X) (hasDerivAt_const
      delta (1 : ℝ))) hq.ne')
    have h_dX_dDeltabar := (HasDerivAt.div (HasDerivAt.mul (HasDerivAt.mul ((hasDerivAt_id'
      delta)).neg h_X) h_X) (HasDerivAt.add (HasDerivAt.mul (HasDerivAt.mul (HasDerivAt.mul
      (hasDerivAt_const delta (2 : ℝ)) h_Deltabar) (hasDerivAt_id' delta)) h_X) (hasDerivAt_const
      delta (1 : ℝ))) hq.ne')
    have h_dX_ddelta := (HasDerivAt.div (HasDerivAt.mul (HasDerivAt.mul (h_Deltabar).neg h_X) h_X)
      (HasDerivAt.add (HasDerivAt.mul (HasDerivAt.mul (HasDerivAt.mul (hasDerivAt_const delta (2 :
      ℝ)) h_Deltabar) (hasDerivAt_id' delta)) h_X) (hasDerivAt_const delta (1 : ℝ))) hq.ne')
    have h_val := (HasDerivAt.add (HasDerivAt.add (HasDerivAt.add (HasDerivAt.add
      h_dX_ddelta_constall (HasDerivAt.mul h_d_dXddelta_dX h_dX_ddelta)) (HasDerivAt.mul
      (HasDerivAt.mul h_d_dXddelta_dX h_dX_dDeltabar) h_alpha)) (HasDerivAt.mul
      h_d_dXddelta_dDeltabar h_alpha)) (HasDerivAt.mul h_d_dXddelta_dalpha h_dalpha_ddelta))
    have h := h_val
    refine (h.congr_deriv ?_).congr_of_eventuallyEq (Filter.Eventually.of_forall fun y => rfl)
    simp only [ResidualHelmholtzSAFTAssociating.d3X_ddelta3,
      ResidualHelmholtzSAFTAssociating.dX_dDeltabar__constdelta,
      ResidualHelmholtzSAFTAssociating.dX_ddelta__constDeltabar,
      ResidualHelmholtzSAFTAssociating.dX_dtau, ResidualHelmholtzSAFTAssociating.dX_ddelta,
      realFns_pow, Real.rpow_two, rpow_three_eq, rpow_four_eq]
    have hq0 := hq.ne'
    revert hq0
    generalize ResidualHelmholtzSAFTAssociating.X _ self _ _ = x
    generalize ResidualHelmholtzSAFTAssociating.Deltabar _ self _ _ = D
    generalize ResidualHelmholtzSAFTAssociating.dDeltabar_ddelta__consttau _ self _ _ = Dd
    generalize ResidualHelmholtzSAFTAssociating.d2Deltabar_ddelta2__consttau _ self _ _ = Ddd
    generalize ResidualHelmholtzSAFTAssociating.d3Deltabar_ddelta3__consttau _ self _ _ = Dddd
    intro hq0
    have hq1 : 2 * D * x * delta + 1 = 2 * D * delta * x + 1 := by ring
    have hq2 : 16 * D ^ 4 * x ^ 4 * delta ^ 4 + 32 * D ^ 3 * x ^ 3 * delta ^ 3
        + 24 * D ^ 2 * x ^ 2 * delta ^ 2 + 8 * D * x * delta + 1 = (2 * D * delta * x + 1) ^ 4 := by ring
    have hqi := mul_inv_cancel₀ hq0
    simp only [hq2, hq1, div_eq_mul_inv, ← inv_pow]
    generalize (2 * D * delta * x + 1)⁻¹ = qi at hqi ⊢
    linear_combination
      ((-4 * delta ^ 2 * x ^ 3 * Dd * Ddd + 2 * x ^ 2 * Ddd) * qi ^ 2
        + (4 * x ^ 3 * D * Dd - 6 * delta ^ 2 * x ^ 4 * D * Dd ^ 2 - 4 * delta ^ 4 * x ^ 5 * D * Dd ^
          3 - 6 * delta * x ^ 4 * D ^ 2 * Dd - 4 * delta ^ 3 * x ^ 5 * D ^ 2 * Dd ^ 2 - 4 *
          delta ^ 2 * x ^ 5 * D ^ 3 * Dd - 6 * x ^ 4 * D ^ 3 - 4 * delta * x ^ 5 * D ^ 4 + 4 *
          delta * x ^ 3 * Dd ^ 2 - 6 * delta ^ 3 * x ^ 4 * Dd ^ 3) * qi ^ 4
        + (-6 * delta ^ 2 * x ^ 4 * D * Dd ^ 2 - 6 * delta * x ^ 4 * D ^ 2 * Dd - 2 * x ^ 4 * D ^ 3 -
          2 * delta ^ 3 * x ^ 4 * Dd ^ 3) * qi ^ 5) * hqi
  refine and_of_left ?_ fun saft_Deltabar_nonneg => ?_
  · intro valid self tau delta h1 h2 h3
    have hg := (saft_g_forms valid self (self.eta (realFns valid) delta)).1
    have he : 0 ≤ Real.exp (self.epsilonbar * tau) - 1 := by
      have := Real.add_one_le_exp (self.epsilonbar * tau)
      linarith
    have hη : self.eta (realFns valid) delta < 1 := h1
    have hg0 : 0 ≤ self.g (realFns valid) (self.eta (realFns valid) delta) := by
      rw [hg]
      exact div_nonneg (mul_nonneg (by norm_num) (by linarith)) (pow_nonneg (by linarith) 3)
    exact mul_nonneg (mul_nonneg hg0 he) h3
  refine and_of_left ?_ fun saft_radicand_pos => ?_
  · intro valid self tau delta hdelta h
    positivity
  refine and_of_left ?_ fun saftExample_eta_ne_one => ?_
  · norm_num [saftExample]
  exact
    saft_radicand_pos _ _ 1 1 one_pos
      (saft_Deltabar_nonneg _ _ 1 1 (by norm_num [saftExample]) (by norm_num [saftExample])
        (by norm_num [saftExample]))

/-- Claim C21: `X(delta, Deltabar)` is `2/(sqrt(1 + 4*Deltabar*delta) + 1)`, and where
`1 + 4*Deltabar*delta > 0` the two functions `dX_dDeltabar__constdelta` and
`dX_ddelta__constDeltabar`, of values `-delta*X^2/(2*Deltabar*delta*X + 1)` and
`-Deltabar*X^2/(2*Deltabar*delta*X + 1)`, are the partial derivatives of `X` with respect
to `Deltabar` and to `delta`. -/
theorem saft_X_partial_derivatives (valid : ℝ → Bool)
    (self : ResidualHelmholtzSAFTAssociating ℝ) (delta Deltabar : ℝ)
    (h : 0 < 1 + 4 * Deltabar * delta) :
    self.X (realFns valid) delta Deltabar = 2 / (Real.sqrt (1 + 4 * Deltabar * delta) + 1) ∧
    self.dX_dDeltabar__constdelta (realFns valid) delta Deltabar =
      -delta * self.X (realFns valid) delta Deltabar ^ 2
        / (2 * Deltabar * delta * self.X (realFns valid) delta Deltabar + 1) ∧
    self.dX_ddelta__constDeltabar (realFns valid) delta Deltabar =
      -Deltabar * self.X (realFns valid) delta Deltabar ^ 2
        / (2 * Deltabar * delta * self.X (realFns valid) delta Deltabar + 1) ∧
    HasDerivAt (fun D => self.X (realFns valid) delta D)
      (self.dX_dDeltabar__constdelta (realFns valid) delta Deltabar) Deltabar ∧
    HasDerivAt (fun d => self.X (realFns valid) d Deltabar)
      (self.dX_ddelta__constDeltabar (realFns valid) delta Deltabar) delta := by
  have hasDerivAt_saft_X_Deltabar := saft_calculus.2.2.2.2.2.2.2.2.2.1
  have hasDerivAt_saft_X_delta := saft_calculus.2.2.2.2.2.2.2.2.2.2.1
  refine ⟨rfl, ?_, ?_, hasDerivAt_saft_X_Deltabar valid self delta Deltabar h,
    hasDerivAt_saft_X_delta valid self delta Deltabar h⟩
  · simp only [ResidualHelmholtzSAFTAssociating.dX_dDeltabar__constdelta]
    ring
  · simp only [ResidualHelmholtzSAFTAssociating.dX_ddelta__constDeltabar]
    ring

theorem saft_X_partial_derivatives_witness :
    (0 : ℝ) < 1 + 4 * 3 * 2 ∧
    HasDerivAt
      (fun D => (saftExample : ResidualHelmholtzSAFTAssociating ℝ).X (realFns fun _ => true) 2 D)
      ((saftExample : ResidualHelmholtzSAFTAssociating ℝ).dX_dDeltabar__constdelta
        (realFns fun _ => true) 2 3) 3 ∧
    HasDerivAt
      (fun d => (saftExample : ResidualHelmholtzSAFTAssociating ℝ).X (realFns fun _ => true) d 3)
      ((saftExample : ResidualHelmholtzSAFTAssociating ℝ).dX_ddelta__constDeltabar
        (realFns fun _ => true) 2 3) 2 :=
  ⟨by norm_num,
    (saft_X_partial_derivatives (fun _ => true) saftExample 2 3 (by norm_num)).2.2.2.1,
    (saft_X_partial_derivatives (fun _ => true) saftExample 2 3 (by norm_num)).2.2.2.2⟩

/-- Claim C22: for every `eta ≠ 1`, `g(eta)` is `0.5*(2 - eta)/(1 - eta)^3` and the
functions `dg_deta`, `d2g_deta2`, `d3g_deta3` are its first, second and third derivative:
each is the derivative of the one before it. -/
theorem saft_g_derivatives (valid : ℝ → Bool) (self : ResidualHelmholtzSAFTAssociating ℝ)
    (eta : ℝ) (h : eta ≠ 1) :
    self.g (realFns valid) eta = 0.5 * (2 - eta) / (1 - eta) ^ 3 ∧
    HasDerivAt (fun x => self.g (realFns valid) x) (self.dg_deta (realFns valid) eta) eta ∧
    HasDerivAt (fun x => self.dg_deta (realFns valid) x)
      (self.d2g_deta2 (realFns valid) eta) eta ∧
    HasDerivAt (fun x => self.d2g_deta2 (realFns valid) x)
      (self.d3g_deta3 (realFns valid) eta) eta := by
  have saft_g_forms := saft_calculus.2.2.2.2.1
  have hasDerivAt_saft_g := saft_calculus.2.2.2.2.2.1
  exact
    ⟨(saft_g_forms valid self eta).1, hasDerivAt_saft_g valid self eta h⟩

theorem saft_g_derivatives_witness :
    (2 : ℝ) ≠ 1 ∧
    HasDerivAt (fun x => (saftExample : ResidualHelmholtzSAFTAssociating ℝ).g
        (realFns fun _ => true) x)
      ((saftExample : ResidualHelmholtzSAFTAssociating ℝ).dg_deta (realFns fun _ => true) 2) 2 ∧
    HasDerivAt (fun x => (saftExample : ResidualHelmholtzSAFTAssociating ℝ).dg_deta
        (realFns fun _ => true) x)
      ((saftExample : ResidualHelmholtzSAFTAssociating ℝ).d2g_deta2 (realFns fun _ => true) 2) 2 ∧
    HasDerivAt (fun x => (saftExample : ResidualHelmholtzSAFTAssociating ℝ).d2g_deta2
        (realFns fun _ => true) x)
      ((saftExample : ResidualHelmholtzSAFTAssociating ℝ).d3g_deta3 (realFns fun _ => true) 2) 2 :=
  ⟨by norm_num, (saft_g_derivatives (fun _ => true) saftExample 2 (by norm_num)).2⟩

/-- Claim C23: first- and second-order chain rule of the SAFT term.  With
`Xf(tau, delta) = X(delta, Deltabar(tau, delta))`, wherever `vbarn*delta ≠ 1` and
`1 + 4*Deltabar*delta > 0` (in particular for such `tau > 0`, `delta > 0`): `dX_dtau` and
`dX_ddelta` are the partial derivatives of `Xf` in `tau` and in `delta`, and `d2X_dtau2`,
`d2X_ddeltadtau`, `d2X_ddelta2` are the partial derivatives of `dX_dtau` in `tau`, of
`dX_ddelta` in `tau` and of `dX_ddelta` in `delta`. -/
theorem saft_chain_rule_second_order (valid : ℝ → Bool)
    (self : ResidualHelmholtzSAFTAssociating ℝ) (tau delta : ℝ)
    (heta : self.vbarn * delta ≠ 1)
    (hpos : 0 < 1 + 4 * self.Deltabar (realFns valid) tau delta * delta) :
    HasDerivAt (fun y => self.X (realFns valid) delta (self.Deltabar (realFns valid) y delta))
      (self.dX_dtau (realFns valid) tau delta) tau ∧
    HasDerivAt (fun y => self.X (realFns valid) y (self.Deltabar (realFns valid) tau y))
      (self.dX_ddelta (realFns valid) tau delta) delta ∧
    HasDerivAt (fun y => self.dX_dtau (realFns valid) y delta)
      (self.d2X_dtau2 (realFns valid) tau delta) tau ∧
    HasDerivAt (fun y => self.dX_ddelta (realFns valid) y delta)
      (self.d2X_ddeltadtau (realFns valid) tau delta) tau ∧
    HasDerivAt (fun y => self.dX_ddelta (realFns valid) tau y)
      (self.d2X_ddelta2 (realFns valid) tau delta) delta := by
  have hasDerivAt_saft_Xf_tau := saft_chain_calculus.1
  have hasDerivAt_saft_Xf_delta := saft_chain_calculus.2.1
  have hasDerivAt_saft_dX_dtau_tau := saft_chain_calculus.2.2.1
  have hasDerivAt_saft_dX_ddelta_tau := saft_chain_calculus.2.2.2.1
  have hasDerivAt_saft_dX_ddelta_delta := saft_chain_calculus.2.2.2.2.2.1
  exact
    ⟨hasDerivAt_saft_Xf_tau valid self tau delta hpos,
      hasDerivAt_saft_Xf_delta valid self tau delta heta hpos,
      hasDerivAt_saft_dX_dtau_tau valid self tau delta hpos,
      hasDerivAt_saft_dX_ddelta_tau valid self tau delta hpos,
      hasDerivAt_saft_dX_ddelta_delta valid self tau delta heta hpos⟩

theorem saft_chain_rule_second_order_witness :
    (saftExample : ResidualHelmholtzSAFTAssociating ℝ).vbarn * 1 ≠ 1 ∧
    0 < 1 + 4 * (saftExample : ResidualHelmholtzSAFTAssociating ℝ).Deltabar
      (realFns fun _ => true) 1 1 * 1 ∧
    HasDerivAt (fun y => (saftExample : ResidualHelmholtzSAFTAssociating ℝ).dX_ddelta
        (realFns fun _ => true) 1 y)
      ((saftExample : ResidualHelmholtzSAFTAssociating ℝ).d2X_ddelta2
        (realFns fun _ => true) 1 1) 1 := by
  have saftExample_eta_ne_one := saft_chain_calculus.2.2.2.2.2.2.2.2.2.2.2.2.1
  have saftExample_radicand_pos := saft_chain_calculus.2.2.2.2.2.2.2.2.2.2.2.2.2
  exact
    ⟨saftExample_eta_ne_one, saftExample_radicand_pos,
      (saft_chain_rule_second_order (fun _ => true) saftExample 1 1 saftExample_eta_ne_one
        saftExample_radicand_pos).2.2.2.2⟩

/-- Claim C24: third-order chain rule of the SAFT term.  Wherever `vbarn*delta ≠ 1` and
`1 + 4*Deltabar*delta > 0` (in particular for such `tau > 0`, `delta > 0`): `d3X_dtau3`
is the partial derivative of `d2X_dtau2` in `tau`, `d3X_ddeltadtau2` that of `d2X_dtau2` in
`delta`, `d3X_ddelta2dtau` that of `d2X_ddelta2` in `tau`, and `d3X_ddelta3` that of
`d2X_ddelta2` in `delta`. -/
theorem saft_chain_rule_third_order (valid : ℝ → Bool)
    (self : ResidualHelmholtzSAFTAssociating ℝ) (tau delta : ℝ)
    (heta : self.vbarn * delta ≠ 1)
    (hpos : 0 < 1 + 4 * self.Deltabar (realFns valid) tau delta * delta) :
    HasDerivAt (fun y => self.d2X_dtau2 (realFns valid) y delta)
      (self.d3X_dtau3 (realFns valid) tau delta) tau ∧
    HasDerivAt (fun y => self.d2X_dtau2 (realFns valid) tau y)
      (self.d3X_ddeltadtau2 (realFns valid) tau delta) delta ∧
    HasDerivAt (fun y => self.d2X_ddelta2 (realFns valid) y delta)
      (self.d3X_ddelta2dtau (realFns valid) tau delta) tau ∧
    HasDerivAt (fun y => self.d2X_ddelta2 (realFns valid) tau y)
      (self.d3X_ddelta3 (realFns valid) tau delta) delta := by
  have hasDerivAt_saft_d2X_dtau2_tau := saft_chain_calculus.2.2.2.2.2.2.1
  have hasDerivAt_saft_d2X_dtau2_delta := saft_chain_calculus.2.2.2.2.2.2.2.1
  have hasDerivAt_saft_d2X_ddelta2_tau := saft_chain_calculus.2.2.2.2.2.2.2.2.1
  have hasDerivAt_saft_d2X_ddelta2_delta := saft_chain_calculus.2.2.2.2.2.2.2.2.2.1
  exact
    ⟨hasDerivAt_saft_d2X_dtau2_tau valid self tau delta hpos,
      hasDerivAt_saft_d2X_dtau2_delta valid self tau delta heta hpos,
      hasDerivAt_saft_d2X_ddelta2_tau valid self tau delta hpos,
      hasDerivAt_saft_d2X_ddelta2_delta valid self tau delta heta hpos⟩

theorem saft_chain_rule_third_order_witness :
    (saftExample : ResidualHelmholtzSAFTAssociating ℝ).vbarn * 1 ≠ 1 ∧
    0 < 1 + 4 * (saftExample : ResidualHelmholtzSAFTAssociating ℝ).Deltabar
      (realFns fun _ => true) 1 1 * 1 ∧
    HasDerivAt (fun y => (saftExample : ResidualHelmholtzSAFTAssociating ℝ).d2X_ddelta2
        (realFns fun _ => true) 1 y)
      ((saftExample : ResidualHelmholtzSAFTAssociating ℝ).d3X_ddelta3
        (realFns fun _ => true) 1 1) 1 := by
  have saftExample_eta_ne_one := saft_chain_calculus.2.2.2.2.2.2.2.2.2.2.2.2.1
  have saftExample_radicand_pos := saft_chain_calculus.2.2.2.2.2.2.2.2.2.2.2.2.2
  exact
    ⟨saftExample_eta_ne_one, saftExample_radicand_pos,
      (saft_chain_rule_third_order (fun _ => true) saftExample 1 1 saftExample_eta_ne_one
        saftExample_radicand_pos).2.2.2⟩

/-! ## The JSON description of the non-analytic term (C30) -/

/-- The passes at the indices below the number of elements succeed and write the
coefficient columns of the elements visited. -/
theorem to_json_passes_in_range {K : Type} [LinearOrderedField K]
    (self : ResidualHelmholtzNonAnalytic K) (k : Nat) (hk : k ≤ self.elements.length) :
    (List.range k).foldlM self.to_json_step NonAnalyticJson.empty
      = Except.ok (NonAnalyticJson.ofElements (self.elements.take k)) := by
  induction k with
  | zero => rfl
  | succ k ih =>
    have hlt : k < self.elements.length := hk
    have hstep : self.to_json_step (NonAnalyticJson.ofElements (self.elements.take k)) k
        = Except.ok (NonAnalyticJson.ofElements (self.elements.take (k + 1))) := by
      simp only [ResidualHelmholtzNonAnalytic.to_json_step, List.getElem?_eq_getElem hlt,
        NonAnalyticJson.ofElements, List.take_succ, Option.toList, List.map_append,
        List.map_cons, List.map_nil]
    rw [List.range_succ, List.foldlM_append, ih (Nat.le_of_lt hlt)]
    show self.to_json_step _ k >>= pure = _
    rw [hstep]
    rfl

/-- Every pass at or after the index `elements.length` leaves the loop in the error of the
first read past the end. -/
theorem to_json_passes_past_end {K : Type} [LinearOrderedField K]
    (self : ResidualHelmholtzNonAnalytic K) (k : Nat) (hk : self.elements.length ≤ k) :
    (List.range (k + 1)).foldlM self.to_json_step NonAnalyticJson.empty
      = Except.error self.elements.length := by
  have hstep : self.to_json_step (NonAnalyticJson.ofElements
      (self.elements.take self.elements.length)) self.elements.length
      = Except.error self.elements.length := by
    simp only [ResidualHelmholtzNonAnalytic.to_json_step,
      List.getElem?_eq_none (le_refl self.elements.length)]
  induction k with
  | zero =>
    have h0 : self.elements.length = 0 := Nat.le_zero.mp hk
    have h1 := to_json_passes_in_range self self.elements.length le_rfl
    rw [h0] at h1 hstep ⊢
    show self.to_json_step NonAnalyticJson.empty 0 >>= pure = _
    rw [List.range_zero] at h1
    have h2 : NonAnalyticJson.empty = NonAnalyticJson.ofElements (List.take 0 self.elements) :=
      Except.ok.inj h1
    rw [h2, hstep]
    rfl
  | succ k ih =>
    rw [List.range_succ, List.foldlM_append]
    rcases Nat.lt_or_ge self.elements.length (k + 1) with h | h
    · rw [ih (Nat.lt_succ_iff.mp h)]
      rfl
    · have he : self.elements.length = k + 1 := le_antisymm hk h
      rw [← he, to_json_passes_in_range self self.elements.length le_rfl]
      show self.to_json_step _ _ >>= pure = _
      rw [hstep]
      rfl

/-- Claim C30 fails: `to_json` runs its loop over the indices `0, ..., N` (the loop test is
`i <= N`).  If the term has at most `N` elements, which is the state the constructor leaves
(`N = elements.length`), the pass at index `elements.length` reads past the end of
`elements`; if it has more, every array gets `N + 1` entries.  In neither case do the arrays
have exactly `N` entries with all indices below `N`. -/
theorem nonanalytic_to_json_visits_index_N {K : Type} [LinearOrderedField K]
    (self : ResidualHelmholtzNonAnalytic K) :
    (self.elements.length ≤ self.N ∧ self.to_json = Except.error self.elements.length) ∨
    (self.N < self.elements.length ∧
      self.to_json = Except.ok (NonAnalyticJson.ofElements (self.elements.take (self.N + 1))) ∧
      ((NonAnalyticJson.ofElements (self.elements.take (self.N + 1))).n).length = self.N + 1) := by
  rcases Nat.lt_or_ge self.N self.elements.length with h | h
  · refine Or.inr ⟨h, to_json_passes_in_range self (self.N + 1) h, ?_⟩
    simp [NonAnalyticJson.ofElements, List.length_take]
    omega
  · exact Or.inl ⟨h, to_json_passes_past_end self self.N h⟩

/-- The failing input of C30: the one-element term of the test fixture.  The pass at
index `1 = N` reads `elements[1]`, which does not exist. -/
theorem nonanalytic_to_json_fixture :
    (singleTerm (fixtureElement : ResidualHelmholtzNonAnalyticElement ℚ)).to_json
      = Except.error 1 := by
  rfl

/-! ## The ideal-gas polynomial term (C26) -/

/-- A loop that adds `f i` to an accumulator returns the initial value plus the sum. -/
theorem foldl_add_eq_sum {α K : Type} [LinearOrderedField K] (l : List α) (f : α → K) (a : K) :
    l.foldl (fun sum i => sum + f i) a = a + (l.map f).sum := by
  induction l generalizing a with
  | nil => simp
  | cons x l ih => simp [ih, add_assoc]

/-- Calculus of the three branches of the ideal-gas polynomial term, and their values at `tau0`.
-/
theorem polyT_calculus :
    -- `hasDerivAt_polyT_branch_zero`: Branch `t = 0` of the polynomial term: each closed form
    -- is the derivative of the one before.
    (∀ (c tau0 tau : ℝ) (_ : 0 < tau) (_ : 0 < tau0),
        HasDerivAt (fun y => c - c * y / tau0 + c * Real.log (y / tau0)) (c / tau - c / tau0) tau ∧
        HasDerivAt (fun y => c / y - c / tau0) (-c / (tau * tau)) tau ∧
        HasDerivAt (fun y => -c / (y * y)) (2 * c / (tau * tau * tau)) tau) ∧
    -- `hasDerivAt_polyT_branch_minus_one`: Branch `t = -1` of the polynomial term: each closed
    -- form is the derivative of the one before.
    (∀ (c Tc tau0 tau : ℝ) (_ : 0 < tau) (_ : 0 < Tc) (_ : 0 < tau0),
        HasDerivAt (fun y => c * y / Tc * Real.log (tau0 / y) + c / Tc * (y - tau0))
          (c / Tc * Real.log (tau0 / tau)) tau ∧
        HasDerivAt (fun y => c / Tc * Real.log (tau0 / y)) (-c / (tau * Tc)) tau ∧
        HasDerivAt (fun y => -c / (y * Tc)) (c / (tau * tau * Tc)) tau) ∧
    -- `hasDerivAt_polyT_branch_power`: Branch `t ≠ 0`, `t ≠ -1` of the polynomial term: each
    -- closed form is the derivative of the one before, given `tau0 = Tc/T0`.
    (∀ (c t Tc T0 tau0 tau : ℝ) (_ : 0 < tau) (_ : 0 < Tc) (_ : 0 < T0) (_ : tau0 = Tc / T0)
      (_ : t ≠ 0) (_ : t + 1 ≠ 0),
        HasDerivAt (fun y => (-c) * Tc ^ t * y ^ (-t) / (t * (t + 1))
            - c * T0 ^ (t + 1) * y / (Tc * (t + 1)) + c * T0 ^ t / t)
          (c * Tc ^ t * tau ^ (-t - 1) / (t + 1) - c * Tc ^ t / (tau0 ^ (t + 1) * (t + 1))) tau ∧
        HasDerivAt (fun y => c * Tc ^ t * y ^ (-t - 1) / (t + 1)
            - c * Tc ^ t / (tau0 ^ (t + 1) * (t + 1)))
          ((-c) * (Tc / tau) ^ t / (tau * tau)) tau ∧
        HasDerivAt (fun y => (-c) * (Tc / y) ^ t / (y * y))
          (c * (Tc / tau) ^ t * (t + 2) / (tau * tau * tau)) tau) ∧
    -- `polyT_base_eq_sum`
    (∀ (F : MathFns ℝ) (self : IdealHelmholtzCP0PolyT ℝ) (tau delta : ℝ),
        self.base F tau delta = ((List.finRange self.N).map fun i => self.base_term F tau i).sum) ∧
    -- `polyT_dTau_eq_sum`
    (∀ (F : MathFns ℝ) (self : IdealHelmholtzCP0PolyT ℝ) (tau delta : ℝ),
        self.dTau F tau delta = ((List.finRange self.N).map fun i => self.dTau_term F tau i).sum) ∧
    -- `polyT_dTau2_eq_sum`
    (∀ (F : MathFns ℝ) (self : IdealHelmholtzCP0PolyT ℝ) (tau delta : ℝ),
        self.dTau2 F tau delta
          = ((List.finRange self.N).map fun i => self.dTau2_term F tau i).sum) ∧
    -- `polyT_dTau3_eq_sum`
    (∀ (F : MathFns ℝ) (self : IdealHelmholtzCP0PolyT ℝ) (tau delta : ℝ),
        self.dTau3 F tau delta
          = ((List.finRange self.N).map fun i => self.dTau3_term F tau i).sum) ∧
    -- `hasDerivAt_polyT_terms`: The contribution of one coefficient of the polynomial term,
    -- whichever branch it is in: each closed form is the derivative of the one before.
    (∀ (valid : ℝ → Bool) (self : IdealHelmholtzCP0PolyT ℝ) (tau : ℝ) (_ : 0 < tau)
      (_ : 0 < self.Tc) (_ : 0 < self.T0) (_ : self.tau0 = self.Tc / self.T0) (i : Fin self.N),
        HasDerivAt (fun y => self.base_term (realFns valid) y i)
          (self.dTau_term (realFns valid) tau i) tau ∧
        HasDerivAt (fun y => self.dTau_term (realFns valid) y i)
          (self.dTau2_term (realFns valid) tau i) tau ∧
        HasDerivAt (fun y => self.dTau2_term (realFns valid) y i)
          (self.dTau3_term (realFns valid) tau i) tau) ∧
    -- `polyT_terms_at_tau0`: Every coefficient of the polynomial term contributes `0` to `base`
    -- and to `dTau` at `tau = tau0`.
    (∀ (valid : ℝ → Bool) (self : IdealHelmholtzCP0PolyT ℝ) (_ : 0 < self.Tc) (_ : 0 < self.T0)
      (_ : self.tau0 = self.Tc / self.T0) (i : Fin self.N),
        self.base_term (realFns valid) self.tau0 i = 0 ∧
        self.dTau_term (realFns valid) self.tau0 i = 0) := by
  refine and_of_left ?_ fun hasDerivAt_polyT_branch_zero => ?_
  · intro c tau0 tau htau h0
    have hid := hasDerivAt_id' tau
    have hne := htau.ne'
    have h0ne := h0.ne'
    refine ⟨?_, ?_, ?_⟩
    · have h := ((hasDerivAt_const tau c).sub ((hid.const_mul c).div_const tau0)).add
        (((hid.div_const tau0).log (div_ne_zero hne h0ne)).const_mul c)
      refine h.congr_deriv ?_
      field_simp
      ring
    · have h := ((hasDerivAt_const tau c).div hid hne).sub_const (c / tau0)
      refine h.congr_deriv ?_
      ring
    · have h := (hasDerivAt_const tau (-c)).div (hid.mul hid) (mul_ne_zero hne hne)
      refine h.congr_deriv ?_
      field_simp
      ring
  refine and_of_left ?_ fun hasDerivAt_polyT_branch_minus_one => ?_
  · intro c Tc tau0 tau htau hTc h0
    have hid := hasDerivAt_id' tau
    have hne := htau.ne'
    have h0ne := h0.ne'
    have hTcne := hTc.ne'
    have hlog : HasDerivAt (fun y => Real.log (tau0 / y)) (-1 / tau) tau := by
      have h := ((hasDerivAt_const tau tau0).div hid hne).log (div_ne_zero h0ne hne)
      refine h.congr_deriv ?_
      field_simp
      ring
    refine ⟨?_, ?_, ?_⟩
    · have h := (((hid.const_mul c).div_const Tc).mul hlog).add
        ((hid.sub_const tau0).const_mul (c / Tc))
      refine h.congr_deriv ?_
      field_simp
      ring
    · have h := hlog.const_mul (c / Tc)
      refine h.congr_deriv ?_
      ring
    · have h := (hasDerivAt_const tau (-c)).div (hid.mul_const Tc) (mul_ne_zero hne hTcne)
      refine h.congr_deriv ?_
      field_simp
      ring
  refine and_of_left ?_ fun hasDerivAt_polyT_branch_power => ?_
  · intro c t Tc T0 tau0 tau htau hTc hT0 h0 ht ht1
    have hid := hasDerivAt_id' tau
    have hne := htau.ne'
    have hTcne := hTc.ne'
    have hp : ∀ p : ℝ, HasDerivAt (fun y : ℝ => y ^ p) (p * tau ^ (p - 1)) tau := fun p =>
      Real.hasDerivAt_rpow_const (Or.inl hne)
    have hA : Tc ^ t ≠ 0 := (Real.rpow_pos_of_pos hTc t).ne'
    have hB : T0 ^ (t + 1) ≠ 0 := (Real.rpow_pos_of_pos hT0 (t + 1)).ne'
    have hP : tau ^ t ≠ 0 := (Real.rpow_pos_of_pos htau t).ne'
    have e0 : tau0 ^ (t + 1) = Tc ^ t * Tc / T0 ^ (t + 1) := by
      rw [h0, Real.div_rpow hTc.le hT0.le, Real.rpow_add_one hTcne]
    have e1 : tau ^ (-t - 1) = (tau ^ t)⁻¹ / tau := by
      rw [Real.rpow_sub_one hne, Real.rpow_neg htau.le]
    have e2 : tau ^ (-t - 1 - 1) = (tau ^ t)⁻¹ / tau / tau := by
      rw [Real.rpow_sub_one hne, e1]
    have e3 : (Tc / tau) ^ t = Tc ^ t / tau ^ t := Real.div_rpow hTc.le htau.le t
    have e4 : (Tc / tau) ^ (t - 1) = Tc ^ t / tau ^ t / (Tc / tau) := by
      rw [Real.rpow_sub_one (div_ne_zero hTcne hne), e3]
    refine ⟨?_, ?_, ?_⟩
    · have h := ((((hp (-t)).const_mul ((-c) * Tc ^ t)).div_const (t * (t + 1))).sub
        ((hid.const_mul (c * T0 ^ (t + 1))).div_const (Tc * (t + 1)))).add_const (c * T0 ^ t / t)
      refine h.congr_deriv ?_
      rw [e0, e1]
      have hr1 := mul_inv_cancel₀ hA
      have hr2 := mul_inv_cancel₀ hB
      have hr3 := mul_inv_cancel₀ hP
      have hr4 := mul_inv_cancel₀ hTcne
      have hr5 := mul_inv_cancel₀ hne
      have hr6 := mul_inv_cancel₀ ht
      have hr7 := mul_inv_cancel₀ ht1
      simp only [div_eq_mul_inv, mul_inv, ← inv_pow, inv_inv]
      generalize Tc ^ t = A at hr1 ⊢
      generalize T0 ^ (t + 1) = B at hr2 ⊢
      generalize tau ^ t = P at hr3 ⊢
      generalize T0 ^ t = B0
      generalize A⁻¹ = Ai at hr1 ⊢
      generalize B⁻¹ = Bi at hr2 ⊢
      generalize P⁻¹ = Pi at hr3 ⊢
      generalize Tc⁻¹ = Ti at hr4 ⊢
      generalize tau⁻¹ = ti at hr5 ⊢
      generalize t⁻¹ = si at hr6 ⊢
      generalize (t + 1)⁻¹ = ui at hr7 ⊢
      linear_combination
        (-A * Pi * c * si * t * ti * ui + A * Pi * c * ti * ui + B * Ti * c * ui) * hr1
          + (-A ^ 2 * Ai * Pi * c * si * t * ti * ui + A ^ 2 * Ai * Pi * c * ti * ui) * hr4
          + (A ^ 2 * Ai * Pi * Tc * Ti * c * ti * ui) * hr6
    · have h := (((hp (-t - 1)).const_mul (c * Tc ^ t)).div_const (t + 1)).sub_const
        (c * Tc ^ t / (tau0 ^ (t + 1) * (t + 1)))
      refine h.congr_deriv ?_
      rw [e2, e3]
      have hr := mul_inv_cancel₀ ht1
      simp only [div_eq_mul_inv, mul_inv, ← inv_pow, inv_inv]
      generalize (t + 1)⁻¹ = ui at hr ⊢
      linear_combination (-Tc ^ t * (tau ^ t)⁻¹ * c * tau⁻¹ ^ 2) * hr
    · have hr : HasDerivAt (fun y => (Tc / y) ^ t)
          ((0 * tau - Tc * 1) / tau ^ 2 * t * (Tc / tau) ^ (t - 1)) tau :=
        ((hasDerivAt_const tau Tc).div hid hne).rpow_const (Or.inl (div_ne_zero hTcne hne))
      have h := (hr.const_mul (-c)).div (hid.mul hid) (mul_ne_zero hne hne)
      refine h.congr_deriv ?_
      rw [e4, e3]
      have hr2 := mul_inv_cancel₀ hne
      have hr3 := mul_inv_cancel₀ hTcne
      simp only [div_eq_mul_inv, mul_inv, ← inv_pow, inv_inv]
      generalize Tc ^ t = A
      generalize (tau ^ t)⁻¹ = Pi
      generalize tau⁻¹ = ti at hr2 ⊢
      generalize Tc⁻¹ = Ti at hr3 ⊢
      linear_combination
        (A * Pi * c * t * tau * ti ^ 4 + A * Pi * c * t * tau ^ 2 * ti ^ 5
          + A * Pi * c * t * ti ^ 3 + 2 * A * Pi * c * ti ^ 3) * hr2
          + (A * Pi * c * t * tau ^ 3 * ti ^ 6) * hr3
  refine and_of_left ?_ fun polyT_base_eq_sum => ?_
  · intro F self tau delta
    rw [IdealHelmholtzCP0PolyT.base, foldl_add_eq_sum, zero_add]
  refine and_of_left ?_ fun polyT_dTau_eq_sum => ?_
  · intro F self tau delta
    rw [IdealHelmholtzCP0PolyT.dTau, foldl_add_eq_sum, zero_add]
  refine and_of_left ?_ fun polyT_dTau2_eq_sum => ?_
  · intro F self tau delta
    rw [IdealHelmholtzCP0PolyT.dTau2, foldl_add_eq_sum, zero_add]
  refine and_of_left ?_ fun polyT_dTau3_eq_sum => ?_
  · intro F self tau delta
    rw [IdealHelmholtzCP0PolyT.dTau3, foldl_add_eq_sum, zero_add]
  refine and_of_left ?_ fun hasDerivAt_polyT_terms => ?_
  · intro valid self tau htau hTc hT0 htau0 i
    have h0 : 0 < self.tau0 := by rw [htau0]; positivity
    simp only [IdealHelmholtzCP0PolyT.base_term, IdealHelmholtzCP0PolyT.dTau_term,
      IdealHelmholtzCP0PolyT.dTau2_term, IdealHelmholtzCP0PolyT.dTau3_term, realFns]
    by_cases h1 : |self.t i| < 10 * DBL_EPSILON
    · simp only [if_pos h1]
      exact hasDerivAt_polyT_branch_zero (self.c i) self.tau0 tau htau h0
    · by_cases h2 : |self.t i + 1| < 10 * DBL_EPSILON
      · simp only [if_neg h1, if_pos h2]
        exact hasDerivAt_polyT_branch_minus_one (self.c i) self.Tc self.tau0 tau htau hTc h0
      · simp only [if_neg h1, if_neg h2]
        have ht : self.t i ≠ 0 := by
          intro h
          rw [h, abs_zero] at h1
          exact h1 dbl_epsilon_pos
        have ht1 : self.t i + 1 ≠ 0 := by
          intro h
          rw [h, abs_zero] at h2
          exact h2 dbl_epsilon_pos
        exact hasDerivAt_polyT_branch_power (self.c i) (self.t i) self.Tc self.T0 self.tau0 tau
          htau hTc hT0 htau0 ht ht1
  intro valid self hTc hT0 htau0 i
  have h0 : 0 < self.tau0 := by rw [htau0]; positivity
  have h0ne := h0.ne'
  simp only [IdealHelmholtzCP0PolyT.base_term, IdealHelmholtzCP0PolyT.dTau_term, realFns]
  by_cases h1 : |self.t i| < 10 * DBL_EPSILON
  · simp only [if_pos h1, div_self h0ne, Real.log_one, mul_div_assoc, mul_one, mul_zero,
      sub_self, add_zero, and_self]
  · by_cases h2 : |self.t i + 1| < 10 * DBL_EPSILON
    · simp only [if_neg h1, if_pos h2, div_self h0ne, Real.log_one, mul_zero, sub_self,
        add_zero, and_self]
    · simp only [if_neg h1, if_neg h2]
      have ht : self.t i ≠ 0 := by
        intro h
        rw [h, abs_zero] at h1
        exact h1 dbl_epsilon_pos
      have ht1 : self.t i + 1 ≠ 0 := by
        intro h
        rw [h, abs_zero] at h2
        exact h2 dbl_epsilon_pos
      have hA : self.Tc ^ self.t i ≠ 0 := (Real.rpow_pos_of_pos hTc _).ne'
      have hB : self.T0 ^ self.t i ≠ 0 := (Real.rpow_pos_of_pos hT0 _).ne'
      have e1 : self.tau0 ^ (-self.t i) = (self.Tc ^ self.t i)⁻¹ * self.T0 ^ self.t i := by
        rw [Real.rpow_neg h0.le, htau0, Real.div_rpow hTc.le hT0.le, inv_div, div_eq_inv_mul]
      have e2 : self.T0 ^ (self.t i + 1) = self.T0 ^ self.t i * self.T0 :=
        Real.rpow_add_one hT0.ne' _
      have e3 : self.tau0 ^ (-self.t i - 1) = (self.tau0 ^ (self.t i + 1))⁻¹ := by
        rw [← Real.rpow_neg h0.le]
        congr 1
        ring
      have hP : self.tau0 ^ (self.t i + 1) ≠ 0 := (Real.rpow_pos_of_pos h0 _).ne'
      refine ⟨?_, ?_⟩
      · rw [e1, e2, htau0]
        have hTcne := hTc.ne'
        have hT0ne := hT0.ne'
        field_simp
        ring
      · rw [e3]
        field_simp

/-- Claim C26: derivative consistency of the ideal-gas polynomial term.  For `tau > 0`,
`Tc > 0`, `T0 > 0` and `tau0 = Tc/T0`, for every coefficient, whichever of the three
branches (`|t| < 10*DBL_EPSILON`, `|t + 1| < 10*DBL_EPSILON`, otherwise) it is in, and for
the sums over the coefficients: `dTau` is the `tau`-derivative of `base`, `dTau2` that of
`dTau`, and `dTau3` that of `dTau2`. -/
theorem cp0polyt_derivative_consistency (valid : ℝ → Bool)
    (self : IdealHelmholtzCP0PolyT ℝ) (tau delta : ℝ) (htau : 0 < tau) (hTc : 0 < self.Tc)
    (hT0 : 0 < self.T0) (htau0 : self.tau0 = self.Tc / self.T0) :
    (∀ i : Fin self.N,
      HasDerivAt (fun y => self.base_term (realFns valid) y i)
        (self.dTau_term (realFns valid) tau i) tau ∧
      HasDerivAt (fun y => self.dTau_term (realFns valid) y i)
        (self.dTau2_term (realFns valid) tau i) tau ∧
      HasDerivAt (fun y => self.dTau2_term (realFns valid) y i)
        (self.dTau3_term (realFns valid) tau i) tau) ∧
    HasDerivAt (fun y => self.base (realFns valid) y delta)
      (self.dTau (realFns valid) tau delta) tau ∧
    HasDerivAt (fun y => self.dTau (realFns valid) y delta)
      (self.dTau2 (realFns valid) tau delta) tau ∧
    HasDerivAt (fun y => self.dTau2 (realFns valid) y delta)
      (self.dTau3 (realFns valid) tau delta) tau := by
  have hasDerivAt_polyT_terms := polyT_calculus.2.2.2.2.2.2.2.1
  have polyT_base_eq_sum := polyT_calculus.2.2.2.1
  have polyT_dTau_eq_sum := polyT_calculus.2.2.2.2.1
  have hasDerivAt_list_sum := @And.left _ _ exponent_totals_calculus.2.2.2.2
  have polyT_dTau2_eq_sum := polyT_calculus.2.2.2.2.2.1
  have polyT_dTau3_eq_sum := polyT_calculus.2.2.2.2.2.2.1
  have hterm := hasDerivAt_polyT_terms valid self tau htau hTc hT0 htau0
  refine ⟨hterm, ?_, ?_, ?_⟩
  · simp only [polyT_base_eq_sum, polyT_dTau_eq_sum]
    exact hasDerivAt_list_sum _ _ _ tau fun i _ => (hterm i).1
  · simp only [polyT_dTau_eq_sum, polyT_dTau2_eq_sum]
    exact hasDerivAt_list_sum _ _ _ tau fun i _ => (hterm i).2.1
  · simp only [polyT_dTau2_eq_sum, polyT_dTau3_eq_sum]
    exact hasDerivAt_list_sum _ _ _ tau fun i _ => (hterm i).2.2

theorem cp0polyt_derivative_consistency_witness :
    (0 : ℝ) < 3 ∧ 0 < (polyTExample : IdealHelmholtzCP0PolyT ℝ).Tc ∧
    0 < (polyTExample : IdealHelmholtzCP0PolyT ℝ).T0 ∧
    (polyTExample : IdealHelmholtzCP0PolyT ℝ).tau0
      = (polyTExample : IdealHelmholtzCP0PolyT ℝ).Tc
        / (polyTExample : IdealHelmholtzCP0PolyT ℝ).T0 ∧
    HasDerivAt
      (fun y => (polyTExample : IdealHelmholtzCP0PolyT ℝ).base (realFns fun _ => true) y 1)
      ((polyTExample : IdealHelmholtzCP0PolyT ℝ).dTau (realFns fun _ => true) 3 1) 3 ∧
    HasDerivAt
      (fun y => (polyTExample : IdealHelmholtzCP0PolyT ℝ).dTau (realFns fun _ => true) y 1)
      ((polyTExample : IdealHelmholtzCP0PolyT ℝ).dTau2 (realFns fun _ => true) 3 1) 3 ∧
    HasDerivAt
      (fun y => (polyTExample : IdealHelmholtzCP0PolyT ℝ).dTau2 (realFns fun _ => true) y 1)
      ((polyTExample : IdealHelmholtzCP0PolyT ℝ).dTau3 (realFns fun _ => true) 3 1) 3 :=
  ⟨by norm_num, by norm_num [polyTExample], by norm_num [polyTExample],
    by norm_num [polyTExample],
    (cp0polyt_derivative_consistency (fun _ => true) polyTExample 3 1 (by norm_num)
      (by norm_num [polyTExample]) (by norm_num [polyTExample])
      (by norm_num [polyTExample])).2⟩

/-! ## The Aly-Lee term (C27, C28) -/

/-- Calculus of the antiderivatives of the Aly-Lee term, and the facts on the example term. -/
theorem alyLee_calculus :
    -- `alyLee_exp_sinh_cosh`: The two exponentials of the Aly-Lee antiderivatives in terms of
    -- `sinh` and `cosh`.
    (∀ (x : ℝ) (_ : x ≠ 0),
        Real.exp (-2 * x) - 1 ≠ 0 ∧ Real.sinh x ≠ 0 ∧
        4 * Real.exp (-2 * x) / (Real.exp (-2 * x) - 1) ^ 2 = 1 / Real.sinh x ^ 2 ∧
        4 * Real.exp (2 * x) / (Real.exp (2 * x) + 1) ^ 2 = 1 / Real.cosh x ^ 2) ∧
    -- `hasDerivAt_alyLee_anti_deriv_cp0_tau2`: The derivative of `anti_deriv_cp0_tau2` as it is
    -- coded: the last term, a product with `exp(2*c[4]*tau/Tc) + 1`, differentiates to
    -- `-4*c[3]*(c[4]/Tc)^2*exp(2*c[4]*tau/Tc)`.
    (∀ (valid : ℝ → Bool) (self : IdealHelmholtzCP0AlyLee ℝ) (tau : ℝ) (_ : tau ≠ 0)
      (_ : self.Tc ≠ 0) (_ : self.c 2 * tau ≠ 0),
        HasDerivAt (fun y => self.anti_deriv_cp0_tau2 (realFns valid) y)
          (self.c 0 / tau ^ 2
            + self.c 1 * (self.c 2 / self.Tc / Real.sinh (self.c 2 * tau / self.Tc)) ^ 2
            - 4 * self.c 3 * (self.c 4 / self.Tc) ^ 2 * Real.exp (2 * self.c 4 * tau / self.Tc))
          tau) ∧
    -- `hasDerivAt_alyLee_anti_deriv_cp0_tau`: The derivative of `anti_deriv_cp0_tau`: `tau`
    -- times the derivative that `anti_deriv_cp0_tau2` would have with a quotient as its last
    -- term.
    (∀ (valid : ℝ → Bool) (self : IdealHelmholtzCP0AlyLee ℝ) (tau : ℝ) (_ : tau ≠ 0)
      (_ : self.Tc ≠ 0) (_ : self.c 2 * tau ≠ 0),
        HasDerivAt (fun y => self.anti_deriv_cp0_tau (realFns valid) y)
          (tau * (self.c 0 / tau ^ 2
            + self.c 1 * (self.c 2 / self.Tc / Real.sinh (self.c 2 * tau / self.Tc)) ^ 2
            + self.c 3 * (self.c 4 / self.Tc / Real.cosh (self.c 4 * tau / self.Tc)) ^ 2))
          tau) ∧
    -- `hasDerivAt_alyLee_dTau`: What the coded `dTau` differentiates to: `dTau2` plus a
    -- remainder that comes from the last term of `anti_deriv_cp0_tau2` and vanishes only when
    -- `c[3]*c[4] = 0`.
    (∀ (valid : ℝ → Bool) (self : IdealHelmholtzCP0AlyLee ℝ) (tau delta : ℝ)
      (_ : self.enabled = true) (_ : tau ≠ 0) (_ : self.Tc ≠ 0) (_ : self.c 2 * tau ≠ 0),
        HasDerivAt (fun y => self.dTau (realFns valid) y delta)
          (self.dTau2 (realFns valid) tau delta
            + self.c 3 * (self.c 4 / self.Tc) ^ 2
              * (1 / Real.cosh (self.c 4 * tau / self.Tc) ^ 2
                + 4 * Real.exp (2 * self.c 4 * tau / self.Tc))) tau) ∧
    -- `hasDerivAt_alyLee_base`: What the coded `base` differentiates to: `dTau` plus `tau`
    -- times the same remainder.
    (∀ (valid : ℝ → Bool) (self : IdealHelmholtzCP0AlyLee ℝ) (tau delta : ℝ)
      (_ : self.enabled = true) (_ : tau ≠ 0) (_ : self.Tc ≠ 0) (_ : self.c 2 * tau ≠ 0),
        HasDerivAt (fun y => self.base (realFns valid) y delta)
          (self.dTau (realFns valid) tau delta
            + tau * (self.c 3 * (self.c 4 / self.Tc) ^ 2
              * (1 / Real.cosh (self.c 4 * tau / self.Tc) ^ 2
                + 4 * Real.exp (2 * self.c 4 * tau / self.Tc)))) tau) ∧
    -- `hasDerivAt_alyLee_dTau2`: The third order of the Aly-Lee term is consistent: `dTau3` is
    -- the derivative of `dTau2` wherever `tau ≠ 0` and `c[2]*tau/Tc ≠ 0`.
    (∀ (valid : ℝ → Bool) (self : IdealHelmholtzCP0AlyLee ℝ) (tau delta : ℝ) (_ : tau ≠ 0)
      (_ : self.Tc ≠ 0) (_ : self.c 2 * tau ≠ 0),
        HasDerivAt (fun y => self.dTau2 (realFns valid) y delta)
          (self.dTau3 (realFns valid) tau delta) tau) ∧
    -- `alyLeeExample_remainder_pos`
    (0 < (alyLeeExample : IdealHelmholtzCP0AlyLee ℝ).c 3
        * ((alyLeeExample : IdealHelmholtzCP0AlyLee ℝ).c 4
          / (alyLeeExample : IdealHelmholtzCP0AlyLee ℝ).Tc) ^ 2
        * (1 / Real.cosh ((alyLeeExample : IdealHelmholtzCP0AlyLee ℝ).c 4 * 1
            / (alyLeeExample : IdealHelmholtzCP0AlyLee ℝ).Tc) ^ 2
          + 4 * Real.exp (2 * (alyLeeExample : IdealHelmholtzCP0AlyLee ℝ).c 4 * 1
            / (alyLeeExample : IdealHelmholtzCP0AlyLee ℝ).Tc))) ∧
    -- `alyLeeExample_domain`
    ((alyLeeExample : IdealHelmholtzCP0AlyLee ℝ).enabled = true ∧ (1 : ℝ) ≠ 0 ∧
      (alyLeeExample : IdealHelmholtzCP0AlyLee ℝ).Tc ≠ 0 ∧
      (alyLeeExample : IdealHelmholtzCP0AlyLee ℝ).c 2 * 1 ≠ 0) := by
  have realFns_pow := saft_calculus.2.2.2.2.2.2.2.2.2.2.2.2.2.2.2.1
  have rpow_three_eq := nonanalytic_delta_calculus.1
  refine and_of_left ?_ fun alyLee_exp_sinh_cosh => ?_
  · intro x hx
    have ha : 0 < Real.exp x := Real.exp_pos x
    have e1 : Real.exp (-2 * x) = (Real.exp x)⁻¹ * (Real.exp x)⁻¹ := by
      rw [← Real.exp_neg, ← Real.exp_add]
      congr 1
      ring
    have e2 : Real.exp (2 * x) = Real.exp x * Real.exp x := by
      rw [← Real.exp_add]
      congr 1
      ring
    have hs : Real.sinh x ≠ 0 := fun h => hx (Real.sinh_eq_zero.mp h)
    have hc : Real.cosh x ≠ 0 := (Real.cosh_pos x).ne'
    have h1 : Real.exp (-2 * x) - 1 ≠ 0 := by
      intro h
      have h2 : Real.exp (-2 * x) = Real.exp 0 := by rw [Real.exp_zero]; linarith
      have h3 := Real.exp_injective h2
      apply hx
      linarith
    have hs2 := hs
    have hc2 := hc
    have h12 := h1
    rw [Real.sinh_eq, Real.exp_neg] at hs2
    rw [Real.cosh_eq, Real.exp_neg] at hc2
    rw [e1] at h12
    refine ⟨h1, hs, ?_, ?_⟩
    · rw [Real.sinh_eq, Real.exp_neg, e1]
      revert hs2 h12
      generalize Real.exp x = a at ha ⊢
      intro hs2 h12
      have ha0 := ha.ne'
      have h3 : a - a⁻¹ ≠ 0 := fun h => hs2 (by rw [h]; simp)
      have h4 : a * a - 1 ≠ 0 := by
        intro h
        apply h3
        field_simp
        linarith
      have h5 : 1 - a * a ≠ 0 := fun h => h4 (by linarith)
      field_simp
      ring
    · rw [Real.cosh_eq, Real.exp_neg, e2]
      generalize Real.exp x = a at ha ⊢
      have ha0 := ha.ne'
      have h3 : a * a + 1 ≠ 0 := by positivity
      field_simp
      ring
  refine and_of_left ?_ fun hasDerivAt_alyLee_anti_deriv_cp0_tau2 => ?_
  · intro valid self tau htau hTc h2
    have hid := hasDerivAt_id' tau
    have hx : self.c 2 * tau / self.Tc ≠ 0 := div_ne_zero h2 hTc
    obtain ⟨hE, hS, hES, -⟩ := alyLee_exp_sinh_cosh _ hx
    have harg : (-2) * self.c 2 * tau / self.Tc = -2 * (self.c 2 * tau / self.Tc) := by ring
    have hE1 := ((hid.const_mul ((-2) * self.c 2)).div_const self.Tc).exp
    have hE2 := ((hid.const_mul (2 * self.c 4)).div_const self.Tc).exp
    have h := (((hasDerivAt_const tau (-self.c 0)).div hid htau).add
      ((hasDerivAt_const tau (2 * self.c 1 * self.c 2 / self.Tc)).div (hE1.sub_const 1)
        (by rw [harg]; exact hE))).sub
      ((hE2.add_const 1).const_mul (2 * self.c 3 * self.c 4 / self.Tc))
    refine (h.congr_deriv ?_).congr_of_eventuallyEq (Filter.Eventually.of_forall fun y => rfl)
    have hsq : (self.c 2 / self.Tc / Real.sinh (self.c 2 * tau / self.Tc)) ^ 2
        = (self.c 2 / self.Tc) ^ 2 * (4 * Real.exp (-2 * (self.c 2 * tau / self.Tc))
          / (Real.exp (-2 * (self.c 2 * tau / self.Tc)) - 1) ^ 2) := by
      rw [hES]
      ring
    rw [hsq, harg]
    revert hE
    generalize Real.exp (-2 * (self.c 2 * tau / self.Tc)) = E
    generalize Real.exp (2 * self.c 4 * tau / self.Tc) = G
    intro hE
    generalize self.Tc = Tc at hTc ⊢
    generalize self.c 0 = c0
    generalize self.c 1 = c1
    generalize self.c 2 = c2
    generalize self.c 3 = c3
    generalize self.c 4 = c4
    have hr1 := mul_inv_cancel₀ hTc
    have hr2 := mul_inv_cancel₀ hE
    have hr3 := mul_inv_cancel₀ htau
    simp only [div_eq_mul_inv, mul_inv, ← inv_pow]
    generalize Tc⁻¹ = Ti at hr1 ⊢
    generalize (E - 1)⁻¹ = Ei at hr2 ⊢
    generalize tau⁻¹ = ti at hr3 ⊢
    ring
  refine and_of_left ?_ fun hasDerivAt_alyLee_anti_deriv_cp0_tau => ?_
  · intro valid self tau htau hTc h2
    have hid := hasDerivAt_id' tau
    have hx : self.c 2 * tau / self.Tc ≠ 0 := div_ne_zero h2 hTc
    obtain ⟨hE, hS, hES, -⟩ := alyLee_exp_sinh_cosh _ hx
    have harg : (-2) * self.c 2 * tau / self.Tc = -2 * (self.c 2 * tau / self.Tc) := by ring
    have harg2 : 2 * self.c 4 * tau / self.Tc = 2 * (self.c 4 * tau / self.Tc) := by ring
    have hC : Real.cosh (self.c 4 * tau / self.Tc) ≠ 0 := (Real.cosh_pos _).ne'
    have hEC : 4 * Real.exp (2 * (self.c 4 * tau / self.Tc))
        / (Real.exp (2 * (self.c 4 * tau / self.Tc)) + 1) ^ 2
        = 1 / Real.cosh (self.c 4 * tau / self.Tc) ^ 2 := by
      rcases eq_or_ne (self.c 4 * tau / self.Tc) 0 with h0 | h0
      · rw [h0]
        norm_num
      · exact (alyLee_exp_sinh_cosh _ h0).2.2.2
    have hG : 0 < Real.exp (2 * (self.c 4 * tau / self.Tc)) := Real.exp_pos _
    have hE1 := ((hid.const_mul ((-2) * self.c 2)).div_const self.Tc).exp
    have hE2 := ((hid.const_mul (2 * self.c 4)).div_const self.Tc).exp
    have hden : -self.Tc + self.Tc * Real.exp ((-2) * self.c 2 * tau / self.Tc) ≠ 0 := by
      rw [harg]
      intro h
      apply hE
      have : self.Tc * (Real.exp (-2 * (self.c 2 * tau / self.Tc)) - 1) = 0 := by linarith
      rcases mul_eq_zero.mp this with h3 | h3
      · exact absurd h3 hTc
      · exact h3
    have hlogarg : -1 + Real.exp ((-2) * self.c 2 * tau / self.Tc) ≠ 0 := by
      rw [harg]
      intro h
      apply hE
      linarith
    have hpos : Real.exp (2 * self.c 4 * tau / self.Tc) + 1 ≠ 0 := by
      have := Real.exp_pos (2 * self.c 4 * tau / self.Tc)
      positivity
    have hL := (hE2.add_const 1).log hpos
    have hN := (((hE2.const_mul self.Tc).mul hL).add (hL.const_mul self.Tc)).sub
      ((hid.const_mul (2 * self.c 4)).mul hE2)
    have h3 := (hN.const_mul (-self.c 3)).div ((hE2.add_const 1).const_mul self.Tc)
      (mul_ne_zero hTc hpos)
    have h2a := (hid.const_mul (2 * self.c 1 * self.c 2)).div
      ((hE1.const_mul self.Tc).const_add (-self.Tc)) hden
    have h2b := ((hE1.const_add (-1)).log hlogarg).const_mul (self.c 1)
    have h2c := (hid.const_mul (2 * self.c 1 * self.c 2)).div_const self.Tc
    have hsq : (self.c 2 / self.Tc / Real.sinh (self.c 2 * tau / self.Tc)) ^ 2
        = (self.c 2 / self.Tc) ^ 2 * (4 * Real.exp (-2 * (self.c 2 * tau / self.Tc))
          / (Real.exp (-2 * (self.c 2 * tau / self.Tc)) - 1) ^ 2) := by
      rw [hES]
      ring
    have hsq2 : (self.c 4 / self.Tc / Real.cosh (self.c 4 * tau / self.Tc)) ^ 2
        = (self.c 4 / self.Tc) ^ 2 * (4 * Real.exp (2 * (self.c 4 * tau / self.Tc))
          / (Real.exp (2 * (self.c 4 * tau / self.Tc)) + 1) ^ 2) := by
      rw [hEC]
      ring
    have h1 := ((Real.hasDerivAt_log htau).const_mul (self.c 0)).congr_deriv
      (show _ = tau * (self.c 0 / tau ^ 2) by
        field_simp
        ring)
    have h2 := ((h2a.add h2b).add h2c).congr_deriv
      (show _ = tau * (self.c 1
          * (self.c 2 / self.Tc / Real.sinh (self.c 2 * tau / self.Tc)) ^ 2) by
        rw [hsq]
        simp only [harg] at hden hlogarg ⊢
        revert hE hden hlogarg
        generalize Real.exp (-2 * (self.c 2 * tau / self.Tc)) = E
        intro hE _ _
        generalize self.Tc = Tc at hTc ⊢
        generalize self.c 1 = c1
        generalize self.c 2 = c2
        have e1 : -Tc + Tc * E = Tc * (E - 1) := by ring
        have e2 : (-1 : ℝ) + E = E - 1 := by ring
        have hr1 := mul_inv_cancel₀ hTc
        have hr2 := mul_inv_cancel₀ hE
        simp only [e1, e2, div_eq_mul_inv, mul_inv, ← inv_pow]
        generalize Tc⁻¹ = Ti at hr1 ⊢
        generalize (E - 1)⁻¹ = Ei at hr2 ⊢
        linear_combination
          (2 * E * Ei * Tc * Ti ^ 2 * c1 * c2 + 2 * E * Ei * Ti * c1 * c2
            - 2 * E * Ei ^ 2 * Tc * Ti ^ 2 * c1 * c2
            + 4 * E * Ei ^ 2 * Ti ^ 2 * c1 * c2 ^ 2 * tau
            + 2 * Ei ^ 2 * Tc * Ti ^ 2 * c1 * c2 - 2 * Tc * Ti ^ 2 * c1 * c2
            - 2 * Ti * c1 * c2) * hr1
            + (2 * Ei * Tc ^ 2 * Ti ^ 3 * c1 * c2 - 2 * Tc ^ 2 * Ti ^ 3 * c1 * c2) * hr2)
    have h3' := h3.congr_deriv
      (show _ = tau * (self.c 3
          * (self.c 4 / self.Tc / Real.cosh (self.c 4 * tau / self.Tc)) ^ 2) by
        rw [hsq2]
        simp only [harg2] at hpos ⊢
        revert hG hpos
        generalize Real.exp (2 * (self.c 4 * tau / self.Tc)) = G
        generalize Real.log (G + 1) = L
        intro hG hpos
        generalize self.Tc = Tc at hTc ⊢
        generalize self.c 3 = c3
        generalize self.c 4 = c4
        have hr1 := mul_inv_cancel₀ hTc
        have hr2 := mul_inv_cancel₀ hpos
        simp only [div_eq_mul_inv, mul_inv, ← inv_pow]
        generalize Tc⁻¹ = Ti at hr1 ⊢
        generalize (G + 1)⁻¹ = Gi at hr2 ⊢
        linear_combination
          (-2 * G * Gi ^ 2 * Tc * Ti ^ 2 * c3 * c4 + 4 * G * Gi ^ 2 * Ti ^ 2 * c3 * c4 ^ 2 * tau
            - 2 * G ^ 2 * Gi ^ 2 * Tc * Ti ^ 2 * c3 * c4) * hr1
            + (-2 * G * Gi ^ 2 * Tc ^ 2 * Ti ^ 3 * c3 * c4
            - 2 * G ^ 2 * Gi ^ 2 * Tc ^ 2 * Ti ^ 3 * c3 * c4) * hr2)
    refine (((h1.add h2).add h3').congr_deriv ?_).congr_of_eventuallyEq
      (Filter.Eventually.of_forall fun y => rfl)
    ring
  refine and_of_left ?_ fun hasDerivAt_alyLee_dTau => ?_
  · intro valid self tau delta hen htau hTc h2
    have hA2 := hasDerivAt_alyLee_anti_deriv_cp0_tau2 valid self tau htau hTc h2
    have h := (hA2.sub_const (self.anti_deriv_cp0_tau2 (realFns valid) self.tau0)).neg
    refine (h.congr_deriv ?_).congr_of_eventuallyEq (Filter.Eventually.of_forall fun y => ?_)
    · simp only [IdealHelmholtzCP0AlyLee.dTau2, hen, Bool.not_true, Bool.false_eq_true, if_false,
        realFns_pow, Real.rpow_two, realFns]
      ring
    · simp only [IdealHelmholtzCP0AlyLee.dTau, hen, Bool.not_true, Bool.false_eq_true, if_false]
  refine and_of_left ?_ fun hasDerivAt_alyLee_base => ?_
  · intro valid self tau delta hen htau hTc h2
    have hA2 := hasDerivAt_alyLee_anti_deriv_cp0_tau2 valid self tau htau hTc h2
    have hA1 := hasDerivAt_alyLee_anti_deriv_cp0_tau valid self tau htau hTc h2
    have h := ((hasDerivAt_id' tau).neg.mul
      (hA2.sub_const (self.anti_deriv_cp0_tau2 (realFns valid) self.tau0))).add
      (hA1.sub_const (self.anti_deriv_cp0_tau (realFns valid) self.tau0))
    refine (h.congr_deriv ?_).congr_of_eventuallyEq (Filter.Eventually.of_forall fun y => ?_)
    · simp only [IdealHelmholtzCP0AlyLee.dTau, hen, Bool.not_true, Bool.false_eq_true, if_false]
      ring
    · simp only [IdealHelmholtzCP0AlyLee.base, hen, Bool.not_true, Bool.false_eq_true, if_false]
  refine and_of_left ?_ fun hasDerivAt_alyLee_dTau2 => ?_
  · intro valid self tau delta htau hTc h2
    rcases Bool.eq_false_or_eq_true self.enabled with hen | hen
    swap
    · simp only [IdealHelmholtzCP0AlyLee.dTau2, IdealHelmholtzCP0AlyLee.dTau3, hen, Bool.not_false,
        if_true]
      exact hasDerivAt_const tau 0
    have hid := hasDerivAt_id' tau
    have hS : Real.sinh (self.c 2 * tau / self.Tc) ≠ 0 :=
      (alyLee_exp_sinh_cosh _ (div_ne_zero h2 hTc)).2.1
    have hC : Real.cosh (self.c 4 * tau / self.Tc) ≠ 0 := (Real.cosh_pos _).ne'
    have hs := ((hid.const_mul (self.c 2)).div_const self.Tc).sinh
    have hc := ((hid.const_mul (self.c 4)).div_const self.Tc).cosh
    have h := (((hasDerivAt_const tau (-self.c 0)).div (hid.pow 2) (pow_ne_zero 2 htau)).sub
      ((((hasDerivAt_const tau (self.c 2 / self.Tc)).div hs hS).pow 2).const_mul (self.c 1))).sub
      ((((hasDerivAt_const tau (self.c 4 / self.Tc)).div hc hC).pow 2).const_mul (self.c 3))
    refine (h.congr_deriv ?_).congr_of_eventuallyEq (Filter.Eventually.of_forall fun y => ?_)
    · simp only [IdealHelmholtzCP0AlyLee.dTau3, hen, Bool.not_true, Bool.false_eq_true, if_false,
        realFns_pow, rpow_three_eq, realFns]
      revert hS hC
      generalize Real.sinh (self.c 2 * tau / self.Tc) = S
      generalize Real.cosh (self.c 2 * tau / self.Tc) = C2
      generalize Real.cosh (self.c 4 * tau / self.Tc) = C
      generalize Real.sinh (self.c 4 * tau / self.Tc) = S4
      intro _ _
      have hr := mul_inv_cancel₀ htau
      simp only [div_eq_mul_inv, mul_inv, ← inv_pow]
      generalize tau⁻¹ = ti at hr ⊢
      linear_combination (2 * self.c 0 * ti ^ 3) * hr
    · simp only [IdealHelmholtzCP0AlyLee.dTau2, hen, Bool.not_true, Bool.false_eq_true, if_false,
        realFns_pow, Real.rpow_two, realFns]
  refine and_of_left ?_ fun alyLeeExample_remainder_pos => ?_
  · have h3 : (alyLeeExample : IdealHelmholtzCP0AlyLee ℝ).c 3 = 1 := rfl
    have h4 : (alyLeeExample : IdealHelmholtzCP0AlyLee ℝ).c 4 = 1 := rfl
    have hT : (alyLeeExample : IdealHelmholtzCP0AlyLee ℝ).Tc = 1 := rfl
    rw [h3, h4, hT]
    have := Real.exp_pos (2 * 1 * 1 / 1)
    have := Real.cosh_pos (1 * 1 / 1)
    positivity
  have h2 : (alyLeeExample : IdealHelmholtzCP0AlyLee ℝ).c 2 = -1 := rfl
  have hT : (alyLeeExample : IdealHelmholtzCP0AlyLee ℝ).Tc = 1 := rfl
  refine ⟨rfl, one_ne_zero, ?_, ?_⟩
  · rw [hT]
    exact one_ne_zero
  · rw [h2]
    norm_num

/-- Claim C27 fails in the code: for the enabled term with `c = (0, 0, -1, 1, 1)` and
`Tc = T0 = tau0 = 1`, at `tau = 1` (so `tau > 0`, `Tc > 0`, `c[2]*tau ≠ 0`), the derivative
of `dTau` in `tau` is `dTau2 + 1/cosh(1)^2 + 4*exp(2)`, not `dTau2`.  The last term of
`anti_deriv_cp0_tau2` is coded as a product with `exp(2*c[4]*tau/Tc) + 1` (line 929), where
`dTau2` and `anti_deriv_cp0_tau` correspond to a quotient. -/
theorem alyLee_dTau2_is_not_derivative_of_dTau :
    HasDerivAt
      (fun y => (alyLeeExample : IdealHelmholtzCP0AlyLee ℝ).dTau (realFns fun _ => true) y 1)
      ((alyLeeExample : IdealHelmholtzCP0AlyLee ℝ).dTau2 (realFns fun _ => true) 1 1
        + (1 / Real.cosh 1 ^ 2 + 4 * Real.exp 2)) 1 ∧
    ¬ HasDerivAt
      (fun y => (alyLeeExample : IdealHelmholtzCP0AlyLee ℝ).dTau (realFns fun _ => true) y 1)
      ((alyLeeExample : IdealHelmholtzCP0AlyLee ℝ).dTau2 (realFns fun _ => true) 1 1) 1 := by
  have alyLeeExample_domain := alyLee_calculus.2.2.2.2.2.2.2
  have hasDerivAt_alyLee_dTau := alyLee_calculus.2.2.2.1
  have alyLeeExample_remainder_pos := alyLee_calculus.2.2.2.2.2.2.1
  obtain ⟨hen, h1, hTc, h2⟩ := alyLeeExample_domain
  have h := hasDerivAt_alyLee_dTau (fun _ => true) alyLeeExample 1 1 hen h1 hTc h2
  have hpos := alyLeeExample_remainder_pos
  refine ⟨?_, ?_⟩
  · refine h.congr_deriv ?_
    have h3 : (alyLeeExample : IdealHelmholtzCP0AlyLee ℝ).c 3 = 1 := rfl
    have h4 : (alyLeeExample : IdealHelmholtzCP0AlyLee ℝ).c 4 = 1 := rfl
    have hT : (alyLeeExample : IdealHelmholtzCP0AlyLee ℝ).Tc = 1 := rfl
    rw [h3, h4, hT]
    norm_num
  · intro hcon
    have := hcon.unique h
    linarith

/-- Claim C28 fails in the code, by the defect of C27: for the same term at `tau = 1`,
where both logarithms of `anti_deriv_cp0_tau` have a positive argument, the derivative of
`base` in `tau` is `dTau + 1/cosh(1)^2 + 4*exp(2)`, not `dTau`.  (The third order is
consistent: the part `hasDerivAt_alyLee_dTau2` of `alyLee_calculus`.) -/
theorem alyLee_dTau_is_not_derivative_of_base :
    0 < -1 + Real.exp (-2 * (alyLeeExample : IdealHelmholtzCP0AlyLee ℝ).c 2 * 1
      / (alyLeeExample : IdealHelmholtzCP0AlyLee ℝ).Tc) ∧
    0 < Real.exp (2 * (alyLeeExample : IdealHelmholtzCP0AlyLee ℝ).c 4 * 1
      / (alyLeeExample : IdealHelmholtzCP0AlyLee ℝ).Tc) + 1 ∧
    HasDerivAt
      (fun y => (alyLeeExample : IdealHelmholtzCP0AlyLee ℝ).base (realFns fun _ => true) y 1)
      ((alyLeeExample : IdealHelmholtzCP0AlyLee ℝ).dTau (realFns fun _ => true) 1 1
        + (1 / Real.cosh 1 ^ 2 + 4 * Real.exp 2)) 1 ∧
    ¬ HasDerivAt
      (fun y => (alyLeeExample : IdealHelmholtzCP0AlyLee ℝ).base (realFns fun _ => true) y 1)
      ((alyLeeExample : IdealHelmholtzCP0AlyLee ℝ).dTau (realFns fun _ => true) 1 1) 1 := by
  have alyLeeExample_domain := alyLee_calculus.2.2.2.2.2.2.2
  have hasDerivAt_alyLee_base := alyLee_calculus.2.2.2.2.1
  have alyLeeExample_remainder_pos := alyLee_calculus.2.2.2.2.2.2.1
  obtain ⟨hen, h1, hTc, h2⟩ := alyLeeExample_domain
  have h := hasDerivAt_alyLee_base (fun _ => true) alyLeeExample 1 1 hen h1 hTc h2
  have hpos := alyLeeExample_remainder_pos
  have hc2 : (alyLeeExample : IdealHelmholtzCP0AlyLee ℝ).c 2 = -1 := rfl
  have hT1 : (alyLeeExample : IdealHelmholtzCP0AlyLee ℝ).Tc = 1 := rfl
  refine ⟨?_, by positivity, ?_, ?_⟩
  · rw [hc2, hT1]
    have := Real.add_one_lt_exp (show (-2 * -1 * 1 / 1 : ℝ) ≠ 0 by norm_num)
    have h0 : (0 : ℝ) < -2 * -1 * 1 / 1 := by norm_num
    linarith
  · refine h.congr_deriv ?_
    have h3 : (alyLeeExample : IdealHelmholtzCP0AlyLee ℝ).c 3 = 1 := rfl
    have h4 : (alyLeeExample : IdealHelmholtzCP0AlyLee ℝ).c 4 = 1 := rfl
    have hT : (alyLeeExample : IdealHelmholtzCP0AlyLee ℝ).Tc = 1 := rfl
    rw [h3, h4, hT]
    norm_num
  · intro hcon
    have := hcon.unique h
    linarith

/-! ## The generalized-exponential term never leaves the domain of its operations (C29) -/

theorem checkedLog_pos {K : Type} [LinearOrderedField K] (F : MathFns K) (x : K) (h : 0 < x) :
    checkedLog F x = Except.ok (F.log x) := if_pos h

theorem checkedDiv_ne_zero {K : Type} [LinearOrderedField K] (a b : K) (h : b ≠ 0) :
    checkedDiv a b = Except.ok (a / b) := if_neg h

theorem checkedPow_pos {K : Type} [LinearOrderedField K] (F : MathFns K) (a b : K)
    (h : 0 < a) : checkedPow F a b = Except.ok (F.pow a b) :=
  if_neg (not_or.mpr ⟨not_lt.mpr h.le, fun h0 => h.ne' h0.1⟩)

/-- With `one_over_delta = 1/delta` the checked density cutoff is the density cutoff. -/
theorem delta_li_block_checked_eq {K : Type} [LinearOrderedField K] (F : MathFns K)
    (flag : Bool) (el : ResidualHelmholtzGeneralizedExponentialElement K) (delta : K)
    (s : UParts K) :
    delta_li_block_checked F flag el delta (1 / delta) s = delta_li_block F flag el delta s :=
  rfl

/-- For `tau > 0` the checked temperature cutoff does not fail and is the temperature
cutoff. -/
theorem tau_mi_block_checked_eq {K : Type} [LinearOrderedField K] (F : MathFns K)
    (flag : Bool) (el : ResidualHelmholtzGeneralizedExponentialElement K) (tau : K)
    (htau : 0 < tau) (s : UParts K) :
    tau_mi_block_checked F flag el tau (1 / tau) s
      = Except.ok (tau_mi_block F flag el tau s) := by
  unfold tau_mi_block_checked tau_mi_block
  split_ifs
  · rw [checkedPow_pos F tau el.m_double htau]
    rfl
  · rfl
  · rfl

/-- For `tau > 0` one checked pass of the loop does not fail and is the pass of `all`. -/
theorem loopBody_checked_eq {K : Type} [LinearOrderedField K] (F : MathFns K)
    (self : ResidualHelmholtzGeneralizedExponential K) (tau delta : K) (htau : 0 < tau)
    (derivs : HelmholtzDerivatives K)
    (el : ResidualHelmholtzGeneralizedExponentialElement K) :
    self.loopBody_checked F tau delta (F.log tau) (F.log delta) (1 / delta) (1 / tau) derivs el
      = Except.ok (self.loopBody F tau delta derivs el) := by
  simp only [ResidualHelmholtzGeneralizedExponential.loopBody_checked,
    delta_li_block_checked_eq, tau_mi_block_checked_eq F _ el tau htau]
  rfl

/-- A loop none of whose passes fails returns the result of the plain loop. -/
theorem foldlM_ok_eq_foldl {ε α β : Type} (f : β → α → Except ε β) (g : β → α → β)
    (h : ∀ b a, f b a = Except.ok (g b a)) (l : List α) (b : β) :
    l.foldlM f b = Except.ok (l.foldl g b) := by
  induction l generalizing b with
  | nil => rfl
  | cons a l ih =>
    rw [List.foldlM_cons, h b a, List.foldl_cons, ← ih (g b a)]
    rfl

/-- Claim C29: for every term, every element list, every incoming aggregate and every
`tau > 0`, `delta > 0`, the checked `all` takes no error branch: `log(tau)` and
`log(delta)` have positive arguments, `1/delta` and `1/tau` have non-zero divisors, and
`pow(tau, m_double)` has a positive base; its result is the result of `all`. -/
theorem all_is_total_on_positive_inputs {K : Type} [LinearOrderedField K] (F : MathFns K)
    (self : ResidualHelmholtzGeneralizedExponential K) (tau delta : K)
    (derivs : HelmholtzDerivatives K) (htau : 0 < tau) (hdelta : 0 < delta) :
    checkedLog F tau = Except.ok (F.log tau) ∧
    checkedLog F delta = Except.ok (F.log delta) ∧
    checkedDiv 1 delta = Except.ok (1 / delta) ∧
    checkedDiv 1 tau = Except.ok (1 / tau) ∧
    self.all_checked F tau delta derivs = Except.ok (self.all F tau delta derivs) := by
  have h1 := checkedLog_pos F tau htau
  have h2 := checkedLog_pos F delta hdelta
  have h3 := checkedDiv_ne_zero 1 delta hdelta.ne'
  have h4 := checkedDiv_ne_zero 1 tau htau.ne'
  refine ⟨h1, h2, h3, h4, ?_⟩
  unfold ResidualHelmholtzGeneralizedExponential.all_checked
  rw [h1, h2, h3, h4]
  simp only [bind, Except.bind]
  rw [foldlM_ok_eq_foldl _ (self.loopBody F tau delta)
    (fun b a => loopBody_checked_eq F self tau delta htau b a)]
  rfl

/-- Witness of C29: the term with all six modifiers at `tau = 2`, `delta = 3`. -/
theorem all_is_total_on_positive_inputs_witness :
    (0 : ℝ) < 2 ∧ (0 : ℝ) < 3 ∧
    (allModifiersTerm : ResidualHelmholtzGeneralizedExponential ℝ).all_checked
        (realFns fun _ => true) 2 3 HelmholtzDerivatives.zero
      = Except.ok ((allModifiersTerm : ResidualHelmholtzGeneralizedExponential ℝ).all
        (realFns fun _ => true) 2 3 HelmholtzDerivatives.zero) :=
  ⟨by norm_num, by norm_num,
    (all_is_total_on_positive_inputs (realFns fun _ => true) allModifiersTerm 2 3
      HelmholtzDerivatives.zero (by norm_num) (by norm_num)).2.2.2.2⟩

/-- Outside the domain the checked `all` does report: at `delta = 0` the division
`1/delta` of line 25 is by zero (after `log(delta)` has left its domain). -/
theorem all_checked_reports_at_zero :
    (allModifiersTerm : ResidualHelmholtzGeneralizedExponential ℚ).all_checked
        ⟨id, id, fun a _ => a, id, id, id, fun _ => true⟩ 2 0 HelmholtzDerivatives.zero
      = Except.error ArithError.logDomain := by
  rfl

/-! ### The free-energy increments of the SAFT term (C25) -/

/-- An enabled term adds `increments` at the values of `X` and of its coded partial
derivatives; a disabled term adds nothing. -/
theorem saft_all_eq_add_increments {K : Type} [LinearOrderedField K] (F : MathFns K)
    (self : ResidualHelmholtzSAFTAssociating K) (tau delta : K)
    (deriv : HelmholtzDerivatives K) :
    self.all F tau delta deriv =
      if self.disabled then deriv else
        deriv.add (self.increments F (self.X F delta (self.Deltabar F tau delta))
          (self.dX_dtau F tau delta) (self.dX_ddelta F tau delta) (self.d2X_dtau2 F tau delta)
          (self.d2X_ddelta2 F tau delta) (self.d2X_ddeltadtau F tau delta)
          (self.d3X_dtau3 F tau delta) (self.d3X_ddeltadtau2 F tau delta)
          (self.d3X_ddelta2dtau F tau delta) (self.d3X_ddelta3 F tau delta)) := by
  unfold ResidualHelmholtzSAFTAssociating.all
  split_ifs <;> rfl

/-- Calculus of the free energy `c*(ln X - X/2 + 1/2)` of the SAFT term along a function `X`. -/
theorem saft_free_energy_calculus :
    -- `hasDerivAt_saft_free_energy`: Differentiating `c*(ln X - X/2 + 1/2)`.
    (∀ (c : ℝ) (f : ℝ → ℝ) (f1 x : ℝ) (_ : HasDerivAt f f1 x) (_ : f x ≠ 0),
        HasDerivAt (fun y => c * (Real.log (f y) - f y / 2 + 0.5)) (c * (1 / f x - 0.5) * f1) x) ∧
    -- `hasDerivAt_saft_first_order`: Differentiating `c*(1/X - 1/2)*Y`.
    (∀ (c : ℝ) (f g : ℝ → ℝ) (f1 g1 x : ℝ) (_ : HasDerivAt f f1 x) (_ : HasDerivAt g g1 x)
      (_ : f x ≠ 0),
        HasDerivAt (fun y => c * (1 / f y - 0.5) * g y)
          (c * (((-f1) / f x / f x) * g x + g1 * (1 / f x - 0.5))) x) ∧
    -- `hasDerivAt_saft_second_order`: Differentiating `c*((1/X - 1/2)*Z - (Y/X)^2)`.
    (∀ (c : ℝ) (f g k : ℝ → ℝ) (f1 g1 k1 x : ℝ) (_ : HasDerivAt f f1 x) (_ : HasDerivAt g g1 x)
      (_ : HasDerivAt k k1 x) (_ : f x ≠ 0),
        HasDerivAt (fun y => c * ((1 / f y - 0.5) * k y - (g y / f y) ^ (2 : ℝ)))
          (c * ((1 / f x - 1 / 2) * k1 - f1 / f x ^ (2 : ℝ) * k x
            - 2 * (f x ^ (2 : ℝ) * (g x * g1) - g x ^ (2 : ℝ) * (f x * f1)) / f x ^ (4 : ℝ))) x) ∧
    -- `saft_all_of_Deltabar_zero`: Without association strength the SAFT term vanishes up to
    -- first order: if `Deltabar`, `dDeltabar_dtau__constdelta` and `dDeltabar_ddelta__consttau`
    -- are zero at the point, then `X = 1`, `dX_dtau = dX_ddelta = 0`, and an enabled `all` adds
    -- `0` to `alphar`, `dalphar_ddelta` and `dalphar_dtau`.
    (∀ (valid : ℝ → Bool) (self : ResidualHelmholtzSAFTAssociating ℝ) (tau delta : ℝ)
      (deriv : HelmholtzDerivatives ℝ) (_ : self.disabled = false)
      (_ : self.Deltabar (realFns valid) tau delta = 0)
      (_ : self.dDeltabar_dtau__constdelta (realFns valid) tau delta = 0)
      (_ : self.dDeltabar_ddelta__consttau (realFns valid) tau delta = 0),
        self.X (realFns valid) delta (self.Deltabar (realFns valid) tau delta) = 1 ∧
        (self.all (realFns valid) tau delta deriv).alphar = deriv.alphar + 0 ∧
        (self.all (realFns valid) tau delta deriv).dalphar_ddelta = deriv.dalphar_ddelta + 0 ∧
        (self.all (realFns valid) tau delta deriv).dalphar_dtau = deriv.dalphar_dtau + 0) := by
  have rpow_four_eq := saft_calculus.2.1
  refine and_of_left ?_ fun hasDerivAt_saft_free_energy => ?_
  · intro c f f1 x hf h0
    have h := (((hf.log h0).sub (hf.div_const 2)).add_const (0.5 : ℝ)).const_mul c
    refine h.congr_deriv ?_
    field_simp
    ring
  refine and_of_left ?_ fun hasDerivAt_saft_first_order => ?_
  · intro c f g f1 g1 x hf hg h0
    have h := ((((hasDerivAt_const x (1 : ℝ)).div hf h0).sub_const (0.5 : ℝ)).const_mul c).mul hg
    refine h.congr_deriv ?_
    field_simp
    ring
  refine and_of_left ?_ fun hasDerivAt_saft_second_order => ?_
  · intro c f g k f1 g1 k1 x hf hg hk h0
    have h := (((((hasDerivAt_const x (1 : ℝ)).div hf h0).sub_const (0.5 : ℝ)).mul hk).sub
      ((hg.div hf h0).pow 2)).const_mul c
    refine (h.congr_deriv ?_).congr_of_eventuallyEq (Filter.Eventually.of_forall fun y => ?_)
    · simp only [Real.rpow_two, rpow_four_eq]
      field_simp
      ring
    · simp only [Real.rpow_two]
  intro valid self tau delta deriv hen hD hDt hDd
  have hX : self.X (realFns valid) delta (self.Deltabar (realFns valid) tau delta) = 1 := by
    rw [hD]
    simp only [ResidualHelmholtzSAFTAssociating.X, realFns, mul_zero, zero_mul, add_zero,
      Real.sqrt_one]
    norm_num
  have hXt : self.dX_dtau (realFns valid) tau delta = 0 := by
    simp only [ResidualHelmholtzSAFTAssociating.dX_dtau, hDt, mul_zero]
  have hXd : self.dX_ddelta (realFns valid) tau delta = 0 := by
    simp only [ResidualHelmholtzSAFTAssociating.dX_ddelta,
      ResidualHelmholtzSAFTAssociating.dX_ddelta__constDeltabar, hDd, hD, mul_zero, neg_zero,
      zero_mul, zero_div, add_zero]
  refine ⟨hX, ?_, ?_, ?_⟩
  · simp only [ResidualHelmholtzSAFTAssociating.all, hen, Bool.false_eq_true, if_false, hX]
    simp only [realFns, Real.log_one]
    norm_num
  · simp only [ResidualHelmholtzSAFTAssociating.all, hen, Bool.false_eq_true, if_false, hXd,
      mul_zero]
  · simp only [ResidualHelmholtzSAFTAssociating.all, hen, Bool.false_eq_true, if_false, hXt,
      mul_zero]

/-- From the zero aggregate an enabled term returns its increments, read along the coded
`X(delta, Deltabar(tau, delta))` and its coded partial derivatives. -/
theorem saft_all_zero_eq_incrementsAlong {K : Type} [LinearOrderedField K] (F : MathFns K)
    (self : ResidualHelmholtzSAFTAssociating K) (hen : self.disabled = false) (tau delta : K) :
    self.all F tau delta HelmholtzDerivatives.zero =
      self.incrementsAlong F (fun t d => self.X F d (self.Deltabar F t d))
        (fun t d => self.dX_dtau F t d) (fun t d => self.dX_ddelta F t d)
        (fun t d => self.d2X_dtau2 F t d) (fun t d => self.d2X_ddelta2 F t d)
        (fun t d => self.d2X_ddeltadtau F t d) (fun t d => self.d3X_dtau3 F t d)
        (fun t d => self.d3X_ddeltadtau2 F t d) (fun t d => self.d3X_ddelta2dtau F t d)
        (fun t d => self.d3X_ddelta3 F t d) tau delta := by
  rw [saft_all_eq_add_increments, hen]
  simp only [Bool.false_eq_true, if_false, ResidualHelmholtzSAFTAssociating.incrementsAlong]
  ext <;> simp only [HelmholtzDerivatives.add, HelmholtzDerivatives.zero, zero_add]

/-- Claim C25: for an enabled SAFT term, `all` adds to the aggregate the ten values
`increments` at `X` and its coded partial derivatives; the value added to `alphar` is
`m*a*(ln X - X/2 + 1/2)`, the one added to `d2alphar_ddelta_dtau` is
`m*a*((1/X - 1/2)*X_dt - X_t*X_d/X^2)`.  For every positive `Xf(tau, delta)` that is three
times differentiable at the point, with partial derivatives `Xt`, `Xd`, `Xtt`, `Xdt`, `Xdd`,
`Xttt`, `Xdtt`, `Xddt`, `Xddd`, the nine derivative increments, read along these functions,
are the partial derivatives of `F = m*a*(ln Xf - Xf/2 + 1/2)`: each is the derivative, in
`tau` or in `delta`, of the increment one order below. -/
theorem saft_increments_are_partial_derivatives (valid : ℝ → Bool)
    (self : ResidualHelmholtzSAFTAssociating ℝ) (tau delta : ℝ)
    (deriv : HelmholtzDerivatives ℝ)
    (Xf Xt Xd Xtt Xdd Xdt Xttt Xdtt Xddt Xddd : ℝ → ℝ → ℝ)
    (I : ℝ → ℝ → HelmholtzDerivatives ℝ)
    (hI : I = self.incrementsAlong (realFns valid) Xf Xt Xd Xtt Xdd Xdt Xttt Xdtt Xddt Xddd)
    (hen : self.disabled = false) (hX : 0 < Xf tau delta)
    (h_t : HasDerivAt (fun y => Xf y delta) (Xt tau delta) tau)
    (h_d : HasDerivAt (fun y => Xf tau y) (Xd tau delta) delta)
    (h_tt : HasDerivAt (fun y => Xt y delta) (Xtt tau delta) tau)
    (h_td : HasDerivAt (fun y => Xt tau y) (Xdt tau delta) delta)
    (h_dt : HasDerivAt (fun y => Xd y delta) (Xdt tau delta) tau)
    (h_dd : HasDerivAt (fun y => Xd tau y) (Xdd tau delta) delta)
    (h_ttt : HasDerivAt (fun y => Xtt y delta) (Xttt tau delta) tau)
    (h_ttd : HasDerivAt (fun y => Xtt tau y) (Xdtt tau delta) delta)
    (h_ddt : HasDerivAt (fun y => Xdd y delta) (Xddt tau delta) tau)
    (h_ddd : HasDerivAt (fun y => Xdd tau y) (Xddd tau delta) delta) :
    self.all (realFns valid) tau delta deriv =
      deriv.add (self.increments (realFns valid)
        (self.X (realFns valid) delta (self.Deltabar (realFns valid) tau delta))
        (self.dX_dtau (realFns valid) tau delta) (self.dX_ddelta (realFns valid) tau delta)
        (self.d2X_dtau2 (realFns valid) tau delta) (self.d2X_ddelta2 (realFns valid) tau delta)
        (self.d2X_ddeltadtau (realFns valid) tau delta)
        (self.d3X_dtau3 (realFns valid) tau delta)
        (self.d3X_ddeltadtau2 (realFns valid) tau delta)
        (self.d3X_ddelta2dtau (realFns valid) tau delta)
        (self.d3X_ddelta3 (realFns valid) tau delta)) ∧
    (I tau delta).alphar
      = self.m * self.a * (Real.log (Xf tau delta) - Xf tau delta / 2 + 1 / 2) ∧
    (I tau delta).d2alphar_ddelta_dtau
      = self.m * self.a * ((1 / Xf tau delta - 1 / 2) * Xdt tau delta
        - Xt tau delta * Xd tau delta / Xf tau delta ^ 2) ∧
    HasDerivAt (fun y => (I y delta).alphar) (I tau delta).dalphar_dtau tau ∧
    HasDerivAt (fun y => (I tau y).alphar) (I tau delta).dalphar_ddelta delta ∧
    HasDerivAt (fun y => (I y delta).dalphar_dtau) (I tau delta).d2alphar_dtau2 tau ∧
    HasDerivAt (fun y => (I y delta).dalphar_ddelta) (I tau delta).d2alphar_ddelta_dtau tau ∧
    HasDerivAt (fun y => (I tau y).dalphar_ddelta) (I tau delta).d2alphar_ddelta2 delta ∧
    HasDerivAt (fun y => (I y delta).d2alphar_dtau2) (I tau delta).d3alphar_dtau3 tau ∧
    HasDerivAt (fun y => (I tau y).d2alphar_dtau2) (I tau delta).d3alphar_ddelta_dtau2 delta ∧
    HasDerivAt (fun y => (I y delta).d2alphar_ddelta2) (I tau delta).d3alphar_ddelta2_dtau tau ∧
    HasDerivAt (fun y => (I tau y).d2alphar_ddelta2) (I tau delta).d3alphar_ddelta3 delta := by
  have hasDerivAt_saft_free_energy := saft_free_energy_calculus.1
  have hasDerivAt_saft_first_order := saft_free_energy_calculus.2.1
  have realFns_pow := saft_calculus.2.2.2.2.2.2.2.2.2.2.2.2.2.2.2.1
  have hasDerivAt_saft_second_order := saft_free_energy_calculus.2.2.1
  subst hI
  have h0 := hX.ne'
  refine ⟨?_, ?_, ?_, ?_, ?_, ?_, ?_, ?_, ?_, ?_, ?_, ?_⟩
  · rw [saft_all_eq_add_increments, hen]
    rfl
  · simp only [ResidualHelmholtzSAFTAssociating.incrementsAlong,
      ResidualHelmholtzSAFTAssociating.increments, realFns]
    norm_num
  · simp only [ResidualHelmholtzSAFTAssociating.incrementsAlong,
      ResidualHelmholtzSAFTAssociating.increments]
    field_simp
    ring
  · exact hasDerivAt_saft_free_energy (self.m * self.a) (fun y => Xf y delta) _ tau h_t h0
  · exact hasDerivAt_saft_free_energy (self.m * self.a) (fun y => Xf tau y) _ delta h_d h0
  · refine (hasDerivAt_saft_first_order (self.m * self.a) (fun y => Xf y delta)
      (fun y => Xt y delta) _ _ tau h_t h_tt h0).congr_deriv ?_
    simp only [ResidualHelmholtzSAFTAssociating.incrementsAlong,
      ResidualHelmholtzSAFTAssociating.increments, realFns_pow, Real.rpow_two]
    ring
  · exact hasDerivAt_saft_first_order (self.m * self.a) (fun y => Xf y delta)
      (fun y => Xd y delta) _ _ tau h_t h_dt h0
  · refine (hasDerivAt_saft_first_order (self.m * self.a) (fun y => Xf tau y)
      (fun y => Xd tau y) _ _ delta h_d h_dd h0).congr_deriv ?_
    simp only [ResidualHelmholtzSAFTAssociating.incrementsAlong,
      ResidualHelmholtzSAFTAssociating.increments, realFns_pow, Real.rpow_two]
    ring
  · refine (hasDerivAt_saft_second_order (self.m * self.a) (fun y => Xf y delta)
      (fun y => Xt y delta) (fun y => Xtt y delta) _ _ _ tau h_t h_tt h_ttt h0).congr_deriv ?_
    simp only [ResidualHelmholtzSAFTAssociating.incrementsAlong,
      ResidualHelmholtzSAFTAssociating.increments, realFns_pow]
    ring
  · exact hasDerivAt_saft_second_order (self.m * self.a) (fun y => Xf tau y)
      (fun y => Xt tau y) (fun y => Xtt tau y) _ _ _ delta h_d h_td h_ttd h0
  · exact hasDerivAt_saft_second_order (self.m * self.a) (fun y => Xf y delta)
      (fun y => Xd y delta) (fun y => Xdd y delta) _ _ _ tau h_t h_dt h_ddt h0
  · exact hasDerivAt_saft_second_order (self.m * self.a) (fun y => Xf tau y)
      (fun y => Xd tau y) (fun y => Xdd tau y) _ _ _ delta h_d h_dd h_ddd h0

/-- Witness of C25: the term `saftExample` at `tau = delta = 1`, read along the coded
`X(delta, Deltabar(tau, delta))` and its coded partial derivatives: there the increment of
`d3alphar_ddelta3` is the `delta`-derivative of the increment of `d2alphar_ddelta2`. -/
theorem saft_increments_are_partial_derivatives_witness :
    HasDerivAt
      (fun y => ((saftExample : ResidualHelmholtzSAFTAssociating ℝ).all (realFns fun _ => true)
        1 y HelmholtzDerivatives.zero).d2alphar_ddelta2)
      ((saftExample : ResidualHelmholtzSAFTAssociating ℝ).all (realFns fun _ => true)
        1 1 HelmholtzDerivatives.zero).d3alphar_ddelta3 1 := by
  have saftExample_eta_ne_one := saft_chain_calculus.2.2.2.2.2.2.2.2.2.2.2.2.1
  have saftExample_radicand_pos := saft_chain_calculus.2.2.2.2.2.2.2.2.2.2.2.2.2
  have saft_X_pos := saft_calculus.2.2.2.2.2.2.2.2.1
  have hasDerivAt_saft_Xf_tau := saft_chain_calculus.1
  have hasDerivAt_saft_Xf_delta := saft_chain_calculus.2.1
  have hasDerivAt_saft_dX_dtau_tau := saft_chain_calculus.2.2.1
  have hasDerivAt_saft_dX_dtau_delta := saft_chain_calculus.2.2.2.2.1
  have hasDerivAt_saft_dX_ddelta_tau := saft_chain_calculus.2.2.2.1
  have hasDerivAt_saft_dX_ddelta_delta := saft_chain_calculus.2.2.2.2.2.1
  have hasDerivAt_saft_d2X_dtau2_tau := saft_chain_calculus.2.2.2.2.2.2.1
  have hasDerivAt_saft_d2X_dtau2_delta := saft_chain_calculus.2.2.2.2.2.2.2.1
  have hasDerivAt_saft_d2X_ddelta2_tau := saft_chain_calculus.2.2.2.2.2.2.2.2.1
  have hasDerivAt_saft_d2X_ddelta2_delta := saft_chain_calculus.2.2.2.2.2.2.2.2.2.1
  have heta := saftExample_eta_ne_one
  have hpos := saftExample_radicand_pos
  have hen : (saftExample : ResidualHelmholtzSAFTAssociating ℝ).disabled = false := rfl
  simp only [saft_all_zero_eq_incrementsAlong (realFns fun _ => true) saftExample hen]
  exact (saft_increments_are_partial_derivatives (fun _ => true) saftExample 1 1
    HelmholtzDerivatives.zero
    (fun t d => saftExample.X (realFns fun _ => true) d
      (saftExample.Deltabar (realFns fun _ => true) t d))
    (fun t d => saftExample.dX_dtau (realFns fun _ => true) t d)
    (fun t d => saftExample.dX_ddelta (realFns fun _ => true) t d)
    (fun t d => saftExample.d2X_dtau2 (realFns fun _ => true) t d)
    (fun t d => saftExample.d2X_ddelta2 (realFns fun _ => true) t d)
    (fun t d => saftExample.d2X_ddeltadtau (realFns fun _ => true) t d)
    (fun t d => saftExample.d3X_dtau3 (realFns fun _ => true) t d)
    (fun t d => saftExample.d3X_ddeltadtau2 (realFns fun _ => true) t d)
    (fun t d => saftExample.d3X_ddelta2dtau (realFns fun _ => true) t d)
    (fun t d => saftExample.d3X_ddelta3 (realFns fun _ => true) t d)
    _ rfl hen (saft_X_pos (fun _ => true) saftExample 1 _)
    (hasDerivAt_saft_Xf_tau (fun _ => true) saftExample 1 1 hpos)
    (hasDerivAt_saft_Xf_delta (fun _ => true) saftExample 1 1 heta hpos)
    (hasDerivAt_saft_dX_dtau_tau (fun _ => true) saftExample 1 1 hpos)
    (hasDerivAt_saft_dX_dtau_delta (fun _ => true) saftExample 1 1 heta hpos)
    (hasDerivAt_saft_dX_ddelta_tau (fun _ => true) saftExample 1 1 hpos)
    (hasDerivAt_saft_dX_ddelta_delta (fun _ => true) saftExample 1 1 heta hpos)
    (hasDerivAt_saft_d2X_dtau2_tau (fun _ => true) saftExample 1 1 hpos)
    (hasDerivAt_saft_d2X_dtau2_delta (fun _ => true) saftExample 1 1 heta hpos)
    (hasDerivAt_saft_d2X_ddelta2_tau (fun _ => true) saftExample 1 1 hpos)
    (hasDerivAt_saft_d2X_ddelta2_delta (fun _ => true) saftExample 1 1 heta hpos)).2.2.2.2.2.2.2.2.2.2.2

/-! ## The fused `all` of the non-analytic term against its accessors (C31, C32) -/

theorem dbl_epsilon_pos_field {K : Type} [LinearOrderedField K] :
    (0 : K) < 10 * DBL_EPSILON := by
  unfold DBL_EPSILON
  positivity

/-- A loop over the indices `0, ..., l.length - 1` that reads `l[i]` is the fold over `l`. -/
theorem foldl_range_getElem {K β : Type} (f : β → ResidualHelmholtzNonAnalyticElement K → β)
    (l : List (ResidualHelmholtzNonAnalyticElement K)) (b : β) :
    (List.range l.length).foldl
      (fun d i => match l[i]? with
        | some el => f d el
        | none => d) b = l.foldl f b := by
  induction l using List.reverseRecOn generalizing b with
  | nil => rfl
  | append_singleton l a ih =>
    rw [List.length_append, List.length_singleton, List.range_succ, List.foldl_append,
      List.foldl_append]
    simp only [List.foldl_cons, List.foldl_nil]
    have h1 : (List.range l.length).foldl
        (fun d i => match (l ++ [a])[i]? with
          | some el => f d el
          | none => d) b = l.foldl f b := by
      rw [← ih b]
      apply List.foldl_ext
      intro d i hi
      rw [List.getElem?_append_left (List.mem_range.mp hi)]
    rw [h1]
    simp

/-- On a well-formed term `all` is the fold of its loop body over the elements. -/
theorem nonanalytic_all_eq_foldl {K : Type} [LinearOrderedField K] (F : MathFns K)
    (self : ResidualHelmholtzNonAnalytic K) (hwf : self.WellFormed) (tau delta : K)
    (derivs : HelmholtzDerivatives K) :
    self.all F tau delta derivs
      = self.elements.foldl
          (fun d el => ResidualHelmholtzNonAnalytic.all_element F el tau delta d) derivs := by
  unfold ResidualHelmholtzNonAnalytic.all
  by_cases hN : self.N = 0
  · have : self.elements = [] := by
      apply List.eq_nil_of_length_eq_zero
      rw [← hwf.1, hN]
    simp [hN, this]
  · rw [if_neg hN, hwf.1]
    exact foldl_range_getElem
      (fun d el => ResidualHelmholtzNonAnalytic.all_element F el tau delta d) self.elements derivs

/-- A fold whose body adds `v el` to the aggregate adds the fieldwise sums. -/
theorem foldl_add_aggregate {α K : Type} [LinearOrderedField K]
    (f : HelmholtzDerivatives K → α → HelmholtzDerivatives K) (v : α → HelmholtzDerivatives K)
    (l : List α) (h : ∀ el ∈ l, ∀ d, f d el = d.add (v el)) (d : HelmholtzDerivatives K) :
    l.foldl f d = d.add ((l.map v).foldl HelmholtzDerivatives.add HelmholtzDerivatives.zero) := by
  induction l using List.reverseRecOn generalizing d with
  | nil =>
    simp only [List.foldl_nil, List.map_nil]
    ext <;> simp [HelmholtzDerivatives.add, HelmholtzDerivatives.zero]
  | append_singleton l a ih =>
    rw [List.foldl_append, List.map_append, List.foldl_append,
      ih (fun el hel => h el (List.mem_append_left _ hel))]
    simp only [List.foldl_cons, List.foldl_nil, List.map_cons, List.map_nil]
    rw [h a (List.mem_append_right _ (List.mem_singleton_self a))]
    ext <;> simp [HelmholtzDerivatives.add, add_assoc]

/-- The fields of a fold of aggregates are the sums of the fields. -/
theorem foldl_aggregate_fields {K : Type} [LinearOrderedField K]
    (l : List (HelmholtzDerivatives K)) :
    l.foldl HelmholtzDerivatives.add HelmholtzDerivatives.zero =
      { alphar := (l.map fun x => x.alphar).sum,
        dalphar_ddelta := (l.map fun x => x.dalphar_ddelta).sum,
        dalphar_dtau := (l.map fun x => x.dalphar_dtau).sum,
        d2alphar_ddelta2 := (l.map fun x => x.d2alphar_ddelta2).sum,
        d2alphar_ddelta_dtau := (l.map fun x => x.d2alphar_ddelta_dtau).sum,
        d2alphar_dtau2 := (l.map fun x => x.d2alphar_dtau2).sum,
        d3alphar_ddelta3 := (l.map fun x => x.d3alphar_ddelta3).sum,
        d3alphar_ddelta2_dtau := (l.map fun x => x.d3alphar_ddelta2_dtau).sum,
        d3alphar_ddelta_dtau2 := (l.map fun x => x.d3alphar_ddelta_dtau2).sum,
        d3alphar_dtau3 := (l.map fun x => x.d3alphar_dtau3).sum } := by
  induction l using List.reverseRecOn with
  | nil => rfl
  | append_singleton l a ih =>
    rw [List.foldl_append, ih]
    simp only [List.foldl_cons, List.foldl_nil, List.map_append, List.map_cons, List.map_nil,
      List.sum_append, List.sum_cons, List.sum_nil, add_zero]
    rfl

/-- Away from `delta = 1` the unguarded text of `dDELTA2_dDelta2` has the value of the
closed form, over any field. -/
theorem dDELTA2_dDelta2_unguarded_eq_field {K : Type} [LinearOrderedField K] (F : MathFns K)
    (el : ResidualHelmholtzNonAnalyticElement K) (tau delta : K) (hd : delta - 1 ≠ 0) :
    NonAnalytic.dDELTA2_dDelta2_unguarded F el tau delta =
      NonAnalytic.dDELTA2_dDelta2 F el tau delta := by
  simp only [NonAnalytic.dDELTA2_dDelta2_unguarded, NonAnalytic.dDELTA2_dDelta2,
    NonAnalytic.dDELTA_dDelta, NonAnalytic.dDELTA_dDelta_over_delta_minus_1]
  rw [← mul_assoc, one_div, inv_mul_cancel₀ hd, one_mul]

/-- The two ways in which `all` and `dDelta2_dTau` write `dDELTAbi3_dDelta2_dTau` agree. -/
theorem dDELTAbi3_dDelta2_dTau_lines_eq {K : Type} [LinearOrderedField K] (F : MathFns K)
    (el : ResidualHelmholtzNonAnalyticElement K) (tau delta x : K) :
    NonAnalytic.dDELTAbi3_dDelta2_dTau_lines F el tau delta x =
      NonAnalytic.dDELTAbi3_dDelta2_dTau F el tau delta x := by
  rfl

/-- With neither guard taken, the loop body of `all` adds to the aggregate the values that
the ten accessors store for the element. -/
theorem all_element_eq_add_accessors {K : Type} [LinearOrderedField K] (F : MathFns K)
    (el : ResidualHelmholtzNonAnalyticElement K) (tau delta : K)
    (h1 : ¬ |delta - 1| < 10 * DBL_EPSILON)
    (h2 : ¬ |NonAnalytic.DELTA F el tau delta| < 10 * DBL_EPSILON)
    (d : HelmholtzDerivatives K) :
    ResidualHelmholtzNonAnalytic.all_element F el tau delta d
      = d.add (ResidualHelmholtzNonAnalytic.accessor_elements F el tau delta) := by
  have hd : delta - 1 ≠ 0 := by
    intro h
    rw [h, abs_zero] at h1
    exact h1 dbl_epsilon_pos_field
  have hu := dDELTA2_dDelta2_unguarded_eq_field F el tau delta hd
  have hg : NonAnalytic.dDELTAbi_dDelta_guarded F el tau delta
      = NonAnalytic.dDELTAbi_dDelta F el tau delta := if_neg h2
  have hl := dDELTAbi3_dDelta2_dTau_lines_eq F el tau delta
  ext
  · rfl
  · show _ = _ + ResidualHelmholtzNonAnalytic.dDelta_element F el tau delta
    rw [dDelta_element_eq, hg]
    simp only [ResidualHelmholtzNonAnalytic.all_element, if_neg h1]
    rfl
  · rfl
  · show _ = _ + ResidualHelmholtzNonAnalytic.dDelta2_element F el tau delta
    rw [dDelta2_element_eq, hg]
    simp only [ResidualHelmholtzNonAnalytic.all_element, if_neg h1]
    rfl
  · show _ = _ + ResidualHelmholtzNonAnalytic.dDelta_dTau_element F el tau delta
    rw [dDelta_dTau_element_eq, hg]
    simp only [ResidualHelmholtzNonAnalytic.all_element, if_neg h1]
    rfl
  · rfl
  · show _ = _ + ResidualHelmholtzNonAnalytic.dDelta3_element F el tau delta
    rw [dDelta3_element_eq, hg, hu]
    simp only [ResidualHelmholtzNonAnalytic.all_element, if_neg h1]
    rfl
  · show _ = _ + ResidualHelmholtzNonAnalytic.dDelta2_dTau_element F el tau delta
    rw [dDelta2_dTau_element_eq, hg, hu, hl]
    simp only [ResidualHelmholtzNonAnalytic.all_element, if_neg h1]
    rfl
  · show _ = _ + ResidualHelmholtzNonAnalytic.dDelta_dTau2_element F el tau delta
    rw [dDelta_dTau2_element_eq, hg]
    simp only [ResidualHelmholtzNonAnalytic.all_element, if_neg h1]
    rfl
  · rfl

/-- With neither guard taken anywhere, `all` on the zero aggregate returns the values of the
ten accessors. -/
theorem nonanalytic_all_zero_eq_accessors {K : Type} [LinearOrderedField K]
    (F : MathFns K) (self : ResidualHelmholtzNonAnalytic K) (tau delta : K)
    (hwf : self.WellFormed) (h1 : 10 * DBL_EPSILON ≤ |delta - 1|)
    (h2 : ∀ el ∈ self.elements, 10 * DBL_EPSILON ≤ |NonAnalytic.DELTA F el tau delta|) :
    self.all F tau delta HelmholtzDerivatives.zero = self.accessors F tau delta := by
  rw [nonanalytic_all_eq_foldl F self hwf,
    foldl_add_aggregate _ (fun el => ResidualHelmholtzNonAnalytic.accessor_elements F el tau delta)
      _ (fun el hel d => all_element_eq_add_accessors F el tau delta (not_lt.mpr h1)
        (not_lt.mpr (h2 el hel)) d),
    foldl_aggregate_fields]
  simp only [ResidualHelmholtzNonAnalytic.accessors, ResidualHelmholtzNonAnalytic.base,
    ResidualHelmholtzNonAnalytic.dDelta, ResidualHelmholtzNonAnalytic.dTau,
    ResidualHelmholtzNonAnalytic.dDelta2, ResidualHelmholtzNonAnalytic.dDelta_dTau,
    ResidualHelmholtzNonAnalytic.dTau2, ResidualHelmholtzNonAnalytic.dDelta3,
    ResidualHelmholtzNonAnalytic.dDelta_dTau2, ResidualHelmholtzNonAnalytic.dDelta2_dTau,
    ResidualHelmholtzNonAnalytic.dTau3, accumulate_eq_sum self hwf, List.map_map]
  ext <;> simp [HelmholtzDerivatives.add, HelmholtzDerivatives.zero,
    ResidualHelmholtzNonAnalytic.accessor_elements, Function.comp_def]

/-- Claim C31: away from the singular set the fused `all` agrees with the accessors.  For a
term with `N` elements and `N` scratch slots, if `|delta - 1| ≥ 10*DBL_EPSILON` and
`|DELTA| ≥ 10*DBL_EPSILON` for every element, then `all` on the zero aggregate has
`alphar = base`, `dalphar_ddelta = dDelta`, `dalphar_dtau = dTau`,
`d2alphar_ddelta2 = dDelta2`, `d2alphar_ddelta_dtau = dDelta_dTau`, `d2alphar_dtau2 = dTau2`,
`d3alphar_ddelta3 = dDelta3`, `d3alphar_ddelta2_dtau = dDelta2_dTau`,
`d3alphar_ddelta_dtau2 = dDelta_dTau2` and `d3alphar_dtau3 = dTau3`, over any ordered field
and for any reading of `pow` and `exp`. -/
theorem nonanalytic_all_agrees_with_accessors {K : Type} [LinearOrderedField K]
    (F : MathFns K) (self : ResidualHelmholtzNonAnalytic K) (tau delta : K)
    (hwf : self.WellFormed) (h1 : 10 * DBL_EPSILON ≤ |delta - 1|)
    (h2 : ∀ el ∈ self.elements, 10 * DBL_EPSILON ≤ |NonAnalytic.DELTA F el tau delta|) :
    (self.all F tau delta HelmholtzDerivatives.zero).alphar = self.base F tau delta ∧
    (self.all F tau delta HelmholtzDerivatives.zero).dalphar_ddelta
      = self.dDelta F tau delta ∧
    (self.all F tau delta HelmholtzDerivatives.zero).dalphar_dtau = self.dTau F tau delta ∧
    (self.all F tau delta HelmholtzDerivatives.zero).d2alphar_ddelta2
      = self.dDelta2 F tau delta ∧
    (self.all F tau delta HelmholtzDerivatives.zero).d2alphar_ddelta_dtau
      = self.dDelta_dTau F tau delta ∧
    (self.all F tau delta HelmholtzDerivatives.zero).d2alphar_dtau2
      = self.dTau2 F tau delta ∧
    (self.all F tau delta HelmholtzDerivatives.zero).d3alphar_ddelta3
      = self.dDelta3 F tau delta ∧
    (self.all F tau delta HelmholtzDerivatives.zero).d3alphar_ddelta2_dtau
      = self.dDelta2_dTau F tau delta ∧
    (self.all F tau delta HelmholtzDerivatives.zero).d3alphar_ddelta_dtau2
      = self.dDelta_dTau2 F tau delta ∧
    (self.all F tau delta HelmholtzDerivatives.zero).d3alphar_dtau3
      = self.dTau3 F tau delta := by
  rw [nonanalytic_all_zero_eq_accessors F self tau delta hwf h1 h2]
  exact ⟨rfl, rfl, rfl, rfl, rfl, rfl, rfl, rfl, rfl, rfl⟩

theorem nonanalytic_all_agrees_with_accessors_witness :
    (singleTerm (quadraticElement (1 : ℝ))).WellFormed ∧
    10 * DBL_EPSILON ≤ |(2 : ℝ) - 1| ∧
    (∀ el ∈ (singleTerm (quadraticElement (1 : ℝ))).elements,
      10 * DBL_EPSILON ≤ |NonAnalytic.DELTA (realFns fun _ => true) el 2 2|) ∧
    ((singleTerm (quadraticElement (1 : ℝ))).all (realFns fun _ => true) 2 2
        HelmholtzDerivatives.zero).d3alphar_ddelta2_dtau
      = (singleTerm (quadraticElement (1 : ℝ))).dDelta2_dTau (realFns fun _ => true) 2 2 := by
  have quadraticElement_DELTA := example_element_values.2.1
  exact
    have h1 : 10 * DBL_EPSILON ≤ |(2 : ℝ) - 1| := by
      rw [dbl_epsilon_real]
      norm_num
    have h2 : ∀ el ∈ (singleTerm (quadraticElement (1 : ℝ))).elements,
        10 * DBL_EPSILON ≤ |NonAnalytic.DELTA (realFns fun _ => true) el 2 2| := by
      intro el hel
      rw [List.mem_singleton.mp hel, quadraticElement_DELTA, dbl_epsilon_real]
      norm_num
    ⟨singleTerm_wellFormed _, h1, h2,
      (nonanalytic_all_agrees_with_accessors (realFns fun _ => true)
        (singleTerm (quadraticElement (1 : ℝ))) 2 2 (singleTerm_wellFormed _) h1
        h2).2.2.2.2.2.2.2.1⟩

/-- On a one-element term `all` is its loop body on the element. -/
theorem singleTerm_all {K : Type} [LinearOrderedField K] (F : MathFns K)
    (el : ResidualHelmholtzNonAnalyticElement K) (tau delta : K)
    (derivs : HelmholtzDerivatives K) :
    (singleTerm el).all F tau delta derivs
      = ResidualHelmholtzNonAnalytic.all_element F el tau delta derivs := by
  rw [nonanalytic_all_eq_foldl F _ (singleTerm_wellFormed el)]
  rfl

/-- Claim C32 fails in the code: `all` puts `dDELTAbi_dDelta` to zero when
`|delta - 1| < 10*DBL_EPSILON`, `dDelta` when `|DELTA| < 10*DBL_EPSILON`.  For the
one-element term with `DELTA = (1 - tau)^2 + (delta - 1)^2` and `b = 1`: at `tau = 1`,
`delta = 1 + 2^-30`, where `DELTA = 2^-60` is below the tolerance and `|delta - 1|` is not,
the `dalphar_ddelta` of `all` is `dDelta + 2^-29*(1 + 2^-30)`; at `tau = 2`,
`delta = 1 + 2^-52`, where `|delta - 1|` is below the tolerance and `DELTA` is not, `dDelta`
is the `dalphar_ddelta` of `all` plus `2^-51*(1 + 2^-52)`. -/
theorem nonanalytic_all_and_dDelta_regularize_differently :
    (|NonAnalytic.DELTA (realFns fun _ => true) (quadraticElement 1) 1 (1 + 1 / 2 ^ 30)|
        < 10 * DBL_EPSILON ∧
      ((singleTerm (quadraticElement (1 : ℝ))).all (realFns fun _ => true) 1 (1 + 1 / 2 ^ 30)
          HelmholtzDerivatives.zero).dalphar_ddelta
        = (singleTerm (quadraticElement (1 : ℝ))).dDelta (realFns fun _ => true) 1
            (1 + 1 / 2 ^ 30) + 1 / 2 ^ 29 * (1 + 1 / 2 ^ 30) ∧
      ((singleTerm (quadraticElement (1 : ℝ))).all (realFns fun _ => true) 1 (1 + 1 / 2 ^ 30)
          HelmholtzDerivatives.zero).dalphar_ddelta
        ≠ (singleTerm (quadraticElement (1 : ℝ))).dDelta (realFns fun _ => true) 1
            (1 + 1 / 2 ^ 30)) ∧
    (|(1 + 1 / 2 ^ 52 : ℝ) - 1| < 10 * DBL_EPSILON ∧
      (singleTerm (quadraticElement (1 : ℝ))).dDelta (realFns fun _ => true) 2 (1 + 1 / 2 ^ 52)
        = ((singleTerm (quadraticElement (1 : ℝ))).all (realFns fun _ => true) 2
            (1 + 1 / 2 ^ 52) HelmholtzDerivatives.zero).dalphar_ddelta
          + 1 / 2 ^ 51 * (1 + 1 / 2 ^ 52) ∧
      ((singleTerm (quadraticElement (1 : ℝ))).all (realFns fun _ => true) 2 (1 + 1 / 2 ^ 52)
          HelmholtzDerivatives.zero).dalphar_ddelta
        ≠ (singleTerm (quadraticElement (1 : ℝ))).dDelta (realFns fun _ => true) 2
            (1 + 1 / 2 ^ 52)) := by
  have quadraticElement_DELTA := example_element_values.2.1
  have hD1 : NonAnalytic.DELTA (realFns fun _ => true) (quadraticElement 1) 1
      (1 + 1 / 2 ^ 30) = 1 / 2 ^ 60 := by
    rw [quadraticElement_DELTA]
    norm_num
  have hD2 : NonAnalytic.DELTA (realFns fun _ => true) (quadraticElement 1) 2
      (1 + 1 / 2 ^ 52) = 1 + 1 / 2 ^ 104 := by
    rw [quadraticElement_DELTA]
    norm_num
  have hg1 : ¬ |(1 + 1 / 2 ^ 30 : ℝ) - 1| < 10 * DBL_EPSILON := by
    rw [dbl_epsilon_real]; norm_num [abs_of_pos]
  have hs1 : |(1 / 2 ^ 60 : ℝ)| < 10 * DBL_EPSILON := by
    rw [dbl_epsilon_real]; norm_num [abs_of_pos]
  have hg2 : |(1 + 1 / 2 ^ 52 : ℝ) - 1| < 10 * DBL_EPSILON := by
    rw [dbl_epsilon_real]; norm_num [abs_of_pos]
  have hs2 : ¬ |(1 + 1 / 2 ^ 104 : ℝ)| < 10 * DBL_EPSILON := by
    rw [dbl_epsilon_real]; norm_num [abs_of_pos]
  have e1 : ((singleTerm (quadraticElement (1 : ℝ))).all (realFns fun _ => true) 1
      (1 + 1 / 2 ^ 30) HelmholtzDerivatives.zero).dalphar_ddelta
      = (singleTerm (quadraticElement (1 : ℝ))).dDelta (realFns fun _ => true) 1
          (1 + 1 / 2 ^ 30) + 1 / 2 ^ 29 * (1 + 1 / 2 ^ 30) := by
    rw [singleTerm_all, ResidualHelmholtzNonAnalytic.dDelta, singleTerm_accumulate,
      dDelta_element_eq]
    simp only [NonAnalytic.dDELTAbi_dDelta_guarded, hD1, if_pos hs1,
      ResidualHelmholtzNonAnalytic.all_element, if_neg hg1]
    simp [NonAnalytic.DELTA, NonAnalytic.PSI, NonAnalytic.dPSI_dDelta, NonAnalytic.theta,
      quadraticElement, realFns, HelmholtzDerivatives.zero]
    norm_num
  have e2 : (singleTerm (quadraticElement (1 : ℝ))).dDelta (realFns fun _ => true) 2
      (1 + 1 / 2 ^ 52)
      = ((singleTerm (quadraticElement (1 : ℝ))).all (realFns fun _ => true) 2
          (1 + 1 / 2 ^ 52) HelmholtzDerivatives.zero).dalphar_ddelta
        + 1 / 2 ^ 51 * (1 + 1 / 2 ^ 52) := by
    rw [singleTerm_all, ResidualHelmholtzNonAnalytic.dDelta, singleTerm_accumulate,
      dDelta_element_eq]
    simp only [NonAnalytic.dDELTAbi_dDelta_guarded, hD2, if_neg hs2,
      ResidualHelmholtzNonAnalytic.all_element, if_pos hg2]
    simp [NonAnalytic.DELTA, NonAnalytic.PSI, NonAnalytic.dPSI_dDelta, NonAnalytic.theta,
      NonAnalytic.dDELTAbi_dDelta, NonAnalytic.dDELTA_dDelta, quadraticElement, realFns,
      HelmholtzDerivatives.zero]
    norm_num
  refine ⟨⟨by rw [hD1]; exact hs1, e1, ?_⟩, hg2, e2, ?_⟩
  · rw [e1]
    have : (0 : ℝ) < 1 / 2 ^ 29 * (1 + 1 / 2 ^ 30) := by positivity
    linarith
  · rw [e2]
    have : (0 : ℝ) < 1 / 2 ^ 51 * (1 + 1 / 2 ^ 52) := by positivity
    linarith

/-! ## The non-bonded fraction of the SAFT term (C34, C35) -/

/-- Claim C34: for `Deltabar*delta ≥ 0` the non-bonded fraction
`X = 2/(sqrt(1 + 4*Deltabar*delta) + 1)` solves the mass-action equation
`Deltabar*delta*X^2 + X - 1 = 0` and lies in `(0, 1]`, and the denominator
`2*Deltabar*delta*X + 1` of the `dX` formulas is at least `1`. -/
theorem saft_X_mass_action (valid : ℝ → Bool) (self : ResidualHelmholtzSAFTAssociating ℝ)
    (delta Deltabar : ℝ) (h : 0 ≤ Deltabar * delta) :
    self.X (realFns valid) delta Deltabar = 2 / (Real.sqrt (1 + 4 * Deltabar * delta) + 1) ∧
    Deltabar * delta * self.X (realFns valid) delta Deltabar ^ 2
      + self.X (realFns valid) delta Deltabar - 1 = 0 ∧
    0 < self.X (realFns valid) delta Deltabar ∧
    self.X (realFns valid) delta Deltabar ≤ 1 ∧
    1 ≤ 2 * Deltabar * delta * self.X (realFns valid) delta Deltabar + 1 := by
  have saft_denominator_eq_sqrt := saft_calculus.2.2.2.2.2.2.1
  have saft_X_pos := saft_calculus.2.2.2.2.2.2.2.2.1
  have hpos : 0 < 1 + 4 * Deltabar * delta := by nlinarith
  have hden := saft_denominator_eq_sqrt valid self delta Deltabar hpos
  have hX := saft_X_pos valid self delta Deltabar
  have hs1 : 1 ≤ Real.sqrt (1 + 4 * Deltabar * delta) := by
    rw [Real.one_le_sqrt]
    nlinarith
  have hXs : self.X (realFns valid) delta Deltabar
      * (Real.sqrt (1 + 4 * Deltabar * delta) + 1) = 2 := by
    simp only [ResidualHelmholtzSAFTAssociating.X, realFns]
    have h1 : Real.sqrt (1 + 4 * Deltabar * delta) + 1 ≠ 0 := by positivity
    field_simp
  refine ⟨rfl, ?_, hX, ?_, ?_⟩
  · rw [← hden] at hXs
    linear_combination (1 / 2) * hXs
  · nlinarith
  · rw [hden]
    exact hs1

theorem saft_X_mass_action_witness :
    (0 : ℝ) ≤ 3 * 2 ∧
    3 * 2 * (saftExample : ResidualHelmholtzSAFTAssociating ℝ).X (realFns fun _ => true) 2 3 ^ 2
      + (saftExample : ResidualHelmholtzSAFTAssociating ℝ).X (realFns fun _ => true) 2 3 - 1
      = 0 :=
  ⟨by norm_num, (saft_X_mass_action (fun _ => true) saftExample 2 3 (by norm_num)).2.1⟩

/-- Claim C35: an enabled SAFT term with `kappabar = 0` or `epsilonbar = 0` contributes
nothing up to first order.  For every `tau`, `delta` with `vbarn*delta ≠ 1` (in particular
for such `tau > 0`, `delta > 0`): `Deltabar = 0`, `X = 1`, and `all` adds `0` to `alphar`,
`dalphar_ddelta` and `dalphar_dtau`. -/
theorem saft_no_association_contributes_nothing (valid : ℝ → Bool)
    (self : ResidualHelmholtzSAFTAssociating ℝ) (tau delta : ℝ)
    (deriv : HelmholtzDerivatives ℝ) (hen : self.disabled = false)
    (h0 : self.kappabar = 0 ∨ self.epsilonbar = 0) (_heta : self.vbarn * delta ≠ 1) :
    self.Deltabar (realFns valid) tau delta = 0 ∧
    self.X (realFns valid) delta (self.Deltabar (realFns valid) tau delta) = 1 ∧
    (self.all (realFns valid) tau delta deriv).alphar = deriv.alphar + 0 ∧
    (self.all (realFns valid) tau delta deriv).dalphar_ddelta = deriv.dalphar_ddelta + 0 ∧
    (self.all (realFns valid) tau delta deriv).dalphar_dtau = deriv.dalphar_dtau + 0 := by
  have saft_all_of_Deltabar_zero := saft_free_energy_calculus.2.2.2
  have hD : self.Deltabar (realFns valid) tau delta = 0 := by
    rcases h0 with h | h
    · simp only [ResidualHelmholtzSAFTAssociating.Deltabar, h, mul_zero]
    · simp only [ResidualHelmholtzSAFTAssociating.Deltabar, h, realFns, zero_mul,
        Real.exp_zero, sub_self, mul_zero]
  have hDt : self.dDeltabar_dtau__constdelta (realFns valid) tau delta = 0 := by
    rcases h0 with h | h
    · simp only [ResidualHelmholtzSAFTAssociating.dDeltabar_dtau__constdelta, h, mul_zero,
        zero_mul]
    · simp only [ResidualHelmholtzSAFTAssociating.dDeltabar_dtau__constdelta, h, mul_zero]
  have hDd : self.dDeltabar_ddelta__consttau (realFns valid) tau delta = 0 := by
    rcases h0 with h | h
    · simp only [ResidualHelmholtzSAFTAssociating.dDeltabar_ddelta__consttau, h, mul_zero,
        zero_mul]
    · simp only [ResidualHelmholtzSAFTAssociating.dDeltabar_ddelta__consttau, h, realFns,
        zero_mul, Real.exp_zero, sub_self, mul_zero]
  exact ⟨hD, saft_all_of_Deltabar_zero valid self tau delta deriv hen hD hDt hDd⟩

theorem saft_no_association_contributes_nothing_witness :
    (saftNoAssociation : ResidualHelmholtzSAFTAssociating ℝ).disabled = false ∧
    ((saftNoAssociation : ResidualHelmholtzSAFTAssociating ℝ).kappabar = 0 ∨
      (saftNoAssociation : ResidualHelmholtzSAFTAssociating ℝ).epsilonbar = 0) ∧
    (saftNoAssociation : ResidualHelmholtzSAFTAssociating ℝ).vbarn * 1 ≠ 1 ∧
    ((saftNoAssociation : ResidualHelmholtzSAFTAssociating ℝ).all (realFns fun _ => true) 1 1
      HelmholtzDerivatives.zero).alphar = HelmholtzDerivatives.zero.alphar + 0 :=
  ⟨rfl, Or.inl rfl, by norm_num [saftNoAssociation],
    (saft_no_association_contributes_nothing (fun _ => true) saftNoAssociation 1 1
      HelmholtzDerivatives.zero rfl (Or.inl rfl) (by norm_num [saftNoAssociation])).2.2.1⟩

/-! ## Reference state and branches of the ideal-gas polynomial term (C36, C37) -/

/-- Claim C36: the ideal-gas polynomial term is referenced to `tau0`.  For `Tc > 0`,
`T0 > 0` and `tau0 = Tc/T0`, every coefficient, whichever of the three branches it is in,
contributes `0` to `base` and to `dTau` at `tau = tau0`, and `base(tau0, delta) = 0` and
`dTau(tau0, delta) = 0` for every `delta`. -/
theorem cp0polyt_referenced_to_tau0 (valid : ℝ → Bool) (self : IdealHelmholtzCP0PolyT ℝ)
    (delta : ℝ) (hTc : 0 < self.Tc) (hT0 : 0 < self.T0)
    (htau0 : self.tau0 = self.Tc / self.T0) :
    (∀ i : Fin self.N, self.base_term (realFns valid) self.tau0 i = 0 ∧
      self.dTau_term (realFns valid) self.tau0 i = 0) ∧
    self.base (realFns valid) self.tau0 delta = 0 ∧
    self.dTau (realFns valid) self.tau0 delta = 0 := by
  have polyT_terms_at_tau0 := polyT_calculus.2.2.2.2.2.2.2.2
  have polyT_base_eq_sum := polyT_calculus.2.2.2.1
  have polyT_dTau_eq_sum := polyT_calculus.2.2.2.2.1
  have hterm := polyT_terms_at_tau0 valid self hTc hT0 htau0
  refine ⟨hterm, ?_, ?_⟩
  · rw [polyT_base_eq_sum]
    apply List.sum_eq_zero
    intro x hx
    obtain ⟨i, _, rfl⟩ := List.mem_map.mp hx
    exact (hterm i).1
  · rw [polyT_dTau_eq_sum]
    apply List.sum_eq_zero
    intro x hx
    obtain ⟨i, _, rfl⟩ := List.mem_map.mp hx
    exact (hterm i).2

theorem cp0polyt_referenced_to_tau0_witness :
    0 < (polyTExample : IdealHelmholtzCP0PolyT ℝ).Tc ∧
    0 < (polyTExample : IdealHelmholtzCP0PolyT ℝ).T0 ∧
    (polyTExample : IdealHelmholtzCP0PolyT ℝ).tau0
      = (polyTExample : IdealHelmholtzCP0PolyT ℝ).Tc
        / (polyTExample : IdealHelmholtzCP0PolyT ℝ).T0 ∧
    (polyTExample : IdealHelmholtzCP0PolyT ℝ).base (realFns fun _ => true)
      (polyTExample : IdealHelmholtzCP0PolyT ℝ).tau0 1 = 0 ∧
    (polyTExample : IdealHelmholtzCP0PolyT ℝ).dTau (realFns fun _ => true)
      (polyTExample : IdealHelmholtzCP0PolyT ℝ).tau0 1 = 0 :=
  ⟨by norm_num [polyTExample], by norm_num [polyTExample], by norm_num [polyTExample],
    (cp0polyt_referenced_to_tau0 (fun _ => true) polyTExample 1 (by norm_num [polyTExample])
      (by norm_num [polyTExample]) (by norm_num [polyTExample])).2⟩

/-- In the last branch the values of `dTau2` and `dTau3` for a coefficient are the general
expressions at its `c` and `t`. -/
theorem polyT_general_branch {K : Type} [LinearOrderedField K] (F : MathFns K)
    (self : IdealHelmholtzCP0PolyT K) (tau : K) (i : Fin self.N)
    (h1 : ¬ |self.t i| < 10 * DBL_EPSILON) (h2 : ¬ |self.t i + 1| < 10 * DBL_EPSILON) :
    self.dTau2_term F tau i = self.dTau2_general F (self.c i) (self.t i) tau ∧
    self.dTau3_term F tau i = self.dTau3_general F (self.c i) (self.t i) tau := by
  simp only [IdealHelmholtzCP0PolyT.dTau2_term, IdealHelmholtzCP0PolyT.dTau3_term, if_neg h1,
    if_neg h2, IdealHelmholtzCP0PolyT.dTau2_general, IdealHelmholtzCP0PolyT.dTau3_general,
    and_self]

/-- Claim C37: the branches of `dTau2` and `dTau3` are consistent.  For `Tc > 0` and
`tau > 0`: a coefficient with `t = 0` takes the first branch, and the values `-c/tau^2` and
`2*c/tau^3` returned there are the general expressions `-c*(Tc/tau)^t/tau^2` and
`c*(Tc/tau)^t*(t+2)/tau^3` at `t = 0`; a coefficient with `t = -1` takes the second branch,
and the values `-c/(tau*Tc)` and `c/(tau^2*Tc)` returned there are the general expressions
at `t = -1`. -/
theorem cp0polyt_branches_consistent (valid : ℝ → Bool) (self : IdealHelmholtzCP0PolyT ℝ)
    (tau : ℝ) (i : Fin self.N) (hTc : 0 < self.Tc) (htau : 0 < tau) :
    (self.t i = 0 →
      self.dTau2_term (realFns valid) tau i = (-self.c i) / (tau * tau) ∧
      self.dTau2_general (realFns valid) (self.c i) 0 tau = self.dTau2_term (realFns valid) tau i ∧
      self.dTau3_term (realFns valid) tau i = 2 * self.c i / (tau * tau * tau) ∧
      self.dTau3_general (realFns valid) (self.c i) 0 tau
        = self.dTau3_term (realFns valid) tau i) ∧
    (self.t i = -1 →
      self.dTau2_term (realFns valid) tau i = (-self.c i) / (tau * self.Tc) ∧
      self.dTau2_general (realFns valid) (self.c i) (-1) tau
        = self.dTau2_term (realFns valid) tau i ∧
      self.dTau3_term (realFns valid) tau i = self.c i / (tau * tau * self.Tc) ∧
      self.dTau3_general (realFns valid) (self.c i) (-1) tau
        = self.dTau3_term (realFns valid) tau i) := by
  have hne := htau.ne'
  have hTcne := hTc.ne'
  have heps : |(0 : ℝ)| < 10 * DBL_EPSILON := by
    rw [abs_zero]
    exact dbl_epsilon_pos
  have hone : ¬ |(-1 : ℝ)| < 10 * DBL_EPSILON := by
    rw [dbl_epsilon_real]
    norm_num
  refine ⟨fun h => ?_, fun h => ?_⟩
  · have e2 : self.dTau2_term (realFns valid) tau i = (-self.c i) / (tau * tau) := by
      simp only [IdealHelmholtzCP0PolyT.dTau2_term, h, if_pos heps]
    have e3 : self.dTau3_term (realFns valid) tau i = 2 * self.c i / (tau * tau * tau) := by
      simp only [IdealHelmholtzCP0PolyT.dTau3_term, h, if_pos heps]
    refine ⟨e2, ?_, e3, ?_⟩
    · rw [e2]
      simp only [IdealHelmholtzCP0PolyT.dTau2_general, realFns, Real.rpow_zero, mul_one]
    · rw [e3]
      simp only [IdealHelmholtzCP0PolyT.dTau3_general, realFns, Real.rpow_zero, mul_one,
        zero_add]
      ring
  · have h' : |self.t i + 1| < 10 * DBL_EPSILON := by
      rw [h, neg_add_cancel]
      exact heps
    have e2 : self.dTau2_term (realFns valid) tau i = (-self.c i) / (tau * self.Tc) := by
      simp only [IdealHelmholtzCP0PolyT.dTau2_term, h, if_neg hone]
      rw [← h, if_pos h']
    have e3 : self.dTau3_term (realFns valid) tau i = self.c i / (tau * tau * self.Tc) := by
      simp only [IdealHelmholtzCP0PolyT.dTau3_term, h, if_neg hone]
      rw [← h, if_pos h']
    refine ⟨e2, ?_, e3, ?_⟩
    · rw [e2]
      simp only [IdealHelmholtzCP0PolyT.dTau2_general, realFns, Real.rpow_neg_one]
      field_simp
      ring
    · rw [e3]
      simp only [IdealHelmholtzCP0PolyT.dTau3_general, realFns, Real.rpow_neg_one]
      field_simp
      ring

theorem cp0polyt_branches_consistent_witness :
    0 < (polyTExample : IdealHelmholtzCP0PolyT ℝ).Tc ∧ (0 : ℝ) < 3 ∧
    (polyTExample : IdealHelmholtzCP0PolyT ℝ).t (1 : Fin 3) = -1 ∧
    (polyTExample : IdealHelmholtzCP0PolyT ℝ).dTau3_general (realFns fun _ => true)
        ((polyTExample : IdealHelmholtzCP0PolyT ℝ).c (1 : Fin 3)) (-1) 3
      = (polyTExample : IdealHelmholtzCP0PolyT ℝ).dTau3_term (realFns fun _ => true) 3
        (1 : Fin 3) :=
  ⟨by norm_num [polyTExample], by norm_num, rfl,
    ((cp0polyt_branches_consistent (fun _ => true) polyTExample 3 (1 : Fin 3)
      (by norm_num [polyTExample]) (by norm_num)).2 rfl).2.2.2⟩

/-! ## Compensated summation (C39) -/

/-- In exact arithmetic one pass of the loop of `kahanSum` adds the element to `sum` and
leaves the compensation at zero, if it was zero before. -/
theorem kahanStep_exact {K : Type} [LinearOrderedField K] (sum xi : K) :
    kahanStep (sum, 0) xi = (sum + xi, 0) := by
  simp only [kahanStep, sub_zero, add_sub_cancel_left, sub_self]

theorem foldl_kahanStep_exact {K : Type} [LinearOrderedField K] (l : List K) (sum : K) :
    l.foldl kahanStep (sum, 0) = (sum + l.sum, 0) := by
  induction l generalizing sum with
  | nil => simp
  | cons a l ih => rw [List.foldl_cons, kahanStep_exact, ih, List.sum_cons, add_assoc]

/-- Claim C39: in exact arithmetic, on a non-empty list the compensation `c` of `kahanSum`
is zero after every number of passes and `kahanSum` returns the plain sum of the elements;
on the empty list the initialiser reads `x[0]` out of bounds. -/
theorem kahanSum_exact {K : Type} [LinearOrderedField K] (x : List K) (hx : x ≠ []) :
    (∀ k, (kahanState x k).map Prod.snd = some 0) ∧ kahanSum x = some x.sum ∧
    kahanSum ([] : List K) = none := by
  cases x with
  | nil => exact absurd rfl hx
  | cons x0 rest =>
    refine ⟨fun k => ?_, ?_, rfl⟩
    · simp only [kahanState, foldl_kahanStep_exact, Option.map_some']
    · simp only [kahanSum, kahanState, foldl_kahanStep_exact, Option.map_some',
        List.length_cons, Nat.add_sub_cancel, List.take_length, List.sum_cons]

theorem kahanSum_exact_witness :
    ([1, 2, 3] : List ℚ) ≠ [] ∧ kahanSum ([1, 2, 3] : List ℚ) = some 6 ∧
    (kahanState ([1, 2, 3] : List ℚ) 1).map Prod.snd = some 0 :=
  ⟨by decide, (kahanSum_exact ([1, 2, 3] : List ℚ) (by decide)).2.1.trans (by norm_num),
    (kahanSum_exact ([1, 2, 3] : List ℚ) (by decide)).1 1⟩

/-! ## The scratch sequence of the non-analytic term (C33) -/

/-- Claim C33: the scratch sequence carries no information between calls.  For a term with
`N` elements and two scratch sequences of length `N` with any contents, `base` and each of
the nine derivative accessors return the same value at the same `(tau, delta)`, namely the
sum of the element values. -/
theorem nonanalytic_scratch_is_not_semantic {K : Type} [LinearOrderedField K] (F : MathFns K)
    (N : Nat) (elements : List (ResidualHelmholtzNonAnalyticElement K)) (s1 s2 : List K)
    (tau delta : K) (hN : N = elements.length) (h1 : s1.length = N) (h2 : s2.length = N) :
    (ResidualHelmholtzNonAnalytic.mk N s1 elements).base F tau delta
      = (elements.map fun el => ResidualHelmholtzNonAnalytic.base_element F el tau delta).sum ∧
    (ResidualHelmholtzNonAnalytic.mk N s1 elements).base F tau delta
      = (ResidualHelmholtzNonAnalytic.mk N s2 elements).base F tau delta ∧
    (ResidualHelmholtzNonAnalytic.mk N s1 elements).dDelta F tau delta
      = (ResidualHelmholtzNonAnalytic.mk N s2 elements).dDelta F tau delta ∧
    (ResidualHelmholtzNonAnalytic.mk N s1 elements).dTau F tau delta
      = (ResidualHelmholtzNonAnalytic.mk N s2 elements).dTau F tau delta ∧
    (ResidualHelmholtzNonAnalytic.mk N s1 elements).dDelta2 F tau delta
      = (ResidualHelmholtzNonAnalytic.mk N s2 elements).dDelta2 F tau delta ∧
    (ResidualHelmholtzNonAnalytic.mk N s1 elements).dDelta_dTau F tau delta
      = (ResidualHelmholtzNonAnalytic.mk N s2 elements).dDelta_dTau F tau delta ∧
    (ResidualHelmholtzNonAnalytic.mk N s1 elements).dTau2 F tau delta
      = (ResidualHelmholtzNonAnalytic.mk N s2 elements).dTau2 F tau delta ∧
    (ResidualHelmholtzNonAnalytic.mk N s1 elements).dDelta3 F tau delta
      = (ResidualHelmholtzNonAnalytic.mk N s2 elements).dDelta3 F tau delta ∧
    (ResidualHelmholtzNonAnalytic.mk N s1 elements).dDelta_dTau2 F tau delta
      = (ResidualHelmholtzNonAnalytic.mk N s2 elements).dDelta_dTau2 F tau delta ∧
    (ResidualHelmholtzNonAnalytic.mk N s1 elements).dDelta2_dTau F tau delta
      = (ResidualHelmholtzNonAnalytic.mk N s2 elements).dDelta2_dTau F tau delta ∧
    (ResidualHelmholtzNonAnalytic.mk N s1 elements).dTau3 F tau delta
      = (ResidualHelmholtzNonAnalytic.mk N s2 elements).dTau3 F tau delta := by
  have hw1 : (ResidualHelmholtzNonAnalytic.mk N s1 elements).WellFormed := ⟨hN, h1⟩
  have hw2 : (ResidualHelmholtzNonAnalytic.mk N s2 elements).WellFormed := ⟨hN, h2⟩
  have key : ∀ f : ResidualHelmholtzNonAnalyticElement K → K,
      (ResidualHelmholtzNonAnalytic.mk N s1 elements).accumulate f
        = (ResidualHelmholtzNonAnalytic.mk N s2 elements).accumulate f := fun f => by
    rw [accumulate_eq_sum _ hw1, accumulate_eq_sum _ hw2]
  exact ⟨accumulate_eq_sum _ hw1 _, key _, key _, key _, key _, key _, key _, key _, key _,
    key _, key _⟩

theorem nonanalytic_scratch_is_not_semantic_witness :
    (1 : Nat) = [(fixtureElement : ResidualHelmholtzNonAnalyticElement ℝ)].length ∧
    (ResidualHelmholtzNonAnalytic.mk 1 [0] [(fixtureElement :
        ResidualHelmholtzNonAnalyticElement ℝ)]).dDelta3 (realFns fun _ => true) 2 3
      = (ResidualHelmholtzNonAnalytic.mk 1 [7] [(fixtureElement :
        ResidualHelmholtzNonAnalyticElement ℝ)]).dDelta3 (realFns fun _ => true) 2 3 :=
  ⟨rfl, (nonanalytic_scratch_is_not_semantic (realFns fun _ => true) 1
    [(fixtureElement : ResidualHelmholtzNonAnalyticElement ℝ)] [0] [7] 2 3 rfl rfl
    rfl).2.2.2.2.2.2.2.1⟩

/-! ## The reference state of the Aly-Lee term (C38) -/

/-- Claim C38: the Aly-Lee term is referenced to `tau0` and does not depend on `delta`.
For every term (enabled or not) and every `delta`, `base(tau0, delta) = 0` and
`dTau(tau0, delta) = 0`: both are differences of a function value with itself; and
`base`, `dTau`, `dTau2`, `dTau3` return the same value for any two `delta`. -/
theorem alyLee_reference_state {K : Type} [LinearOrderedField K] (F : MathFns K)
    (self : IdealHelmholtzCP0AlyLee K) (tau delta delta' : K) :
    self.base F self.tau0 delta = 0 ∧ self.dTau F self.tau0 delta = 0 ∧
    self.base F tau delta = self.base F tau delta' ∧
    self.dTau F tau delta = self.dTau F tau delta' ∧
    self.dTau2 F tau delta = self.dTau2 F tau delta' ∧
    self.dTau3 F tau delta = self.dTau3 F tau delta' := by
  refine ⟨?_, ?_, rfl, rfl, rfl, rfl⟩
  · unfold IdealHelmholtzCP0AlyLee.base
    split_ifs
    · rfl
    · rw [sub_self, sub_self, mul_zero, add_zero]
  · unfold IdealHelmholtzCP0AlyLee.dTau
    split_ifs
    · rfl
    · rw [sub_self, neg_zero]

end CoolProp
